import Mathlib

/-!
# Missile engine of devilutionX (`Source/missiles.cpp`)

A shallow embedding of the missile registry, the tick driver, the collision
dispatcher, the combat resolver, the movement code and a number of
initializers and update functions, followed by theorems about them.

Conventions of the embedding.

* C `int` values are integers; `/` and `%` of C are `Int.tdiv` and `Int.tmod`
  (truncation toward zero), `x >> k` is the arithmetic shift `x >>> k` and
  `x << 6` is `x * 64`.
* Global arrays (`Monsters`, `Players`, the `d...` grids) are total functions
  of their index: a read at any index returns what memory holds there.
* Enumerations whose declaration lives in a header that is not part of the
  sources are inductive types listing the enumerators that `missiles.cpp`
  mentions, plus `other n` for the rest where the enumeration has more; bit
  sets over such an enumeration are lists of enumerators.
* Functions, tables and constants declared in other translation units are the
  fields of `Ext`.  A procedure of another translation unit is a transformer of
  the global variables (`Globals`); the model applies it and records the call
  in `World.trace`, which only the embedded code can write.
* `std::list<Missile>` nodes are `MissileNode`s: a missile together with the
  identity of its node (its address in C++, a serial number here), so that a
  `Missile *` is a node identity.
* An initializer or update function that only touches its own missile and the
  world takes the missile and returns it; one that reaches other missiles or
  calls `AddMissile` takes the node of its missile and works on the registry.
* The operators `+`, `-`, `>>` and `* int` on `Point` and `Displacement` are
  componentwise; the product of a displacement and a `float` is a field of
  `Ext`.
* A loop whose number of iterations has no bound in the code takes a `fuel`
  argument and yields `none` when the fuel does not suffice.
* A function whose name ends in `Trace` is the function of that name together
  with a record of what it did (the tiles it resolved, the coordinates at which
  it indexed a grid, whether one of its steps ran); the function itself is the
  first component.
-/

namespace devilution

/-! ## Data model -/

structure Point where
  x : Int := 0
  y : Int := 0
  deriving DecidableEq

structure Displacement where
  deltaX : Int := 0
  deltaY : Int := 0
  deriving DecidableEq

/-- Directions are passed around as their integer code (`static_cast<int>`). -/
abbrev Direction := Int

inductive mienemy_type where
  | TARGET_MONSTERS
  | TARGET_PLAYERS
  | TARGET_BOTH
  deriving DecidableEq

inductive missile_id where
  | MIS_ACID | MIS_ACIDPUD | MIS_APOCA | MIS_ARCHLICH | MIS_ARROW | MIS_BLODBOIL
  | MIS_BONEDEMON | MIS_BONESPIRIT | MIS_BOOM | MIS_BOOM2 | MIS_CBOLTARROW | MIS_CHAIN
  | MIS_EXBL2 | MIS_EXBL3 | MIS_EXORA1 | MIS_EXRED3 | MIS_EXYEL2 | MIS_FARROW
  | MIS_FIREBALL | MIS_FIREBOLT | MIS_FIREMOVE | MIS_FIRENOVA | MIS_FIREWALL | MIS_FIREWALLC
  | MIS_FLAME | MIS_FLARE | MIS_GOLEM | MIS_GUARDIAN | MIS_HBOLT | MIS_HBOLTARROW
  | MIS_HIVEEXP | MIS_IMMOLATION | MIS_INFRA | MIS_LARROW | MIS_LICH | MIS_LIGHTARROW
  | MIS_LIGHTBALL | MIS_LIGHTCTRL | MIS_LIGHTNING | MIS_LIGHTNING2 | MIS_LIGHTWALL | MIS_MAGMABALL
  | MIS_MISEXP | MIS_MISEXP2 | MIS_MISEXP3 | MIS_NECROMORB | MIS_NOVA | MIS_PSYCHORB
  | MIS_RHINO | MIS_SEARCH | MIS_STONE | MIS_TELEPORT | MIS_TOWN
  | other (n : Nat)

/-- The enumerators of `missile_id` that `missiles.cpp` mentions, in the order
of the declaration above. -/
def missile_id.named : List missile_id :=
  [missile_id.MIS_ACID, missile_id.MIS_ACIDPUD, missile_id.MIS_APOCA, missile_id.MIS_ARCHLICH,
   missile_id.MIS_ARROW, missile_id.MIS_BLODBOIL, missile_id.MIS_BONEDEMON, missile_id.MIS_BONESPIRIT,
   missile_id.MIS_BOOM, missile_id.MIS_BOOM2, missile_id.MIS_CBOLTARROW, missile_id.MIS_CHAIN,
   missile_id.MIS_EXBL2, missile_id.MIS_EXBL3, missile_id.MIS_EXORA1, missile_id.MIS_EXRED3,
   missile_id.MIS_EXYEL2, missile_id.MIS_FARROW, missile_id.MIS_FIREBALL, missile_id.MIS_FIREBOLT,
   missile_id.MIS_FIREMOVE, missile_id.MIS_FIRENOVA, missile_id.MIS_FIREWALL, missile_id.MIS_FIREWALLC,
   missile_id.MIS_FLAME, missile_id.MIS_FLARE, missile_id.MIS_GOLEM, missile_id.MIS_GUARDIAN,
   missile_id.MIS_HBOLT, missile_id.MIS_HBOLTARROW, missile_id.MIS_HIVEEXP, missile_id.MIS_IMMOLATION,
   missile_id.MIS_INFRA, missile_id.MIS_LARROW, missile_id.MIS_LICH, missile_id.MIS_LIGHTARROW,
   missile_id.MIS_LIGHTBALL, missile_id.MIS_LIGHTCTRL, missile_id.MIS_LIGHTNING, missile_id.MIS_LIGHTNING2,
   missile_id.MIS_LIGHTWALL, missile_id.MIS_MAGMABALL, missile_id.MIS_MISEXP, missile_id.MIS_MISEXP2,
   missile_id.MIS_MISEXP3, missile_id.MIS_NECROMORB, missile_id.MIS_NOVA, missile_id.MIS_PSYCHORB,
   missile_id.MIS_RHINO, missile_id.MIS_SEARCH, missile_id.MIS_STONE, missile_id.MIS_TELEPORT,
   missile_id.MIS_TOWN]

/-- A number for each value of `missile_id`: the position of a named enumerator
in `missile_id.named`, and `n + 53` for `other n`.  It serves to decide
equality only. -/
def missile_id.code : missile_id → Nat
  | missile_id.MIS_ACID => 0
  | missile_id.MIS_ACIDPUD => 1
  | missile_id.MIS_APOCA => 2
  | missile_id.MIS_ARCHLICH => 3
  | missile_id.MIS_ARROW => 4
  | missile_id.MIS_BLODBOIL => 5
  | missile_id.MIS_BONEDEMON => 6
  | missile_id.MIS_BONESPIRIT => 7
  | missile_id.MIS_BOOM => 8
  | missile_id.MIS_BOOM2 => 9
  | missile_id.MIS_CBOLTARROW => 10
  | missile_id.MIS_CHAIN => 11
  | missile_id.MIS_EXBL2 => 12
  | missile_id.MIS_EXBL3 => 13
  | missile_id.MIS_EXORA1 => 14
  | missile_id.MIS_EXRED3 => 15
  | missile_id.MIS_EXYEL2 => 16
  | missile_id.MIS_FARROW => 17
  | missile_id.MIS_FIREBALL => 18
  | missile_id.MIS_FIREBOLT => 19
  | missile_id.MIS_FIREMOVE => 20
  | missile_id.MIS_FIRENOVA => 21
  | missile_id.MIS_FIREWALL => 22
  | missile_id.MIS_FIREWALLC => 23
  | missile_id.MIS_FLAME => 24
  | missile_id.MIS_FLARE => 25
  | missile_id.MIS_GOLEM => 26
  | missile_id.MIS_GUARDIAN => 27
  | missile_id.MIS_HBOLT => 28
  | missile_id.MIS_HBOLTARROW => 29
  | missile_id.MIS_HIVEEXP => 30
  | missile_id.MIS_IMMOLATION => 31
  | missile_id.MIS_INFRA => 32
  | missile_id.MIS_LARROW => 33
  | missile_id.MIS_LICH => 34
  | missile_id.MIS_LIGHTARROW => 35
  | missile_id.MIS_LIGHTBALL => 36
  | missile_id.MIS_LIGHTCTRL => 37
  | missile_id.MIS_LIGHTNING => 38
  | missile_id.MIS_LIGHTNING2 => 39
  | missile_id.MIS_LIGHTWALL => 40
  | missile_id.MIS_MAGMABALL => 41
  | missile_id.MIS_MISEXP => 42
  | missile_id.MIS_MISEXP2 => 43
  | missile_id.MIS_MISEXP3 => 44
  | missile_id.MIS_NECROMORB => 45
  | missile_id.MIS_NOVA => 46
  | missile_id.MIS_PSYCHORB => 47
  | missile_id.MIS_RHINO => 48
  | missile_id.MIS_SEARCH => 49
  | missile_id.MIS_STONE => 50
  | missile_id.MIS_TELEPORT => 51
  | missile_id.MIS_TOWN => 52
  | missile_id.other n => n + 53

/-- The value of `missile_id` with a given code. -/
def missile_id.decode (k : Nat) : missile_id :=
  if k < 53 then missile_id.named.getD k missile_id.MIS_ACID else missile_id.other (k - 53)

instance : DecidableEq missile_id := fun a b =>
  if h : a.code = b.code then
    isTrue (by
      have ha : missile_id.decode a.code = a := by cases a <;> rfl
      have hb : missile_id.decode b.code = b := by cases b <;> rfl
      rw [← ha, ← hb, h])
  else isFalse (fun e => h (congrArg missile_id.code e))

inductive missile_resistance where
  | MISR_NONE | MISR_FIRE | MISR_LIGHTNING | MISR_MAGIC | MISR_ACID
  deriving DecidableEq

inductive MissileDataFlags where
  | None
  | NotAnimated
  | other (n : Nat)
  deriving DecidableEq

inductive MissileMovementDistrubution where
  | Disabled
  | Blockable
  | Unblockable
  deriving DecidableEq

inductive MonsterMode where
  | Charge | FadeIn | FadeOut | Petrified
  | other (n : Nat)
  deriving DecidableEq

inductive monster_flag where
  | MFLAG_BERSERK | MFLAG_GOLEM | MFLAG_NOHEAL | MFLAG_TARGETS_MONSTER
  | other (n : Nat)
  deriving DecidableEq

inductive MonsterClass where
  | Undead | Demon | Animal
  deriving DecidableEq

inductive _monster_id where
  | MT_GOLEM | MT_DIABLO | MT_NAKRUL
  | other (n : Nat)
  deriving DecidableEq

inductive _mai_id where
  | AI_DIABLO
  | other (n : Nat)
  deriving DecidableEq

inductive PLR_MODE where
  | PM_STAND | PM_ATTACK | PM_NEWLVL
  | other (n : Nat)
  deriving DecidableEq

inductive HeroClass where
  | Warrior | Rogue | Sorcerer | Monk | Bard | Barbarian
  deriving DecidableEq

inductive spell_id where
  | SPL_BERSERK | SPL_FIREBOLT | SPL_FIREWALL | SPL_GUARDIAN | SPL_HEAL | SPL_IDENTIFY | SPL_MANA
  | SPL_REFLECT | SPL_SEARCH | SPL_STONE | SPL_TELEPORT | SPL_APOCA | SPL_BLODBOIL | SPL_BLODRIT
  | SPL_BONESPIRIT | SPL_CBOLT | SPL_CHAIN | SPL_DISARM | SPL_DOOMSERP | SPL_ELEMENT
  | SPL_ETHEREALIZE | SPL_FIREBALL | SPL_FIRERING | SPL_FLAME | SPL_FLARE | SPL_FLASH | SPL_GOLEM
  | SPL_HBOLT | SPL_HEALOTHER | SPL_IMMOLAT | SPL_INFRA | SPL_INVISIBIL | SPL_LIGHTNING
  | SPL_LIGHTWALL | SPL_MAGI | SPL_MANASHIELD | SPL_NOVA | SPL_RECHARGE | SPL_REPAIR
  | SPL_RESURRECT | SPL_RNDTELEPORT | SPL_RUNEFIRE | SPL_RUNEIMMOLAT | SPL_RUNELIGHT
  | SPL_RUNENOVA | SPL_RUNESTONE | SPL_TELEKINESIS | SPL_TOWN | SPL_WARP | SPL_WAVE
  | other (n : Nat)

/-- The enumerators of `spell_id` that `missiles.cpp` mentions, in the order of
the declaration above. -/
def spell_id.named : List spell_id :=
  [spell_id.SPL_BERSERK, spell_id.SPL_FIREBOLT, spell_id.SPL_FIREWALL, spell_id.SPL_GUARDIAN,
   spell_id.SPL_HEAL, spell_id.SPL_IDENTIFY, spell_id.SPL_MANA, spell_id.SPL_REFLECT,
   spell_id.SPL_SEARCH, spell_id.SPL_STONE, spell_id.SPL_TELEPORT, spell_id.SPL_APOCA,
   spell_id.SPL_BLODBOIL, spell_id.SPL_BLODRIT, spell_id.SPL_BONESPIRIT, spell_id.SPL_CBOLT,
   spell_id.SPL_CHAIN, spell_id.SPL_DISARM, spell_id.SPL_DOOMSERP, spell_id.SPL_ELEMENT,
   spell_id.SPL_ETHEREALIZE, spell_id.SPL_FIREBALL, spell_id.SPL_FIRERING, spell_id.SPL_FLAME,
   spell_id.SPL_FLARE, spell_id.SPL_FLASH, spell_id.SPL_GOLEM, spell_id.SPL_HBOLT,
   spell_id.SPL_HEALOTHER, spell_id.SPL_IMMOLAT, spell_id.SPL_INFRA, spell_id.SPL_INVISIBIL,
   spell_id.SPL_LIGHTNING, spell_id.SPL_LIGHTWALL, spell_id.SPL_MAGI, spell_id.SPL_MANASHIELD,
   spell_id.SPL_NOVA, spell_id.SPL_RECHARGE, spell_id.SPL_REPAIR, spell_id.SPL_RESURRECT,
   spell_id.SPL_RNDTELEPORT, spell_id.SPL_RUNEFIRE, spell_id.SPL_RUNEIMMOLAT,
   spell_id.SPL_RUNELIGHT, spell_id.SPL_RUNENOVA, spell_id.SPL_RUNESTONE, spell_id.SPL_TELEKINESIS,
   spell_id.SPL_TOWN, spell_id.SPL_WARP, spell_id.SPL_WAVE]

/-- A number for each value of `spell_id`, used as the index into the array
`_pSplLvl` of a player and to decide equality: the position of a named
enumerator in `spell_id.named`, and `n + 50` for `other n`. -/
def spell_id.code : spell_id → Nat
  | spell_id.SPL_BERSERK => 0
  | spell_id.SPL_FIREBOLT => 1
  | spell_id.SPL_FIREWALL => 2
  | spell_id.SPL_GUARDIAN => 3
  | spell_id.SPL_HEAL => 4
  | spell_id.SPL_IDENTIFY => 5
  | spell_id.SPL_MANA => 6
  | spell_id.SPL_REFLECT => 7
  | spell_id.SPL_SEARCH => 8
  | spell_id.SPL_STONE => 9
  | spell_id.SPL_TELEPORT => 10
  | spell_id.SPL_APOCA => 11
  | spell_id.SPL_BLODBOIL => 12
  | spell_id.SPL_BLODRIT => 13
  | spell_id.SPL_BONESPIRIT => 14
  | spell_id.SPL_CBOLT => 15
  | spell_id.SPL_CHAIN => 16
  | spell_id.SPL_DISARM => 17
  | spell_id.SPL_DOOMSERP => 18
  | spell_id.SPL_ELEMENT => 19
  | spell_id.SPL_ETHEREALIZE => 20
  | spell_id.SPL_FIREBALL => 21
  | spell_id.SPL_FIRERING => 22
  | spell_id.SPL_FLAME => 23
  | spell_id.SPL_FLARE => 24
  | spell_id.SPL_FLASH => 25
  | spell_id.SPL_GOLEM => 26
  | spell_id.SPL_HBOLT => 27
  | spell_id.SPL_HEALOTHER => 28
  | spell_id.SPL_IMMOLAT => 29
  | spell_id.SPL_INFRA => 30
  | spell_id.SPL_INVISIBIL => 31
  | spell_id.SPL_LIGHTNING => 32
  | spell_id.SPL_LIGHTWALL => 33
  | spell_id.SPL_MAGI => 34
  | spell_id.SPL_MANASHIELD => 35
  | spell_id.SPL_NOVA => 36
  | spell_id.SPL_RECHARGE => 37
  | spell_id.SPL_REPAIR => 38
  | spell_id.SPL_RESURRECT => 39
  | spell_id.SPL_RNDTELEPORT => 40
  | spell_id.SPL_RUNEFIRE => 41
  | spell_id.SPL_RUNEIMMOLAT => 42
  | spell_id.SPL_RUNELIGHT => 43
  | spell_id.SPL_RUNENOVA => 44
  | spell_id.SPL_RUNESTONE => 45
  | spell_id.SPL_TELEKINESIS => 46
  | spell_id.SPL_TOWN => 47
  | spell_id.SPL_WARP => 48
  | spell_id.SPL_WAVE => 49
  | spell_id.other n => n + 50

/-- The value of `spell_id` with a given code. -/
def spell_id.decode (k : Nat) : spell_id :=
  if k < 50 then spell_id.named.getD k spell_id.SPL_BERSERK else spell_id.other (k - 50)

instance : DecidableEq spell_id := fun a b =>
  if h : a.code = b.code then
    isTrue (by
      have ha : spell_id.decode a.code = a := by cases a <;> rfl
      have hb : spell_id.decode b.code = b := by cases b <;> rfl
      rw [← ha, ← hb, h])
  else isFalse (fun e => h (congrArg spell_id.code e))

inductive _cmd_id where
  | CMD_ACTIVATEPORTAL | CMD_SETREFLECT | CMD_WARP
  | other (n : Nat)
  deriving DecidableEq

inductive ControlTypes where
  | KeyboardAndMouse
  | other (n : Nat)
  deriving DecidableEq

inductive ItemSpecialEffect where
  | FireArrows | HalfTrapDamage | Knockback | NoHealOnMonsters | TripleDemonDamage
  | other (n : Nat)
  deriving DecidableEq

inductive SpellFlag where
  | Etherealize | RageActive | RageCooldown
  | other (n : Nat)
  deriving DecidableEq

inductive DungeonFlag where
  | Missile
  | other (n : Nat)
  deriving DecidableEq

inductive HeroSpeech where
  | ArghClang
  | other (n : Nat)
  deriving DecidableEq

/-- The test `HasAnyOf(flags, f)` for a single enumerator `f`. -/
def HasAnyOf {α : Type} [DecidableEq α] (flags : List α) (f : α) : Bool :=
  flags.contains f

/-- The position record of a missile (`missile.position`). -/
structure MissilePosition where
  tile : Point := {}
  offset : Displacement := {}
  velocity : Displacement := {}
  start : Point := {}
  traveled : Displacement := {}
  deriving DecidableEq

/-- The fields of `Missile` that `missiles.cpp` reads or writes; the sprite
pointer `_miAnimData` is left out.  The defaults are the values of the
value-initialised `Missile {}`. -/
structure Missile where
  position : MissilePosition := {}
  _mitype : missile_id := missile_id.MIS_ARROW
  _mimfnum : Int := 0
  _mispllvl : Int := 0
  _miDelFlag : Bool := false
  _miAnimType : Int := 0
  _miAnimFlags : MissileDataFlags := MissileDataFlags.None
  _miAnimDelay : Int := 0
  _miAnimLen : Int := 0
  _miAnimWidth : Int := 0
  _miAnimWidth2 : Int := 0
  _miAnimCnt : Int := 0
  _miAnimAdd : Int := 0
  _miAnimFrame : Int := 0
  _miDrawFlag : Bool := false
  _miLightFlag : Bool := false
  _miPreFlag : Bool := false
  _miUniqTrans : Int := 0
  _mirange : Int := 0
  _misource : Int := 0
  _micaster : mienemy_type := mienemy_type.TARGET_MONSTERS
  _midam : Int := 0
  _miHitFlag : Bool := false
  _midist : Int := 0
  _mlid : Int := 0
  _mirnd : Int := 0
  var1 : Int := 0
  var2 : Int := 0
  var3 : Int := 0
  var4 : Int := 0
  var5 : Int := 0
  var6 : Int := 0
  var7 : Int := 0
  limitReached : Bool := false
  lastCollisionTargetHash : Int := 0

/-- The constant monster data reached through `monster.MData`. -/
structure MonsterData where
  mMonstClass : MonsterClass := MonsterClass.Undead
  deriving DecidableEq

/-- The monster type record reached through `monster.MType`. -/
structure CMonster where
  mtype : _monster_id := _monster_id.other 0
  deriving DecidableEq

structure ActorPosition where
  tile : Point := {}
  future : Point := {}
  last : Point := {}
  deriving DecidableEq

/-- The fields of `Monster` used by the embedded functions. -/
structure Monster where
  position : ActorPosition := {}
  _mmode : MonsterMode := MonsterMode.other 0
  _mhitpoints : Int := 0
  mLevel : Int := 0
  mArmorClass : Int := 0
  mHit : Int := 0
  _mFlags : List monster_flag := []
  _msquelch : Int := 0
  _uniqtype : Int := 0
  _uniqtrans : Int := 0
  MData : MonsterData := {}
  MType : CMonster := {}
  mMinDamage : Int := 0
  mMaxDamage : Int := 0
  mMinDamage2 : Int := 0
  mMaxDamage2 : Int := 0
  mMagicRes : Nat := 0
  mlid : Int := 0
  _mAi : _mai_id := _mai_id.other 0
  _mdir : Direction := 0
  IsPetrified : Bool := false
  deriving DecidableEq

/-- The fields of `Player` used by the embedded functions. -/
structure Player where
  position : ActorPosition := {}
  _pmode : PLR_MODE := PLR_MODE.PM_STAND
  _pdir : Direction := 0
  _pClass : HeroClass := HeroClass.Warrior
  _pLevel : Int := 0
  _pHitPoints : Int := 0
  _pMana : Int := 0
  _pDamageMod : Int := 0
  _pIBonusDam : Int := 0
  _pIBonusDamMod : Int := 0
  _pIGetHit : Int := 0
  _pIFlags : List ItemSpecialEffect := []
  _pSpellFlags : List SpellFlag := []
  _pFireResist : Int := 0
  _pLghtResist : Int := 0
  _pMagResist : Int := 0
  _pInvincible : Bool := false
  _pBlockFlag : Bool := false
  friendlyMode : Bool := false
  pManaShield : Bool := false
  _pMaxMana : Int := 0
  _pManaBase : Int := 0
  _pMaxManaBase : Int := 0
  _pMaxHP : Int := 0
  _pHPBase : Int := 0
  _pMaxHPBase : Int := 0
  _pIMinDam : Int := 0
  _pIMaxDam : Int := 0
  _pISplDur : Int := 0
  _pISplLvlAdd : Int := 0
  _pSplLvl : List Int := []
  wReflections : Int := 0
  plractive : Bool := false
  plrlevel : Int := 0
  _pLvlChanging : Bool := false
  _pMagic : Int := 0
  deriving DecidableEq

/-- The fields of `Object` used by the embedded functions. -/
structure Object where
  _oMissFlag : Bool := false
  deriving DecidableEq

/-- One row of the `MissilesData` table, without the two function pointers
(`mAddProc`, `mProc`), which are the fields of `Catalog`. -/
structure MissileData where
  mFileNum : Int := 0
  mDraw : Bool := false
  mType : Int := 0
  mResist : missile_resistance := missile_resistance.MISR_NONE
  miSFX : Int := 0
  mlSFX : Int := 0
  MovementDistribution : MissileMovementDistrubution := MissileMovementDistrubution.Disabled

/-- One row of the `MissileSpriteData` table. -/
structure MissileFileData where
  animFAmt : Int := 0
  flags : MissileDataFlags := MissileDataFlags.None
  animDelay : Int → Int := fun _ => 0
  animLen : Int → Int := fun _ => 0
  animWidth : Int := 0
  animWidth2 : Int := 0

/-- The global variables of the game that the embedded functions touch. -/
structure Globals where
  Monsters : Int → Monster := fun _ => {}
  Players : Int → Player := fun _ => {}
  MyPlayerId : Int := 0
  currlevel : Int := 0
  gbIsHellfire : Bool := false
  bFriendlyFire : Int := 0
  dMonster : Int → Int → Int := fun _ _ => 0
  dPlayer : Int → Int → Int := fun _ _ => 0
  dPiece : Int → Int → Int := fun _ _ => 0
  dFlags : Int → Int → List DungeonFlag := fun _ _ => []
  rnd : Nat → Nat := fun _ => 0
  rndCount : Nat := 0
  AutoMapShowItems : Bool := false
  drawmanaflag : Bool := false
  drawhpflag : Bool := false
  sbookflag : Bool := false
  invflag : Bool := false
  ControlMode : ControlTypes := ControlTypes.KeyboardAndMouse
  setlevel : Bool := false
  setlvlnum : Int := 0
  leveltype : Int := 0
  stonendx : Int := 0
  numtrigs : Int := 0
  trigs : Int → Point := fun _ => {}

/-- A call made by the embedded code: the entry into one of the four hit
functions, or a call of a procedure of another translation unit. -/
inductive Event where
  | MonsterMHit (pnum m : Int) (t : missile_id)
  | MonsterTrapHit (m : Int) (t : missile_id)
  | Plr2PlrMHit (pnum p : Int) (t : missile_id)
  | PlayerMHit (pnum : Int) (monster : Option Int) (t : missile_id)
  | M_StartKill (m pnum : Int)
  | PlayEffect (m mode : Int)
  | M_GetKnockback (m : Int)
  | M_StartHit (m pnum dam : Int)
  | NetSendCmdDamage (bHiPri : Bool) (p dam : Int)
  | Say (p : Int) (speech : HeroSpeech)
  | StartPlrBlock (p : Int) (dir : Direction)
  | StartPlrHit (p dam : Int) (forcehit : Bool)
  | ApplyPlrDamage (pnum dam minHP frac earflag : Int)
  | BreakObject (pnum : Int) (position : Point)
  | PlaySfxLoc (sfx : Int) (position : Point)
  | AddUnLight (lid : Int)
  | NetSendCmdRemShield
  | UseMana (id : Int) (sn : spell_id)
  | AddLight (position : Point) (radius : Int)
  | ChangeLight (lid : Int) (position : Point) (radius : Int)
  | NetSendCmdParam1 (bHiPri : Bool) (cmd : _cmd_id) (wParam1 : Int)
  | NetSendCmdLocParam3 (bHiPri : Bool) (cmd : _cmd_id) (position : Point)
      (wParam1 wParam2 wParam3 : Int)
  | NewCursor (cursor : Int)
  | FocusOnInventory
  | AddCorpse (tile : Point) (ndx : Int) (dir : Direction)
  | ClrPlrPath (p : Int)
  | AddMissile (src dst : Point) (mitype : missile_id)
  | ChangeLightOffset (lid : Int) (offset : Displacement)
  deriving DecidableEq

/-- The global variables together with the record of the calls made so far. -/
structure World extends Globals where
  trace : List Event := []

/-- What `missiles.cpp` takes from the rest of the program: the constants and
tables of headers that are not among the sources, the queries on monsters,
players and the dungeon, and the procedures of other translation units.
`GetBlockChance` takes `none` where the call leaves the argument to its default;
`IsTrap` is the method `Missile::IsTrap` of `missiles.h` (its default follows the
spec: a negative source id stands for a trap or the environment).
`FindClosestValidPosition` receives the validity test as a function of the
tile and the world, since a test may draw from the random stream;
`MonsterMode_toInt` and `MonsterMode_ofInt` are the two `static_cast`s between
`MonsterMode` and `int`; `Petrify` and `StopMissile` are the methods
`Monster::Petrify` and `MissilePosition::StopMissile`; `WalkingDistance`,
`ManhattanDistance`, `screenToMissile`, `worldToScreen`, `screenToLight` and
`worldToNormalScreen` are the methods of `Point` and `Displacement` with these
names; `PointAddDirection`
is `Point + Direction`; `mulHundredth velocity n` is the product
`velocity * (0.01f / (float)n)` of a displacement and a `float`;
`Direction_South` is the integer value of `Direction::South`, and the four
`Direction16_...` fields are the integer values of the enumerators of
`Direction16` that `missiles.cpp` names.
Every theorem quantifies over all of them; the default values only serve to
build concrete instances. -/
structure Ext where
  NO_LIGHT : Int := -1
  SFX_NONE : Int := -1
  MFILE_ARROWS : Int := 0
  MFILE_FIREWAL : Int := 1
  MFILE_LGHNING : Int := 2
  MFILE_MAGBLOS : Int := 3
  MFILE_MINILTNG : Int := 4
  MFILE_SHATTER1 : Int := 5
  MFILE_BIGEXP : Int := 6
  MFILE_NONE : Int := 7
  IS_CAST7 : Int := 0
  CURSOR_IDENTIFY : Int := 0
  IMMUNE_MAGIC : Nat := 8
  RESIST_MAGIC : Nat := 1
  MAX_PLRS : Nat := 4
  max_size : Nat := 0
  InDungeonBounds : Point → Bool := fun _ => true
  IsTrap : Missile → Bool := fun missile => decide (missile._misource < 0)
  MissilesData : missile_id → MissileData := fun _ => {}
  MissileSpriteData : Int → MissileFileData := fun _ => {}
  nMissileTable : Int → Bool := fun _ => false
  GetDirection : Point → Point → Direction := fun _ _ => 0
  IsPossibleToHit : Monster → Bool := fun _ => true
  IsImmune : Monster → missile_id → Bool := fun _ _ => false
  IsResistant : Monster → missile_id → Bool := fun _ _ => false
  TryLiftGargoyle : Monster → Bool × Monster := fun m => (false, m)
  GetRangedToHit : Player → Int := fun _ => 0
  GetRangedPiercingToHit : Player → Int := fun _ => 0
  CalculateArmorPierce : Player → Int → Bool → Int := fun _ ac _ => ac
  GetMagicToHit : Player → Int := fun _ => 0
  GetArmor : Player → Int := fun _ => 0
  GetBlockChance : Player → Option Bool → Int := fun _ _ => 0
  ObjectAtPosition : Globals → Point → Option Object := fun _ _ => none
  IsBreakable : Object → Bool := fun _ => false
  M_StartKill : Int → Int → Globals → Globals := fun _ _ g => g
  PlayEffect : Int → Int → Globals → Globals := fun _ _ g => g
  M_GetKnockback : Int → Globals → Globals := fun _ g => g
  M_StartHit : Int → Int → Int → Globals → Globals := fun _ _ _ g => g
  NetSendCmdDamage : Bool → Int → Int → Globals → Globals := fun _ _ _ g => g
  Say : Int → HeroSpeech → Globals → Globals := fun _ _ g => g
  StartPlrBlock : Int → Direction → Globals → Globals := fun _ _ g => g
  StartPlrHit : Int → Int → Bool → Globals → Globals := fun _ _ _ g => g
  ApplyPlrDamage : Int → Int → Int → Int → Int → Globals → Globals := fun _ _ _ _ _ g => g
  BreakObject : Int → Point → Globals → Globals := fun _ _ g => g
  PlaySfxLoc : Int → Point → Globals → Globals := fun _ _ g => g
  AddUnLight : Int → Globals → Globals := fun _ g => g
  NetSendCmdRemShield : Globals → Globals := fun g => g
  WalkingDistance : Point → Point → Int :=
    fun a b => max (Int.natAbs (a.x - b.x) : Int) (Int.natAbs (a.y - b.y) : Int)
  PointAddDirection : Point → Direction → Point := fun p _ => p
  Left : Direction → Direction := fun d => (d + 7) % 8
  Right : Direction → Direction := fun d => (d + 1) % 8
  CrawlNum : Int → Int := fun _ => 0
  CrawlTable : Int → Int := fun _ => 0
  nSolidTable : Int → Bool := fun _ => false
  LineClearMissile : Globals → Point → Point → Bool := fun _ _ _ => true
  IsObjectAtPosition : Globals → Point → Bool := fun _ _ => false
  TileContainsMissile : Globals → Point → Bool := fun _ _ => false
  IsTileNotSolid : Globals → Point → Bool := fun _ _ => true
  PosOkPlayer : Globals → Player → Point → Bool := fun _ _ _ => true
  FindClosestValidPosition :
      (Point → World → Bool × World) → Point → Int → Int → World → Option Point × World :=
    fun posOk startingPosition _ _ w =>
      ((if (posOk startingPosition w).1 = true then some startingPosition else none),
        (posOk startingPosition w).2)
  Petrify : Monster → Monster :=
    fun monster => { monster with _mmode := MonsterMode.Petrified, IsPetrified := true }
  MonsterMode_toInt : MonsterMode → Int :=
    fun mode =>
      match mode with
      | MonsterMode.Charge => 0
      | MonsterMode.FadeIn => 1
      | MonsterMode.FadeOut => 2
      | MonsterMode.Petrified => 3
      | MonsterMode.other n => n + 4
  MonsterMode_ofInt : Int → MonsterMode :=
    fun k =>
      if k = 0 then MonsterMode.Charge
      else if k = 1 then MonsterMode.FadeIn
      else if k = 2 then MonsterMode.FadeOut
      else if k = 3 then MonsterMode.Petrified
      else MonsterMode.other (k - 4).toNat
  UseMana : Int → spell_id → Globals → Globals := fun _ _ g => g
  AddLight : Point → Int → Globals → Int × Globals := fun _ _ g => (0, g)
  ChangeLight : Int → Point → Int → Globals → Globals := fun _ _ _ g => g
  NetSendCmdParam1 : Bool → _cmd_id → Int → Globals → Globals := fun _ _ _ g => g
  NetSendCmdLocParam3 : Bool → _cmd_id → Point → Int → Int → Int → Globals → Globals :=
    fun _ _ _ _ _ _ g => g
  NewCursor : Int → Globals → Globals := fun _ g => g
  FocusOnInventory : Globals → Globals := fun g => g
  AddCorpse : Point → Int → Direction → Globals → Globals := fun _ _ _ g => g
  ClrPlrPath : Int → Globals → Globals := fun _ g => g
  ManhattanDistance : Point → Point → Int :=
    fun a b => (Int.natAbs (a.x - b.x) : Int) + (Int.natAbs (a.y - b.y) : Int)
  screenToMissile : Displacement → Displacement :=
    fun d =>
      { deltaX := (d.deltaX + 2 * d.deltaY).tdiv 64, deltaY := (2 * d.deltaY - d.deltaX).tdiv 64 }
  worldToScreen : Displacement → Displacement :=
    fun d => { deltaX := (d.deltaY - d.deltaX) * 32, deltaY := (d.deltaY + d.deltaX) * (-16) }
  screenToLight : Displacement → Displacement :=
    fun d =>
      { deltaX := (2 * d.deltaY + d.deltaX).tdiv 8, deltaY := (2 * d.deltaY - d.deltaX).tdiv 8 }
  mulHundredth : Displacement → Int → Displacement :=
    fun d n => { deltaX := d.deltaX.tdiv (100 * n), deltaY := d.deltaY.tdiv (100 * n) }
  StopMissile : MissilePosition → MissilePosition := fun position => { position with velocity := {} }
  worldToNormalScreen : Displacement → Displacement :=
    fun d => { deltaX := (d.deltaY - d.deltaX) * 2048, deltaY := (d.deltaY + d.deltaX) * (-1024) }
  ChangeLightOffset : Int → Displacement → Globals → Globals := fun _ _ g => g
  MAXDUNX : Int := 112
  MAXDUNY : Int := 112
  Direction_South : Direction := 0
  Direction16_South : Int := 0
  Direction16_South_SouthWest : Int := 1
  Direction16_SouthWest : Int := 2
  Direction16_SouthEast : Int := 14

/-! ## Helpers of the embedding -/

/-- The function `clamp(v, lo, hi)` of the C++ standard library. -/
def clamp (v lo hi : Int) : Int :=
  if v < lo then lo else if hi < v then hi else v

/-- Record the call `ev` and apply the effect `f` of the called procedure on the
global variables. -/
def World.call (w : World) (ev : Event) (f : Globals → Globals) : World :=
  { toGlobals := f w.toGlobals, trace := w.trace ++ [ev] }

/-- Record the entry into one of the embedded hit functions. -/
def World.enter (w : World) (ev : Event) : World :=
  { w with trace := w.trace ++ [ev] }

/-- The write `Monsters[m] = monster`. -/
def World.setMonster (w : World) (m : Int) (monster : Monster) : World :=
  { w with Monsters := fun i => if i = m then monster else w.Monsters i }

/-- The write `Players[p] = player`. -/
def World.setPlayer (w : World) (p : Int) (player : Player) : World :=
  { w with Players := fun i => if i = p then player else w.Players i }

/-- Modelled from the spec: `GenerateRnd` of `engine/random.hpp`, which is not
among the sources.  All randomness comes from one shared, deterministic
stream, and `GenerateRnd(v)` is a roll in `[0, v)`: the next raw value of the
stream reduced modulo `v`.  For a `v` that is not positive, where there is no
such roll, the result is taken to be 0. -/
def GenerateRnd (v : Int) (w : World) : Int × World :=
  (if 0 < v then (w.rnd w.rndCount : Int) % v else 0, { w with rndCount := w.rndCount + 1 })

/-- The constant `UINT8_MAX` of `<cstdint>`. -/
def UINT8_MAX : Int := 255

/-! ## Combat resolver -/

/-- The hit chance of `MonsterMHit` (lines 193-207): the value of `hper` that is
compared against the roll, and the world after the draw that the trap branch
makes. -/
def MonsterMHitChance (ext : Ext) (pnum dist : Int) (t : missile_id) (monster : Monster)
    (w : World) : Int × World :=
  let r : Int × World :=
    if pnum ≠ -1 then
      let player := w.Players pnum
      if (ext.MissilesData t).mType = 0 then
        (ext.GetRangedPiercingToHit player
          - ext.CalculateArmorPierce player monster.mArmorClass false
          - (dist * dist).tdiv 2, w)
      else
        (ext.GetMagicToHit player - monster.mLevel * 2 - dist, w)
    else
      let g := GenerateRnd 75 w
      (g.1 - monster.mLevel * 2, g.2)
  (clamp r.1 5 95, r.2)

/-- The damage of `MonsterMHit` (lines 222-244): the value of `dam` that is
subtracted from the hit points, and the world after the damage roll. -/
def MonsterMHitDamage (ext : Ext) (pnum mindam maxdam : Int) (t : missile_id) (shift : Bool)
    (monster : Monster) (w : World) : Int × World :=
  let d : Int × World :=
    if t = missile_id.MIS_BONESPIRIT then
      ((monster._mhitpoints.tdiv 3) >>> 6, w)
    else
      let g := GenerateRnd (maxdam - mindam + 1) w
      (mindam + g.1, g.2)
  let w := d.2
  let dam := d.1
  let player := w.Players pnum
  let dam :=
    if (ext.MissilesData t).mType = 0 ∧ (ext.MissilesData t).mResist = missile_resistance.MISR_NONE then
      let dam := player._pIBonusDamMod + (dam * player._pIBonusDam).tdiv 100 + dam
      let dam :=
        if player._pClass = HeroClass.Rogue then dam + player._pDamageMod
        else dam + player._pDamageMod.tdiv 2
      if monster.MData.mMonstClass = MonsterClass.Demon
          ∧ HasAnyOf player._pIFlags ItemSpecialEffect.TripleDemonDamage = true then dam * 3
      else dam
    else dam
  let resist := ext.IsResistant monster t
  let dam := if shift then dam else dam * 64
  let dam := if resist then dam >>> 2 else dam
  (dam, w)

/-- The part of `MonsterMHit` that follows the computation of `dam` (lines
246-266): the damage is applied and the reaction of the monster started.
`monster` is the local reference to `Monsters[m]`. -/
def MonsterMHit_resolve (ext : Ext) (pnum m dam : Int) (t : missile_id) (monster : Monster)
    (w : World) : World :=
  let player := w.Players pnum
  let resist := ext.IsResistant monster t
  let monster :=
    if pnum = w.MyPlayerId then { monster with _mhitpoints := monster._mhitpoints - dam }
    else monster
  let monster :=
    if (w.gbIsHellfire = true ∧ HasAnyOf player._pIFlags ItemSpecialEffect.NoHealOnMonsters = true)
        ∨ (w.gbIsHellfire = false ∧ HasAnyOf player._pIFlags ItemSpecialEffect.FireArrows = true) then
      { monster with _mFlags := monster_flag.MFLAG_NOHEAL :: monster._mFlags }
    else monster
  let w := w.setMonster m monster
  let w :=
    if monster._mhitpoints >>> 6 ≤ 0 then
      w.call (Event.M_StartKill m pnum) (ext.M_StartKill m pnum)
    else if resist = true then
      w.call (Event.PlayEffect m 1) (ext.PlayEffect m 1)
    else
      let w :=
        if monster._mmode ≠ MonsterMode.Petrified ∧ (ext.MissilesData t).mType = 0
            ∧ HasAnyOf player._pIFlags ItemSpecialEffect.Knockback = true then
          w.call (Event.M_GetKnockback m) (ext.M_GetKnockback m)
        else w
      if (w.Monsters m).MType.mtype ≠ _monster_id.MT_GOLEM then
        w.call (Event.M_StartHit m pnum dam) (ext.M_StartHit m pnum dam)
      else w
  let monster := w.Monsters m
  if monster._msquelch = 0 then
    w.setMonster m { monster with
      _msquelch := UINT8_MAX,
      position := { monster.position with last := (w.Players pnum).position.tile } }
  else w

/-- The function `MonsterMHit` (lines 185-269), release build. -/
def MonsterMHit (ext : Ext) (pnum m mindam maxdam dist : Int) (t : missile_id) (shift : Bool)
    (w : World) : Bool × World :=
  let w := w.enter (Event.MonsterMHit pnum m t)
  let monster := w.Monsters m
  if ext.IsPossibleToHit monster = false ∨ ext.IsImmune monster t = true then (false, w) else
  let g := GenerateRnd 100 w
  let hit := g.1
  let c := MonsterMHitChance ext pnum dist t monster g.2
  let hper := c.1
  let w := c.2
  let hit := if monster._mmode = MonsterMode.Petrified then 0 else hit
  let lift := ext.TryLiftGargoyle monster
  let monster := lift.2
  let w := w.setMonster m monster
  if lift.1 = true then (true, w) else
  if hit ≥ hper then (false, w) else
  let d := MonsterMHitDamage ext pnum mindam maxdam t shift monster w
  (true, MonsterMHit_resolve ext pnum m d.1 t monster d.2)

/-- The hit chance of `MonsterTrapHit` (lines 875-876). -/
def MonsterTrapHitChance (dist : Int) (monster : Monster) : Int :=
  clamp (90 - monster.mArmorClass % 256 - dist) 5 95

/-- The part of `MonsterTrapHit` that follows the hit test (lines 886-905).
`monster` is the local reference to `Monsters[m]`. -/
def MonsterTrapHit_resolve (ext : Ext) (m mindam maxdam : Int) (t : missile_id) (shift : Bool)
    (monster : Monster) (w : World) : World :=
  let resist := ext.IsResistant monster t
  let g := GenerateRnd (maxdam - mindam + 1) w
  let dam := mindam + g.1
  let w := g.2
  let dam := if shift then dam else dam * 64
  let monster :=
    if resist = true then { monster with _mhitpoints := monster._mhitpoints - dam.tdiv 4 }
    else { monster with _mhitpoints := monster._mhitpoints - dam }
  let w := w.setMonster m monster
  if monster._mhitpoints >>> 6 ≤ 0 then
    w.call (Event.M_StartKill m (-1)) (ext.M_StartKill m (-1))
  else if resist = true then
    w.call (Event.PlayEffect m 1) (ext.PlayEffect m 1)
  else if monster.MType.mtype ≠ _monster_id.MT_GOLEM then
    w.call (Event.M_StartHit m (-1) dam) (ext.M_StartHit m (-1) dam)
  else w

/-- The function `MonsterTrapHit` (lines 867-907), release build. -/
def MonsterTrapHit (ext : Ext) (m mindam maxdam dist : Int) (t : missile_id) (shift : Bool)
    (w : World) : Bool × World :=
  let w := w.enter (Event.MonsterTrapHit m t)
  let monster := w.Monsters m
  if ext.IsPossibleToHit monster = false ∨ ext.IsImmune monster t = true then (false, w) else
  let g := GenerateRnd 100 w
  let hit := g.1
  let w := g.2
  let hper := MonsterTrapHitChance dist monster
  let lift := ext.TryLiftGargoyle monster
  let monster := lift.2
  let w := w.setMonster m monster
  if lift.1 = true then (true, w) else
  if hit ≥ hper ∧ monster._mmode ≠ MonsterMode.Petrified then (false, w) else
  (true, MonsterTrapHit_resolve ext m mindam maxdam t shift monster w)

/-- The resistance percentage that `Plr2PlrMHit` (lines 293-308) and
`PlayerMHit` (lines 971-986) read off the target for the missile's element. -/
def resistancePercent (ext : Ext) (mtype : missile_id) (target : Player) : Int :=
  match (ext.MissilesData mtype).mResist with
  | missile_resistance.MISR_FIRE => target._pFireResist
  | missile_resistance.MISR_LIGHTNING => target._pLghtResist
  | missile_resistance.MISR_MAGIC => target._pMagResist
  | missile_resistance.MISR_ACID => target._pMagResist
  | missile_resistance.MISR_NONE => 0

/-- The hit chance of `Plr2PlrMHit` (lines 312-323; the source names it `hit`
and names the roll `hper`). -/
def Plr2PlrMHitChance (ext : Ext) (dist : Int) (mtype : missile_id) (player target : Player) : Int :=
  clamp
    (if (ext.MissilesData mtype).mType = 0 then
      ext.GetRangedToHit player - (dist * dist).tdiv 2 - ext.GetArmor target
    else
      ext.GetMagicToHit player - target._pLevel * 2 - dist)
    5 95

/-- The part of `Plr2PlrMHit` that follows the hit test (lines 329-366); the
result is `(*blocked, world)`.  `player` and `target` are the local references
to `Players[pnum]` and `Players[p]`. -/
def Plr2PlrMHit_resolve (ext : Ext) (pnum p mindam maxdam : Int) (mtype : missile_id)
    (shift : Bool) (resper : Int) (player target : Player) (w : World) : Bool × World :=
  let b : Int × World :=
    if shift = false ∧ (target._pmode = PLR_MODE.PM_STAND ∨ target._pmode = PLR_MODE.PM_ATTACK)
        ∧ target._pBlockFlag = true then
      GenerateRnd 100 w
    else (100, w)
  let blkper := b.1
  let w := b.2
  let blk := clamp (ext.GetBlockChance target none - player._pLevel * 2) 0 100
  let d : Int × World :=
    if mtype = missile_id.MIS_BONESPIRIT then
      (target._pHitPoints.tdiv 3, w)
    else
      let g := GenerateRnd (maxdam - mindam + 1) w
      let dam := mindam + g.1
      let dam :=
        if (ext.MissilesData mtype).mType = 0
            ∧ (ext.MissilesData mtype).mResist = missile_resistance.MISR_NONE then
          dam + (player._pIBonusDamMod + player._pDamageMod + (dam * player._pIBonusDam).tdiv 100)
        else dam
      (if shift then dam else dam * 64, g.2)
  let dam := d.1
  let w := d.2
  let dam := if (ext.MissilesData mtype).mType ≠ 0 then dam.tdiv 2 else dam
  if resper > 0 then
    let dam := dam - (dam * resper).tdiv 100
    let w :=
      if pnum = w.MyPlayerId then
        w.call (Event.NetSendCmdDamage true p dam) (ext.NetSendCmdDamage true p dam)
      else w
    (false, w.call (Event.Say p HeroSpeech.ArghClang) (ext.Say p HeroSpeech.ArghClang))
  else
  if blkper < blk then
    let dir := ext.GetDirection target.position.tile player.position.tile
    (true, w.call (Event.StartPlrBlock p dir) (ext.StartPlrBlock p dir))
  else
    let w :=
      if pnum = w.MyPlayerId then
        w.call (Event.NetSendCmdDamage true p dam) (ext.NetSendCmdDamage true p dam)
      else w
    (false, w.call (Event.StartPlrHit p dam false) (ext.StartPlrHit p dam false))

/-- The function `Plr2PlrMHit` (lines 271-367).  The out-parameter `blocked` is
passed in and returned: the result is `(return value, *blocked, world)`. -/
def Plr2PlrMHit (ext : Ext) (pnum p mindam maxdam dist : Int) (mtype : missile_id) (shift : Bool)
    (blocked : Bool) (w : World) : Bool × Bool × World :=
  let w := w.enter (Event.Plr2PlrMHit pnum p mtype)
  let player := w.Players pnum
  let target := w.Players p
  if w.bFriendlyFire = 0 ∧ player.friendlyMode = true then (false, blocked, w) else
  let blocked := false
  if target._pInvincible = true then (false, blocked, w) else
  if mtype = missile_id.MIS_HBOLT then (false, blocked, w) else
  if HasAnyOf target._pSpellFlags SpellFlag.Etherealize = true ∧ (ext.MissilesData mtype).mType = 0 then
    (false, blocked, w) else
  let resper := resistancePercent ext mtype target
  let g := GenerateRnd 100 w
  let hper := g.1
  let w := g.2
  let hit := Plr2PlrMHitChance ext dist mtype player target
  if hper ≥ hit then (false, blocked, w) else
  (true, Plr2PlrMHit_resolve ext pnum p mindam maxdam mtype shift resper player target w)

/-- The hit chance of `PlayerMHit` (lines 932-954): the value of `hper` that is
compared against the roll.  `monster` is the attacking monster, `none` for the
null pointer that a trap passes. -/
def PlayerMHitChance (ext : Ext) (monster : Option Monster) (dist : Int) (mtype : missile_id)
    (player : Player) (currlevel : Int) : Int :=
  let hper : Int :=
    if (ext.MissilesData mtype).mType = 0 then
      let tac := ext.GetArmor player
      match monster with
      | some mon => mon.mHit + ((mon.mLevel - player._pLevel) * 2) + 30 - (dist * 2) - tac
      | none => 100 - (tac.tdiv 2) - (dist * 2)
    else
      match monster with
      | some mon => 40 + ((mon.mLevel * 2) - (player._pLevel * 2) - (dist * 2))
      | none => 40
  let minhit : Int := 10
  let minhit := if currlevel = 14 then 20 else minhit
  let minhit := if currlevel = 15 then 25 else minhit
  let minhit := if currlevel = 16 then 30 else minhit
  max hper minhit

/-- The part of `PlayerMHit` that follows the hit test (lines 992-1043); the
result is `(*blocked, world)`.  `blk` is the block roll, `blkper` the block
chance and `player` the local reference to `Players[pnum]`. -/
def PlayerMHit_resolve (ext : Ext) (pnum : Int) (monster : Option Int) (mind maxd : Int)
    (mtype : missile_id) (shift : Bool) (earflag blk blkper resper : Int) (player : Player)
    (w : World) : Bool × World :=
  let d : Int × World :=
    if mtype = missile_id.MIS_BONESPIRIT then
      (player._pHitPoints.tdiv 3, w)
    else
      let r : Int × World :=
        if shift = false then
          let g := GenerateRnd (((maxd - mind) * 64) + 1) w
          let dam := (mind * 64) + g.1
          let dam :=
            if monster = none ∧ HasAnyOf player._pIFlags ItemSpecialEffect.HalfTrapDamage = true then
              dam.tdiv 2
            else dam
          (dam + player._pIGetHit * 64, g.2)
        else
          let g := GenerateRnd (maxd - mind + 1) w
          let dam := mind + g.1
          let dam :=
            if monster = none ∧ HasAnyOf player._pIFlags ItemSpecialEffect.HalfTrapDamage = true then
              dam.tdiv 2
            else dam
          (dam + player._pIGetHit, g.2)
      (max r.1 64, r.2)
  let dam := d.1
  let w := d.2
  if (resper ≤ 0 ∨ w.gbIsHellfire = true) ∧ blk < blkper then
    let dir : Direction :=
      match monster with
      | some mi => ext.GetDirection player.position.tile (w.Monsters mi).position.tile
      | none => player._pdir
    (true, w.call (Event.StartPlrBlock pnum dir) (ext.StartPlrBlock pnum dir))
  else
  if resper > 0 then
    let dam := dam - (dam * resper).tdiv 100
    let w :=
      if pnum = w.MyPlayerId then
        w.call (Event.ApplyPlrDamage pnum 0 0 dam earflag) (ext.ApplyPlrDamage pnum 0 0 dam earflag)
      else w
    let w :=
      if (w.Players pnum)._pHitPoints >>> 6 > 0 then
        w.call (Event.Say pnum HeroSpeech.ArghClang) (ext.Say pnum HeroSpeech.ArghClang)
      else w
    (false, w)
  else
    let w :=
      if pnum = w.MyPlayerId then
        w.call (Event.ApplyPlrDamage pnum 0 0 dam earflag) (ext.ApplyPlrDamage pnum 0 0 dam earflag)
      else w
    let w :=
      if (w.Players pnum)._pHitPoints >>> 6 > 0 then
        w.call (Event.StartPlrHit pnum dam false) (ext.StartPlrHit pnum dam false)
      else w
    (false, w)

/-- The function `PlayerMHit` (lines 909-1044), release build.  `monster` is the
index in `Monsters` of the monster the pointer argument points to, `none` for
the null pointer.  The result is `(return value, *blocked, world)`. -/
def PlayerMHit (ext : Ext) (pnum : Int) (monster : Option Int) (dist mind maxd : Int)
    (mtype : missile_id) (shift : Bool) (earflag : Int) (w : World) : Bool × Bool × World :=
  let w := w.enter (Event.PlayerMHit pnum monster mtype)
  let blocked := false
  let player := w.Players pnum
  if player._pHitPoints >>> 6 ≤ 0 then (false, blocked, w) else
  if player._pInvincible = true then (false, blocked, w) else
  if HasAnyOf player._pSpellFlags SpellFlag.Etherealize = true ∧ (ext.MissilesData mtype).mType = 0 then
    (false, blocked, w) else
  let g := GenerateRnd 100 w
  let hit := g.1
  let w := g.2
  let hper := PlayerMHitChance ext (monster.map w.Monsters) dist mtype player w.currlevel
  let b : Int × World :=
    if (player._pmode = PLR_MODE.PM_STAND ∨ player._pmode = PLR_MODE.PM_ATTACK)
        ∧ player._pBlockFlag = true then
      GenerateRnd 100 w
    else (100, w)
  let blk := b.1
  let w := b.2
  let blk := if shift then 100 else blk
  let blk := if mtype = missile_id.MIS_ACIDPUD then 100 else blk
  let blkper := ext.GetBlockChance player (some false)
  let blkper :=
    match monster with
    | some mi => blkper - ((w.Monsters mi).mLevel - player._pLevel) * 2
    | none => blkper
  let blkper := clamp blkper 0 100
  let resper := resistancePercent ext mtype player
  if hit ≥ hper then (false, blocked, w) else
  (true, PlayerMHit_resolve ext pnum monster mind maxd mtype shift earflag blk blkper resper player w)

/-! ## Animation, blocking and the collision dispatcher -/

/-- The function `SetMissAnim` (lines 543-560). -/
def SetMissAnim (ext : Ext) (missile : Missile) (animtype : Int) : Missile :=
  let dir := missile._mimfnum
  let animtype := if animtype > ext.MFILE_NONE then ext.MFILE_NONE else animtype
  { missile with
    _miAnimType := animtype,
    _miAnimFlags := (ext.MissileSpriteData animtype).flags,
    _miAnimDelay := (ext.MissileSpriteData animtype).animDelay dir,
    _miAnimLen := (ext.MissileSpriteData animtype).animLen dir,
    _miAnimWidth := (ext.MissileSpriteData animtype).animWidth,
    _miAnimWidth2 := (ext.MissileSpriteData animtype).animWidth2,
    _miAnimCnt := 0,
    _miAnimFrame := 1 }

/-- The function `SetMissDir` (lines 1046-1050). -/
def SetMissDir (ext : Ext) (missile : Missile) (dir : Int) : Missile :=
  SetMissAnim ext { missile with _mimfnum := dir } missile._miAnimType

/-- The function `RotateBlockedMissile` (lines 369-387). -/
def RotateBlockedMissile (ext : Ext) (missile : Missile) (w : World) : Missile × World :=
  let g := GenerateRnd 2 w
  let rotation : Int := if g.1 ≠ 0 then 1 else -1
  let w := g.2
  if missile._miAnimType = ext.MFILE_ARROWS then
    let dir := missile._miAnimFrame + rotation
    ({ missile with _miAnimFrame := (dir + 15).tmod 16 + 1 }, w)
  else
    let dir := missile._mimfnum + rotation
    let mAnimFAmt := (ext.MissileSpriteData missile._miAnimType).animFAmt
    let dir := if dir < 0 then mAnimFAmt - 1 else if dir ≥ mAnimFAmt then 0 else dir
    (SetMissDir ext missile dir, w)

/-- The function `IsMissileBlockedByTile` (lines 684-697). -/
def IsMissileBlockedByTile (ext : Ext) (w : World) (tile : Point) : Bool :=
  if ext.InDungeonBounds tile = false then true
  else if ext.nMissileTable (w.dPiece tile.x tile.y) = true then true
  else
    match ext.ObjectAtPosition w.toGlobals tile with
    | some object => !object._oMissFlag
    | none => false

/-- The function `CheckMissileCol` (lines 389-466). -/
def CheckMissileCol (ext : Ext) (missile : Missile) (minDamage maxDamage : Int)
    (isDamageShifted : Bool) (position : Point) (dontDeleteOnCollision : Bool) (w : World) :
    Missile × World :=
  if ext.InDungeonBounds position = false then (missile, w) else
  let mx := position.x
  let my := position.y
  let mid := w.dMonster mx my
  let r : Bool × World :=
    if missile._micaster ≠ mienemy_type.TARGET_BOTH ∧ ext.IsTrap missile = false then
      if missile._micaster = mienemy_type.TARGET_MONSTERS then
        if mid ≠ 0 ∧ (mid > 0 ∨ (w.Monsters ((mid.natAbs : Int) - 1))._mmode = MonsterMode.Petrified) then
          MonsterMHit ext missile._misource ((mid.natAbs : Int) - 1) minDamage maxDamage
            missile._midist missile._mitype isDamageShifted w
        else (false, w)
      else
        let attackingMonster := w.Monsters missile._misource
        if HasAnyOf attackingMonster._mFlags monster_flag.MFLAG_TARGETS_MONSTER = true
            ∧ mid > 0
            ∧ HasAnyOf (w.Monsters (mid - 1))._mFlags monster_flag.MFLAG_GOLEM = true then
          MonsterTrapHit ext (mid - 1) minDamage maxDamage missile._midist missile._mitype
            isDamageShifted w
        else (false, w)
    else
      if mid > 0 then
        if missile._micaster = mienemy_type.TARGET_BOTH then
          MonsterMHit ext missile._misource (mid - 1) minDamage maxDamage missile._midist
            missile._mitype isDamageShifted w
        else
          MonsterTrapHit ext (mid - 1) minDamage maxDamage missile._midist missile._mitype
            isDamageShifted w
      else (false, w)
  let isMonsterHit := r.1
  let w := r.2
  let missile :=
    if isMonsterHit = true then
      { (if dontDeleteOnCollision then missile else { missile with _mirange := 0 }) with
        _miHitFlag := true }
    else missile
  let blocked := false
  let pid := w.dPlayer mx my
  let q : Bool × Bool × World :=
    if pid > 0 then
      if missile._micaster ≠ mienemy_type.TARGET_BOTH ∧ ext.IsTrap missile = false then
        if missile._micaster = mienemy_type.TARGET_MONSTERS then
          if (pid - 1) ≠ missile._misource then
            Plr2PlrMHit ext missile._misource (pid - 1) minDamage maxDamage missile._midist
              missile._mitype isDamageShifted blocked w
          else (false, blocked, w)
        else
          PlayerMHit ext (pid - 1) (some missile._misource) missile._midist minDamage maxDamage
            missile._mitype isDamageShifted 0 w
      else
        let earflag : Int :=
          if missile._miAnimType = ext.MFILE_FIREWAL ∨ missile._miAnimType = ext.MFILE_LGHNING then 1
          else 0
        PlayerMHit ext (pid - 1) none missile._midist minDamage maxDamage missile._mitype
          isDamageShifted earflag w
    else (false, blocked, w)
  let isPlayerHit := q.1
  let blocked := q.2.1
  let w := q.2.2
  let h : Missile × World :=
    if isPlayerHit = true then
      let h : Missile × World :=
        if w.gbIsHellfire = true ∧ blocked = true then RotateBlockedMissile ext missile w
        else if dontDeleteOnCollision = false then ({ missile with _mirange := 0 }, w)
        else (missile, w)
      ({ h.1 with _miHitFlag := true }, h.2)
    else (missile, w)
  let missile := h.1
  let w := h.2
  let h : Missile × World :=
    if IsMissileBlockedByTile ext w { x := mx, y := my } = true then
      let w :=
        match ext.ObjectAtPosition w.toGlobals { x := mx, y := my } with
        | some object =>
          if ext.IsBreakable object = true then
            w.call (Event.BreakObject (-1) { x := mx, y := my }) (ext.BreakObject (-1) { x := mx, y := my })
          else w
        | none => w
      ({ (if dontDeleteOnCollision then missile else { missile with _mirange := 0 }) with
        _miHitFlag := false }, w)
    else (missile, w)
  let missile := h.1
  let w := h.2
  if missile._mirange = 0 ∧ (ext.MissilesData missile._mitype).miSFX ≠ -1 then
    (missile, w.call (Event.PlaySfxLoc (ext.MissilesData missile._mitype).miSFX missile.position.tile)
      (ext.PlaySfxLoc (ext.MissilesData missile._mitype).miSFX missile.position.tile))
  else (missile, w)

/-- The missile and the world in `CheckMissileCol` when the checks of the
monster and of the player on the tile are done (lines 394-452), for a position
inside the dungeon: the state in which the function tests whether the tile
blocks missiles. -/
def CheckMissileCol_hits (ext : Ext) (missile : Missile) (minDamage maxDamage : Int)
    (isDamageShifted : Bool) (position : Point) (dontDeleteOnCollision : Bool) (w : World) :
    Missile × World :=
  let mx := position.x
  let my := position.y
  let mid := w.dMonster mx my
  let r : Bool × World :=
    if missile._micaster ≠ mienemy_type.TARGET_BOTH ∧ ext.IsTrap missile = false then
      if missile._micaster = mienemy_type.TARGET_MONSTERS then
        if mid ≠ 0 ∧ (mid > 0 ∨ (w.Monsters ((mid.natAbs : Int) - 1))._mmode = MonsterMode.Petrified) then
          MonsterMHit ext missile._misource ((mid.natAbs : Int) - 1) minDamage maxDamage
            missile._midist missile._mitype isDamageShifted w
        else (false, w)
      else
        let attackingMonster := w.Monsters missile._misource
        if HasAnyOf attackingMonster._mFlags monster_flag.MFLAG_TARGETS_MONSTER = true
            ∧ mid > 0
            ∧ HasAnyOf (w.Monsters (mid - 1))._mFlags monster_flag.MFLAG_GOLEM = true then
          MonsterTrapHit ext (mid - 1) minDamage maxDamage missile._midist missile._mitype
            isDamageShifted w
        else (false, w)
    else
      if mid > 0 then
        if missile._micaster = mienemy_type.TARGET_BOTH then
          MonsterMHit ext missile._misource (mid - 1) minDamage maxDamage missile._midist
            missile._mitype isDamageShifted w
        else
          MonsterTrapHit ext (mid - 1) minDamage maxDamage missile._midist missile._mitype
            isDamageShifted w
      else (false, w)
  let isMonsterHit := r.1
  let w := r.2
  let missile :=
    if isMonsterHit = true then
      { (if dontDeleteOnCollision then missile else { missile with _mirange := 0 }) with
        _miHitFlag := true }
    else missile
  let blocked := false
  let pid := w.dPlayer mx my
  let q : Bool × Bool × World :=
    if pid > 0 then
      if missile._micaster ≠ mienemy_type.TARGET_BOTH ∧ ext.IsTrap missile = false then
        if missile._micaster = mienemy_type.TARGET_MONSTERS then
          if (pid - 1) ≠ missile._misource then
            Plr2PlrMHit ext missile._misource (pid - 1) minDamage maxDamage missile._midist
              missile._mitype isDamageShifted blocked w
          else (false, blocked, w)
        else
          PlayerMHit ext (pid - 1) (some missile._misource) missile._midist minDamage maxDamage
            missile._mitype isDamageShifted 0 w
      else
        let earflag : Int :=
          if missile._miAnimType = ext.MFILE_FIREWAL ∨ missile._miAnimType = ext.MFILE_LGHNING then 1
          else 0
        PlayerMHit ext (pid - 1) none missile._midist minDamage maxDamage missile._mitype
          isDamageShifted earflag w
    else (false, blocked, w)
  let isPlayerHit := q.1
  let blocked := q.2.1
  let w := q.2.2
  if isPlayerHit = true then
    let h : Missile × World :=
      if w.gbIsHellfire = true ∧ blocked = true then RotateBlockedMissile ext missile w
      else if dontDeleteOnCollision = false then ({ missile with _mirange := 0 }, w)
      else (missile, w)
    ({ h.1 with _miHitFlag := true }, h.2)
  else (missile, w)

/-! ## Movement -/

/-- The operator `Displacement + Displacement`, componentwise. -/
def Displacement.add (a b : Displacement) : Displacement :=
  { deltaX := a.deltaX + b.deltaX, deltaY := a.deltaY + b.deltaY }

/-- The operator `Displacement - Displacement`, componentwise. -/
def Displacement.sub (a b : Displacement) : Displacement :=
  { deltaX := a.deltaX - b.deltaX, deltaY := a.deltaY - b.deltaY }

/-- The operator `Displacement >> k`, componentwise. -/
def Displacement.shr (a : Displacement) (k : Nat) : Displacement :=
  { deltaX := a.deltaX >>> k, deltaY := a.deltaY >>> k }

/-- The operator `Displacement * int`, componentwise. -/
def Displacement.mul (a : Displacement) (k : Int) : Displacement :=
  { deltaX := a.deltaX * k, deltaY := a.deltaY * k }

/-- The operator `Point + Displacement`. -/
def Point.addDisplacement (p : Point) (d : Displacement) : Point :=
  { x := p.x + d.deltaX, y := p.y + d.deltaY }

/-- The function `UpdateMissilePos` (lines 138-149). -/
def UpdateMissilePos (ext : Ext) (missile : Missile) (w : World) : Missile × World :=
  let pixelsTravelled := missile.position.traveled.shr 16
  let tileOffset := ext.screenToMissile pixelsTravelled
  let missile : Missile :=
    { missile with
      position := { missile.position with
                    tile := missile.position.start.addDisplacement tileOffset } }
  let missile : Missile :=
    { missile with
      position := { missile.position with
                    offset := pixelsTravelled.add (ext.worldToScreen tileOffset) } }
  let absoluteLightOffset := ext.screenToLight pixelsTravelled
  (missile,
    w.call (Event.ChangeLightOffset missile._mlid (absoluteLightOffset.sub (tileOffset.mul 8)))
      (ext.ChangeLightOffset missile._mlid (absoluteLightOffset.sub (tileOffset.mul 8))))

/-- The end of a walk of `MoveMissileAndCheckMissileCol` on a collision (lines
519-529); `traveled` and `incVelocity` are the locals of the loop. -/
def MoveMissile_collide (ext : Ext) (ifCollidesDontMoveToHitTile : Bool)
    (incVelocity traveled : Displacement) (missile : Missile) (w : World) : Missile × World :=
  let missile : Missile :=
    { missile with position := { missile.position with traveled := traveled } }
  if ifCollidesDontMoveToHitTile = true ∧ missile._mirange = 0 then
    let missile : Missile :=
      { missile with
        position := { missile.position with
                      traveled := missile.position.traveled.sub incVelocity } }
    let u := UpdateMissilePos ext missile w
    ({ u.1 with position := ext.StopMissile u.1.position }, u.2)
  else UpdateMissilePos ext missile w

/-- The loop of `MoveMissileAndCheckMissileCol` (lines 494-533), which walks the
missile from the tile before the step to its new tile in small steps.  The
arguments after the fuel are the locals `traveled` and `prevTile`, the missile,
the world and the tiles on which `CheckMissileCol` has been called so far.  The
result is `none` when `fuel` iterations do not end the loop; otherwise its
first component tells whether the function returned from inside the loop. -/
def MoveMissile_loop (ext : Ext) (mindam maxdam : Int) (ifCollidesDontMoveToHitTile : Bool)
    (incVelocity : Displacement) :
    Nat → Displacement → Point → Missile → World → List Point →
      Option (Bool × Missile × World × List Point)
  | 0, _, _, _, _, _ => none
  | fuel + 1, traveled, prevTile, missile, w, checked =>
    let traveled := traveled.add incVelocity
    let mx := traveled.deltaX >>> 16
    let my := traveled.deltaY >>> 16
    let dx := (mx + 2 * my).tdiv 64
    let dy := (2 * my - mx).tdiv 64
    let tile := missile.position.start.addDisplacement { deltaX := dx, deltaY := dy }
    if tile = missile.position.tile then some (false, missile, w, checked) else
    if prevTile = tile then
      MoveMissile_loop ext mindam maxdam ifCollidesDontMoveToHitTile incVelocity fuel traveled
        prevTile missile w checked
    else
    let r := CheckMissileCol ext missile mindam maxdam false tile false w
    if r.1._mirange ≠ 0 then
      MoveMissile_loop ext mindam maxdam ifCollidesDontMoveToHitTile incVelocity fuel traveled
        tile r.1 r.2 (checked ++ [tile])
    else
    if (r.1._miHitFlag = true
          ∧ (ext.MissilesData r.1._mitype).MovementDistribution
            = MissileMovementDistrubution.Blockable)
        ∨ IsMissileBlockedByTile ext r.2 tile = true then
      some (true,
        (MoveMissile_collide ext ifCollidesDontMoveToHitTile incVelocity traveled r.1 r.2).1,
        (MoveMissile_collide ext ifCollidesDontMoveToHitTile incVelocity traveled r.1 r.2).2,
        checked ++ [tile])
    else
      MoveMissile_loop ext mindam maxdam ifCollidesDontMoveToHitTile incVelocity fuel traveled
        tile r.1 r.2 (checked ++ [tile])

/-- The part of `MoveMissileAndCheckMissileCol` that follows the loop (lines
535-541), together with the tile on which it calls `CheckMissileCol`, if it
does. -/
def MoveMissile_arrive (ext : Ext) (mindam maxdam : Int) (ignoreStart : Bool)
    (ifCollidesDontMoveToHitTile : Bool) (missile : Missile) (w : World) :
    (Missile × World) × Option Point :=
  if ignoreStart = true ∧ missile.position.start = missile.position.tile then ((missile, w), none)
  else
  let tile := missile.position.tile
  let r := CheckMissileCol ext missile mindam maxdam false tile false w
  if ifCollidesDontMoveToHitTile = true ∧ r.1._mirange = 0 then
    let missile : Missile :=
      { r.1 with
        position := { r.1.position with
                      traveled := r.1.position.traveled.sub r.1.position.velocity } }
    let u := UpdateMissilePos ext missile r.2
    (({ u.1 with position := ext.StopMissile u.1.position }, u.2), some tile)
  else (r, some tile)

/-- The first part of `MoveMissileAndCheckMissileCol` (lines 470-472): the
missile advances by its velocity. -/
def MoveMissile_advance (ext : Ext) (missile : Missile) (w : World) : Missile × World :=
  UpdateMissilePos ext
    { missile with
      position := { missile.position with
                    traveled := missile.position.traveled.add missile.position.velocity } }
    w

/-- The local `possibleVisitTiles` of `MoveMissileAndCheckMissileCol` (lines
474-478); `prevTile` is the tile before the step and `missile` the missile
after it. -/
def possibleVisitTiles (ext : Ext) (prevTile : Point) (missile : Missile) : Int :=
  if missile.position.velocity.deltaX = 0 ∨ missile.position.velocity.deltaY = 0 then
    ext.WalkingDistance prevTile missile.position.tile
  else ext.ManhattanDistance prevTile missile.position.tile

/-- The function `MoveMissileAndCheckMissileCol` (lines 468-541), together with
the tiles on which the loop has called `CheckMissileCol` and the tile on which
the code after the loop has.  The result is `none` when `fuel` iterations do
not end the loop. -/
def MoveMissileAndCheckMissileColTrace (ext : Ext) (fuel : Nat) (missile : Missile)
    (mindam maxdam : Int) (ignoreStart ifCollidesDontMoveToHitTile : Bool) (w : World) :
    Option ((Missile × World) × List Point × Option Point) :=
  let prevTile := missile.position.tile
  let u := MoveMissile_advance ext missile w
  let missile := u.1
  let w := u.2
  let n := possibleVisitTiles ext prevTile missile
  let tileTargetHash : Int :=
    Int.xor (w.dMonster missile.position.tile.x missile.position.tile.y)
      (w.dPlayer missile.position.tile.x missile.position.tile.y)
  if n = 0 ∧ missile.lastCollisionTargetHash = tileTargetHash then some ((missile, w), [], none)
  else
  let missile : Missile := { missile with lastCollisionTargetHash := tileTargetHash }
  if n > 1 then
    match MoveMissile_loop ext mindam maxdam ifCollidesDontMoveToHitTile
        (ext.mulHundredth missile.position.velocity (n - 1)) fuel
        (missile.position.traveled.sub missile.position.velocity) prevTile missile w [] with
    | none => none
    | some (true, missile, w, checked) => some ((missile, w), checked, none)
    | some (false, missile, w, checked) =>
      some ((MoveMissile_arrive ext mindam maxdam ignoreStart ifCollidesDontMoveToHitTile
          missile w).1,
        checked,
        (MoveMissile_arrive ext mindam maxdam ignoreStart ifCollidesDontMoveToHitTile
          missile w).2)
  else
    some ((MoveMissile_arrive ext mindam maxdam ignoreStart ifCollidesDontMoveToHitTile
        missile w).1,
      [],
      (MoveMissile_arrive ext mindam maxdam ignoreStart ifCollidesDontMoveToHitTile missile w).2)

/-- The function `MoveMissileAndCheckMissileCol` (lines 468-541). -/
def MoveMissileAndCheckMissileCol (ext : Ext) (fuel : Nat) (missile : Missile)
    (mindam maxdam : Int) (ignoreStart ifCollidesDontMoveToHitTile : Bool) (w : World) :
    Option (Missile × World) :=
  (MoveMissileAndCheckMissileColTrace ext fuel missile mindam maxdam ignoreStart
    ifCollidesDontMoveToHitTile w).map Prod.fst

/-! ## Missile registry and tick driver -/

/-- A node of the list `Missiles`: the missile and the identity of the node. -/
structure MissileNode where
  id : Nat
  val : Missile

/-- The world together with the globals of `missiles.cpp`: the registry
`Missiles`, the flag `MissilePreFlag`, and the serial number `nextNode` that the
next allocated list node receives. -/
structure GameState extends World where
  Missiles : List MissileNode := []
  nextNode : Nat := 0
  MissilePreFlag : Bool := false

/-- The record `AddMissileParameter` handed to an initializer; `pParent` is the
node of the parent missile, `none` for the null pointer. -/
structure AddMissileParameter where
  dst : Point
  midir : Direction
  pParent : Option Nat

/-- The two function pointers of each row of `MissilesData`: the initializer
`mAddProc` and the update function `mProc` (`none` for a null pointer).  Both
receive the node of the missile they are called on. -/
structure Catalog where
  mAddProc : missile_id → Nat → AddMissileParameter → GameState → GameState :=
    fun _ _ _ s => s
  mProc : missile_id → Option (Nat → GameState → GameState) := fun _ => none

/-- Record a call and apply its effect, on a game state. -/
def GameState.call (s : GameState) (ev : Event) (f : Globals → Globals) : GameState :=
  { s with toWorld := s.toWorld.call ev f }

/-- The missile held by the node `node`, if that node is in the registry. -/
def GameState.getMissile (s : GameState) (node : Nat) : Option Missile :=
  (s.Missiles.find? (fun n => n.id = node)).map (fun n => n.val)

/-- A write through a reference to the missile of node `node`. -/
def GameState.updateMissile (s : GameState) (node : Nat) (f : Missile → Missile) : GameState :=
  { s with Missiles := s.Missiles.map (fun n => if n.id = node then { n with val := f n.val } else n) }

/-- The fields that `AddMissile` writes into the new missile before it calls the
initializer (lines 2572-2597); `monster` is `Monsters[id]`. -/
def AddMissile_init (ext : Ext) (src : Point) (midir : Direction) (mitype : missile_id)
    (micaster : mienemy_type) (id midam spllvl : Int) (monster : Monster) (missile : Missile) :
    Missile :=
  let missileData := ext.MissilesData mitype
  let missile : Missile :=
    { missile with
      _mitype := mitype,
      _micaster := micaster,
      _misource := id,
      _midam := midam,
      _mispllvl := spllvl,
      position := { missile.position with tile := src, start := src },
      _miAnimAdd := 1,
      _miAnimType := missileData.mFileNum,
      _miDrawFlag := missileData.mDraw,
      _mlid := ext.NO_LIGHT,
      lastCollisionTargetHash := 0 }
  let missile :=
    if ext.IsTrap missile = false ∧ micaster = mienemy_type.TARGET_PLAYERS then
      if monster._uniqtype ≠ 0 then { missile with _miUniqTrans := monster._uniqtrans + 1 }
      else missile
    else missile
  if missile._miAnimType = ext.MFILE_NONE
      ∨ (ext.MissileSpriteData missile._miAnimType).animFAmt < 8 then
    SetMissDir ext missile 0
  else
    SetMissDir ext missile midir

/-- The function `AddMissile` (lines 2563-2607).  The result is the returned
pointer (`none` for the null pointer) and the state after the call. -/
def AddMissile (ext : Ext) (cat : Catalog) (src dst : Point) (midir : Direction)
    (mitype : missile_id) (micaster : mienemy_type) (id midam spllvl : Int)
    (pParent : Option Nat) (s : GameState) : Option Nat × GameState :=
  if s.Missiles.length ≥ ext.max_size then (none, s) else
  let node := s.nextNode
  let s : GameState :=
    { s with Missiles := s.Missiles ++ [MissileNode.mk node {}], nextNode := node + 1 }
  let s := s.updateMissile node
    (AddMissile_init ext src midir mitype micaster id midam spllvl (s.Monsters id))
  let s :=
    if (ext.MissilesData mitype).mlSFX ≠ ext.SFX_NONE then
      s.call (Event.PlaySfxLoc (ext.MissilesData mitype).mlSFX src)
        (ext.PlaySfxLoc (ext.MissilesData mitype).mlSFX src)
    else s
  (some node, cat.mAddProc mitype node { dst := dst, midir := midir, pParent := pParent } s)

/-- The function `DeleteMissiles` (lines 3989-3992). -/
def DeleteMissiles (s : GameState) : GameState :=
  { s with Missiles := s.Missiles.filter (fun n => !n.val._miDelFlag) }

/-- The function `ProcessManaShield` (lines 3994-4001); `MyPlayer` points to
`Players[MyPlayerId]`. -/
def ProcessManaShield (ext : Ext) (s : GameState) : GameState :=
  let myPlayer := s.Players s.MyPlayerId
  if myPlayer.pManaShield = true ∧ myPlayer._pMana ≤ 0 then
    let s := { s with toWorld := s.toWorld.setPlayer s.MyPlayerId { myPlayer with pManaShield := false } }
    s.call Event.NetSendCmdRemShield ext.NetSendCmdRemShield
  else s

/-- The first loop of `ProcessMissiles` (lines 4005-4012): every missile on a
tile inside the dungeon has the `Missile` flag of its tile cleared, every other
missile is flagged deleted. -/
def ProcessMissiles_mark (ext : Ext) (s : GameState) : GameState :=
  let dFlags := s.Missiles.foldl
    (fun (d : Int → Int → List DungeonFlag) n =>
      if ext.InDungeonBounds n.val.position.tile = true then
        fun i j =>
          if i = n.val.position.tile.x ∧ j = n.val.position.tile.y then
            (d i j).filter (fun f => f ≠ DungeonFlag.Missile)
          else d i j
      else d)
    s.dFlags
  let Missiles := s.Missiles.map
    (fun n =>
      if ext.InDungeonBounds n.val.position.tile = true then n
      else { n with val := { n.val with _miDelFlag := true } })
  { s with dFlags := dFlags, Missiles := Missiles }

/-- The animation advance that `ProcessMissiles` applies to a missile after its
update (lines 4021-4033). -/
def ProcessMissiles_animate (missile : Missile) : Missile :=
  if missile._miAnimFlags = MissileDataFlags.NotAnimated then missile else
  let missile := { missile with _miAnimCnt := missile._miAnimCnt + 1 }
  if missile._miAnimCnt < missile._miAnimDelay then missile else
  let missile :=
    { missile with _miAnimCnt := 0, _miAnimFrame := missile._miAnimFrame + missile._miAnimAdd }
  if missile._miAnimFrame > missile._miAnimLen then { missile with _miAnimFrame := 1 }
  else if missile._miAnimFrame < 1 then { missile with _miAnimFrame := missile._miAnimLen }
  else missile

/-- The second loop of `ProcessMissiles` (lines 4018-4034), from the `i`-th node
of the registry on.  Update functions append to the registry and never erase
from it, so the iterator of the range-for loop is the position `i`; the loop
ends when `i` reaches the end of the registry as it is then.  The second
component lists the nodes the loop has visited, each with whether an update
function was invoked on it.  `fuel` bounds the number of iterations. -/
def ProcessMissiles_update (cat : Catalog) :
    Nat → Nat → GameState × List (Nat × Bool) → GameState × List (Nat × Bool)
  | 0, _, r => r
  | fuel + 1, i, (s, visited) =>
    match s.Missiles[i]? with
    | none => (s, visited)
    | some n =>
      let r : GameState × Bool :=
        match cat.mProc n.val._mitype with
        | some mProc => (mProc n.id s, true)
        | none => (s, false)
      ProcessMissiles_update cat fuel (i + 1)
        (r.1.updateMissile n.id ProcessMissiles_animate, visited ++ [(n.id, r.2)])

/-- The function `ProcessMissiles` (lines 4003-4038), together with the list of
the nodes visited by its second loop.  The registry never holds more than
`max(size, max_size)` missiles, which bounds the iterations of the loop. -/
def ProcessMissilesTrace (ext : Ext) (cat : Catalog) (s : GameState) :
    GameState × List (Nat × Bool) :=
  let s := ProcessMissiles_mark ext s
  let s := DeleteMissiles s
  let s := { s with MissilePreFlag := false }
  let r := ProcessMissiles_update cat (max s.Missiles.length ext.max_size) 0 (s, [])
  let s := ProcessManaShield ext r.1
  (DeleteMissiles s, r.2)

/-- The function `ProcessMissiles` (lines 4003-4038). -/
def ProcessMissiles (ext : Ext) (cat : Catalog) (s : GameState) : GameState :=
  (ProcessMissilesTrace ext cat s).1

/-! ## Initializers -/

/-- The constant `INT_MAX` of `<climits>`. -/
def INT_MAX : Int := 2147483647

/-- The constant `std::numeric_limits<uint16_t>::max()`. -/
def UINT16_MAX : Int := 65535

/-- Record a call of `AddLight` and apply its effect; the first component is
the light handle that the call returns. -/
def World.AddLight (ext : Ext) (position : Point) (radius : Int) (w : World) : Int × World :=
  ((ext.AddLight position radius w.toGlobals).1,
    { toGlobals := (ext.AddLight position radius w.toGlobals).2,
      trace := w.trace ++ [Event.AddLight position radius] })

/-- The missile behind the reference `Missile &` that an initializer or an
update function receives; the registry always holds the node of that
reference, the value for an absent node is never used. -/
def GameState.missile (s : GameState) (node : Nat) : Missile :=
  (s.getMissile node).getD {}

/-- The function `ScaleSpellEffect` (lines 49-56). -/
def ScaleSpellEffect (base spellLevel : Int) : Int :=
  (List.range spellLevel.toNat).foldl (fun base _ => base + base.tdiv 8) base

/-- The function `GenerateRndSum` (lines 58-66). -/
def GenerateRndSum (range iterations : Int) (w : World) : Int × World :=
  (List.range iterations.toNat).foldl
    (fun (r : Int × World) _ => (r.1 + (GenerateRnd range r.2).1, (GenerateRnd range r.2).2))
    (0, w)

/-- The function `PutMissile` (lines 121-136), on the missile `missile` that
the caller holds. -/
def PutMissile (ext : Ext) (missile : Missile) (s : GameState) : Missile × GameState :=
  let position := missile.position.tile
  let missile : Missile :=
    if ext.InDungeonBounds position = false then { missile with _miDelFlag := true } else missile
  if missile._miDelFlag = true then (missile, s) else
  let s : GameState :=
    { s with dFlags := fun i j =>
        if i = position.x ∧ j = position.y then DungeonFlag.Missile :: s.dFlags i j
        else s.dFlags i j }
  let s : GameState := if missile._miPreFlag = true then { s with MissilePreFlag := true } else s
  (missile, s)

/-- The validity test that `AddRune` hands to `FindClosestValidPosition`
(lines 566-580). -/
def AddRune_posOk (ext : Ext) (target : Point) (w : World) : Bool × World :=
  if ext.InDungeonBounds target = false then (false, w) else
  if ext.IsObjectAtPosition w.toGlobals target = true then (false, w) else
  if ext.TileContainsMissile w.toGlobals target = true then (false, w) else
  if ext.nSolidTable (w.dPiece target.x target.y) = true then (false, w) else
  (true, w)

/-- The function `AddRune` (lines 562-592).  The missile id stored in `var1` is
its number `missile_id.code`. -/
def AddRune (ext : Ext) (missile : Missile) (dst : Point) (missileID : missile_id) (w : World) :
    Missile × World :=
  if ext.LineClearMissile w.toGlobals missile.position.start dst = true then
    let r := ext.FindClosestValidPosition (AddRune_posOk ext) dst 0 9 w
    match r.1 with
    | some runePosition =>
      let missile : Missile :=
        { missile with position := { missile.position with tile := runePosition },
                       var1 := missileID.code }
      let l := World.AddLight ext missile.position.tile 8 r.2
      ({ missile with _mlid := l.1 }, l.2)
    | none => ({ missile with _miDelFlag := true }, r.2)
  else ({ missile with _miDelFlag := true }, w)

/-- The function `CheckIfTrig` (lines 594-601). -/
def CheckIfTrig (ext : Ext) (position : Point) (g : Globals) : Bool :=
  (List.range g.numtrigs.toNat).any
    (fun i => decide (ext.WalkingDistance (g.trigs i) position < 2))

/-- The function `GetSpellLevel` (lines 821-829). -/
def GetSpellLevel (playerId : Int) (sn : spell_id) (g : Globals) : Int :=
  if playerId ≠ g.MyPlayerId then 1 else
  max ((g.Players playerId)._pISplLvlAdd + (g.Players playerId)._pSplLvl.getD sn.code 0) 0

/-- The function `AddFireRune` (lines 1102-1105). -/
def AddFireRune (ext : Ext) (missile : Missile) (parameter : AddMissileParameter) (w : World) :
    Missile × World :=
  AddRune ext missile parameter.dst missile_id.MIS_HIVEEXP w

/-- The function `AddStoneRune` (lines 1124-1127). -/
def AddStoneRune (ext : Ext) (missile : Missile) (parameter : AddMissileParameter) (w : World) :
    Missile × World :=
  AddRune ext missile parameter.dst missile_id.MIS_STONE w

/-- The function `AddReflection` (lines 1129-1146); `wReflections` is a
`uint16_t`. -/
def AddReflection (ext : Ext) (missile : Missile) (_parameter : AddMissileParameter) (w : World) :
    Missile × World :=
  let missile : Missile := { missile with _miDelFlag := true }
  if missile._misource < 0 then (missile, w) else
  let player := w.Players missile._misource
  let add : Int := (if missile._mispllvl ≠ 0 then missile._mispllvl else 2) * player._pLevel
  let add : Int := if player.wReflections + add ≥ UINT16_MAX then 0 else add
  let player : Player := { player with wReflections := (player.wReflections + add) % 65536 }
  let w := w.setPlayer missile._misource player
  let w :=
    if missile._misource = w.MyPlayerId then
      w.call (Event.NetSendCmdParam1 true _cmd_id.CMD_SETREFLECT player.wReflections)
        (ext.NetSendCmdParam1 true _cmd_id.CMD_SETREFLECT player.wReflections)
    else w
  (missile, w.call (Event.UseMana missile._misource spell_id.SPL_REFLECT)
    (ext.UseMana missile._misource spell_id.SPL_REFLECT))

/-- The validity test that `AddBerserk` hands to `FindClosestValidPosition`
(lines 1156-1178); it draws from the random stream for a monster that resists
magic. -/
def AddBerserk_posOk (ext : Ext) (target : Point) (w : World) : Bool × World :=
  if ext.InDungeonBounds target = false then (false, w) else
  let monsterId : Int := (Int.natAbs (w.dMonster target.x target.y) : Int) - 1
  if monsterId < 0 then (false, w) else
  let monster := w.Monsters monsterId
  if monster.MType.mtype = _monster_id.MT_GOLEM then (false, w) else
  if HasAnyOf monster._mFlags monster_flag.MFLAG_BERSERK = true then (false, w) else
  if monster._uniqtype ≠ 0 ∨ monster._mAi = _mai_id.AI_DIABLO then (false, w) else
  if monster._mmode = MonsterMode.FadeIn ∨ monster._mmode = MonsterMode.FadeOut
      ∨ monster._mmode = MonsterMode.Charge then (false, w) else
  if monster.mMagicRes &&& ext.IMMUNE_MAGIC ≠ 0 then (false, w) else
  if monster.mMagicRes &&& ext.RESIST_MAGIC ≠ 0 then
    if monster.mMagicRes &&& ext.RESIST_MAGIC ≠ 1 then (false, w)
    else if (GenerateRnd 2 w).1 ≠ 0 then (false, (GenerateRnd 2 w).2)
    else (true, (GenerateRnd 2 w).2)
  else (true, w)

/-- The part of `AddBerserk` that enrages the monster found at
`targetMonsterPosition` (lines 1182-1193). -/
def AddBerserk_enrage (ext : Ext) (missile : Missile) (targetMonsterPosition : Point) (w : World) :
    World :=
  let monsterId : Int :=
    (Int.natAbs (w.dMonster targetMonsterPosition.x targetMonsterPosition.y) : Int) - 1
  let monster := w.Monsters monsterId
  let slvl := GetSpellLevel missile._misource spell_id.SPL_BERSERK w.toGlobals
  let monster : Monster :=
    { monster with
      _mFlags := monster_flag.MFLAG_BERSERK :: monster_flag.MFLAG_GOLEM :: monster._mFlags }
  let g := GenerateRnd 10 w
  let monster : Monster :=
    { monster with mMinDamage := ((g.1 + 120) * monster.mMinDamage).tdiv 100 + slvl }
  let g := GenerateRnd 10 g.2
  let monster : Monster :=
    { monster with mMaxDamage := ((g.1 + 120) * monster.mMaxDamage).tdiv 100 + slvl }
  let g := GenerateRnd 10 g.2
  let monster : Monster :=
    { monster with mMinDamage2 := ((g.1 + 120) * monster.mMinDamage2).tdiv 100 + slvl }
  let g := GenerateRnd 10 g.2
  let monster : Monster :=
    { monster with mMaxDamage2 := ((g.1 + 120) * monster.mMaxDamage2).tdiv 100 + slvl }
  let w := g.2.setMonster monsterId monster
  let lightRadius : Int := if w.currlevel < 17 ∨ w.currlevel > 20 then 3 else 9
  let l := World.AddLight ext monster.position.tile lightRadius w
  let w := l.2.setMonster monsterId { l.2.Monsters monsterId with mlid := l.1 }
  w.call (Event.UseMana missile._misource spell_id.SPL_BERSERK)
    (ext.UseMana missile._misource spell_id.SPL_BERSERK)

/-- The function `AddBerserk` (lines 1148-1195). -/
def AddBerserk (ext : Ext) (missile : Missile) (parameter : AddMissileParameter) (w : World) :
    Missile × World :=
  let missile : Missile := { missile with _miDelFlag := true }
  if missile._misource < 0 then (missile, w) else
  let r := ext.FindClosestValidPosition (AddBerserk_posOk ext) parameter.dst 0 5 w
  match r.1 with
  | some targetMonsterPosition => (missile, AddBerserk_enrage ext missile targetMonsterPosition r.2)
  | none => (missile, r.2)

/-- The function `AddMana` (lines 1460-1484). -/
def AddMana (ext : Ext) (missile : Missile) (_parameter : AddMissileParameter) (w : World) :
    Missile × World :=
  let player := w.Players missile._misource
  let g := GenerateRnd 10 w
  let r : Int × World :=
    (List.range player._pLevel.toNat).foldl
      (fun (r : Int × World) _ =>
        (r.1 + ((GenerateRnd 4 r.2).1 + 1) * 64, (GenerateRnd 4 r.2).2))
      ((g.1 + 1) * 64, g.2)
  let r : Int × World :=
    (List.range missile._mispllvl.toNat).foldl
      (fun (r : Int × World) _ =>
        (r.1 + ((GenerateRnd 6 r.2).1 + 1) * 64, (GenerateRnd 6 r.2).2))
      r
  let manaAmount := r.1
  let w := r.2
  let manaAmount := if player._pClass = HeroClass.Sorcerer then manaAmount * 2 else manaAmount
  let manaAmount :=
    if player._pClass = HeroClass.Rogue ∨ player._pClass = HeroClass.Bard then
      manaAmount + manaAmount.tdiv 2
    else manaAmount
  let player : Player := { player with _pMana := player._pMana + manaAmount }
  let player : Player :=
    if player._pMana > player._pMaxMana then { player with _pMana := player._pMaxMana } else player
  let player : Player := { player with _pManaBase := player._pManaBase + manaAmount }
  let player : Player :=
    if player._pManaBase > player._pMaxManaBase then
      { player with _pManaBase := player._pMaxManaBase }
    else player
  let w := w.setPlayer missile._misource player
  let w := w.call (Event.UseMana missile._misource spell_id.SPL_MANA)
    (ext.UseMana missile._misource spell_id.SPL_MANA)
  ({ missile with _miDelFlag := true }, { w with drawmanaflag := true })

/-- The function `AddSearch` (lines 1506-1527).  The loop over `Missiles` stops
at the first other search missile of the same source. -/
def AddSearch (ext : Ext) (node : Nat) (_parameter : AddMissileParameter) (s : GameState) :
    GameState :=
  match s.getMissile node with
  | none => s
  | some missile =>
    let s : GameState :=
      if missile._misource = s.MyPlayerId then { s with AutoMapShowItems := true } else s
    let lvl : Int :=
      if missile._misource ≥ 0 then (s.Players missile._misource)._pLevel * 2 else 2
    let missile : Missile := { missile with _mirange := lvl + 10 * missile._mispllvl + 245 }
    let s : GameState :=
      if missile._micaster = mienemy_type.TARGET_MONSTERS then
        s.call (Event.UseMana missile._misource spell_id.SPL_SEARCH)
          (ext.UseMana missile._misource spell_id.SPL_SEARCH)
      else s
    match s.Missiles.find? (fun other =>
        decide (other.id ≠ node ∧ other.val._misource = missile._misource
          ∧ other.val._mitype = missile_id.MIS_SEARCH)) with
    | some other =>
      let r1 := missile._mirange
      let r2 := other.val._mirange
      let s : GameState :=
        if r2 < INT_MAX - r1 then
          s.updateMissile other.id (fun o => { o with _mirange := r1 + r2 })
        else s
      s.updateMissile node (fun _ => { missile with _miDelFlag := true })
    | none => s.updateMissile node (fun _ => missile)

/-- The validity test that `AddTeleport` hands to `FindClosestValidPosition`
(lines 1718-1720). -/
def AddTeleport_posOk (ext : Ext) (source : Int) (target : Point) (w : World) : Bool × World :=
  (ext.PosOkPlayer w.toGlobals (w.Players source) target, w)

/-- The function `AddTeleport` (lines 1715-1731). -/
def AddTeleport (ext : Ext) (missile : Missile) (parameter : AddMissileParameter) (w : World) :
    Missile × World :=
  let r := ext.FindClosestValidPosition (AddTeleport_posOk ext missile._misource) parameter.dst 0 5 w
  match r.1 with
  | some teleportDestination =>
    let missile : Missile :=
      { missile with
        position := { missile.position with tile := teleportDestination,
                                            start := teleportDestination } }
    let w := r.2.call (Event.UseMana missile._misource spell_id.SPL_TELEPORT)
      (ext.UseMana missile._misource spell_id.SPL_TELEPORT)
    ({ missile with _mirange := 2 }, w)
  | none => ({ missile with _miDelFlag := true }, r.2)

/-- The function `AddWeapexp` (lines 1842-1850). -/
def AddWeapexp (ext : Ext) (missile : Missile) (parameter : AddMissileParameter) (w : World) :
    Missile × World :=
  let missile : Missile := { missile with var2 := parameter.dst.x }
  let missile :=
    if parameter.dst.x = 1 then SetMissAnim ext missile ext.MFILE_MAGBLOS
    else SetMissAnim ext missile ext.MFILE_MINILTNG
  ({ missile with _mirange := missile._miAnimLen - 1 }, w)

/-- The validity test that `AddTown` hands to `FindClosestValidPosition`
(lines 1859-1878). -/
def AddTown_posOk (ext : Ext) (target : Point) (w : World) : Bool × World :=
  if ext.InDungeonBounds target = false then (false, w) else
  if ext.IsObjectAtPosition w.toGlobals target = true then (false, w) else
  if w.dPlayer target.x target.y ≠ 0 then (false, w) else
  if ext.TileContainsMissile w.toGlobals target = true then (false, w) else
  if ext.nSolidTable (w.dPiece target.x target.y) = true
      ∨ ext.nMissileTable (w.dPiece target.x target.y) = true then (false, w) else
  (!CheckIfTrig ext target w.toGlobals, w)

/-- The first part of `AddTown` (lines 1854-1887): the portal is placed at the
target in town, and at the position found by the search elsewhere. -/
def AddTown_place (ext : Ext) (missile : Missile) (parameter : AddMissileParameter)
    (s : GameState) : Missile × GameState :=
  if s.currlevel = 0 then
    ({ missile with
        position := { missile.position with tile := parameter.dst, start := parameter.dst } },
      s)
  else
    let f := ext.FindClosestValidPosition (AddTown_posOk ext) parameter.dst 0 5 s.toWorld
    match f.1 with
    | some targetPosition =>
      ({ missile with
          position := { missile.position with tile := targetPosition, start := targetPosition },
          _miDelFlag := false },
        { s with toWorld := f.2 })
    | none => ({ missile with _miDelFlag := true }, { s with toWorld := f.2 })

/-- The last part of `AddTown` (lines 1897-1903): the portal is announced to
the other players. -/
def AddTown_activate (ext : Ext) (missile : Missile) (s : GameState) : GameState :=
  if missile._misource = s.MyPlayerId ∧ missile._miDelFlag = false ∧ s.currlevel ≠ 0 then
    if s.setlevel = false then
      s.call (Event.NetSendCmdLocParam3 true _cmd_id.CMD_ACTIVATEPORTAL missile.position.tile
          s.currlevel s.leveltype 0)
        (ext.NetSendCmdLocParam3 true _cmd_id.CMD_ACTIVATEPORTAL missile.position.tile
          s.currlevel s.leveltype 0)
    else
      s.call (Event.NetSendCmdLocParam3 true _cmd_id.CMD_ACTIVATEPORTAL missile.position.tile
          s.setlvlnum s.leveltype 1)
        (ext.NetSendCmdLocParam3 true _cmd_id.CMD_ACTIVATEPORTAL missile.position.tile
          s.setlvlnum s.leveltype 1)
  else s

/-- The function `AddTown` (lines 1852-1904). -/
def AddTown (ext : Ext) (node : Nat) (parameter : AddMissileParameter) (s : GameState) :
    GameState :=
  match s.getMissile node with
  | none => s
  | some missile =>
    let r := AddTown_place ext missile parameter s
    let missile : Missile := { r.1 with _mirange := 100 }
    let missile : Missile := { missile with var1 := missile._mirange - missile._miAnimLen }
    let s : GameState :=
      { r.2 with Missiles := r.2.Missiles.map (fun other =>
          if other.val._mitype = missile_id.MIS_TOWN ∧ other.id ≠ node
              ∧ other.val._misource = missile._misource then
            { other with val := { other.val with _mirange := 0 } }
          else other) }
    let p := PutMissile ext missile s
    (AddTown_activate ext p.1 p.2).updateMissile node (fun _ => p.1)

/-- The validity test that `AddGuardian` hands to `FindClosestValidPosition`
(lines 1976-1997); `start` is the captured `missile.position.start`. -/
def AddGuardian_posOk (ext : Ext) (start target : Point) (w : World) : Bool × World :=
  if ext.InDungeonBounds target = false then (false, w) else
  if w.dMonster target.x target.y ≠ 0 then (false, w) else
  if ext.IsObjectAtPosition w.toGlobals target = true then (false, w) else
  if ext.TileContainsMissile w.toGlobals target = true then (false, w) else
  if ext.nSolidTable (w.dPiece target.x target.y) = true
      ∨ ext.nMissileTable (w.dPiece target.x target.y) = true then (false, w) else
  (ext.LineClearMissile w.toGlobals start target, w)

/-- The range that `AddGuardian` gives a guardian (lines 2010-2017); `player`
is `Players[missile._misource]`. -/
def AddGuardian_range (missile : Missile) (player : Player) : Int :=
  let range := missile._mispllvl + player._pLevel.tdiv 2
  let range := range + (range * player._pISplDur).tdiv 128
  let range := if range > 30 then 30 else range
  let range := range * 16
  if range < 30 then 30 else range

/-- The function `AddGuardian` (lines 1968-2021). -/
def AddGuardian (ext : Ext) (missile : Missile) (parameter : AddMissileParameter) (w : World) :
    Missile × World :=
  let g := GenerateRnd 10 w
  let dmg := g.1 + (g.2.Players missile._misource)._pLevel.tdiv 2 + 1
  let missile : Missile := { missile with _midam := ScaleSpellEffect dmg missile._mispllvl }
  let r := ext.FindClosestValidPosition (AddGuardian_posOk ext missile.position.start)
    parameter.dst 0 5 g.2
  match r.1 with
  | none => ({ missile with _miDelFlag := true }, r.2)
  | some spawnPosition =>
    let missile : Missile :=
      { missile with
        _miDelFlag := false,
        position := { missile.position with tile := spawnPosition, start := spawnPosition } }
    let w := r.2.call (Event.UseMana missile._misource spell_id.SPL_GUARDIAN)
      (ext.UseMana missile._misource spell_id.SPL_GUARDIAN)
    let l := World.AddLight ext missile.position.tile 1 w
    let missile : Missile := { missile with _mlid := l.1 }
    let missile : Missile :=
      { missile with _mirange := AddGuardian_range missile (l.2.Players missile._misource) }
    ({ missile with var1 := missile._mirange - missile._miAnimLen, var3 := 1 }, l.2)

/-- The validity test that `AddStone` hands to `FindClosestValidPosition`
(lines 2127-2148). -/
def AddStone_posOk (ext : Ext) (target : Point) (w : World) : Bool × World :=
  if ext.InDungeonBounds target = false then (false, w) else
  let monsterId : Int := (Int.natAbs (w.dMonster target.x target.y) : Int) - 1
  if monsterId < 0 then (false, w) else
  let monster := w.Monsters monsterId
  if monster.MType.mtype = _monster_id.MT_GOLEM ∨ monster.MType.mtype = _monster_id.MT_DIABLO
      ∨ monster.MType.mtype = _monster_id.MT_NAKRUL then (false, w) else
  if monster._mmode = MonsterMode.FadeIn ∨ monster._mmode = MonsterMode.FadeOut
      ∨ monster._mmode = MonsterMode.Charge then (false, w) else
  (true, w)

/-- The function `AddStone` (lines 2124-2172). -/
def AddStone (ext : Ext) (missile : Missile) (parameter : AddMissileParameter) (w : World) :
    Missile × World :=
  let r := ext.FindClosestValidPosition (AddStone_posOk ext) parameter.dst 0 5 w
  match r.1 with
  | none => ({ missile with _miDelFlag := true }, r.2)
  | some targetMonsterPosition =>
    let w := r.2
    let monsterId : Int :=
      (Int.natAbs (w.dMonster targetMonsterPosition.x targetMonsterPosition.y) : Int) - 1
    let monster := w.Monsters monsterId
    let missile : Missile :=
      { missile with var1 := ext.MonsterMode_toInt monster._mmode, var2 := monsterId }
    let w := w.setMonster monsterId (ext.Petrify monster)
    let missile : Missile :=
      { missile with
        position := { missile.position with tile := targetMonsterPosition,
                                            start := targetMonsterPosition } }
    let missile : Missile := { missile with _mirange := missile._mispllvl + 6 }
    let missile : Missile :=
      { missile with
        _mirange := missile._mirange
          + (missile._mirange * (w.Players missile._misource)._pISplDur).tdiv 128 }
    let missile : Missile :=
      if missile._mirange > 15 then { missile with _mirange := 15 } else missile
    let missile : Missile := { missile with _mirange := missile._mirange * 16 }
    (missile, w.call (Event.UseMana missile._misource spell_id.SPL_STONE)
      (ext.UseMana missile._misource spell_id.SPL_STONE))

/-- The function `AddHeal` (lines 2210-2231). -/
def AddHeal (ext : Ext) (missile : Missile) (_parameter : AddMissileParameter) (w : World) :
    Missile × World :=
  let player := w.Players missile._misource
  let g := GenerateRnd 10 w
  let hp := g.1 + 1
  let g := GenerateRndSum 4 player._pLevel g.2
  let hp := hp + (g.1 + player._pLevel)
  let g := GenerateRndSum 6 missile._mispllvl g.2
  let hp := hp + (g.1 + missile._mispllvl)
  let hp := hp * 64
  let hp :=
    if player._pClass = HeroClass.Warrior ∨ player._pClass = HeroClass.Barbarian
        ∨ player._pClass = HeroClass.Monk then hp * 2
    else if player._pClass = HeroClass.Rogue ∨ player._pClass = HeroClass.Bard then
      hp + hp.tdiv 2
    else hp
  let player : Player :=
    { player with _pHitPoints := min (player._pHitPoints + hp) player._pMaxHP }
  let player : Player := { player with _pHPBase := min (player._pHPBase + hp) player._pMaxHPBase }
  let w := g.2.setPlayer missile._misource player
  let w := w.call (Event.UseMana missile._misource spell_id.SPL_HEAL)
    (ext.UseMana missile._misource spell_id.SPL_HEAL)
  ({ missile with _miDelFlag := true }, { w with drawhpflag := true })

/-- The function `AddIdentify` (lines 2267-2281). -/
def AddIdentify (ext : Ext) (missile : Missile) (_parameter : AddMissileParameter) (w : World) :
    Missile × World :=
  let missile : Missile := { missile with _miDelFlag := true }
  let w := w.call (Event.UseMana missile._misource spell_id.SPL_IDENTIFY)
    (ext.UseMana missile._misource spell_id.SPL_IDENTIFY)
  if missile._misource = w.MyPlayerId then
    let w : World := if w.sbookflag = true then { w with sbookflag := false } else w
    let w : World :=
      if w.invflag = false then
        let w : World := { w with invflag := true }
        if w.ControlMode ≠ ControlTypes.KeyboardAndMouse then
          w.call Event.FocusOnInventory ext.FocusOnInventory
        else w
      else w
    (missile, w.call (Event.NewCursor ext.CURSOR_IDENTIFY) (ext.NewCursor ext.CURSOR_IDENTIFY))
  else (missile, w)

/-- The validity test that `AddFirewallC` hands to `FindClosestValidPosition`
(lines 2286-2288); `start` is the captured `missile.position.start`. -/
def AddFirewallC_posOk (ext : Ext) (start target : Point) (w : World) : Bool × World :=
  (decide (start ≠ target) && ext.IsTileNotSolid w.toGlobals target
    && !ext.IsObjectAtPosition w.toGlobals target
    && ext.LineClearMissile w.toGlobals start target, w)

/-- The function `AddFirewallC` (lines 2283-2305). -/
def AddFirewallC (ext : Ext) (missile : Missile) (parameter : AddMissileParameter) (w : World) :
    Missile × World :=
  let r := ext.FindClosestValidPosition (AddFirewallC_posOk ext missile.position.start)
    parameter.dst 0 5 w
  match r.1 with
  | none => ({ missile with _miDelFlag := true }, r.2)
  | some spreadPosition =>
    let missile : Missile :=
      { missile with
        _miDelFlag := false,
        var1 := spreadPosition.x,
        var2 := spreadPosition.y,
        var5 := spreadPosition.x,
        var6 := spreadPosition.y,
        var3 := ext.Left (ext.Left parameter.midir),
        var4 := ext.Right (ext.Right parameter.midir),
        _mirange := 7 }
    (missile, r.2.call (Event.UseMana missile._misource spell_id.SPL_FIREWALL)
      (ext.UseMana missile._misource spell_id.SPL_FIREWALL))

/-- The function `AddClassHealingBonus` (lines 34-47). -/
def AddClassHealingBonus (hp : Int) (heroClass : HeroClass) : Int :=
  match heroClass with
  | HeroClass.Warrior | HeroClass.Monk | HeroClass.Barbarian => hp * 2
  | HeroClass.Rogue | HeroClass.Bard => hp + hp.tdiv 2
  | _ => hp

/-- The function `GetDamageAmt` (lines 699-819).  The parameter `i` is the `int`
value of a `spell_id`, which indexes `_pSplLvl`; the two results are the values
that the call leaves in `*mind` and `*maxd`, which hold `mind` and `maxd` before
the call. -/
def GetDamageAmt (i : spell_id) (mind maxd : Int) (g : Globals) : Int × Int :=
  let myPlayer := g.Players g.MyPlayerId
  let sl := myPlayer._pSplLvl.getD i.code 0 + myPlayer._pISplLvlAdd
  match i with
  | spell_id.SPL_FIREBOLT =>
    let mind := myPlayer._pMagic.tdiv 8 + sl + 1
    (mind, mind + 9)
  | spell_id.SPL_HEAL | spell_id.SPL_HEALOTHER =>
    (AddClassHealingBonus (myPlayer._pLevel + sl + 1) myPlayer._pClass - 1,
      AddClassHealingBonus (4 * myPlayer._pLevel + 6 * sl + 10) myPlayer._pClass - 1)
  | spell_id.SPL_LIGHTNING | spell_id.SPL_RUNELIGHT => (2, 2 + myPlayer._pLevel)
  | spell_id.SPL_FLASH =>
    let mind := ScaleSpellEffect myPlayer._pLevel sl
    let mind := mind + mind.tdiv 2
    (mind, mind * 2)
  | spell_id.SPL_IDENTIFY | spell_id.SPL_TOWN | spell_id.SPL_STONE | spell_id.SPL_INFRA
  | spell_id.SPL_RNDTELEPORT | spell_id.SPL_MANASHIELD | spell_id.SPL_DOOMSERP
  | spell_id.SPL_BLODRIT | spell_id.SPL_INVISIBIL | spell_id.SPL_BLODBOIL | spell_id.SPL_TELEPORT
  | spell_id.SPL_ETHEREALIZE | spell_id.SPL_REPAIR | spell_id.SPL_RECHARGE | spell_id.SPL_DISARM
  | spell_id.SPL_RESURRECT | spell_id.SPL_TELEKINESIS | spell_id.SPL_BONESPIRIT | spell_id.SPL_WARP
  | spell_id.SPL_REFLECT | spell_id.SPL_BERSERK | spell_id.SPL_SEARCH | spell_id.SPL_RUNESTONE =>
    (-1, -1)
  | spell_id.SPL_FIREWALL | spell_id.SPL_LIGHTWALL | spell_id.SPL_FIRERING =>
    let mind := 2 * myPlayer._pLevel + 4
    (mind, mind + 36)
  | spell_id.SPL_FIREBALL | spell_id.SPL_RUNEFIRE =>
    let base := 2 * myPlayer._pLevel + 4
    (ScaleSpellEffect base sl, ScaleSpellEffect (base + 36) sl)
  | spell_id.SPL_GUARDIAN =>
    let base := myPlayer._pLevel.tdiv 2 + 1
    (ScaleSpellEffect base sl, ScaleSpellEffect (base + 9) sl)
  | spell_id.SPL_CHAIN => (4, 4 + 2 * myPlayer._pLevel)
  | spell_id.SPL_WAVE =>
    let mind := 6 * (myPlayer._pLevel + 1)
    (mind, mind + 54)
  | spell_id.SPL_NOVA | spell_id.SPL_IMMOLAT | spell_id.SPL_RUNEIMMOLAT | spell_id.SPL_RUNENOVA =>
    (ScaleSpellEffect ((myPlayer._pLevel + 5).tdiv 2) sl * 5,
      ScaleSpellEffect ((myPlayer._pLevel + 30).tdiv 2) sl * 5)
  | spell_id.SPL_FLAME =>
    let maxd := myPlayer._pLevel + 4
    (3, maxd + maxd.tdiv 2)
  | spell_id.SPL_GOLEM => (11, 17)
  | spell_id.SPL_APOCA => (myPlayer._pLevel, myPlayer._pLevel * 6)
  | spell_id.SPL_ELEMENT =>
    (ScaleSpellEffect (2 * myPlayer._pLevel + 4) sl, ScaleSpellEffect (2 * myPlayer._pLevel + 40) sl)
  | spell_id.SPL_CBOLT => (1, 1 + myPlayer._pMagic.tdiv 4)
  | spell_id.SPL_HBOLT =>
    let mind := myPlayer._pLevel + 9
    (mind, mind + 9)
  | spell_id.SPL_FLARE =>
    let mind := myPlayer._pMagic.tdiv 2 + 3 * sl - myPlayer._pMagic.tdiv 8
    (mind, mind)
  | _ => (mind, maxd)

/-- The operator `Point - Point`, componentwise. -/
def Point.sub (a b : Point) : Displacement :=
  { deltaX := a.x - b.x, deltaY := a.y - b.y }

/-- The function `UpdateMissileVelocity` (lines 103-115). -/
def UpdateMissileVelocity (ext : Ext) (missile : Missile) (destination : Point)
    (velocityInPixels : Int) : Missile :=
  let missile : Missile :=
    { missile with position := { missile.position with velocity := { deltaX := 0, deltaY := 0 } } }
  if missile.position.tile = destination then missile else
  let fixed16NormalVector := ext.worldToNormalScreen (missile.position.tile.sub destination)
  { missile with
    position := { missile.position with velocity := fixed16NormalVector.mul velocityInPixels } }

/-- The function `AddElement` (lines 2244-2263). -/
def AddElement (ext : Ext) (missile : Missile) (parameter : AddMissileParameter) (w : World) :
    Missile × World :=
  let dst := parameter.dst
  let dst := if missile.position.start = dst then ext.PointAddDirection dst parameter.midir else dst
  let g := GenerateRndSum 10 2 w
  let dmg := 2 * ((w.Players missile._misource)._pLevel + g.1) + 4
  let missile : Missile :=
    { missile with _midam := (ScaleSpellEffect dmg missile._mispllvl).tdiv 2 }
  let missile := UpdateMissileVelocity ext missile dst 16
  let missile := SetMissDir ext missile (ext.GetDirection missile.position.start dst)
  let missile : Missile :=
    { missile with
      _mirange := 256,
      var1 := missile.position.start.x,
      var2 := missile.position.start.y,
      var4 := dst.x,
      var5 := dst.y }
  let l := World.AddLight ext missile.position.start 8 g.2
  let missile : Missile := { missile with _mlid := l.1 }
  (missile, l.2.call (Event.UseMana missile._misource spell_id.SPL_ELEMENT)
    (ext.UseMana missile._misource spell_id.SPL_ELEMENT))

/-- The function `abs(Displacement)`, componentwise. -/
def Displacement.abs (a : Displacement) : Displacement :=
  { deltaX := (Int.natAbs a.deltaX : Int), deltaY := (Int.natAbs a.deltaY : Int) }

/-- The function `Direction16Flip` (lines 96-101), on the integer values of the
enumerators. -/
def Direction16Flip (x pivot : Int) : Int :=
  (2 * pivot + 16 - x).tmod 16

/-- The function `GetDirection16` (lines 831-865); the result is the integer
value of the `Direction16` that the function returns. -/
def GetDirection16 (ext : Ext) (p1 p2 : Point) : Int :=
  let offset := p2.sub p1
  let absolute := offset.abs
  let flipY : Bool := offset.deltaX != absolute.deltaX
  let flipX : Bool := offset.deltaY != absolute.deltaY
  let flipMedian : Bool := decide (absolute.deltaX > absolute.deltaY)
  let absolute : Displacement :=
    if absolute.deltaX > absolute.deltaY then
      { deltaX := absolute.deltaY, deltaY := absolute.deltaX }
    else absolute
  let ret := ext.Direction16_South
  let ret :=
    if 3 * absolute.deltaX ≤ absolute.deltaY * 2 then
      if 5 * absolute.deltaX < absolute.deltaY then ext.Direction16_SouthWest
      else ext.Direction16_South_SouthWest
    else ret
  let medianPivot := ext.Direction16_South
  let ret := if flipY = true then Direction16Flip ret ext.Direction16_SouthWest else ret
  let medianPivot :=
    if flipY = true then Direction16Flip medianPivot ext.Direction16_SouthWest else medianPivot
  let ret := if flipX = true then Direction16Flip ret ext.Direction16_SouthEast else ret
  let medianPivot :=
    if flipX = true then Direction16Flip medianPivot ext.Direction16_SouthEast else medianPivot
  if flipMedian = true then Direction16Flip ret medianPivot else ret

/-- The tiles that the three loops of `UpdateVileMissPos` (lines 1621-1625) run
through, in order. -/
def UpdateVileMissPos_tiles (dst : Point) : List Point :=
  (List.range 49).flatMap fun (k : Nat) =>
    (List.range (2 * (k + 1) + 1)).flatMap fun (j : Nat) =>
      (List.range (2 * (k + 1) + 1)).map fun (i : Nat) =>
        { x := (i : Int) - ((k : Int) + 1) + dst.x, y := (j : Int) - ((k : Int) + 1) + dst.y }

/-- The function `UpdateVileMissPos` (lines 1619-1633). -/
def UpdateVileMissPos (ext : Ext) (missile : Missile) (dst : Point) (g : Globals) : Missile :=
  match (UpdateVileMissPos_tiles dst).find?
      (fun p => ext.PosOkPlayer g (g.Players g.MyPlayerId) p) with
  | some p => { missile with position := { missile.position with tile := p } }
  | none => missile

/-- The offsets that the two loops of `AddRndTeleport` (lines 1651-1652) run
through, in order: `y` from -6 to 6 and, for each `y`, `x` from -6 to 6. -/
def AddRndTeleport_offsets : List Displacement :=
  (List.range 13).flatMap fun (j : Nat) =>
    (List.range 13).map fun (i : Nat) => { deltaX := (i : Int) - 6, deltaY := (j : Int) - 6 }

/-- The local variables of the loops of `AddRndTeleport`: the array `targets`,
the counter `count`, and a record of the writes `targets[count] = target` made
so far, each with its index and the tile written. -/
structure AddRndTeleportState where
  targets : Int → Point := fun _ => {}
  count : Int := 0
  writes : List (Int × Point) := []

/-- The body of the inner loop of `AddRndTeleport` (lines 1653-1661) for the
offset `d` = `(x, y)`. -/
def AddRndTeleport_step (ext : Ext) (g : Globals) (player : Player) (start : Point)
    (st : AddRndTeleportState) (d : Displacement) : AddRndTeleportState :=
  if (d.deltaX ≥ -3 ∧ d.deltaX ≤ 3) ∨ (d.deltaY ≥ -3 ∧ d.deltaY ≤ 3) then st else
  let target := start.addDisplacement d
  if ext.PosOkPlayer g player target = false then st else
  { targets := fun i => if i = st.count then target else st.targets i,
    count := st.count + 1,
    writes := st.writes ++ [(st.count, target)] }

/-- The function `AddRndTeleport` (lines 1635-1674), together with the writes
into the array `targets` and the index of the read from it, if one is made.
The entries of `targets` that are never written hold the default point. -/
def AddRndTeleportTrace (ext : Ext) (missile : Missile) (parameter : AddMissileParameter)
    (w : World) : (Missile × World) × List (Int × Point) × Option Int :=
  let missile : Missile := { missile with _mirange := 2 }
  let player := w.Players missile._misource
  if missile._micaster = mienemy_type.TARGET_BOTH then
    let missile : Missile :=
      { missile with position := { missile.position with tile := parameter.dst } }
    if ext.PosOkPlayer w.toGlobals player parameter.dst = false then
      ((UpdateVileMissPos ext missile parameter.dst w.toGlobals, w), [], none)
    else ((missile, w), [], none)
  else
  let st := AddRndTeleport_offsets.foldl
    (AddRndTeleport_step ext w.toGlobals player missile.position.start) {}
  if st.count = 0 then (({ missile with _miDelFlag := true }, w), st.writes, none) else
  let g := GenerateRnd st.count w
  let index := max g.1 0
  let missile : Missile :=
    { missile with position := { missile.position with tile := st.targets index } }
  let w := g.2
  if missile._micaster = mienemy_type.TARGET_MONSTERS then
    ((missile, w.call (Event.UseMana missile._misource spell_id.SPL_RNDTELEPORT)
      (ext.UseMana missile._misource spell_id.SPL_RNDTELEPORT)), st.writes, some index)
  else ((missile, w), st.writes, some index)

/-- The function `AddRndTeleport` (lines 1635-1674). -/
def AddRndTeleport (ext : Ext) (missile : Missile) (parameter : AddMissileParameter)
    (w : World) : Missile × World :=
  (AddRndTeleportTrace ext missile parameter w).1

/-- The function `AddCboltArrow` (lines 1529-1546). -/
def AddCboltArrow (ext : Ext) (missile : Missile) (parameter : AddMissileParameter) (w : World) :
    Missile × World :=
  let dst := parameter.dst
  let g := GenerateRnd 15 w
  let missile : Missile := { missile with _mirnd := g.1 + 1 }
  let missile : Missile :=
    if missile._micaster ≠ mienemy_type.TARGET_MONSTERS then { missile with _midam := 15 }
    else missile
  let dst := if missile.position.start = dst then ext.PointAddDirection dst parameter.midir else dst
  let f := GenerateRnd 8 g.2
  let missile : Missile := { missile with _miAnimFrame := f.1 + 1 }
  let l := World.AddLight ext missile.position.start 5 f.2
  let missile : Missile := { missile with _mlid := l.1 }
  let missile := UpdateMissileVelocity ext missile dst 8
  ({ missile with var1 := 5, var2 := parameter.midir, _mirange := 256 }, l.2)

/-- The function `AddCbolt` (lines 2456-2472). -/
def AddCbolt (ext : Ext) (missile : Missile) (parameter : AddMissileParameter) (w : World) :
    Missile × World :=
  let dst := parameter.dst
  let g := GenerateRnd 15 w
  let missile : Missile := { missile with _mirnd := g.1 + 1 }
  let d : Int × World :=
    if missile._micaster = mienemy_type.TARGET_MONSTERS then
      ((GenerateRnd ((g.2.Players missile._misource)._pMagic.tdiv 4) g.2).1 + 1,
        (GenerateRnd ((g.2.Players missile._misource)._pMagic.tdiv 4) g.2).2)
    else (15, g.2)
  let missile : Missile := { missile with _midam := d.1 }
  let dst := if missile.position.start = dst then ext.PointAddDirection dst parameter.midir else dst
  let f := GenerateRnd 8 d.2
  let missile : Missile := { missile with _miAnimFrame := f.1 + 1 }
  let l := World.AddLight ext missile.position.start 5 f.2
  let missile : Missile := { missile with _mlid := l.1 }
  let missile := UpdateMissileVelocity ext missile dst 8
  ({ missile with var1 := 5, var2 := parameter.midir, _mirange := 256 }, l.2)

/-- Record the entry into an embedded function, on a game state. -/
def GameState.enter (s : GameState) (ev : Event) : GameState :=
  { s with toWorld := s.toWorld.enter ev }

/-- A call of `AddMissile` made by an update function: the call is recorded in
the trace with its source tile, its target tile and the missile type, and then
made. -/
def SpawnMissile (ext : Ext) (cat : Catalog) (src dst : Point) (midir : Direction)
    (mitype : missile_id) (micaster : mienemy_type) (id midam spllvl : Int)
    (pParent : Option Nat) (s : GameState) : Option Nat × GameState :=
  AddMissile ext cat src dst midir mitype micaster id midam spllvl pParent
    (s.enter (Event.AddMissile src dst mitype))

/-- The function `MI_Rune` (lines 2968-2984).  `AddMissile` runs the
initializer of the spawned missile, so every access to the rune goes through
its node in the registry. -/
def MI_Rune (ext : Ext) (cat : Catalog) (node : Nat) (s : GameState) : GameState :=
  let position := (s.missile node).position.tile
  let mid := s.dMonster position.x position.y
  let pid := s.dPlayer position.x position.y
  let s : GameState :=
    if mid ≠ 0 ∨ pid ≠ 0 then
      let targetPosition : Point :=
        if mid ≠ 0 then (s.Monsters ((Int.natAbs mid : Int) - 1)).position.tile
        else (s.Players ((Int.natAbs pid : Int) - 1)).position.tile
      let dir := ext.GetDirection position targetPosition
      let s := s.updateMissile node (fun missile => { missile with _miDelFlag := true })
      let s := s.call (Event.AddUnLight (s.missile node)._mlid)
        (ext.AddUnLight (s.missile node)._mlid)
      (SpawnMissile ext cat position position dir
        (missile_id.decode (s.missile node).var1.toNat) mienemy_type.TARGET_BOTH
        (s.missile node)._misource (s.missile node)._midam (s.missile node)._mispllvl none s).2
    else s
  let p := PutMissile ext (s.missile node) s
  p.2.updateMissile node (fun _ => p.1)

/-- The loop of `MI_Town` over the players (lines 3205-3214), for the player
`p`; `missile` is the portal. -/
def MI_Town_player (ext : Ext) (missile : Missile) (s : GameState) (p : Nat) : GameState :=
  let player := s.Players p
  if player.plractive = true ∧ s.currlevel = player.plrlevel ∧ player._pLvlChanging = false
      ∧ player._pmode = PLR_MODE.PM_STAND ∧ player.position.tile = missile.position.tile then
    let s := s.call (Event.ClrPlrPath p) (ext.ClrPlrPath p)
    if (p : Int) = s.MyPlayerId then
      let s := s.call (Event.NetSendCmdParam1 true _cmd_id.CMD_WARP missile._misource)
        (ext.NetSendCmdParam1 true _cmd_id.CMD_WARP missile._misource)
      { s with toWorld := s.toWorld.setPlayer p ({ s.Players p with _pmode := PLR_MODE.PM_NEWLVL }) }
    else s
  else s

/-- The function `MI_Town` (lines 3190-3221). -/
def MI_Town (ext : Ext) (node : Nat) (s : GameState) : GameState :=
  match s.getMissile node with
  | none => s
  | some missile =>
    let expLight : List Int := [1, 2, 3, 4, 5, 6, 7, 8, 9, 10, 11, 12, 13, 14, 15, 15, 15]
    let missile : Missile :=
      if missile._mirange > 1 then { missile with _mirange := missile._mirange - 1 } else missile
    let missile : Missile :=
      if missile._mirange = missile.var1 then SetMissDir ext missile 1 else missile
    let r : Missile × GameState :=
      if s.currlevel ≠ 0 ∧ missile._mimfnum ≠ 1 ∧ missile._mirange ≠ 0 then
        let l : Missile × GameState :=
          if missile.var2 = 0 then
            ({ missile with _mlid := (World.AddLight ext missile.position.tile 1 s.toWorld).1 },
              { s with toWorld := (World.AddLight ext missile.position.tile 1 s.toWorld).2 })
          else (missile, s)
        ({ l.1 with var2 := l.1.var2 + 1 },
          l.2.call (Event.ChangeLight l.1._mlid l.1.position.tile (expLight.getD l.1.var2.toNat 0))
            (ext.ChangeLight l.1._mlid l.1.position.tile (expLight.getD l.1.var2.toNat 0)))
      else (missile, s)
    let missile := r.1
    let s := (List.range ext.MAX_PLRS).foldl (MI_Town_player ext missile) r.2
    let r : Missile × GameState :=
      if missile._mirange = 0 then
        ({ missile with _miDelFlag := true },
          s.call (Event.AddUnLight missile._mlid) (ext.AddUnLight missile._mlid))
      else (missile, s)
    let p := PutMissile ext r.1 r.2
    p.2.updateMissile node (fun _ => p.1)

/-- The function `MI_Stone` (lines 3482-3508). -/
def MI_Stone (ext : Ext) (node : Nat) (s : GameState) : GameState :=
  match s.getMissile node with
  | none => s
  | some missile =>
    let missile : Missile := { missile with _mirange := missile._mirange - 1 }
    let monster := s.Monsters missile.var2
    let missile : Missile :=
      if monster._mhitpoints = 0 ∧ missile._miAnimType ≠ ext.MFILE_SHATTER1 then
        let missile : Missile := { missile with _mimfnum := 0, _miDrawFlag := true }
        let missile := SetMissAnim ext missile ext.MFILE_SHATTER1
        { missile with _mirange := 11 }
      else missile
    if monster._mmode ≠ MonsterMode.Petrified then
      s.updateMissile node (fun _ => { missile with _miDelFlag := true })
    else
    let r : Missile × GameState :=
      if missile._mirange = 0 then
        if monster._mhitpoints > 0 then
          let monster : Monster :=
            { monster with _mmode := ext.MonsterMode_ofInt missile.var1, IsPetrified := false }
          ({ missile with _miDelFlag := true },
            { s with toWorld := s.toWorld.setMonster missile.var2 monster })
        else
          ({ missile with _miDelFlag := true },
            s.call (Event.AddCorpse monster.position.tile s.stonendx monster._mdir)
              (ext.AddCorpse monster.position.tile s.stonendx monster._mdir))
      else (missile, s)
    let p := if r.1._miAnimType = ext.MFILE_SHATTER1 then PutMissile ext r.1 r.2 else r
    p.2.updateMissile node (fun _ => p.1)

/-- An initializer that touches its own missile and the world only, as an
entry of the catalog: it is run on the missile of the node and the result is
written back through the reference. -/
def GameState.runLocal (f : Missile → AddMissileParameter → World → Missile × World) (node : Nat)
    (parameter : AddMissileParameter) (s : GameState) : GameState :=
  GameState.updateMissile { s with toWorld := (f (s.missile node) parameter s.toWorld).2 } node
    (fun _ => (f (s.missile node) parameter s.toWorld).1)

/-- The function `MI_Arrow` (lines 2695-2721).  The result is `none` when
`fuel` iterations do not end the loop of `MoveMissileAndCheckMissileCol`. -/
def MI_Arrow (ext : Ext) (fuel : Nat) (node : Nat) (s : GameState) : Option GameState :=
  match s.getMissile node with
  | none => some s
  | some missile =>
    let missile : Missile := { missile with _mirange := missile._mirange - 1 }
    let missile : Missile := { missile with _midist := missile._midist + 1 }
    let p := missile._misource
    let mind : Int :=
      if ext.IsTrap missile = false then
        if missile._micaster = mienemy_type.TARGET_MONSTERS then (s.Players p)._pIMinDam
        else (s.Monsters p).mMinDamage
      else s.currlevel
    let maxd : Int :=
      if ext.IsTrap missile = false then
        if missile._micaster = mienemy_type.TARGET_MONSTERS then (s.Players p)._pIMaxDam
        else (s.Monsters p).mMaxDamage
      else 2 * s.currlevel
    match MoveMissileAndCheckMissileCol ext fuel missile mind maxd true false s.toWorld with
    | none => none
    | some r =>
      let missile : Missile :=
        if r.1._mirange = 0 then { r.1 with _miDelFlag := true } else r.1
      let q := PutMissile ext missile { s with toWorld := r.2 }
      some (q.2.updateMissile node (fun _ => q.1))

/-- The function `CheckBlock` (lines 68-77); `fromTile` and `toTile` are its
parameters `from` and `to`.  The result is `none` when `fuel` steps do not
reach `toTile`. -/
def CheckBlock (ext : Ext) (g : Globals) : Nat → Point → Point → Option Bool
  | 0, _, _ => none
  | fuel + 1, fromTile, toTile =>
    if fromTile = toTile then some false else
    let fromTile := ext.PointAddDirection fromTile (ext.GetDirection fromTile toTile)
    if ext.nSolidTable (g.dPiece fromTile.x fromTile.y) = true then some true
    else CheckBlock ext g fuel fromTile toTile

/-- The validity test that `FindClosest` hands to `FindClosestValidPosition`
(lines 82-85): a monster stands on the tile and the line from `source` is
clear.  A walk of `CheckBlock` that `fuel` steps do not end leaves the tile
untested by the code; here such a tile does not pass the test. -/
def FindClosest_posOk (ext : Ext) (fuel : Nat) (source target : Point) (w : World) : Bool × World :=
  (decide (ext.InDungeonBounds target = true ∧ w.dMonster target.x target.y > 0
    ∧ CheckBlock ext w.toGlobals fuel source target = some false), w)

/-- The function `FindClosest` (lines 79-94).  The result is the index of the
monster in `Monsters`, `none` for the null pointer. -/
def FindClosest (ext : Ext) (fuel : Nat) (source : Point) (rad : Int) (w : World) :
    Option Int × World :=
  let r := ext.FindClosestValidPosition (FindClosest_posOk ext fuel source) source 1 rad w
  match r.1 with
  | some monsterPosition => (some (r.2.dMonster monsterPosition.x monsterPosition.y - 1), r.2)
  | none => (none, r.2)

/-- The function `MI_Search` (lines 3042-3052). -/
def MI_Search (ext : Ext) (node : Nat) (s : GameState) : GameState :=
  let s := s.updateMissile node (fun missile => { missile with _mirange := missile._mirange - 1 })
  if (s.missile node)._mirange ≠ 0 then s else
  let s := s.updateMissile node (fun missile => { missile with _miDelFlag := true })
  let s := s.call
    (Event.PlaySfxLoc ext.IS_CAST7 (s.Players (s.missile node)._misource).position.tile)
    (ext.PlaySfxLoc ext.IS_CAST7 (s.Players (s.missile node)._misource).position.tile)
  if (s.missile node)._misource = s.MyPlayerId then
    { s with toWorld := { s.toWorld with AutoMapShowItems := false } }
  else s

/-- One of the two halves of the body of the loop of `MI_Wave` (lines 3657-3664
and 3665-3672), for the cursor `n` that spreads in direction `dir` and its flag
`f`: the result is the cursor, the flag and the state after it. -/
def MI_Wave_spread (ext : Ext) (cat : Catalog) (node : Nat) (id : Int) (sd pdir : Direction)
    (dir : Direction) (n : Point) (f : Bool) (s : GameState) : Point × Bool × GameState :=
  let pn := s.dPiece n.x n.y
  if ext.nMissileTable pn = true ∨ f = true ∨ ext.InDungeonBounds n = false then (n, true, s)
  else
    (ext.PointAddDirection n dir, f,
      (SpawnMissile ext cat n (ext.PointAddDirection n sd) pdir missile_id.MIS_FIREMOVE
        mienemy_type.TARGET_MONSTERS id 0 (s.missile node)._mispllvl none s).2)

/-- The loop of `MI_Wave` (lines 3656-3673) from the iteration `j` on.  The
arguments after `j` are the cursors `na` and `nb`, the flags `f1` and `f2`, the
state, and the coordinates at which `dPiece` has been indexed so far.  The
bound of the loop is read from the missile on every iteration; the result is
`none` when `fuel` iterations do not end the loop. -/
def MI_Wave_loop (ext : Ext) (cat : Catalog) (node : Nat) (id : Int) (sd dira dirb pdir : Direction) :
    Nat → Int → Point → Point → Bool → Bool → GameState → List Point →
      Option (GameState × List Point)
  | 0, _, _, _, _, _, _, _ => none
  | fuel + 1, j, na, nb, f1, f2, s, reads =>
    if ¬ (j < (s.missile node)._mispllvl.tdiv 2 + 2) then some (s, reads) else
    let a := MI_Wave_spread ext cat node id sd pdir dira na f1 s
    let b := MI_Wave_spread ext cat node id sd pdir dirb nb f2 a.2.2
    MI_Wave_loop ext cat node id sd dira dirb pdir fuel (j + 1) a.1 b.1 a.2.1 b.2.1 b.2.2
      (reads ++ [na, nb])

/-- The function `MI_Wave` (lines 3638-3679), together with the coordinates at
which it indexes `dPiece`, in the order of the lookups.  The result is `none`
when `fuel` iterations do not end the loop. -/
def MI_WaveTrace (ext : Ext) (cat : Catalog) (fuel : Nat) (node : Nat) (s : GameState) :
    Option (GameState × List Point) :=
  let id := (s.missile node)._misource
  let src := (s.missile node).position.tile
  let sd := ext.GetDirection src { x := (s.missile node).var1, y := (s.missile node).var2 }
  let dira := ext.Left (ext.Left sd)
  let dirb := ext.Right (ext.Right sd)
  let na := ext.PointAddDirection src sd
  let pn := s.dPiece na.x na.y
  let r : Option (GameState × List Point) :=
    if ext.nMissileTable pn = false then
      let pdir := (s.Players id)._pdir
      let s := (SpawnMissile ext cat na (ext.PointAddDirection na sd) pdir missile_id.MIS_FIREMOVE
        mienemy_type.TARGET_MONSTERS id 0 (s.missile node)._mispllvl none s).2
      MI_Wave_loop ext cat node id sd dira dirb pdir fuel 0 (ext.PointAddDirection na dira)
        (ext.PointAddDirection (ext.PointAddDirection src sd) dirb) false false s [na]
    else some (s, [na])
  match r with
  | none => none
  | some (s, reads) =>
    let s := s.updateMissile node (fun missile => { missile with _mirange := missile._mirange - 1 })
    if (s.missile node)._mirange = 0 then
      some (s.updateMissile node (fun missile => { missile with _miDelFlag := true }), reads)
    else some (s, reads)

/-- The function `MI_Wave` (lines 3638-3679). -/
def MI_Wave (ext : Ext) (cat : Catalog) (fuel : Nat) (node : Nat) (s : GameState) :
    Option GameState :=
  (MI_WaveTrace ext cat fuel node s).map Prod.fst

/-- The array `Offsets` of `MI_Element` (line 3871). -/
def MI_Element_Offsets : List Displacement :=
  [{ deltaX := 0, deltaY := 0 }, { deltaX := 0, deltaY := 1 }, { deltaX := 0, deltaY := -1 },
   { deltaX := 1, deltaY := 0 }, { deltaX := 1, deltaY := -1 }, { deltaX := 1, deltaY := 1 },
   { deltaX := -1, deltaY := 0 }, { deltaX := -1, deltaY := 1 }, { deltaX := -1, deltaY := -1 }]

/-- The body of the loop of `MI_Element` over `Offsets` (lines 3873-3874); the
first argument is `none` when an earlier iteration has not returned. -/
def MI_Element_burn (ext : Ext) (fuel : Nat) (dam : Int) (startPoint missilePosition : Point)
    (r : Option (Missile × World)) (offset : Displacement) : Option (Missile × World) :=
  match r with
  | none => none
  | some r =>
    match CheckBlock ext r.2.toGlobals fuel startPoint (missilePosition.addDisplacement offset) with
    | none => none
    | some true => some r
    | some false =>
      some (CheckMissileCol ext r.1 dam dam true (missilePosition.addDisplacement offset) true r.2)

/-- The retarget step of `MI_Element` (lines 3886-3897), the body of the test
`missile.var3 == 1`. -/
def MI_Element_retarget (ext : Ext) (fuel : Nat) (missilePosition : Point) (id : Int)
    (missile : Missile) (w : World) : Missile × World :=
  let missile : Missile := { missile with var3 := 2 }
  let missile : Missile := { missile with _mirange := 255 }
  let nextMonster := FindClosest ext fuel missilePosition 19 w
  match nextMonster.1 with
  | some m =>
    let sd := ext.GetDirection missilePosition (nextMonster.2.Monsters m).position.tile
    let missile := SetMissDir ext missile sd
    (UpdateMissileVelocity ext missile (nextMonster.2.Monsters m).position.tile 16, nextMonster.2)
  | none =>
    let sd := (nextMonster.2.Players id)._pdir
    let missile := SetMissDir ext missile sd
    (UpdateMissileVelocity ext missile (ext.PointAddDirection missilePosition sd) 16, nextMonster.2)

/-- The part of `MI_Element` that follows the retarget step (lines 3899-3909):
the light follows the missile, and a missile at the end of its range turns
into the explosion. -/
def MI_Element_finish (ext : Ext) (missilePosition : Point) (missile : Missile) (w : World) :
    Missile × World :=
  let u : Missile × World :=
    if missilePosition ≠ { x := missile.var1, y := missile.var2 } then
      ({ missile with var1 := missilePosition.x, var2 := missilePosition.y },
        w.call (Event.ChangeLight missile._mlid missilePosition 8)
          (ext.ChangeLight missile._mlid missilePosition 8))
    else (missile, w)
  if u.1._mirange = 0 then
    let missile : Missile := { u.1 with _mimfnum := 0 }
    let missile := SetMissAnim ext missile ext.MFILE_BIGEXP
    let missile : Missile := { missile with _mirange := missile._miAnimLen - 1 }
    ({ missile with position := ext.StopMissile missile.position }, u.2)
  else u

/-- The function `MI_Element` (lines 3861-3912), together with whether the
retarget step has run.  The result is `none` when `fuel` iterations do not end
a loop of `MoveMissileAndCheckMissileCol` or of `CheckBlock`. -/
def MI_ElementTrace (ext : Ext) (fuel : Nat) (node : Nat) (s : GameState) :
    Option (GameState × Bool) :=
  match s.getMissile node with
  | none => some (s, false)
  | some missile =>
    let missile : Missile := { missile with _mirange := missile._mirange - 1 }
    let dam := missile._midam
    let id := missile._misource
    let missilePosition := missile.position.tile
    if missile._miAnimType = ext.MFILE_BIGEXP then
      let w := s.toWorld.call
        (Event.ChangeLight missile._mlid missile.position.tile missile._miAnimFrame)
        (ext.ChangeLight missile._mlid missile.position.tile missile._miAnimFrame)
      let startPoint : Point :=
        if missile.var3 = 2 then { x := missile.var4, y := missile.var5 }
        else missile.position.start
      match MI_Element_Offsets.foldl (MI_Element_burn ext fuel dam startPoint missilePosition)
          (some (missile, w)) with
      | none => none
      | some r =>
        let r : Missile × World :=
          if r.1._mirange = 0 then
            ({ r.1 with _miDelFlag := true },
              r.2.call (Event.AddUnLight r.1._mlid) (ext.AddUnLight r.1._mlid))
          else r
        let q := PutMissile ext r.1 { s with toWorld := r.2 }
        some (q.2.updateMissile node (fun _ => q.1), false)
    else
      match MoveMissileAndCheckMissileCol ext fuel missile dam dam false false s.toWorld with
      | none => none
      | some r =>
        let missile : Missile :=
          if r.1.var3 = 0 ∧ missilePosition = { x := r.1.var4, y := r.1.var5 } then
            { r.1 with var3 := 1 }
          else r.1
        let t : Missile × World :=
          if missile.var3 = 1 then MI_Element_retarget ext fuel missilePosition id missile r.2
          else (missile, r.2)
        let u := MI_Element_finish ext missilePosition t.1 t.2
        let q := PutMissile ext u.1 { s with toWorld := u.2 }
        some (q.2.updateMissile node (fun _ => q.1), decide (missile.var3 = 1))

/-- The function `MI_Element` (lines 3861-3912). -/
def MI_Element (ext : Ext) (fuel : Nat) (node : Nat) (s : GameState) : Option GameState :=
  (MI_ElementTrace ext fuel node s).map Prod.fst

/-- The retarget step of `MI_Bonespirit` (lines 3932-3943), the body of the test
`missile.var3 == 1`. -/
def MI_Bonespirit_retarget (ext : Ext) (fuel : Nat) (c : Point) (id : Int) (missile : Missile)
    (w : World) : Missile × World :=
  let missile : Missile := { missile with var3 := 2 }
  let missile : Missile := { missile with _mirange := 255 }
  let monster := FindClosest ext fuel c 19 w
  match monster.1 with
  | some m =>
    let missile : Missile := { missile with _midam := (monster.2.Monsters m)._mhitpoints >>> 7 }
    let missile := SetMissDir ext missile (ext.GetDirection c (monster.2.Monsters m).position.tile)
    (UpdateMissileVelocity ext missile (monster.2.Monsters m).position.tile 16, monster.2)
  | none =>
    let sd := (monster.2.Players id)._pdir
    let missile := SetMissDir ext missile sd
    (UpdateMissileVelocity ext missile (ext.PointAddDirection c sd) 16, monster.2)

/-- The part of `MI_Bonespirit` that follows the retarget step (lines
3945-3954): the light follows the missile, and a missile at the end of its
range turns into the fading spirit. -/
def MI_Bonespirit_finish (ext : Ext) (c : Point) (missile : Missile) (w : World) :
    Missile × World :=
  let u : Missile × World :=
    if c ≠ { x := missile.var1, y := missile.var2 } then
      ({ missile with var1 := c.x, var2 := c.y },
        w.call (Event.ChangeLight missile._mlid c 8) (ext.ChangeLight missile._mlid c 8))
    else (missile, w)
  if u.1._mirange = 0 then
    let missile := SetMissDir ext u.1 8
    let missile : Missile := { missile with position := { missile.position with velocity := {} } }
    ({ missile with _mirange := 7 }, u.2)
  else u

/-- The function `MI_Bonespirit` (lines 3914-3957), together with whether the
retarget step has run.  The result is `none` when `fuel` iterations do not end
the loop of `MoveMissileAndCheckMissileCol`. -/
def MI_BonespiritTrace (ext : Ext) (fuel : Nat) (node : Nat) (s : GameState) :
    Option (GameState × Bool) :=
  match s.getMissile node with
  | none => some (s, false)
  | some missile =>
    let missile : Missile := { missile with _mirange := missile._mirange - 1 }
    let dam := missile._midam
    let id := missile._misource
    if missile._mimfnum = 8 then
      let w := s.toWorld.call
        (Event.ChangeLight missile._mlid missile.position.tile missile._miAnimFrame)
        (ext.ChangeLight missile._mlid missile.position.tile missile._miAnimFrame)
      let r : Missile × World :=
        if missile._mirange = 0 then
          ({ missile with _miDelFlag := true },
            w.call (Event.AddUnLight missile._mlid) (ext.AddUnLight missile._mlid))
        else (missile, w)
      let q := PutMissile ext r.1 { s with toWorld := r.2 }
      some (q.2.updateMissile node (fun _ => q.1), false)
    else
      match MoveMissileAndCheckMissileCol ext fuel missile dam dam false false s.toWorld with
      | none => none
      | some r =>
        let c := r.1.position.tile
        let missile : Missile :=
          if r.1.var3 = 0 ∧ c = { x := r.1.var4, y := r.1.var5 } then { r.1 with var3 := 1 }
          else r.1
        let t : Missile × World :=
          if missile.var3 = 1 then MI_Bonespirit_retarget ext fuel c id missile r.2
          else (missile, r.2)
        let u := MI_Bonespirit_finish ext c t.1 t.2
        let q := PutMissile ext u.1 { s with toWorld := u.2 }
        some (q.2.updateMissile node (fun _ => q.1), decide (missile.var3 = 1))

/-- The function `MI_Bonespirit` (lines 3914-3957). -/
def MI_Bonespirit (ext : Ext) (fuel : Nat) (node : Nat) (s : GameState) : Option GameState :=
  (MI_BonespiritTrace ext fuel node s).map Prod.fst

/-- The table `ExpLight` of `MI_Firemove` (line 3269): thirteen initializers for
fourteen entries, so the last entry is 0. -/
def MI_Firemove_ExpLight : List Int := [2, 3, 4, 5, 5, 6, 7, 8, 9, 10, 11, 12, 12, 0]

/-- The light bookkeeping of `MI_Firemove` (lines 3284-3295). -/
def MI_Firemove_light (ext : Ext) (missile : Missile) (w : World) : Missile × World :=
  if missile._mimfnum ≠ 0 ∨ missile._mirange = 0 then
    if missile.position.tile ≠ { x := missile.var3, y := missile.var4 } then
      let missile : Missile :=
        { missile with var3 := missile.position.tile.x, var4 := missile.position.tile.y }
      (missile, w.call (Event.ChangeLight missile._mlid missile.position.tile 8)
        (ext.ChangeLight missile._mlid missile.position.tile 8))
    else (missile, w)
  else
    let l : Missile × World :=
      if missile.var2 = 0 then
        ({ missile with
            _mlid := (World.AddLight ext missile.position.tile
              (MI_Firemove_ExpLight.getD 0 0) w).1 },
          (World.AddLight ext missile.position.tile (MI_Firemove_ExpLight.getD 0 0) w).2)
      else (missile, w)
    ({ l.1 with var2 := l.1.var2 + 1 },
      l.2.call
        (Event.ChangeLight l.1._mlid l.1.position.tile
          (MI_Firemove_ExpLight.getD l.1.var2.toNat 0))
        (ext.ChangeLight l.1._mlid l.1.position.tile
          (MI_Firemove_ExpLight.getD l.1.var2.toNat 0)))

/-- The function `MI_Firemove` (lines 3267-3299).  The result is `none` when
`fuel` iterations do not end the loop of `MoveMissileAndCheckMissileCol`. -/
def MI_Firemove (ext : Ext) (fuel : Nat) (node : Nat) (s : GameState) : Option GameState :=
  match s.getMissile node with
  | none => some s
  | some missile =>
    let missile : Missile := { missile with var1 := missile.var1 + 1 }
    let a : Missile × World :=
      if missile.var1 = missile._miAnimLen then
        ({ SetMissDir ext missile 1 with _miAnimFrame := (GenerateRnd 11 s.toWorld).1 + 1 },
          (GenerateRnd 11 s.toWorld).2)
      else (missile, s.toWorld)
    let j := a.1._mirange
    match MoveMissileAndCheckMissileCol ext fuel a.1 a.1._midam a.1._midam false false a.2 with
    | none => none
    | some r =>
      let missile : Missile := if r.1._miHitFlag = true then { r.1 with _mirange := j } else r.1
      let b : Missile × World :=
        if missile._mirange = 0 then
          ({ missile with _miDelFlag := true },
            r.2.call (Event.AddUnLight missile._mlid) (ext.AddUnLight missile._mlid))
        else (missile, r.2)
      let c := MI_Firemove_light ext b.1 b.2
      let missile : Missile :=
        { c.1 with
          position :=
            { c.1.position with
              tile := ext.PointAddDirection c.1.position.tile ext.Direction_South,
              offset := { c.1.position.offset with deltaY := c.1.position.offset.deltaY - 32 } } }
      let q := PutMissile ext missile { s with toWorld := c.2 }
      some (q.2.updateMissile node (fun _ => q.1))

/-- The table `BPath` of `MI_Cbolt` (line 3797). -/
def MI_Cbolt_BPath : List Int := [-1, 0, 1, -1, 0, 1, -1, -1, 0, 0, 1, 1, 0, 1, -1, 0]

/-- The steering step of `MI_Cbolt` (lines 3797-3811), the body of the test
`missile.var3 == 0`; an entry of `BPath` outside the table reads as 0. -/
def MI_Cbolt_steer (ext : Ext) (missile : Missile) : Missile :=
  let md : Direction := missile.var2
  let turn := MI_Cbolt_BPath.getD missile._mirnd.toNat 0
  let md : Direction :=
    if turn = -1 then ext.Left md else if turn = 1 then ext.Right md else md
  let missile : Missile := { missile with _mirnd := Int.land (missile._mirnd + 1) 15 }
  let missile :=
    UpdateMissileVelocity ext missile (ext.PointAddDirection missile.position.tile md) 8
  { missile with var3 := 16 }

/-- The impact step of `MI_Cbolt` (lines 3816-3823), the body of the test
`missile._miHitFlag`. -/
def MI_Cbolt_impact (ext : Ext) (missile : Missile) : Missile :=
  let missile : Missile :=
    { missile with
      var1 := 8,
      _mimfnum := 0,
      position :=
        { missile.position with offset := { deltaX := 0, deltaY := 0 }, velocity := {} } }
  let missile := SetMissAnim ext missile ext.MFILE_LGHNING
  { missile with _mirange := missile._miAnimLen }

/-- The end of `MI_Cbolt` (lines 3826-3830). -/
def MI_Cbolt_finish (ext : Ext) (node : Nat) (missile : Missile) (w : World) (s : GameState) :
    GameState :=
  let r : Missile × World :=
    if missile._mirange = 0 then
      ({ missile with _miDelFlag := true },
        w.call (Event.AddUnLight missile._mlid) (ext.AddUnLight missile._mlid))
    else (missile, w)
  let q := PutMissile ext r.1 { s with toWorld := r.2 }
  q.2.updateMissile node (fun _ => q.1)

/-- The function `MI_Cbolt` (lines 3792-3831), together with the index at which
it has read the table `BPath`, if it has.  The result is `none` when `fuel`
iterations do not end the loop of `MoveMissileAndCheckMissileCol`. -/
def MI_CboltTrace (ext : Ext) (fuel : Nat) (node : Nat) (s : GameState) :
    Option (GameState × Option Int) :=
  match s.getMissile node with
  | none => some (s, none)
  | some missile =>
    let missile : Missile := { missile with _mirange := missile._mirange - 1 }
    if missile._miAnimType ≠ ext.MFILE_LGHNING then
      let index : Option Int := if missile.var3 = 0 then some missile._mirnd else none
      let missile : Missile :=
        if missile.var3 = 0 then MI_Cbolt_steer ext missile
        else { missile with var3 := missile.var3 - 1 }
      match MoveMissileAndCheckMissileCol ext fuel missile missile._midam missile._midam false
          false s.toWorld with
      | none => none
      | some r =>
        let missile : Missile :=
          if r.1._miHitFlag = true then MI_Cbolt_impact ext r.1 else r.1
        let w := r.2.call (Event.ChangeLight missile._mlid missile.position.tile missile.var1)
          (ext.ChangeLight missile._mlid missile.position.tile missile.var1)
        some (MI_Cbolt_finish ext node missile w s, index)
    else some (MI_Cbolt_finish ext node missile s.toWorld s, none)

/-- The function `MI_Cbolt` (lines 3792-3831). -/
def MI_Cbolt (ext : Ext) (fuel : Nat) (node : Nat) (s : GameState) : Option GameState :=
  (MI_CboltTrace ext fuel node s).map Prod.fst

/-- Whether an event is the entry into one of the two functions that resolve a
hit on a monster. -/
def Event.isMonsterHit : Event → Bool
  | Event.MonsterMHit _ _ _ => true
  | Event.MonsterTrapHit _ _ => true
  | _ => false

/-- The calls of `MonsterMHit` and `MonsterTrapHit` recorded in a trace. -/
def monsterHitCalls (trace : List Event) : List Event := trace.filter Event.isMonsterHit

/-- The procedures that `MonsterMHit` calls to start the reaction of monster `m`
leave the hit points of that monster as they are. -/
def ReactionsKeepHitPoints (ext : Ext) (m : Int) : Prop :=
  ∀ g : Globals,
    (∀ pnum, ((ext.M_StartKill m pnum g).Monsters m)._mhitpoints = (g.Monsters m)._mhitpoints)
    ∧ (∀ mode, ((ext.PlayEffect m mode g).Monsters m)._mhitpoints = (g.Monsters m)._mhitpoints)
    ∧ ((ext.M_GetKnockback m g).Monsters m)._mhitpoints = (g.Monsters m)._mhitpoints
    ∧ (∀ pnum dam, ((ext.M_StartHit m pnum dam g).Monsters m)._mhitpoints
        = (g.Monsters m)._mhitpoints)

/-- The identities of the nodes of the registry, in registry order. -/
def nodeIds (s : GameState) : List Nat := s.Missiles.map (fun n => n.id)

/-- Every update function of the catalog treats the registry the way the update
functions of `missiles.cpp` do: it never erases or reorders nodes and it adds
nodes only through `AddMissile`, that is at the end, with a fresh serial number
and not beyond the capacity of the registry. -/
def Catalog.AppendOnly (ext : Ext) (cat : Catalog) : Prop :=
  ∀ t mProc, cat.mProc t = some mProc → ∀ node s,
    (∃ new, nodeIds (mProc node s) = nodeIds s ++ new ∧ ∀ i ∈ new, s.nextNode ≤ i)
    ∧ s.nextNode ≤ (mProc node s).nextNode
    ∧ (mProc node s).Missiles.length ≤ max s.Missiles.length ext.max_size

/-- The serial numbers of the nodes of the registry are distinct and have
already been handed out. -/
def GameState.NodesDistinct (s : GameState) : Prop :=
  (nodeIds s).Nodup ∧ ∀ n ∈ s.Missiles, n.id < s.nextNode

/-- The damage that remains of `dam` after a resistance of `resper` percent, as
`Plr2PlrMHit` and `PlayerMHit` compute it: `dam - dam * resper / 100` when
`resper` is positive, `dam` itself otherwise. -/
def afterResistance (dam resper : Int) : Int :=
  if resper > 0 then dam - (dam * resper).tdiv 100 else dam

/-- The search primitive returns only positions that its validity test
accepts (in some state of the world reached during the search). -/
def SearchSound (ext : Ext) : Prop :=
  ∀ (posOk : Point → World → Bool × World) (startingPosition : Point) (minimumRadius
    maximumRadius : Int) (w : World) (p : Point),
    (ext.FindClosestValidPosition posOk startingPosition minimumRadius maximumRadius w).1 = some p →
    ∃ w1 : World, (posOk p w1).1 = true

/-- What the movement code may do to the delete flag and the range of a
missile: it leaves the flag alone, and it leaves the range alone or sets it to
0. -/
def RangeKept (missile m1 : Missile) : Prop :=
  m1._miDelFlag = missile._miDelFlag ∧ (m1._mirange = missile._mirange ∨ m1._mirange = 0)

/-- The update functions of the catalog set no dungeon flag, move no missile
and spawn none: they leave `dFlags` and the tiles of the missiles of the
registry as they are, as `MI_Search` does. -/
def Catalog.Unmarking (cat : Catalog) : Prop :=
  ∀ t mProc, cat.mProc t = some mProc → ∀ node s,
    (mProc node s).dFlags = s.dFlags
    ∧ (mProc node s).Missiles.map (fun n => n.val.position.tile)
      = s.Missiles.map (fun n => n.val.position.tile)

/-- No missile of the registry stands on a tile that carries the flag
`Missile`. -/
def GameState.Unmarked (s : GameState) : Prop :=
  ∀ p ∈ s.Missiles.map (fun n => n.val.position.tile), DungeonFlag.Missile ∉ s.dFlags p.x p.y

/-- What the movement code leaves alone in a missile: the phase slot `var3`,
the destination slots `var4` and `var5`, and the source. -/
def SlotsKept (missile m1 : Missile) : Prop :=
  m1.var3 = missile.var3 ∧ m1.var4 = missile.var4 ∧ m1.var5 = missile.var5

/-- The tile at which the retarget step of `MI_Element` and of `MI_Bonespirit`
aims a missile: the tile of the monster that `FindClosest` finds within radius
19 of `position`, or, when it finds none, the tile one step from `position` in
the direction that the caster `id` faces. -/
def retargetTile (ext : Ext) (fuel : Nat) (position : Point) (id : Int) (w : World) : Point :=
  match (FindClosest ext fuel position 19 w).1 with
  | some m => ((FindClosest ext fuel position 19 w).2.Monsters m).position.tile
  | none =>
    ext.PointAddDirection position ((FindClosest ext fuel position 19 w).2.Players id)._pdir

/-- The velocity of `missile` is the one that `UpdateMissileVelocity` gives a
missile on its tile for the destination `destination` at 16 pixels. -/
def AimedAt (ext : Ext) (missile : Missile) (destination : Point) : Prop :=
  missile.position.velocity = (UpdateMissileVelocity ext missile destination 16).position.velocity

/-- The enumerators of `Direction16` that `missiles.cpp` names have the values
that they have when the sixteen directions are numbered clockwise from
`South` = 0: `South_SouthWest` is 1, `SouthWest` is 2 and `SouthEast` is 14. -/
def Clockwise16 (ext : Ext) : Prop :=
  ext.Direction16_South = 0 ∧ ext.Direction16_South_SouthWest = 1
    ∧ ext.Direction16_SouthWest = 2 ∧ ext.Direction16_SouthEast = 14

/-- The spell ids for which `GetDamageAmt` (lines 709-817) reports a damage or
healing range: the case labels of the switch other than those of the block of
lines 729-754. -/
def damageSpells : List spell_id :=
  [spell_id.SPL_FIREBOLT, spell_id.SPL_HEAL, spell_id.SPL_HEALOTHER, spell_id.SPL_LIGHTNING,
   spell_id.SPL_RUNELIGHT, spell_id.SPL_FLASH, spell_id.SPL_FIREWALL, spell_id.SPL_LIGHTWALL,
   spell_id.SPL_FIRERING, spell_id.SPL_FIREBALL, spell_id.SPL_RUNEFIRE, spell_id.SPL_GUARDIAN,
   spell_id.SPL_CHAIN, spell_id.SPL_WAVE, spell_id.SPL_NOVA, spell_id.SPL_IMMOLAT,
   spell_id.SPL_RUNEIMMOLAT, spell_id.SPL_RUNENOVA, spell_id.SPL_FLAME, spell_id.SPL_GOLEM,
   spell_id.SPL_APOCA, spell_id.SPL_ELEMENT, spell_id.SPL_CBOLT, spell_id.SPL_HBOLT,
   spell_id.SPL_FLARE]

/-- The spell ids that `GetDamageAmt` handles as spells without damage: the
case labels of lines 729-751. -/
def nonDamageSpells : List spell_id :=
  [spell_id.SPL_IDENTIFY, spell_id.SPL_TOWN, spell_id.SPL_STONE, spell_id.SPL_INFRA,
   spell_id.SPL_RNDTELEPORT, spell_id.SPL_MANASHIELD, spell_id.SPL_DOOMSERP, spell_id.SPL_BLODRIT,
   spell_id.SPL_INVISIBIL, spell_id.SPL_BLODBOIL, spell_id.SPL_TELEPORT, spell_id.SPL_ETHEREALIZE,
   spell_id.SPL_REPAIR, spell_id.SPL_RECHARGE, spell_id.SPL_DISARM, spell_id.SPL_RESURRECT,
   spell_id.SPL_TELEKINESIS, spell_id.SPL_BONESPIRIT, spell_id.SPL_WARP, spell_id.SPL_REFLECT,
   spell_id.SPL_BERSERK, spell_id.SPL_SEARCH, spell_id.SPL_RUNESTONE]

/-- What holds of the local variables of `AddRndTeleport` after some
iterations of its loops, `n` of them outside the centre: every write so far
used an index below `count`, which is at most `n`, and wrote a tile whose two
coordinates differ from those of `start` by 4 to 6. -/
def AddRndTeleportInv (start : Point) (st : AddRndTeleportState) (n : Nat) : Prop :=
  0 ≤ st.count ∧ st.count ≤ n ∧ (st.writes.length : Int) = st.count
    ∧ ∀ iw ∈ st.writes, 0 ≤ iw.1 ∧ iw.1 < st.count
        ∧ 4 ≤ (Int.natAbs (iw.2.x - start.x) : Int) ∧ (Int.natAbs (iw.2.x - start.x) : Int) ≤ 6
        ∧ 4 ≤ (Int.natAbs (iw.2.y - start.y) : Int) ∧ (Int.natAbs (iw.2.y - start.y) : Int) ≤ 6

/-- A dungeon of 112 x 112 tiles and a registry with room for 8 missiles. -/
def sampleExt : Ext :=
  { InDungeonBounds := fun p => decide (0 ≤ p.x ∧ p.x < 112 ∧ 0 ≤ p.y ∧ p.y < 112),
    max_size := 8 }

/-- A catalog with two update functions: a fire wall control missile spawns one
fire wall segment, and a fire wall segment counts its range down. -/
def spawnCatalog : Catalog :=
  { mProc := fun t =>
      if t = missile_id.MIS_FIREWALLC then
        some (fun node s =>
          (AddMissile sampleExt {} { x := 5, y := 5 } { x := 5, y := 5 } 0
            missile_id.MIS_FIREWALL mienemy_type.TARGET_BOTH 0 0 0 (some node) s).2)
      else if t = missile_id.MIS_FIREWALL then
        some (fun node s =>
          s.updateMissile node (fun missile => { missile with _mirange := missile._mirange - 1 }))
      else none }

/-- A missile that has left the dungeon while it holds the light handle 5. -/
def strayMissile : Missile :=
  { _mitype := missile_id.MIS_FIREWALL, position := { tile := { x := -1, y := 0 } }, _mlid := 5 }

/-- The node 1 holding `strayMissile`. -/
def strayNode : MissileNode := { id := 1, val := strayMissile }

/-- A registry with a fire wall control missile at tile (5, 5) followed by
`strayNode`. -/
def tickState : GameState :=
  { Missiles :=
      [{ id := 0, val := { _mitype := missile_id.MIS_FIREWALLC,
                           position := { tile := { x := 5, y := 5 } } } },
       strayNode],
    nextNode := 2 }

/-- A registry that holds `strayNode` only. -/
def leakState : GameState := { Missiles := [strayNode], nextNode := 2 }

/-- A monster that stands petrified. -/
def petrifiedMonster : Monster := { _mmode := MonsterMode.Petrified, _mhitpoints := 6400 }

/-- A world whose raw random stream is constantly 99 and whose monsters are all
petrified. -/
def petrifiedWorld : World := { Monsters := fun _ => petrifiedMonster, rnd := fun _ => 99 }

/-- A world whose raw random stream is constantly 2, whose monsters have 100 hit
points (6400 in the 1/64 units of the game) and whose local player is player 0;
every tile holds monster 0 (`dMonster` is 1). -/
def remoteWorld : World :=
  { Monsters := fun _ => { _mhitpoints := 6400 }, rnd := fun _ => 2, MyPlayerId := 0,
    dMonster := fun _ _ => 1 }

/-- An arrow shot by a trap. -/
def trapArrow : Missile :=
  { _mitype := missile_id.MIS_ARROW, _micaster := mienemy_type.TARGET_PLAYERS, _misource := -1 }

/-- An arrow shot by monster 3. -/
def monsterArrow : Missile :=
  { _mitype := missile_id.MIS_ARROW, _micaster := mienemy_type.TARGET_PLAYERS, _misource := 3 }

/-- A table in which the row of `MIS_BONESPIRIT` is a magic missile (`mType` 1)
resisted by magic resistance; every other row is the default row. -/
def boneSpiritExt : Ext :=
  { MissilesData := fun t =>
      if t = missile_id.MIS_BONESPIRIT then
        { mType := 1, mResist := missile_resistance.MISR_MAGIC }
      else {} }

/-- A world whose raw random stream is constantly 2 and whose players stand
with 100 hit points (6400 in the 1/64 units of the game) and can block; the
local player is player 0. -/
def duelWorld : World :=
  { Players := fun _ => { _pHitPoints := 6400, _pBlockFlag := true }, rnd := fun _ => 2,
    MyPlayerId := 0 }

/-- An environment in which every player has a block chance of 50. -/
def blockExt : Ext := { GetBlockChance := fun _ _ => 50 }

/-- The parameter record of a cast aimed at tile (5, 5). -/
def castParameter : AddMissileParameter := { dst := { x := 5, y := 5 }, midir := 0, pParent := none }

/-- A catalog in which the type `other 0` is a fire rune. -/
def runeCatalog : Catalog :=
  { mAddProc := fun t =>
      if t = missile_id.other 0 then GameState.runLocal (AddFireRune sampleExt)
      else fun _ _ s => s }

/-- A registry with two search missiles of player 0: node 0 has 100 ticks
left, node 1 has just been added. -/
def searchState : GameState :=
  { Missiles :=
      [{ id := 0, val := { _mitype := missile_id.MIS_SEARCH, _misource := 0, _mirange := 100 } },
       { id := 1, val := { _mitype := missile_id.MIS_SEARCH, _misource := 0 } }],
    nextNode := 2 }

/-- A registry with one stone curse missile that has one tick left; it holds
monster 0, which is petrified, has 100 hit points and was in mode `other 7`
(stored as 11) before. -/
def stoneState : GameState :=
  { Monsters := fun _ => { _mmode := MonsterMode.Petrified, _mhitpoints := 6400 },
    Missiles :=
      [{ id := 0, val := { _mitype := missile_id.MIS_STONE, var1 := 11, var2 := 0, _mirange := 1 } }],
    nextNode := 1 }

/-- An arrow on tile (5, 5), one sixteenth of a pixel short of the corner it
shares with tile (6, 6), moving slowly down the screen with a slight drift to
the right. -/
def cornerArrow : Missile :=
  { _mitype := missile_id.MIS_ARROW,
    position := { tile := { x := 5, y := 5 }, start := { x := 5, y := 5 },
                  traveled := { deltaX := 0, deltaY := 2097151 },
                  velocity := { deltaX := 100, deltaY := 200 } },
    _mirange := 10 }

/-- A registry with one rune on tile (5, 5), with range 0. -/
def runeState : GameState :=
  { Missiles :=
      [{ id := 0, val := { _mitype := missile_id.other 0,
                           position := { tile := { x := 5, y := 5 }, start := { x := 5, y := 5 } },
                           _mirange := 0 } }],
    nextNode := 1 }

/-- A registry with one town portal on tile (5, 5), with range 1. -/
def portalState : GameState :=
  { Missiles :=
      [{ id := 0, val := { _mitype := missile_id.MIS_TOWN,
                           position := { tile := { x := 5, y := 5 }, start := { x := 5, y := 5 } },
                           _mirange := 1 } }],
    nextNode := 1 }

/-- A registry with one arrow at rest on tile (5, 5), with range 0. -/
def arrowState : GameState :=
  { Missiles :=
      [{ id := 0, val := { _mitype := missile_id.MIS_ARROW,
                           position := { tile := { x := 5, y := 5 }, start := { x := 5, y := 5 } },
                           _mirange := 0 } }],
    nextNode := 1 }

/-- The dungeon of `sampleExt` in which every piece blocks missiles. -/
def blockingExt : Ext := { sampleExt with nMissileTable := fun _ => true }

/-- An arrow shot by monster 3 that rests on tile (5, 5). -/
def restingArrow : Missile :=
  { _mitype := missile_id.MIS_ARROW, _micaster := mienemy_type.TARGET_PLAYERS, _misource := 3,
    position := { tile := { x := 5, y := 5 }, start := { x := 5, y := 5 } }, _mirange := 10 }

/-- A world in which monster 0 stands on tile (5, 5) (`dMonster` is 1 there)
and no player does. -/
def monsterOnTile : World :=
  { dMonster := fun i j => if i = 5 ∧ j = 5 then 1 else 0 }

/-- A world in which player 0 stands on tile (5, 5) (`dPlayer` is 1 there) and
no monster does. -/
def playerOnTile : World :=
  { dPlayer := fun i j => if i = 5 ∧ j = 5 then 1 else 0 }

/-- The arrow `restingArrow` after one call of `MoveMissileAndCheckMissileCol`
in `monsterOnTile`. -/
def hashedArrow : Missile :=
  ((MoveMissileAndCheckMissileColTrace sampleExt 0 restingArrow 1 2 false false monsterOnTile).map
    (fun r => r.1.1)).getD restingArrow

/-- A registry with one missile that shows the last of the three frames of its
animation and steps forward on every tick. -/
def animState : GameState :=
  { Missiles :=
      [{ id := 0, val := { _miAnimFrame := 3, _miAnimLen := 3, _miAnimAdd := 1, _miAnimDelay := 1 } }],
    nextNode := 1 }

/-- The dungeon of `sampleExt` with a compass: the eight directions are numbered
0 to 7 from south (step (1, 1)) through west (step (-1, 1)), north and east,
`p + d` takes the step of `d`, and `GetDirection` is the direction of the
signs of the two coordinate differences. -/
def compassExt : Ext :=
  { sampleExt with
    PointAddDirection := fun p d =>
      if d = 0 then { x := p.x + 1, y := p.y + 1 }
      else if d = 1 then { x := p.x, y := p.y + 1 }
      else if d = 2 then { x := p.x - 1, y := p.y + 1 }
      else if d = 3 then { x := p.x - 1, y := p.y }
      else if d = 4 then { x := p.x - 1, y := p.y - 1 }
      else if d = 5 then { x := p.x, y := p.y - 1 }
      else if d = 6 then { x := p.x + 1, y := p.y - 1 }
      else if d = 7 then { x := p.x + 1, y := p.y }
      else p,
    GetDirection := fun a b =>
      if a.y < b.y then (if a.x < b.x then 0 else if a.x = b.x then 1 else 2)
      else if a.y = b.y then (if b.x < a.x then 3 else if a.x < b.x then 7 else 0)
      else (if b.x < a.x then 4 else if a.x = b.x then 5 else 6) }

/-- A registry with one flame wave (type `other 1`) of spell level 0 that
player 0, standing on tile (2, 1), has cast at tile (0, 1). -/
def waveState : GameState :=
  { Missiles :=
      [{ id := 0, val := { _mitype := missile_id.other 1, _misource := 0, _mirange := 1,
                           position := { tile := { x := 2, y := 1 }, start := { x := 2, y := 1 } },
                           var1 := 0, var2 := 1 } }],
    nextNode := 1 }

/-- A catalog in which a search missile is updated by `MI_Search`; no other type
has an update function. -/
def searchCatalog : Catalog :=
  { mProc := fun t => if t = missile_id.MIS_SEARCH then some (MI_Search sampleExt) else none }

/-- A registry with one search missile of player 0 on tile (5, 5), with 100
ticks left. -/
def surveyState : GameState :=
  { Missiles :=
      [{ id := 0, val := { _mitype := missile_id.MIS_SEARCH, _misource := 0, _mirange := 100,
                           position := { tile := { x := 5, y := 5 }, start := { x := 5, y := 5 } } } }],
    nextNode := 1 }

/-- A world whose raw random stream is constantly 7 and whose players have
level 10 and 3 spell levels from their items; the local player is player 0. -/
def mageWorld : World :=
  { Players := fun _ => { _pLevel := 10, _pISplLvlAdd := 3 }, rnd := fun _ => 7, MyPlayerId := 0 }

/-- An elemental that player 0 has cast with spell level 3 from tile (5, 5). -/
def elementBolt : Missile :=
  { _mitype := missile_id.other 2, _misource := 0, _mispllvl := 3,
    position := { tile := { x := 5, y := 5 }, start := { x := 5, y := 5 } } }

/-- A registry with one elemental of player 0 that has come from tile (3, 5) to
its destination, tile (5, 5), and rests there with 100 ticks left; no monster
is near. -/
def elementState : GameState :=
  { Missiles :=
      [{ id := 0, val := { _mitype := missile_id.other 2, _misource := 0, _mirange := 100,
                           position := { tile := { x := 5, y := 5 }, start := { x := 3, y := 5 },
                                         traveled := { deltaX := 4194304, deltaY := 2097152 } },
                           var1 := 5, var2 := 5, var4 := 5, var5 := 5 } }],
    nextNode := 1 }

/-- The registry after one update of the elemental of `elementState`, and
whether the retarget step has run. -/
def elementResult : GameState × Bool :=
  (MI_ElementTrace compassExt 0 0 elementState).getD (elementState, false)

/-- A fire wall segment of a trap on tile (5, 5): it hits monsters and players
alike and has no player as its source. -/
def trapWall : Missile :=
  { _mitype := missile_id.MIS_FIREWALL, _micaster := mienemy_type.TARGET_BOTH, _misource := -1,
    position := { tile := { x := 5, y := 5 }, start := { x := 5, y := 5 } }, _mirange := 10 }

/-- The world `remoteWorld` in which the memory in front of `Players[0]` reads as
a player who carries fire arrows. -/
def strayPlayerWorld : World :=
  remoteWorld.setPlayer (-1) { _pIFlags := [ItemSpecialEffect.FireArrows] }

/-- The dungeon of `sampleExt` in which piece 1 blocks missiles. -/
def wallExt : Ext := { sampleExt with nMissileTable := fun piece => decide (piece = 1) }

/-- A registry with one flame wave of player 0 that holds the light handle 3
and has last moved its light on tile (5, 5); it is about to cross from tile
(5, 5) to tile (6, 6), which is made of piece 1. -/
def flameWaveState : GameState :=
  { dPiece := fun i j => if i = 6 ∧ j = 6 then 1 else 0,
    Missiles :=
      [{ id := 0, val := { _mitype := missile_id.other 1, _misource := 0, _mirange := 255,
                           _mimfnum := 1, _mlid := 3, var1 := 20, var2 := 13, var3 := 5, var4 := 5,
                           position := { tile := { x := 5, y := 5 }, start := { x := 5, y := 5 },
                                         traveled := { deltaX := 0, deltaY := 2097151 },
                                         velocity := { deltaX := 100, deltaY := 200 } } } }],
    nextNode := 1 }

/-- A registry with one charged bolt that `AddCbolt` has initialised for a
cast of player 0 from tile (5, 5) at tile (8, 5). -/
def boltState : GameState :=
  { Missiles :=
      [{ id := 0,
         val := (AddCbolt sampleExt
           { _mitype := missile_id.other 3, _misource := 0,
             position := { tile := { x := 5, y := 5 }, start := { x := 5, y := 5 } } }
           { dst := { x := 8, y := 5 }, midir := 7, pParent := none } {}).1 }],
    nextNode := 1 }

/-- The registry `boltState` after two updates of the charged bolt. -/
def boltResult : GameState :=
  (((fun o : Option GameState => o.bind (MI_Cbolt sampleExt 4 0))^[2] (some boltState))).getD
    boltState

theorem clamp_ge (v lo hi : Int) (h : lo ≤ hi) : lo ≤ clamp v lo hi := by
  unfold clamp
  split_ifs <;> omega

theorem clamp_le (v lo hi : Int) (h : lo ≤ hi) : clamp v lo hi ≤ hi := by
  unfold clamp
  split_ifs <;> omega

theorem updateMissile_fresh (s : GameState) (node : Nat) (missile : Missile) (f : Missile → Missile)
    (hfresh : ∀ n ∈ s.Missiles, n.id < node) :
    (s.Missiles ++ [MissileNode.mk node missile]).map
        (fun n => if n.id = node then { n with val := f n.val } else n)
      = s.Missiles ++ [MissileNode.mk node (f missile)] := by
  rw [List.map_append]
  congr 1
  · conv_rhs => rw [← List.map_id s.Missiles]
    apply List.map_congr_left
    intro n hn
    have := hfresh n hn
    rw [if_neg (by omega)]
    rfl
  · simp

theorem updateMissile_nodeIds (s : GameState) (node : Nat) (f : Missile → Missile) :
    nodeIds (s.updateMissile node f) = nodeIds s := by
  unfold nodeIds GameState.updateMissile
  simp only [List.map_map]
  apply List.map_congr_left
  intro n _
  simp only [Function.comp]
  split_ifs <;> rfl

theorem call_Missiles (s : GameState) (ev : Event) (f : Globals → Globals) :
    (s.call ev f).Missiles = s.Missiles := rfl

theorem ProcessManaShield_Missiles (ext : Ext) (s : GameState) :
    (ProcessManaShield ext s).Missiles = s.Missiles := by
  unfold ProcessManaShield
  simp only []
  split_ifs <;> rfl

/-- The state that `AddMissile` hands to the initializer: the registry with the
new node appended and its common fields set, after the spawn sound. -/
theorem AddMissile_appends (ext : Ext) (cat : Catalog) (src dst : Point) (midir : Direction)
    (mitype : missile_id) (micaster : mienemy_type) (id midam spllvl : Int)
    (pParent : Option Nat) (s : GameState) (hcap : s.Missiles.length < ext.max_size) :
    ∃ pre : GameState, nodeIds pre = nodeIds s ++ [s.nextNode] ∧ pre.nextNode = s.nextNode + 1
      ∧ AddMissile ext cat src dst midir mitype micaster id midam spllvl pParent s
        = (some s.nextNode,
            cat.mAddProc mitype s.nextNode { dst := dst, midir := midir, pParent := pParent } pre) := by
  unfold AddMissile
  rw [if_neg (by omega)]
  simp only []
  split_ifs
  · refine ⟨_, ?_, ?_, rfl⟩
    · unfold nodeIds
      rw [call_Missiles]
      exact (updateMissile_nodeIds _ _ _).trans (by simp [nodeIds])
    · rfl
  · refine ⟨_, ?_, ?_, rfl⟩
    · exact (updateMissile_nodeIds _ _ _).trans (by simp [nodeIds])
    · rfl

/-- With initializers that do nothing, `AddMissile` is append-only. -/
theorem AddMissile_grows (ext : Ext) (src dst : Point) (midir : Direction)
    (mitype : missile_id) (micaster : mienemy_type) (id midam spllvl : Int)
    (pParent : Option Nat) (s : GameState) :
    (∃ new, nodeIds (AddMissile ext {} src dst midir mitype micaster id midam spllvl pParent s).2
        = nodeIds s ++ new ∧ ∀ i ∈ new, s.nextNode ≤ i)
    ∧ s.nextNode
        ≤ (AddMissile ext {} src dst midir mitype micaster id midam spllvl pParent s).2.nextNode
    ∧ (AddMissile ext {} src dst midir mitype micaster id midam spllvl pParent s).2.Missiles.length
        ≤ max s.Missiles.length ext.max_size := by
  by_cases hcap : s.Missiles.length < ext.max_size
  · obtain ⟨pre, h1, h2, h3⟩ := AddMissile_appends ext {} src dst midir mitype micaster id midam
      spllvl pParent s hcap
    rw [h3]
    have hpre : (({} : Catalog).mAddProc mitype s.nextNode
        { dst := dst, midir := midir, pParent := pParent } pre) = pre := rfl
    simp only [hpre]
    refine ⟨⟨[s.nextNode], h1, ?_⟩, by omega, ?_⟩
    · intro i hi
      rw [List.mem_singleton.mp hi]
    · have := congrArg List.length h1
      simp [nodeIds] at this
      omega
  · have h : AddMissile ext {} src dst midir mitype micaster id midam spllvl pParent s
        = (none, s) := by
      unfold AddMissile
      rw [if_pos (by omega)]
    rw [h]
    exact ⟨⟨[], by simp, by simp⟩, le_refl _, le_max_left _ _⟩

theorem spawnCatalog_appendOnly : spawnCatalog.AppendOnly sampleExt := by
  intro t mProc h node s
  unfold spawnCatalog at h
  simp only [] at h
  split_ifs at h
  · cases h
    exact AddMissile_grows _ _ _ _ _ _ _ _ _ _ s
  · cases h
    refine ⟨⟨[], by rw [updateMissile_nodeIds]; simp, by simp⟩, le_refl _, ?_⟩
    simp [GameState.updateMissile]

theorem tickState_nodesDistinct : tickState.NodesDistinct := by
  refine ⟨by decide, ?_⟩
  intro n hn
  simp only [tickState, List.mem_cons, List.mem_singleton, List.not_mem_nil, or_false] at hn
  rcases hn with rfl | rfl <;> decide

theorem update_avoids (ext : Ext) (cat : Catalog) (hcat : cat.AppendOnly ext) (a : Nat) :
    ∀ (fuel i : Nat) (s : GameState) (visited : List (Nat × Bool)),
      a ∉ nodeIds s → a < s.nextNode → (∀ v ∈ visited, v.1 ≠ a) →
      a ∉ nodeIds (ProcessMissiles_update cat fuel i (s, visited)).1
        ∧ ∀ v ∈ (ProcessMissiles_update cat fuel i (s, visited)).2, v.1 ≠ a := by
  intro fuel
  induction fuel with
  | zero =>
    intro i s visited h1 _ h3
    exact ⟨h1, h3⟩
  | succ fuel ih =>
    intro i s visited h1 h2 h3
    unfold ProcessMissiles_update
    cases hget : s.Missiles[i]? with
    | none => exact ⟨h1, h3⟩
    | some n =>
      simp only []
      have hn : n.id ∈ nodeIds s := List.mem_map_of_mem _ (List.getElem?_mem hget)
      have hna : n.id ≠ a := fun h => h1 (h ▸ hn)
      have hv : ∀ v ∈ visited ++ [(n.id, (match cat.mProc n.val._mitype with
          | some mProc => (mProc n.id s, true)
          | none => (s, false)).2)], v.1 ≠ a := by
        intro v hv
        rcases List.mem_append.mp hv with hv | hv
        · exact h3 v hv
        · rw [List.mem_singleton.mp hv]; exact hna
      cases hp : cat.mProc n.val._mitype with
      | none =>
        simp only [hp] at hv ⊢
        exact ih (i + 1) _ _ (by rw [updateMissile_nodeIds]; exact h1) h2 hv
      | some mProc =>
        simp only [hp] at hv ⊢
        obtain ⟨⟨new, hnew, hfresh⟩, hnext, -⟩ := hcat _ _ hp n.id s
        refine ih (i + 1) _ _ ?_ (Nat.lt_of_lt_of_le h2 hnext) hv
        rw [updateMissile_nodeIds, hnew]
        intro hmem
        rcases List.mem_append.mp hmem with hmem | hmem
        · exact h1 hmem
        · have := hfresh a hmem
          omega

theorem sweep_removes_out_of_bounds (ext : Ext) (s : GameState) (hs : s.NodesDistinct)
    (n : MissileNode) (hn : n ∈ s.Missiles)
    (hoob : ext.InDungeonBounds n.val.position.tile = false) :
    n.id ∉ nodeIds (DeleteMissiles (ProcessMissiles_mark ext s)) := by
  unfold nodeIds DeleteMissiles ProcessMissiles_mark
  simp only [List.mem_map, List.mem_filter, not_exists, not_and]
  rintro k ⟨⟨k0, hk0, rfl⟩, hdel⟩ hid
  have hid0 : k0.id = n.id := by
    revert hid
    split_ifs <;> exact id
  have hk : k0 = n := List.inj_on_of_nodup_map hs.1 hk0 hn hid0
  subst hk
  rw [if_neg (by rw [hoob]; decide)] at hdel
  simp at hdel

theorem update_visits (ext : Ext) (cat : Catalog) (hcat : cat.AppendOnly ext) :
    ∀ (fuel i : Nat) (s : GameState) (visited : List (Nat × Bool)),
      i ≤ s.Missiles.length → visited.map Prod.fst = (nodeIds s).take i →
      max s.Missiles.length ext.max_size ≤ fuel + i →
      (ProcessMissiles_update cat fuel i (s, visited)).2.map Prod.fst
          = nodeIds (ProcessMissiles_update cat fuel i (s, visited)).1
        ∧ nodeIds s <+: nodeIds (ProcessMissiles_update cat fuel i (s, visited)).1 := by
  intro fuel
  induction fuel with
  | zero =>
    intro i s visited h1 h2 h3
    have hlen : (nodeIds s).length = s.Missiles.length := by simp [nodeIds]
    have : i = s.Missiles.length := by omega
    refine ⟨?_, List.prefix_refl _⟩
    show visited.map Prod.fst = nodeIds s
    rw [h2, this, ← hlen, List.take_length]
  | succ fuel ih =>
    intro i s visited h1 h2 h3
    have hlen : (nodeIds s).length = s.Missiles.length := by simp [nodeIds]
    unfold ProcessMissiles_update
    cases hget : s.Missiles[i]? with
    | none =>
      have : i = s.Missiles.length := by
        have := List.getElem?_eq_none_iff.mp hget
        omega
      refine ⟨?_, List.prefix_refl _⟩
      show visited.map Prod.fst = nodeIds s
      rw [h2, this, ← hlen, List.take_length]
    | some n =>
      simp only []
      have hi : i < s.Missiles.length := by
        by_contra hc
        rw [List.getElem?_eq_none (by omega)] at hget
        exact Option.noConfusion hget
      have hidx : (nodeIds s)[i]? = some n.id := by
        simp [nodeIds, List.getElem?_map, hget]
      have key : ∀ (s1 : GameState) (b : Bool),
          (∃ new, nodeIds s1 = nodeIds s ++ new) →
          s1.Missiles.length ≤ max s.Missiles.length ext.max_size →
          (ProcessMissiles_update cat fuel (i + 1)
              (s1.updateMissile n.id ProcessMissiles_animate, visited ++ [(n.id, b)])).2.map Prod.fst
            = nodeIds (ProcessMissiles_update cat fuel (i + 1)
              (s1.updateMissile n.id ProcessMissiles_animate, visited ++ [(n.id, b)])).1
          ∧ nodeIds s <+: nodeIds (ProcessMissiles_update cat fuel (i + 1)
              (s1.updateMissile n.id ProcessMissiles_animate, visited ++ [(n.id, b)])).1 := by
        intro s1 b ⟨new, hnew⟩ hcap
        have hids : nodeIds (s1.updateMissile n.id ProcessMissiles_animate) = nodeIds s ++ new := by
          rw [updateMissile_nodeIds, hnew]
        have hlen1 : (s1.updateMissile n.id ProcessMissiles_animate).Missiles.length
            = s1.Missiles.length := by
          simp [GameState.updateMissile]
        have hlen2 : s1.Missiles.length = s.Missiles.length + new.length := by
          have := congrArg List.length hnew
          simp [nodeIds] at this
          exact this
        have := ih (i + 1) (s1.updateMissile n.id ProcessMissiles_animate)
          (visited ++ [(n.id, b)]) (by rw [hlen1, hlen2]; omega)
          (by
            rw [List.map_append, h2, hids, List.take_append_of_le_length (by omega)]
            simp only [List.map_cons, List.map_nil]
            rw [List.take_succ, hidx]
            rfl)
          (by rw [hlen1]; omega)
        refine ⟨this.1, List.IsPrefix.trans ?_ this.2⟩
        rw [hids]
        exact List.prefix_append _ _
      cases hp : cat.mProc n.val._mitype with
      | none =>
        simp only [hp]
        exact key s false ⟨[], by simp⟩ (le_max_left _ _)
      | some mProc =>
        simp only [hp]
        obtain ⟨⟨new, hnew, -⟩, -, hcap⟩ := hcat _ _ hp n.id s
        exact key _ true ⟨new, hnew⟩ hcap

theorem update_invoked (cat : Catalog) (hall : ∀ t, (cat.mProc t).isSome = true) :
    ∀ (fuel i : Nat) (s : GameState) (visited : List (Nat × Bool)),
      (∀ v ∈ visited, v.2 = true) →
      ∀ v ∈ (ProcessMissiles_update cat fuel i (s, visited)).2, v.2 = true := by
  intro fuel
  induction fuel with
  | zero =>
    intro i s visited h
    exact h
  | succ fuel ih =>
    intro i s visited h
    unfold ProcessMissiles_update
    cases hget : s.Missiles[i]? with
    | none => exact h
    | some n =>
      simp only []
      cases hp : cat.mProc n.val._mitype with
      | none =>
        have := hall n.val._mitype
        rw [hp] at this
        exact Bool.noConfusion this
      | some mProc =>
        simp only []
        apply ih
        intro v hv
        rcases List.mem_append.mp hv with hv | hv
        · exact h v hv
        · rw [List.mem_singleton.mp hv]

theorem call_hitpoints (w : World) (ev : Event) (f : Globals → Globals) (m : Int)
    (h : ∀ g : Globals, ((f g).Monsters m)._mhitpoints = (g.Monsters m)._mhitpoints) :
    (((w.call ev f).Monsters m)._mhitpoints) = (w.Monsters m)._mhitpoints := by
  unfold World.call
  exact h w.toGlobals

theorem setMonster_get (w : World) (m : Int) (monster : Monster) :
    (w.setMonster m monster).Monsters m = monster := by
  simp [World.setMonster]

theorem MonsterMHit_resolve_hitpoints (ext : Ext) (pnum m dam : Int) (t : missile_id)
    (monster : Monster) (w : World) (hext : ReactionsKeepHitPoints ext m) :
    ((MonsterMHit_resolve ext pnum m dam t monster w).Monsters m)._mhitpoints
      = if pnum = w.MyPlayerId then monster._mhitpoints - dam else monster._mhitpoints := by
  have hk := fun g => (hext g).1
  have hp := fun g => (hext g).2.1
  have hb := fun g => (hext g).2.2.1
  have hs := fun g => (hext g).2.2.2
  unfold MonsterMHit_resolve
  lift_lets
  intro player resist monster1 monster2 w1 w3 w2 monster3
  have h2 : monster2._mhitpoints
      = if pnum = w.MyPlayerId then monster._mhitpoints - dam else monster._mhitpoints := by
    simp only [monster2, monster1]
    split_ifs <;> rfl
  have hw1 : (w1.Monsters m)._mhitpoints = monster2._mhitpoints := by
    simp only [w1, setMonster_get]
  have hw3 : (w3.Monsters m)._mhitpoints = (w1.Monsters m)._mhitpoints := by
    simp only [w3]
    split_ifs
    · exact call_hitpoints _ _ _ _ hb
    · rfl
  have hw2 : (w2.Monsters m)._mhitpoints = (w1.Monsters m)._mhitpoints := by
    simp only [w2]
    split_ifs
    · exact call_hitpoints _ _ _ _ (fun g => hk g _)
    · exact call_hitpoints _ _ _ _ (fun g => hp g _)
    · rw [call_hitpoints _ _ _ _ (fun g => hs g _ _), hw3]
    · exact hw3
  intro src
  rw [← h2, ← hw1, ← hw2]
  split_ifs
  · rw [setMonster_get]
  · rfl

theorem MonsterMHitChance_MyPlayerId (ext : Ext) (pnum dist : Int) (t : missile_id)
    (monster : Monster) (w : World) :
    (MonsterMHitChance ext pnum dist t monster w).2.MyPlayerId = w.MyPlayerId := by
  unfold MonsterMHitChance
  simp only []
  split_ifs <;> rfl

theorem MonsterMHitDamage_MyPlayerId (ext : Ext) (pnum mindam maxdam : Int) (t : missile_id)
    (shift : Bool) (monster : Monster) (w : World) :
    (MonsterMHitDamage ext pnum mindam maxdam t shift monster w).2.MyPlayerId = w.MyPlayerId := by
  unfold MonsterMHitDamage
  simp only []
  split_ifs <;> rfl

theorem monsterHitCalls_call (w : World) (ev : Event) (f : Globals → Globals)
    (h : ev.isMonsterHit = false) :
    monsterHitCalls (w.call ev f).trace = monsterHitCalls w.trace := by
  simp [monsterHitCalls, World.call, List.filter_append, h]

theorem monsterHitCalls_enter (w : World) (ev : Event) (h : ev.isMonsterHit = false) :
    monsterHitCalls (w.enter ev).trace = monsterHitCalls w.trace := by
  simp [monsterHitCalls, World.enter, List.filter_append, h]

theorem PlayerMHit_resolve_monsterHitCalls (ext : Ext) (pnum : Int) (monster : Option Int)
    (mind maxd : Int) (mtype : missile_id) (shift : Bool) (earflag blk blkper resper : Int)
    (player : Player) (w : World) :
    monsterHitCalls (PlayerMHit_resolve ext pnum monster mind maxd mtype shift earflag blk blkper
      resper player w).2.trace = monsterHitCalls w.trace := by
  unfold PlayerMHit_resolve
  lift_lets
  intro g1 dam1 dam2 g2 dam3 dam4 r d dam w0 dir dam5 w1 w2 w3 w4
  have hr : r.2.trace = w.trace := by
    simp only [r]
    split_ifs <;> rfl
  have hd : w0.trace = w.trace := by
    simp only [w0, d]
    split_ifs
    · rfl
    · exact hr
  have hw1 : monsterHitCalls w1.trace = monsterHitCalls w.trace := by
    simp only [w1]
    split_ifs
    · rw [monsterHitCalls_call, hd]; rfl
    · rw [hd]
  have hw2 : monsterHitCalls w2.trace = monsterHitCalls w.trace := by
    simp only [w2]
    split_ifs
    · rw [monsterHitCalls_call, hw1]; rfl
    · exact hw1
  have hw3 : monsterHitCalls w3.trace = monsterHitCalls w.trace := by
    simp only [w3]
    split_ifs
    · rw [monsterHitCalls_call, hd]; rfl
    · rw [hd]
  have hw4 : monsterHitCalls w4.trace = monsterHitCalls w.trace := by
    simp only [w4]
    split_ifs
    · rw [monsterHitCalls_call, hw3]; rfl
    · exact hw3
  split_ifs
  · show monsterHitCalls (w0.call _ _).trace = _
    rw [monsterHitCalls_call, hd]; rfl
  · exact hw2
  · exact hw4

theorem PlayerMHit_monsterHitCalls (ext : Ext) (pnum : Int) (monster : Option Int)
    (dist mind maxd : Int) (mtype : missile_id) (shift : Bool) (earflag : Int) (w : World) :
    monsterHitCalls (PlayerMHit ext pnum monster dist mind maxd mtype shift earflag w).2.2.trace
      = monsterHitCalls w.trace := by
  have he : monsterHitCalls (w.enter (Event.PlayerMHit pnum monster mtype)).trace
      = monsterHitCalls w.trace := monsterHitCalls_enter _ _ rfl
  unfold PlayerMHit
  lift_lets
  intro w0 blocked player g hit w1 hper b blk w2 blk1 blk2 blkper blkper1 blkper2 resper
  have hb : w2.trace = w0.trace := by
    simp only [w2, b]
    split_ifs <;> rfl
  split_ifs
  · exact he
  · exact he
  · exact he
  · show monsterHitCalls w2.trace = _
    rw [hb]; exact he
  · show monsterHitCalls (PlayerMHit_resolve _ _ _ _ _ _ _ _ _ _ _ _ w2).2.trace = _
    rw [PlayerMHit_resolve_monsterHitCalls, hb]; exact he

theorem RotateBlockedMissile_trace (ext : Ext) (missile : Missile) (w : World) :
    (RotateBlockedMissile ext missile w).2.trace = w.trace := by
  unfold RotateBlockedMissile
  simp only []
  split_ifs <;> rfl

theorem Plr2PlrMHit_resolve_block (ext : Ext) (pnum p mindam maxdam : Int) (mtype : missile_id)
    (shift : Bool) (resper : Int) (player target : Player) (w : World)
    (h : (Plr2PlrMHit_resolve ext pnum p mindam maxdam mtype shift resper player target w).1 = true) :
    (target._pmode = PLR_MODE.PM_STAND ∨ target._pmode = PLR_MODE.PM_ATTACK)
      ∧ target._pBlockFlag = true ∧ shift = false := by
  by_cases hc : shift = false ∧ (target._pmode = PLR_MODE.PM_STAND ∨ target._pmode = PLR_MODE.PM_ATTACK)
      ∧ target._pBlockFlag = true
  · exact ⟨hc.2.1, hc.2.2, hc.1⟩
  · exfalso
    have hblk : clamp (ext.GetBlockChance target none - player._pLevel * 2) 0 100 ≤ 100 :=
      clamp_le _ 0 100 (by decide)
    unfold Plr2PlrMHit_resolve at h
    rw [if_neg hc] at h
    simp only [] at h
    split_ifs at h
    all_goals omega

theorem PlayerMHit_resolve_block (ext : Ext) (pnum : Int) (monster : Option Int) (mind maxd : Int)
    (mtype : missile_id) (shift : Bool) (earflag blk blkper resper : Int) (player : Player)
    (w : World)
    (h : (PlayerMHit_resolve ext pnum monster mind maxd mtype shift earflag blk blkper resper
      player w).1 = true) : blk < blkper := by
  by_cases a : blk < blkper
  · exact a
  · exfalso
    unfold PlayerMHit_resolve at h
    lift_lets at h
    extract_lets at h
    split_ifs at h with c
    exact a c.2

theorem call_trace_mem (w : World) (ev : Event) (f : Globals → Globals) :
    ev ∈ (w.call ev f).trace := by
  unfold World.call
  exact List.mem_append_right _ (List.mem_singleton.mpr rfl)

theorem call_trace_mono (w : World) (ev e : Event) (f : Globals → Globals) (h : e ∈ w.trace) :
    e ∈ (w.call ev f).trace := by
  unfold World.call
  exact List.mem_append_left _ h

theorem PlayerMHit_resolve_bonespirit (ext : Ext) (pnum : Int) (monster : Option Int)
    (mind maxd : Int) (shift : Bool) (earflag blk blkper resper : Int) (player : Player)
    (w : World) (hme : pnum = w.MyPlayerId)
    (h : (PlayerMHit_resolve ext pnum monster mind maxd missile_id.MIS_BONESPIRIT shift earflag blk
      blkper resper player w).1 = false) :
    Event.ApplyPlrDamage pnum 0 0 (afterResistance (player._pHitPoints.tdiv 3) resper) earflag
      ∈ (PlayerMHit_resolve ext pnum monster mind maxd missile_id.MIS_BONESPIRIT shift earflag blk
          blkper resper player w).2.trace := by
  unfold PlayerMHit_resolve at h ⊢
  rw [if_pos rfl] at h ⊢
  simp only [] at h ⊢
  unfold afterResistance
  split_ifs at h ⊢ with a b c d
  all_goals first
    | exact Bool.noConfusion h
    | exact call_trace_mono _ _ _ _ (call_trace_mem _ _ _)
    | exact call_trace_mem _ _ _

theorem Plr2PlrMHit_resolve_bonespirit (ext : Ext) (pnum p mindam maxdam : Int)
    (shift : Bool) (resper : Int) (player target : Player) (w : World) (hme : pnum = w.MyPlayerId)
    (h : (Plr2PlrMHit_resolve ext pnum p mindam maxdam missile_id.MIS_BONESPIRIT shift resper player
      target w).1 = false) :
    Event.NetSendCmdDamage true p
        (afterResistance
          (if (ext.MissilesData missile_id.MIS_BONESPIRIT).mType ≠ 0 then
            (target._pHitPoints.tdiv 3).tdiv 2
          else target._pHitPoints.tdiv 3) resper)
      ∈ (Plr2PlrMHit_resolve ext pnum p mindam maxdam missile_id.MIS_BONESPIRIT shift resper player
          target w).2.trace := by
  unfold Plr2PlrMHit_resolve at h ⊢
  simp only [reduceIte] at h ⊢
  have hme2 : pnum = (GenerateRnd 100 w).2.MyPlayerId := hme
  unfold afterResistance
  split_ifs at h ⊢ with a b c d
  all_goals first
    | exact Bool.noConfusion h
    | exact call_trace_mono _ _ _ _ (call_trace_mem _ _ _)



theorem GenerateRnd_MyPlayerId (v : Int) (w : World) : (GenerateRnd v w).2.MyPlayerId = w.MyPlayerId := rfl

theorem GenerateRnd_Players (v : Int) (w : World) : (GenerateRnd v w).2.Players = w.Players := rfl

theorem PlayerMHit_hit_form (ext : Ext) (pnum : Int) (monster : Option Int) (dist mind maxd : Int)
    (mtype : missile_id) (shift : Bool) (earflag : Int) (w : World)
    (h : (PlayerMHit ext pnum monster dist mind maxd mtype shift earflag w).1 = true) :
    ∃ (blk blkper : Int) (w1 : World), w1.MyPlayerId = w.MyPlayerId
      ∧ (PlayerMHit ext pnum monster dist mind maxd mtype shift earflag w).2
        = PlayerMHit_resolve ext pnum monster mind maxd mtype shift earflag blk blkper
            (resistancePercent ext mtype (w.Players pnum)) (w.Players pnum) w1 := by
  unfold PlayerMHit at h ⊢
  lift_lets at h ⊢
  extract_lets w0 blocked player g hit w1 hper b blk0 w2 blk1 blk2 bp0 bp1 blkper resper at h ⊢
  have hw2 : w2.MyPlayerId = w.MyPlayerId := by
    simp only [w2, b]
    split_ifs
    · rfl
    · rfl
  split_ifs at h ⊢
  all_goals first
    | exact Bool.noConfusion h
    | exact ⟨blk2, blkper, w2, hw2, rfl⟩

theorem Plr2PlrMHit_hit_form (ext : Ext) (pnum p mindam maxdam dist : Int) (mtype : missile_id)
    (shift blocked : Bool) (w : World)
    (h : (Plr2PlrMHit ext pnum p mindam maxdam dist mtype shift blocked w).1 = true) :
    ∃ w1 : World, w1.MyPlayerId = w.MyPlayerId
      ∧ (Plr2PlrMHit ext pnum p mindam maxdam dist mtype shift blocked w).2
        = Plr2PlrMHit_resolve ext pnum p mindam maxdam mtype shift
            (resistancePercent ext mtype (w.Players p)) (w.Players pnum) (w.Players p) w1 := by
  unfold Plr2PlrMHit at h ⊢
  lift_lets at h ⊢
  extract_lets w0 player target blocked0 resper g hper w1 hit at h ⊢
  split_ifs at h ⊢
  all_goals first
    | exact Bool.noConfusion h
    | exact ⟨w1, rfl, rfl⟩

theorem find_map_update (l : List MissileNode) (node : Nat) (f : Missile → Missile) :
    ((l.map (fun n => if n.id = node then { n with val := f n.val } else n)).find?
        (fun n => decide (n.id = node))).map (fun n => n.val)
      = ((l.find? (fun n => decide (n.id = node))).map (fun n => n.val)).map f := by
  induction l with
  | nil => rfl
  | cons a l ih =>
    simp only [List.map_cons]
    by_cases h : a.id = node
    · rw [if_pos h, List.find?_cons_of_pos _ (by simpa using h),
        List.find?_cons_of_pos _ (by simpa using h)]
      rfl
    · rw [if_neg h, List.find?_cons_of_neg _ (by simpa using h),
        List.find?_cons_of_neg _ (by simpa using h)]
      exact ih

theorem find_map_update_ne (l : List MissileNode) (node k : Nat) (f : Missile → Missile)
    (hk : node ≠ k) :
    ((l.map (fun n => if n.id = k then { n with val := f n.val } else n)).find?
        (fun n => decide (n.id = node))).map (fun n => n.val)
      = (l.find? (fun n => decide (n.id = node))).map (fun n => n.val) := by
  induction l with
  | nil => rfl
  | cons a l ih =>
    simp only [List.map_cons]
    by_cases h : a.id = node
    · have hak : ¬ a.id = k := fun e => hk (h ▸ e)
      rw [if_neg hak, List.find?_cons_of_pos _ (by simpa using h),
        List.find?_cons_of_pos _ (by simpa using h)]
    · by_cases hak : a.id = k
      · rw [if_pos hak, List.find?_cons_of_neg _ (by simpa using h),
          List.find?_cons_of_neg _ (by simpa using h)]
        exact ih
      · rw [if_neg hak, List.find?_cons_of_neg _ (by simpa using h),
          List.find?_cons_of_neg _ (by simpa using h)]
        exact ih

theorem getMissile_updateMissile (s : GameState) (node : Nat) (f : Missile → Missile) :
    (s.updateMissile node f).getMissile node = (s.getMissile node).map f :=
  find_map_update s.Missiles node f

theorem getMissile_updateMissile_ne (s : GameState) (node k : Nat) (f : Missile → Missile)
    (hk : node ≠ k) : (s.updateMissile k f).getMissile node = s.getMissile node :=
  find_map_update_ne s.Missiles node k f hk

theorem missile_updateMissile (s : GameState) (node : Nat) (f : Missile → Missile) (m : Missile)
    (h : s.getMissile node = some m) : (s.updateMissile node f).missile node = f m := by
  unfold GameState.missile
  rw [getMissile_updateMissile, h]
  rfl

theorem missile_updateMissile_ne (s : GameState) (node k : Nat) (f : Missile → Missile)
    (hk : node ≠ k) : (s.updateMissile k f).missile node = s.missile node := by
  unfold GameState.missile
  rw [getMissile_updateMissile_ne s node k f hk]

theorem missile_of_get (s : GameState) (node : Nat) (m : Missile) (h : s.getMissile node = some m) :
    s.missile node = m := by
  unfold GameState.missile
  rw [h]
  rfl

theorem PutMissile_Missiles (ext : Ext) (missile : Missile) (s : GameState) :
    (PutMissile ext missile s).2.Missiles = s.Missiles := by
  unfold PutMissile
  simp only []
  split_ifs <;> rfl

theorem PutMissile_trace (ext : Ext) (missile : Missile) (s : GameState) :
    (PutMissile ext missile s).2.trace = s.trace := by
  unfold PutMissile
  simp only []
  split_ifs <;> rfl

theorem PutMissile_Monsters (ext : Ext) (missile : Missile) (s : GameState) :
    (PutMissile ext missile s).2.Monsters = s.Monsters := by
  unfold PutMissile
  simp only []
  split_ifs <;> rfl

theorem PutMissile_keeps_deleted (ext : Ext) (missile : Missile) (s : GameState)
    (h : missile._miDelFlag = true) : (PutMissile ext missile s).1._miDelFlag = true := by
  unfold PutMissile
  simp only []
  split_ifs <;> first | rfl | assumption

theorem PutMissile_deleted (ext : Ext) (missile : Missile) (s : GameState)
    (h : missile._miDelFlag = true) : (PutMissile ext missile s).2 = s := by
  unfold PutMissile
  simp only []
  rw [if_pos]
  split_ifs
  · rfl
  · exact h

theorem find_map_other (l : List MissileNode) (node : Nat) (g : MissileNode → MissileNode)
    (hid : ∀ n, (g n).id = n.id) (hself : ∀ n, n.id = node → g n = n) :
    (l.map g).find? (fun n => decide (n.id = node)) = l.find? (fun n => decide (n.id = node)) := by
  induction l with
  | nil => rfl
  | cons a l ih =>
    simp only [List.map_cons]
    by_cases h : a.id = node
    · rw [hself a h, List.find?_cons_of_pos _ (by simpa using h),
        List.find?_cons_of_pos _ (by simpa using h)]
    · rw [List.find?_cons_of_neg _ (by simpa [hid] using h),
        List.find?_cons_of_neg _ (by simpa using h)]
      exact ih

theorem getMissile_congr (s t : GameState) (node : Nat) (h : s.Missiles = t.Missiles) :
    s.getMissile node = t.getMissile node := by
  unfold GameState.getMissile
  rw [h]

theorem AddTown_activate_Missiles (ext : Ext) (missile : Missile) (s : GameState) :
    (AddTown_activate ext missile s).Missiles = s.Missiles := by
  unfold AddTown_activate
  split_ifs <;> rfl

theorem AddTown_activate_deleted (ext : Ext) (missile : Missile) (s : GameState)
    (h : missile._miDelFlag = true) : AddTown_activate ext missile s = s := by
  unfold AddTown_activate
  apply if_neg
  rintro ⟨-, h2, -⟩
  rw [h] at h2
  exact Bool.noConfusion h2

theorem AddTown_place_failure (ext : Ext) (missile : Missile) (parameter : AddMissileParameter)
    (s : GameState) (hl : s.currlevel ≠ 0)
    (hf : (ext.FindClosestValidPosition (AddTown_posOk ext) parameter.dst 0 5 s.toWorld).1 = none) :
    AddTown_place ext missile parameter s
      = ({ missile with _miDelFlag := true },
          { s with toWorld :=
              (ext.FindClosestValidPosition (AddTown_posOk ext) parameter.dst 0 5 s.toWorld).2 }) := by
  unfold AddTown_place
  rw [if_neg hl]
  simp only [hf]

theorem AddTown_search_failure (ext : Ext) (node : Nat) (parameter : AddMissileParameter)
    (s : GameState) (missile : Missile) (hm : s.getMissile node = some missile)
    (hl : s.currlevel ≠ 0)
    (hf : (ext.FindClosestValidPosition (AddTown_posOk ext) parameter.dst 0 5 s.toWorld).1 = none) :
    ((AddTown ext node parameter s).missile node)._miDelFlag = true
    ∧ (AddTown ext node parameter s).toWorld
      = (ext.FindClosestValidPosition (AddTown_posOk ext) parameter.dst 0 5 s.toWorld).2 := by
  unfold AddTown
  simp -zeta only [hm]
  rw [AddTown_place_failure ext missile parameter s hl hf]
  lift_lets
  intro r src1 m1 m2 src2 s1 p
  have hdel : p.1._miDelFlag = true := PutMissile_keeps_deleted ext m2 s1 rfl
  rw [AddTown_activate_deleted _ _ _ hdel]
  constructor
  · have hin : p.2.getMissile node = some missile := by
      rw [getMissile_congr p.2 s1 node (PutMissile_Missiles _ _ _), ← hm]
      unfold GameState.getMissile
      simp only [s1]
      rw [find_map_other]
      · intro n
        split_ifs <;> rfl
      · intro n hn
        rw [if_neg]
        rintro ⟨-, h2, -⟩
        exact h2 hn
    rw [missile_updateMissile _ _ _ _ hin]
    exact hdel
  · show p.2.toWorld = _
    rw [PutMissile_deleted ext m2 s1 rfl]

theorem AddRune_posOk_bounds (ext : Ext) (p : Point) (w : World)
    (h : (AddRune_posOk ext p w).1 = true) : ext.InDungeonBounds p = true := by
  unfold AddRune_posOk at h
  by_cases hb : ext.InDungeonBounds p = false
  · rw [if_pos hb] at h
    exact Bool.noConfusion h
  · simpa using hb

theorem AddGuardian_posOk_bounds (ext : Ext) (start p : Point) (w : World)
    (h : (AddGuardian_posOk ext start p w).1 = true) : ext.InDungeonBounds p = true := by
  unfold AddGuardian_posOk at h
  by_cases hb : ext.InDungeonBounds p = false
  · rw [if_pos hb] at h
    exact Bool.noConfusion h
  · simpa using hb

theorem AddGuardian_range_ge (missile : Missile) (player : Player) :
    30 ≤ AddGuardian_range missile player := by
  unfold AddGuardian_range
  simp only []
  split_ifs <;> omega

theorem sampleExt_searchSound : SearchSound sampleExt := by
  intro posOk start lo hi w p h
  refine ⟨w, ?_⟩
  change (if (posOk start w).1 = true then some start else none) = some p at h
  split_ifs at h with hc
  cases h
  exact hc

theorem sampleExt_cast (mode : MonsterMode) :
    sampleExt.MonsterMode_ofInt (sampleExt.MonsterMode_toInt mode) = mode := by
  cases mode with
  | other n =>
    show (if ((n : Int) + 4) = 0 then MonsterMode.Charge
      else if ((n : Int) + 4) = 1 then MonsterMode.FadeIn
      else if ((n : Int) + 4) = 2 then MonsterMode.FadeOut
      else if ((n : Int) + 4) = 3 then MonsterMode.Petrified
      else MonsterMode.other ((n : Int) + 4 - 4).toNat) = MonsterMode.other n
    rw [if_neg (by omega), if_neg (by omega), if_neg (by omega), if_neg (by omega)]
    congr 1
    omega
  | _ => rfl

theorem find_nodup_id (l : List MissileNode) (P : MissileNode → Bool) (other : MissileNode)
    (hs : (l.map (fun n => n.id)).Nodup) (ho : l.find? P = some other) :
    l.find? (fun n => decide (n.id = other.id)) = some other := by
  induction l with
  | nil => exact absurd ho (by simp)
  | cons a l ih =>
    rw [List.map_cons, List.nodup_cons] at hs
    by_cases h : a.id = other.id
    · rw [List.find?_cons_of_pos _ (by simpa using h)]
      by_cases hp : P a = true
      · rw [List.find?_cons_of_pos _ hp] at ho
        exact ho
      · rw [List.find?_cons_of_neg _ hp] at ho
        exfalso
        apply hs.1
        rw [h]
        exact List.mem_map_of_mem _ (List.mem_of_find?_eq_some ho)
    · rw [List.find?_cons_of_neg _ (by simpa using h)]
      by_cases hp : P a = true
      · rw [List.find?_cons_of_pos _ hp] at ho
        cases ho
        exact absurd rfl h
      · rw [List.find?_cons_of_neg _ hp] at ho
        exact ih hs.2 ho

theorem MoveMissile_arrive_tile (ext : Ext) (mindam maxdam : Int) (ignoreStart ifCollides : Bool)
    (missile : Missile) (w : World) :
    ((MoveMissile_arrive ext mindam maxdam ignoreStart ifCollides missile w).2 = none
      ∨ (MoveMissile_arrive ext mindam maxdam ignoreStart ifCollides missile w).2
        = some missile.position.tile)
    ∧ (ignoreStart = true → missile.position.start = missile.position.tile →
      (MoveMissile_arrive ext mindam maxdam ignoreStart ifCollides missile w).2 = none)
    ∧ (¬ (ignoreStart = true ∧ missile.position.start = missile.position.tile) →
      (MoveMissile_arrive ext mindam maxdam ignoreStart ifCollides missile w).2
        = some missile.position.tile) := by
  unfold MoveMissile_arrive
  simp only []
  refine ⟨?_, ?_, ?_⟩
  · split_ifs
    · exact Or.inl rfl
    · exact Or.inr rfl
    · exact Or.inr rfl
  · intro h1 h2
    rw [if_pos ⟨h1, h2⟩]
  · intro h
    rw [if_neg h]
    split_ifs <;> rfl

theorem RangeKept_refl (missile : Missile) : RangeKept missile missile := ⟨rfl, Or.inl rfl⟩

theorem RangeKept_trans (a b c : Missile) (h1 : RangeKept a b) (h2 : RangeKept b c) :
    RangeKept a c := by
  refine ⟨h2.1.trans h1.1, ?_⟩
  rcases h2.2 with h | h
  · rcases h1.2 with h' | h'
    · exact Or.inl (h.trans h')
    · exact Or.inr (h.trans h')
  · exact Or.inr h

theorem RotateBlockedMissile_range (ext : Ext) (missile : Missile) (w : World) :
    RangeKept missile (RotateBlockedMissile ext missile w).1 := by
  unfold RotateBlockedMissile
  simp only []
  split_ifs <;> exact ⟨rfl, Or.inl rfl⟩

theorem CheckMissileCol_range (ext : Ext) (missile : Missile) (minDamage maxDamage : Int)
    (isDamageShifted : Bool) (position : Point) (dontDeleteOnCollision : Bool) (w : World) :
    RangeKept missile (CheckMissileCol ext missile minDamage maxDamage isDamageShifted position
      dontDeleteOnCollision w).1 := by
  unfold CheckMissileCol
  lift_lets
  intro mx my mid attackingMonster r isMonsterHit w1 src1 missile1 blocked0 pid earflag q
    isPlayerHit blocked w2 h1 src2 h2 missile2 w3 w4 src3 h3 missile3 w5
  have hm1 : RangeKept missile missile1 := by
    simp only [missile1, src1]
    split_ifs
    · exact ⟨rfl, Or.inl rfl⟩
    · exact ⟨rfl, Or.inr rfl⟩
    · exact ⟨rfl, Or.inl rfl⟩
  have hh1 : RangeKept missile h1.1 := by
    simp only [h1]
    split_ifs
    · exact RangeKept_trans _ _ _ hm1 (RotateBlockedMissile_range _ _ _)
    · exact ⟨hm1.1, Or.inr rfl⟩
    · exact hm1
  have hm2 : RangeKept missile missile2 := by
    simp only [missile2, h2, src2]
    split_ifs
    · exact hh1
    · exact hm1
  have hm3 : RangeKept missile missile3 := by
    simp only [missile3, h3, src3]
    split_ifs
    · exact hm2
    · exact ⟨hm2.1, Or.inr rfl⟩
    · exact hm2
  split_ifs
  · exact RangeKept_refl _
  · exact hm3
  · exact hm3

theorem UpdateMissilePos_range (ext : Ext) (missile : Missile) (w : World) :
    RangeKept missile (UpdateMissilePos ext missile w).1 := ⟨rfl, Or.inl rfl⟩

theorem MoveMissile_collide_range (ext : Ext) (ifCollides : Bool) (incVelocity traveled : Displacement)
    (missile : Missile) (w : World) :
    RangeKept missile (MoveMissile_collide ext ifCollides incVelocity traveled missile w).1 := by
  unfold MoveMissile_collide
  simp only []
  split_ifs <;> exact ⟨rfl, Or.inl rfl⟩

theorem MoveMissile_loop_range (ext : Ext) (mindam maxdam : Int) (ifCollides : Bool)
    (incVelocity : Displacement) (fuel : Nat) :
    ∀ (traveled : Displacement) (prevTile : Point) (missile : Missile) (w : World)
      (checked : List Point) (b : Bool) (m1 : Missile) (w1 : World) (checked1 : List Point),
      MoveMissile_loop ext mindam maxdam ifCollides incVelocity fuel traveled prevTile missile w
          checked = some (b, m1, w1, checked1) → RangeKept missile m1 := by
  induction fuel with
  | zero =>
    intro traveled prevTile missile w checked b m1 w1 checked1 h
    exact absurd h (by simp [MoveMissile_loop])
  | succ fuel ih =>
    intro traveled prevTile missile w checked b m1 w1 checked1 h
    unfold MoveMissile_loop at h
    lift_lets at h
    extract_lets tr mx my dx dy tile r at h
    have hr : RangeKept missile r.1 := CheckMissileCol_range _ _ _ _ _ _ _ _
    split_ifs at h
    · cases h
      exact RangeKept_refl _
    · exact ih _ _ _ _ _ _ _ _ _ h
    · exact RangeKept_trans _ _ _ hr (ih _ _ _ _ _ _ _ _ _ h)
    · cases h
      exact RangeKept_trans _ _ _ hr (MoveMissile_collide_range _ _ _ _ _ _)
    · exact RangeKept_trans _ _ _ hr (ih _ _ _ _ _ _ _ _ _ h)

theorem MoveMissile_arrive_range (ext : Ext) (mindam maxdam : Int) (ignoreStart ifCollides : Bool)
    (missile : Missile) (w : World) :
    RangeKept missile (MoveMissile_arrive ext mindam maxdam ignoreStart ifCollides missile w).1.1 := by
  unfold MoveMissile_arrive
  simp only []
  split_ifs
  · exact RangeKept_refl _
  · exact RangeKept_trans _ _ _ (CheckMissileCol_range _ _ _ _ _ _ _ _) ⟨rfl, Or.inl rfl⟩
  · exact CheckMissileCol_range _ _ _ _ _ _ _ _

theorem MoveMissileAndCheckMissileCol_range (ext : Ext) (fuel : Nat) (missile : Missile)
    (mindam maxdam : Int) (ignoreStart ifCollides : Bool) (w : World) (r : Missile × World)
    (h : MoveMissileAndCheckMissileCol ext fuel missile mindam maxdam ignoreStart ifCollides w
      = some r) : RangeKept missile r.1 := by
  unfold MoveMissileAndCheckMissileCol MoveMissileAndCheckMissileColTrace at h
  lift_lets at h
  extract_lets prevTile u m0 w0 n hash m1 at h
  have h0 : RangeKept missile m0 := ⟨rfl, Or.inl rfl⟩
  have h1 : RangeKept missile m1 := ⟨rfl, Or.inl rfl⟩
  by_cases hz : n = 0 ∧ m0.lastCollisionTargetHash = hash
  · rw [if_pos hz] at h
    cases h
    exact h0
  · rw [if_neg hz] at h
    by_cases hn1 : n > 1
    · rw [if_pos hn1] at h
      cases hl : MoveMissile_loop ext mindam maxdam ifCollides
          (ext.mulHundredth m1.position.velocity (n - 1)) fuel
          (m1.position.traveled.sub m1.position.velocity) prevTile m1 w0 [] with
      | none =>
        rw [hl] at h
        exact Option.noConfusion h
      | some res =>
        obtain ⟨b, m2, w2, checked⟩ := res
        rw [hl] at h
        have h2 : RangeKept m1 m2 := MoveMissile_loop_range _ _ _ _ _ _ _ _ _ _ _ _ _ _ _ hl
        cases b with
        | true =>
          cases h
          exact RangeKept_trans _ _ _ h1 h2
        | false =>
          cases h
          exact RangeKept_trans _ _ _ (RangeKept_trans _ _ _ h1 h2)
            (MoveMissile_arrive_range _ _ _ _ _ _ _)
    · rw [if_neg hn1] at h
      cases h
      exact RangeKept_trans _ _ _ h1 (MoveMissile_arrive_range _ _ _ _ _ _ _)

theorem PutMissile_result (ext : Ext) (missile : Missile) (s : GameState) :
    (PutMissile ext missile s).1._mirange = missile._mirange
    ∧ (PutMissile ext missile s).1.position = missile.position
    ∧ ((PutMissile ext missile s).1._miDelFlag = true
      ↔ missile._miDelFlag = true ∨ ext.InDungeonBounds missile.position.tile = false) := by
  unfold PutMissile
  simp only []
  by_cases hb : ext.InDungeonBounds missile.position.tile = false
  · rw [if_pos hb, if_pos rfl]
    exact ⟨rfl, rfl, fun _ => Or.inr hb, fun _ => rfl⟩
  · rw [if_neg hb]
    refine ⟨?_, ?_, ?_⟩
    · split_ifs <;> rfl
    · split_ifs <;> rfl
    · constructor
      · intro h
        left
        split_ifs at h <;> exact h
      · intro h
        rcases h with h | h
        · rw [if_pos h]
          exact h
        · exact absurd h hb

theorem MI_Town_player_Missiles (ext : Ext) (missile : Missile) (s : GameState) (p : Nat) :
    (MI_Town_player ext missile s p).Missiles = s.Missiles := by
  unfold MI_Town_player
  simp only []
  split_ifs <;> rfl

theorem MI_Town_players_Missiles (ext : Ext) (missile : Missile) (l : List Nat) (s : GameState) :
    (l.foldl (MI_Town_player ext missile) s).Missiles = s.Missiles := by
  induction l generalizing s with
  | nil => rfl
  | cons a l ih => rw [List.foldl_cons, ih, MI_Town_player_Missiles]

theorem MI_Rune_untriggered (ext : Ext) (cat : Catalog) (node : Nat) (s : GameState)
    (missile : Missile) (hm : s.getMissile node = some missile)
    (hmid : s.dMonster missile.position.tile.x missile.position.tile.y = 0)
    (hpid : s.dPlayer missile.position.tile.x missile.position.tile.y = 0) :
    ((MI_Rune ext cat node s).missile node)._mirange = missile._mirange
    ∧ (((MI_Rune ext cat node s).missile node)._miDelFlag = true
      ↔ missile._miDelFlag = true ∨ ext.InDungeonBounds missile.position.tile = false) := by
  have hmis : s.missile node = missile := by
    unfold GameState.missile
    rw [hm]
    rfl
  unfold MI_Rune
  rw [hmis]
  lift_lets
  intro position mid pid targetPosition dir sA sB s1 p
  have hs1 : s1 = s := by
    simp only [s1]
    rw [if_neg]
    rintro (h | h)
    · exact h hmid
    · exact h hpid
  have hp : p = PutMissile ext missile s := by
    simp only [p, hs1, hmis]
  have hin : p.2.getMissile node = some missile := by
    rw [hp]
    unfold GameState.getMissile
    rw [PutMissile_Missiles]
    exact hm
  rw [missile_updateMissile _ _ _ _ hin, hp]
  exact ⟨(PutMissile_result ext missile s).1, (PutMissile_result ext missile s).2.2⟩

theorem MI_Town_range (ext : Ext) (node : Nat) (s : GameState) (missile : Missile)
    (hm : s.getMissile node = some missile) :
    ((MI_Town ext node s).missile node)._mirange
      = (if missile._mirange > 1 then missile._mirange - 1 else missile._mirange)
    ∧ (((MI_Town ext node s).missile node)._miDelFlag = true
      ↔ missile._miDelFlag = true ∨ missile._mirange = 0
        ∨ ext.InDungeonBounds missile.position.tile = false) := by
  unfold MI_Town
  simp -zeta only [hm]
  lift_lets
  intro expLight m1 m2 l src r m3 s2 r2 p
  have hm1 : m1._mirange = (if missile._mirange > 1 then missile._mirange - 1
      else missile._mirange) ∧ m1._miDelFlag = missile._miDelFlag
      ∧ m1.position = missile.position := by
    simp only [m1]
    split_ifs <;> exact ⟨rfl, rfl, rfl⟩
  have hm2 : m2._mirange = m1._mirange ∧ m2._miDelFlag = m1._miDelFlag
      ∧ m2.position = m1.position := by
    simp only [m2]
    split_ifs <;> exact ⟨rfl, rfl, rfl⟩
  have hl : l.1._mirange = m2._mirange ∧ l.1._miDelFlag = m2._miDelFlag
      ∧ l.1.position = m2.position ∧ l.2.Missiles = s.Missiles := by
    simp only [l]
    split_ifs <;> exact ⟨rfl, rfl, rfl, rfl⟩
  have hm3 : m3._mirange = m2._mirange ∧ m3._miDelFlag = m2._miDelFlag
      ∧ m3.position = m2.position ∧ r.2.Missiles = s.Missiles := by
    simp only [m3, r]
    split_ifs
    · exact ⟨hl.1, hl.2.1, hl.2.2.1, hl.2.2.2⟩
    · exact ⟨rfl, rfl, rfl, rfl⟩
  have hs2 : s2.Missiles = s.Missiles := by
    simp only [s2]
    rw [MI_Town_players_Missiles, hm3.2.2.2]
  have hr2 : r2.1._mirange = m3._mirange ∧ (r2.1._miDelFlag = true
      ↔ m3._miDelFlag = true ∨ m3._mirange = 0) ∧ r2.1.position = m3.position
      ∧ r2.2.Missiles = s.Missiles := by
    simp only [r2]
    split_ifs with h0
    · exact ⟨rfl, ⟨fun _ => Or.inr h0, fun _ => rfl⟩, rfl, hs2⟩
    · refine ⟨rfl, ⟨fun h => Or.inl h, fun h => ?_⟩, rfl, hs2⟩
      rcases h with h | h
      · exact h
      · exact absurd h h0
  have hrange : m3._mirange = (if missile._mirange > 1 then missile._mirange - 1
      else missile._mirange) := by
    rw [hm3.1, hm2.1, hm1.1]
  have hzero : m3._mirange = 0 ↔ missile._mirange = 0 := by
    rw [hrange]
    split_ifs <;> omega
  have hin : p.2.getMissile node = some missile := by
    unfold GameState.getMissile
    rw [PutMissile_Missiles, hr2.2.2.2]
    exact hm
  rw [missile_updateMissile _ _ _ _ hin]
  obtain ⟨hp1, hp2, hp3⟩ := PutMissile_result ext r2.1 r2.2
  refine ⟨?_, ?_⟩
  · rw [hp1, hr2.1, hrange]
  · rw [hp3, hr2.2.1, hzero, hr2.2.2.1, hm3.2.2.1, hm2.2.2, hm1.2.2, hm3.2.1, hm2.2.1, hm1.2.1]
    tauto

theorem MI_Arrow_range (ext : Ext) (fuel : Nat) (node : Nat) (s s1 : GameState) (missile : Missile)
    (hm : s.getMissile node = some missile) (h : MI_Arrow ext fuel node s = some s1) :
    ((s1.missile node)._mirange = missile._mirange - 1 ∨ (s1.missile node)._mirange = 0)
    ∧ ((s1.missile node)._miDelFlag = true
      ↔ missile._miDelFlag = true ∨ (s1.missile node)._mirange = 0
        ∨ ext.InDungeonBounds (s1.missile node).position.tile = false) := by
  unfold MI_Arrow at h
  simp -zeta only [hm] at h
  lift_lets at h
  extract_lets m1 m2 p mind maxd at h
  cases hmove : MoveMissileAndCheckMissileCol ext fuel m2 mind maxd true false s.toWorld with
  | none =>
    rw [hmove] at h
    exact Option.noConfusion h
  | some r =>
    rw [hmove] at h
    simp -zeta only [] at h
    lift_lets at h
    extract_lets src m3 q at h
    have hk : RangeKept m2 r.1 := MoveMissileAndCheckMissileCol_range _ _ _ _ _ _ _ _ _ hmove
    have hm3 : m3._mirange = r.1._mirange ∧ m3.position = r.1.position
        ∧ (m3._miDelFlag = true ↔ missile._miDelFlag = true ∨ r.1._mirange = 0) := by
      simp only [m3]
      split_ifs with h0
      · exact ⟨rfl, rfl, fun _ => Or.inr h0, fun _ => rfl⟩
      · refine ⟨rfl, rfl, fun hd => Or.inl (hk.1 ▸ hd), fun hd => ?_⟩
        rcases hd with hd | hd
        · rw [hk.1]
          exact hd
        · exact absurd hd h0
    obtain ⟨hq1, hq2, hq3⟩ := PutMissile_result ext m3 { s with toWorld := r.2 }
    have hin : q.2.getMissile node = some missile := by
      unfold GameState.getMissile
      rw [PutMissile_Missiles]
      exact hm
    cases h
    rw [missile_updateMissile _ _ _ _ hin]
    refine ⟨?_, ?_⟩
    · rw [hq1, hm3.1]
      exact hk.2
    · rw [hq3, hq1, hq2, hm3.2.2, hm3.1, hm3.2.1]
      tauto

theorem MoveMissile_returns (ext : Ext) (fuel : Nat) (missile : Missile) (mindam maxdam : Int)
    (ignoreStart ifCollides : Bool) (w : World)
    (hle : possibleVisitTiles ext missile.position.tile (MoveMissile_advance ext missile w).1 ≤ 1) :
    (MoveMissileAndCheckMissileCol ext fuel missile mindam maxdam ignoreStart ifCollides
      w).isSome = true := by
  unfold MoveMissileAndCheckMissileCol MoveMissileAndCheckMissileColTrace
  lift_lets
  intro prevTile u m0 w0 n hash m1
  have hn : n = possibleVisitTiles ext missile.position.tile (MoveMissile_advance ext missile w).1 :=
    rfl
  rw [← hn] at hle
  split_ifs with hz hn1
  · rfl
  · omega
  · rfl

theorem MI_Arrow_returns (ext : Ext) (fuel : Nat) (node : Nat) (s : GameState) (missile : Missile)
    (hm : s.getMissile node = some missile)
    (hle : possibleVisitTiles ext missile.position.tile
      (MoveMissile_advance ext
        { missile with _mirange := missile._mirange - 1, _midist := missile._midist + 1 }
        s.toWorld).1 ≤ 1) :
    (MI_Arrow ext fuel node s).isSome = true := by
  unfold MI_Arrow
  simp -zeta only [hm]
  lift_lets
  intro m1 m2 p mind maxd
  have hsome := MoveMissile_returns ext fuel m2 mind maxd true false s.toWorld hle
  cases hmove : MoveMissileAndCheckMissileCol ext fuel m2 mind maxd true false s.toWorld with
  | none =>
    rw [hmove] at hsome
    exact Bool.noConfusion hsome
  | some r => rfl

theorem AddMissile_init_fields (ext : Ext) (src : Point) (midir : Direction) (mitype : missile_id)
    (micaster : mienemy_type) (id midam spllvl : Int) (monster : Monster) (missile : Missile) :
    (AddMissile_init ext src midir mitype micaster id midam spllvl monster missile).position.tile = src
    ∧ (AddMissile_init ext src midir mitype micaster id midam spllvl monster missile).position.start
      = src
    ∧ (AddMissile_init ext src midir mitype micaster id midam spllvl monster missile)._mitype = mitype
    ∧ (AddMissile_init ext src midir mitype micaster id midam spllvl monster missile)._micaster
      = micaster
    ∧ (AddMissile_init ext src midir mitype micaster id midam spllvl monster missile)._misource = id
    ∧ (AddMissile_init ext src midir mitype micaster id midam spllvl monster missile)._midam = midam
    ∧ (AddMissile_init ext src midir mitype micaster id midam spllvl monster missile)._mispllvl
      = spllvl
    ∧ (AddMissile_init ext src midir mitype micaster id midam spllvl monster missile)._mlid
      = ext.NO_LIGHT
    ∧ (AddMissile_init ext src midir mitype micaster id midam spllvl monster
        missile).lastCollisionTargetHash = 0
    ∧ (AddMissile_init ext src midir mitype micaster id midam spllvl monster missile)._mimfnum
      = (if (ext.MissilesData mitype).mFileNum = ext.MFILE_NONE
            ∨ (ext.MissileSpriteData (ext.MissilesData mitype).mFileNum).animFAmt < 8 then 0
          else midir) := by
  unfold AddMissile_init
  lift_lets
  intro missileData src0 m1 m2
  have h2 : m2.position = m1.position ∧ m2._mitype = m1._mitype ∧ m2._micaster = m1._micaster
      ∧ m2._misource = m1._misource ∧ m2._midam = m1._midam ∧ m2._mispllvl = m1._mispllvl
      ∧ m2._mlid = m1._mlid ∧ m2.lastCollisionTargetHash = m1.lastCollisionTargetHash
      ∧ m2._miAnimType = m1._miAnimType := by
    simp only [m2]
    split_ifs <;> exact ⟨rfl, rfl, rfl, rfl, rfl, rfl, rfl, rfl, rfl⟩
  obtain ⟨p1, p2, p3, p4, p5, p6, p7, p8, p9⟩ := h2
  have ha : m2._miAnimType = (ext.MissilesData mitype).mFileNum := p9
  rw [ha]
  unfold SetMissDir
  by_cases hc : (ext.MissilesData mitype).mFileNum = ext.MFILE_NONE
      ∨ (ext.MissileSpriteData (ext.MissilesData mitype).mFileNum).animFAmt < 8
  · rw [if_pos hc, if_pos hc]
    refine ⟨?_, ?_, ?_, ?_, ?_, ?_, ?_, ?_, ?_, ?_⟩
    · show m2.position.tile = src
      rw [p1]
    · show m2.position.start = src
      rw [p1]
    · exact p2
    · exact p3
    · exact p4
    · exact p5
    · exact p6
    · exact p7
    · exact p8
    · rfl
  · rw [if_neg hc, if_neg hc]
    refine ⟨?_, ?_, ?_, ?_, ?_, ?_, ?_, ?_, ?_, ?_⟩
    · show m2.position.tile = src
      rw [p1]
    · show m2.position.start = src
      rw [p1]
    · exact p2
    · exact p3
    · exact p4
    · exact p5
    · exact p6
    · exact p7
    · exact p8
    · rfl


theorem getMissile_appended (s pre : GameState) (missile : Missile)
    (hfresh : ∀ n ∈ s.Missiles, n.id < s.nextNode)
    (hpre : pre.Missiles = s.Missiles ++ [MissileNode.mk s.nextNode missile]) :
    pre.getMissile s.nextNode = some missile := by
  unfold GameState.getMissile
  rw [hpre, List.find?_append]
  have hnone : s.Missiles.find? (fun n => decide (n.id = s.nextNode)) = none := by
    rw [List.find?_eq_none]
    intro n hn
    have := hfresh n hn
    simp only [decide_eq_true_eq]
    omega
  rw [hnone, List.find?_cons_of_pos _ (by simp)]
  rfl

theorem CheckMissileCol_blocked (ext : Ext) (missile : Missile) (minDamage maxDamage : Int)
    (isDamageShifted : Bool) (position : Point) (dontDeleteOnCollision : Bool) (w : World)
    (hb : ext.InDungeonBounds position = true)
    (hblk : IsMissileBlockedByTile ext
      (CheckMissileCol_hits ext missile minDamage maxDamage isDamageShifted position
        dontDeleteOnCollision w).2 position = true) :
    (CheckMissileCol ext missile minDamage maxDamage isDamageShifted position
        dontDeleteOnCollision w).1._miHitFlag = false
    ∧ (dontDeleteOnCollision = false →
      (CheckMissileCol ext missile minDamage maxDamage isDamageShifted position
        dontDeleteOnCollision w).1._mirange = 0) := by
  unfold CheckMissileCol
  rw [if_neg (by rw [hb]; decide)]
  lift_lets
  intro mx my mid attackingMonster r isMonsterHit w1 src1 missile1 blocked0 pid earflag q
    isPlayerHit blocked w2 h1 src2 h2 missile2 w3 w4 src3 h3 missile3 w5
  have hh : h2 = CheckMissileCol_hits ext missile minDamage maxDamage isDamageShifted position
      dontDeleteOnCollision w := rfl
  have hblk3 : IsMissileBlockedByTile ext w3 { x := mx, y := my } = true := by
    show IsMissileBlockedByTile ext h2.2 position = true
    rw [hh]
    exact hblk
  have hm3 : missile3._miHitFlag = false ∧ (dontDeleteOnCollision = false → missile3._mirange = 0) := by
    simp only [missile3, h3, src3]
    rw [if_pos hblk3]
    refine ⟨rfl, ?_⟩
    intro hd
    rw [hd]
    rfl
  split_ifs
  · exact hm3
  · exact hm3

theorem RotateBlockedMissile_mirange (ext : Ext) (missile : Missile) (w : World) :
    (RotateBlockedMissile ext missile w).1._mirange = missile._mirange := by
  unfold RotateBlockedMissile
  simp only []
  split_ifs <;> rfl

theorem CheckMissileCol_keeps_range (ext : Ext) (missile : Missile) (minDamage maxDamage : Int)
    (isDamageShifted : Bool) (position : Point) (w : World) :
    (CheckMissileCol ext missile minDamage maxDamage isDamageShifted position true w).1._mirange
      = missile._mirange := by
  unfold CheckMissileCol
  lift_lets
  intro mx my mid attackingMonster r isMonsterHit w1 src1 missile1 blocked0 pid earflag q
    isPlayerHit blocked w2 h1 src2 h2 missile2 w3 w4 src3 h3 missile3 w5
  have hm1 : missile1._mirange = missile._mirange := by
    simp only [missile1, src1]
    split_ifs <;> rfl
  have hh1 : h1.1._mirange = missile._mirange := by
    simp only [h1]
    split_ifs with ha hd
    · rw [RotateBlockedMissile_mirange, hm1]
    · exact absurd hd (by decide)
    · exact hm1
  have hm2 : missile2._mirange = missile._mirange := by
    simp only [missile2, h2, src2]
    split_ifs
    · exact hh1
    · exact hm1
  have hm3 : missile3._mirange = missile._mirange := by
    simp only [missile3, h3, src3]
    split_ifs
    · exact hm2
    · exact hm2
  split_ifs
  · rfl
  · exact hm3
  · exact hm3

theorem mark_clears (ext : Ext) (l : List MissileNode) :
    ∀ (d : Int → Int → List DungeonFlag) (i j : Int),
      (DungeonFlag.Missile ∉ d i j
        ∨ ∃ n ∈ l, ext.InDungeonBounds n.val.position.tile = true
          ∧ n.val.position.tile.x = i ∧ n.val.position.tile.y = j) →
      DungeonFlag.Missile ∉ (l.foldl
        (fun (d : Int → Int → List DungeonFlag) n =>
          if ext.InDungeonBounds n.val.position.tile = true then
            fun i j =>
              if i = n.val.position.tile.x ∧ j = n.val.position.tile.y then
                (d i j).filter (fun f => f ≠ DungeonFlag.Missile)
              else d i j
          else d) d) i j := by
  induction l with
  | nil =>
    intro d i j h
    rcases h with h | ⟨n, hn, -⟩
    · exact h
    · exact absurd hn (List.not_mem_nil n)
  | cons a l ih =>
    intro d i j h
    rw [List.foldl_cons]
    apply ih
    by_cases hin : ext.InDungeonBounds a.val.position.tile = true
    · rw [if_pos hin]
      by_cases hij : i = a.val.position.tile.x ∧ j = a.val.position.tile.y
      · left
        simp only [if_pos hij]
        intro hmem
        have := (List.mem_filter.mp hmem).2
        simp at this
      · rcases h with h | ⟨n, hn, h1, h2, h3⟩
        · left
          simp only [if_neg hij]
          exact h
        · rcases List.mem_cons.mp hn with rfl | hn
          · exact absurd ⟨h2.symm, h3.symm⟩ hij
          · exact Or.inr ⟨n, hn, h1, h2, h3⟩
    · rw [if_neg hin]
      rcases h with h | ⟨n, hn, h1, h2, h3⟩
      · exact Or.inl h
      · rcases List.mem_cons.mp hn with rfl | hn
        · exact absurd h1 hin
        · exact Or.inr ⟨n, hn, h1, h2, h3⟩

theorem sweep_unmarked (ext : Ext) (s : GameState) :
    (DeleteMissiles (ProcessMissiles_mark ext s)).Unmarked := by
  intro p hp
  obtain ⟨k, hk, rfl⟩ := List.mem_map.mp hp
  unfold DeleteMissiles at hk
  obtain ⟨hk1, hk2⟩ := List.mem_filter.mp hk
  unfold ProcessMissiles_mark at hk1
  obtain ⟨n, hn, hkn⟩ := List.mem_map.mp hk1
  by_cases hin : ext.InDungeonBounds n.val.position.tile = true
  · rw [if_pos hin] at hkn
    subst hkn
    exact mark_clears ext s.Missiles s.dFlags _ _ (Or.inr ⟨n, hn, hin, rfl, rfl⟩)
  · rw [if_neg hin] at hkn
    subst hkn
    simp at hk2

theorem updateMissile_tiles (s : GameState) (node : Nat) (f : Missile → Missile)
    (hf : ∀ m, (f m).position.tile = m.position.tile) :
    (s.updateMissile node f).Missiles.map (fun n => n.val.position.tile)
      = s.Missiles.map (fun n => n.val.position.tile) := by
  unfold GameState.updateMissile
  simp only [List.map_map]
  apply List.map_congr_left
  intro n _
  simp only [Function.comp]
  split_ifs
  · exact hf n.val
  · rfl

theorem animate_tile (m : Missile) : (ProcessMissiles_animate m).position.tile = m.position.tile := by
  unfold ProcessMissiles_animate
  simp only []
  split_ifs <;> rfl

theorem update_unmarked (cat : Catalog) (hcat : cat.Unmarking) :
    ∀ (fuel i : Nat) (s : GameState) (visited : List (Nat × Bool)), s.Unmarked →
      (ProcessMissiles_update cat fuel i (s, visited)).1.Unmarked := by
  intro fuel
  induction fuel with
  | zero =>
    intro i s visited h
    exact h
  | succ fuel ih =>
    intro i s visited h
    unfold ProcessMissiles_update
    cases hget : s.Missiles[i]? with
    | none => exact h
    | some n =>
      simp only []
      apply ih
      cases hp : cat.mProc n.val._mitype with
      | none =>
        simp only []
        intro p hp1
        rw [updateMissile_tiles _ _ _ animate_tile] at hp1
        exact h p hp1
      | some mProc =>
        simp only []
        obtain ⟨h1, h2⟩ := hcat _ _ hp n.id s
        intro p hp1
        rw [updateMissile_tiles _ _ _ animate_tile, h2] at hp1
        show DungeonFlag.Missile ∉ (mProc n.id s).dFlags p.x p.y
        rw [h1]
        exact h p hp1

theorem ProcessManaShield_dFlags (ext : Ext)
    (hshield : ∀ g : Globals, (ext.NetSendCmdRemShield g).dFlags = g.dFlags) (s : GameState) :
    (ProcessManaShield ext s).dFlags = s.dFlags := by
  unfold ProcessManaShield
  simp only []
  split_ifs
  · exact hshield _
  · rfl

theorem PutMissile_marks (ext : Ext) (missile : Missile) (s : GameState)
    (h : (PutMissile ext missile s).1._miDelFlag = false) :
    DungeonFlag.Missile
      ∈ (PutMissile ext missile s).2.dFlags missile.position.tile.x missile.position.tile.y := by
  unfold PutMissile at h ⊢
  simp only [] at h ⊢
  by_cases hb : ext.InDungeonBounds missile.position.tile = false
  · rw [if_pos hb, if_pos rfl] at h
    exact absurd h (by simp)
  · rw [if_neg hb] at h ⊢
    by_cases hd : missile._miDelFlag = true
    · rw [if_pos hd] at h
      exact absurd h (by simp [hd])
    · rw [if_neg hd]
      split_ifs <;> simp

theorem MI_Search_unmarking (ext : Ext)
    (hsfx : ∀ (sfx : Int) (position : Point) (g : Globals),
      (ext.PlaySfxLoc sfx position g).dFlags = g.dFlags) (node : Nat) (s : GameState) :
    (MI_Search ext node s).dFlags = s.dFlags
    ∧ (MI_Search ext node s).Missiles.map (fun n => n.val.position.tile)
      = s.Missiles.map (fun n => n.val.position.tile) := by
  unfold MI_Search
  lift_lets
  intro s0 s1 s2
  have h0 : s0.Missiles.map (fun n => n.val.position.tile)
      = s.Missiles.map (fun n => n.val.position.tile) :=
    updateMissile_tiles s node
      (fun missile => { missile with _mirange := missile._mirange - 1 }) (fun _ => rfl)
  have h1 : s1.Missiles.map (fun n => n.val.position.tile)
      = s.Missiles.map (fun n => n.val.position.tile) :=
    (updateMissile_tiles s0 node (fun missile => { missile with _miDelFlag := true })
      (fun _ => rfl)).trans h0
  have h2 : s2.dFlags = s.dFlags := hsfx _ _ _
  split_ifs
  · exact ⟨rfl, h0⟩
  · exact ⟨h2, h1⟩
  · exact ⟨h2, h1⟩

theorem searchCatalog_unmarking : searchCatalog.Unmarking := by
  intro t mProc h node s
  unfold searchCatalog at h
  simp only [] at h
  split_ifs at h
  cases h
  exact MI_Search_unmarking sampleExt (fun _ _ _ => rfl) node s

theorem tdiv_of_neg (a c : Int) (ha : a < 0) (hc : 0 < c) : a.tdiv c = -((-a) / c) := by
  have h : a = -(-a) := by omega
  rw [h, Int.neg_tdiv, Int.tdiv_eq_ediv (by omega) (by omega)]
  simp

theorem tdiv_mono (a b c : Int) (hc : 0 < c) (h : a ≤ b) : a.tdiv c ≤ b.tdiv c := by
  by_cases ha : 0 ≤ a
  · rw [Int.tdiv_eq_ediv ha (by omega), Int.tdiv_eq_ediv (by omega) (by omega)]
    exact Int.ediv_le_ediv hc h
  · have ha' : a < 0 := by omega
    rw [tdiv_of_neg a c ha' hc]
    have h1 : 0 ≤ (-a) / c := Int.ediv_nonneg (by omega) (by omega)
    by_cases hb : 0 ≤ b
    · have h2 : 0 ≤ b.tdiv c := Int.tdiv_nonneg hb (by omega)
      omega
    · rw [tdiv_of_neg b c (by omega) hc]
      have h3 : (-b) / c ≤ (-a) / c := Int.ediv_le_ediv hc (by omega)
      omega

theorem ScaleSpellEffect_mono (base base1 spellLevel : Int) (h : base ≤ base1) :
    ScaleSpellEffect base spellLevel ≤ ScaleSpellEffect base1 spellLevel := by
  unfold ScaleSpellEffect
  induction (List.range spellLevel.toNat) generalizing base base1 with
  | nil => exact h
  | cons a l ih =>
    rw [List.foldl_cons, List.foldl_cons]
    apply ih
    have := tdiv_mono base base1 8 (by decide) h
    omega

theorem GenerateRnd_bounds (v : Int) (w : World) (hv : 0 < v) :
    0 ≤ (GenerateRnd v w).1 ∧ (GenerateRnd v w).1 < v := by
  unfold GenerateRnd
  simp only [if_pos hv]
  exact ⟨Int.emod_nonneg _ (by omega), Int.emod_lt_of_pos _ hv⟩

theorem GenerateRndSum_10_2 (w : World) :
    0 ≤ (GenerateRndSum 10 2 w).1 ∧ (GenerateRndSum 10 2 w).1 ≤ 18 := by
  have h : (GenerateRndSum 10 2 w).1
      = 0 + (GenerateRnd 10 w).1 + (GenerateRnd 10 (GenerateRnd 10 w).2).1 := rfl
  rw [h]
  have h1 := GenerateRnd_bounds 10 w (by decide)
  have h2 := GenerateRnd_bounds 10 (GenerateRnd 10 w).2 (by decide)
  omega

theorem UpdateMissileVelocity_frame (ext : Ext) (missile : Missile) (destination : Point)
    (velocityInPixels : Int) :
    (UpdateMissileVelocity ext missile destination velocityInPixels)._midam = missile._midam
    ∧ (UpdateMissileVelocity ext missile destination velocityInPixels)._mirange = missile._mirange
    ∧ (UpdateMissileVelocity ext missile destination velocityInPixels).var3 = missile.var3
    ∧ (UpdateMissileVelocity ext missile destination velocityInPixels).position.tile
      = missile.position.tile
    ∧ (UpdateMissileVelocity ext missile destination velocityInPixels)._miDelFlag
      = missile._miDelFlag := by
  unfold UpdateMissileVelocity
  simp only []
  split_ifs <;> exact ⟨rfl, rfl, rfl, rfl, rfl⟩

theorem AddElement_midam (ext : Ext) (missile : Missile) (parameter : AddMissileParameter)
    (w : World) :
    (AddElement ext missile parameter w).1._midam
      = (ScaleSpellEffect
          (2 * ((w.Players missile._misource)._pLevel + (GenerateRndSum 10 2 w).1) + 4)
          missile._mispllvl).tdiv 2 := by
  unfold AddElement
  lift_lets
  intro dst0 dst g dmg m1 m2 m3 m4 l m5
  show m2._midam = _
  exact (UpdateMissileVelocity_frame ext m1 dst 16).1

theorem SlotsKept_refl (missile : Missile) : SlotsKept missile missile := ⟨rfl, rfl, rfl⟩

theorem SlotsKept_trans (a b c : Missile) (h1 : SlotsKept a b) (h2 : SlotsKept b c) :
    SlotsKept a c :=
  ⟨h2.1.trans h1.1, h2.2.1.trans h1.2.1, h2.2.2.trans h1.2.2⟩

theorem RotateBlockedMissile_slots (ext : Ext) (missile : Missile) (w : World) :
    SlotsKept missile (RotateBlockedMissile ext missile w).1 := by
  unfold RotateBlockedMissile
  simp only []
  split_ifs <;> exact ⟨rfl, rfl, rfl⟩

theorem CheckMissileCol_slots (ext : Ext) (missile : Missile) (minDamage maxDamage : Int)
    (isDamageShifted : Bool) (position : Point) (dontDeleteOnCollision : Bool) (w : World) :
    SlotsKept missile (CheckMissileCol ext missile minDamage maxDamage isDamageShifted position
      dontDeleteOnCollision w).1 := by
  unfold CheckMissileCol
  lift_lets
  intro mx my mid attackingMonster r isMonsterHit w1 src1 missile1 blocked0 pid earflag q
    isPlayerHit blocked w2 h1 src2 h2 missile2 w3 w4 src3 h3 missile3 w5
  have hm1 : SlotsKept missile missile1 := by
    simp only [missile1, src1]
    split_ifs <;> exact ⟨rfl, rfl, rfl⟩
  have hh1 : SlotsKept missile h1.1 := by
    simp only [h1]
    split_ifs
    · exact SlotsKept_trans _ _ _ hm1 (RotateBlockedMissile_slots _ _ _)
    · exact hm1
    · exact hm1
  have hm2 : SlotsKept missile missile2 := by
    simp only [missile2, h2, src2]
    split_ifs
    · exact hh1
    · exact hm1
  have hm3 : SlotsKept missile missile3 := by
    simp only [missile3, h3, src3]
    split_ifs
    · exact hm2
    · exact hm2
    · exact hm2
  split_ifs
  · exact SlotsKept_refl _
  · exact hm3
  · exact hm3

theorem MoveMissile_collide_slots (ext : Ext) (ifCollides : Bool) (incVelocity traveled : Displacement)
    (missile : Missile) (w : World) :
    SlotsKept missile (MoveMissile_collide ext ifCollides incVelocity traveled missile w).1 := by
  unfold MoveMissile_collide
  simp only []
  split_ifs <;> exact ⟨rfl, rfl, rfl⟩

theorem MoveMissile_loop_slots (ext : Ext) (mindam maxdam : Int) (ifCollides : Bool)
    (incVelocity : Displacement) (fuel : Nat) :
    ∀ (traveled : Displacement) (prevTile : Point) (missile : Missile) (w : World)
      (checked : List Point) (b : Bool) (m1 : Missile) (w1 : World) (checked1 : List Point),
      MoveMissile_loop ext mindam maxdam ifCollides incVelocity fuel traveled prevTile missile w
          checked = some (b, m1, w1, checked1) → SlotsKept missile m1 := by
  induction fuel with
  | zero =>
    intro traveled prevTile missile w checked b m1 w1 checked1 h
    exact absurd h (by simp [MoveMissile_loop])
  | succ fuel ih =>
    intro traveled prevTile missile w checked b m1 w1 checked1 h
    unfold MoveMissile_loop at h
    lift_lets at h
    extract_lets tr mx my dx dy tile r at h
    have hr : SlotsKept missile r.1 := CheckMissileCol_slots _ _ _ _ _ _ _ _
    split_ifs at h
    · cases h
      exact SlotsKept_refl _
    · exact ih _ _ _ _ _ _ _ _ _ h
    · exact SlotsKept_trans _ _ _ hr (ih _ _ _ _ _ _ _ _ _ h)
    · cases h
      exact SlotsKept_trans _ _ _ hr (MoveMissile_collide_slots _ _ _ _ _ _)
    · exact SlotsKept_trans _ _ _ hr (ih _ _ _ _ _ _ _ _ _ h)

theorem MoveMissile_arrive_slots (ext : Ext) (mindam maxdam : Int) (ignoreStart ifCollides : Bool)
    (missile : Missile) (w : World) :
    SlotsKept missile (MoveMissile_arrive ext mindam maxdam ignoreStart ifCollides missile w).1.1 := by
  unfold MoveMissile_arrive
  simp only []
  split_ifs
  · exact SlotsKept_refl _
  · exact SlotsKept_trans _ _ _ (CheckMissileCol_slots _ _ _ _ _ _ _ _) ⟨rfl, rfl, rfl⟩
  · exact CheckMissileCol_slots _ _ _ _ _ _ _ _

theorem MoveMissileAndCheckMissileCol_slots (ext : Ext) (fuel : Nat) (missile : Missile)
    (mindam maxdam : Int) (ignoreStart ifCollides : Bool) (w : World) (r : Missile × World)
    (h : MoveMissileAndCheckMissileCol ext fuel missile mindam maxdam ignoreStart ifCollides w
      = some r) : SlotsKept missile r.1 := by
  unfold MoveMissileAndCheckMissileCol MoveMissileAndCheckMissileColTrace at h
  lift_lets at h
  extract_lets prevTile u m0 w0 n hash m1 at h
  have h0 : SlotsKept missile m0 := ⟨rfl, rfl, rfl⟩
  have h1 : SlotsKept missile m1 := ⟨rfl, rfl, rfl⟩
  by_cases hz : n = 0 ∧ m0.lastCollisionTargetHash = hash
  · rw [if_pos hz] at h
    cases h
    exact h0
  · rw [if_neg hz] at h
    by_cases hn1 : n > 1
    · rw [if_pos hn1] at h
      cases hl : MoveMissile_loop ext mindam maxdam ifCollides
          (ext.mulHundredth m1.position.velocity (n - 1)) fuel
          (m1.position.traveled.sub m1.position.velocity) prevTile m1 w0 [] with
      | none =>
        rw [hl] at h
        exact Option.noConfusion h
      | some res =>
        obtain ⟨b, m2, w2, checked⟩ := res
        rw [hl] at h
        have h2 : SlotsKept m1 m2 := MoveMissile_loop_slots _ _ _ _ _ _ _ _ _ _ _ _ _ _ _ hl
        cases b with
        | true =>
          cases h
          exact SlotsKept_trans _ _ _ h1 h2
        | false =>
          cases h
          exact SlotsKept_trans _ _ _ (SlotsKept_trans _ _ _ h1 h2)
            (MoveMissile_arrive_slots _ _ _ _ _ _ _)
    · rw [if_neg hn1] at h
      cases h
      exact SlotsKept_trans _ _ _ h1 (MoveMissile_arrive_slots _ _ _ _ _ _ _)

theorem UpdateMissileVelocity_velocity (ext : Ext) (a b : Missile) (destination : Point)
    (velocityInPixels : Int) (h : a.position.tile = b.position.tile) :
    (UpdateMissileVelocity ext a destination velocityInPixels).position.velocity
      = (UpdateMissileVelocity ext b destination velocityInPixels).position.velocity := by
  unfold UpdateMissileVelocity
  simp only []
  by_cases hd : a.position.tile = destination
  · rw [if_pos hd, if_pos (h ▸ hd)]
  · rw [if_neg hd, if_neg (h ▸ hd), h]

theorem UpdateMissileVelocity_aimed (ext : Ext) (missile : Missile) (destination : Point) :
    AimedAt ext (UpdateMissileVelocity ext missile destination 16) destination :=
  UpdateMissileVelocity_velocity ext _ _ destination 16
    (UpdateMissileVelocity_frame ext missile destination 16).2.2.2.1.symm

theorem MI_Element_retarget_spec (ext : Ext) (fuel : Nat) (missilePosition : Point) (id : Int)
    (missile : Missile) (w : World) :
    (MI_Element_retarget ext fuel missilePosition id missile w).1.var3 = 2
    ∧ (MI_Element_retarget ext fuel missilePosition id missile w).1._mirange = 255
    ∧ AimedAt ext (MI_Element_retarget ext fuel missilePosition id missile w).1
      (retargetTile ext fuel missilePosition id w) := by
  unfold MI_Element_retarget retargetTile
  lift_lets
  intro m1 m2 nextMonster
  cases hf : nextMonster.1 with
  | none =>
    simp only []
    refine ⟨?_, ?_, ?_⟩
    · exact (UpdateMissileVelocity_frame ext _ _ 16).2.2.1
    · exact (UpdateMissileVelocity_frame ext _ _ 16).2.1
    · exact UpdateMissileVelocity_aimed ext _ _
  | some m =>
    simp only []
    refine ⟨?_, ?_, ?_⟩
    · exact (UpdateMissileVelocity_frame ext _ _ 16).2.2.1
    · exact (UpdateMissileVelocity_frame ext _ _ 16).2.1
    · exact UpdateMissileVelocity_aimed ext _ _

theorem MI_Bonespirit_retarget_spec (ext : Ext) (fuel : Nat) (c : Point) (id : Int)
    (missile : Missile) (w : World) :
    (MI_Bonespirit_retarget ext fuel c id missile w).1.var3 = 2
    ∧ (MI_Bonespirit_retarget ext fuel c id missile w).1._mirange = 255
    ∧ AimedAt ext (MI_Bonespirit_retarget ext fuel c id missile w).1
      (retargetTile ext fuel c id w) := by
  unfold MI_Bonespirit_retarget retargetTile
  lift_lets
  intro m1 m2 monster
  cases hf : monster.1 with
  | none =>
    simp only []
    refine ⟨?_, ?_, ?_⟩
    · exact (UpdateMissileVelocity_frame ext _ _ 16).2.2.1
    · exact (UpdateMissileVelocity_frame ext _ _ 16).2.1
    · exact UpdateMissileVelocity_aimed ext _ _
  | some m =>
    simp only []
    refine ⟨?_, ?_, ?_⟩
    · exact (UpdateMissileVelocity_frame ext _ _ 16).2.2.1
    · exact (UpdateMissileVelocity_frame ext _ _ 16).2.1
    · exact UpdateMissileVelocity_aimed ext _ _

theorem MI_Element_finish_spec (ext : Ext) (missilePosition : Point) (missile : Missile)
    (w : World) :
    (MI_Element_finish ext missilePosition missile w).1.var3 = missile.var3
    ∧ (missile._mirange ≠ 0 →
      (MI_Element_finish ext missilePosition missile w).1._mirange = missile._mirange
      ∧ (MI_Element_finish ext missilePosition missile w).1.position = missile.position) := by
  unfold MI_Element_finish
  lift_lets
  intro u
  have hu : u.1.var3 = missile.var3 ∧ u.1._mirange = missile._mirange
      ∧ u.1.position = missile.position := by
    simp only [u]
    split_ifs <;> exact ⟨rfl, rfl, rfl⟩
  refine ⟨?_, ?_⟩
  · split_ifs
    · exact hu.1
    · exact hu.1
  · intro hr
    rw [if_neg (by rw [hu.2.1]; exact hr)]
    exact hu.2

theorem MI_Bonespirit_finish_spec (ext : Ext) (c : Point) (missile : Missile) (w : World) :
    (MI_Bonespirit_finish ext c missile w).1.var3 = missile.var3
    ∧ (missile._mirange ≠ 0 →
      (MI_Bonespirit_finish ext c missile w).1._mirange = missile._mirange
      ∧ (MI_Bonespirit_finish ext c missile w).1.position = missile.position) := by
  unfold MI_Bonespirit_finish
  lift_lets
  intro u
  have hu : u.1.var3 = missile.var3 ∧ u.1._mirange = missile._mirange
      ∧ u.1.position = missile.position := by
    simp only [u]
    split_ifs <;> exact ⟨rfl, rfl, rfl⟩
  refine ⟨?_, ?_⟩
  · split_ifs
    · exact hu.1
    · exact hu.1
  · intro hr
    rw [if_neg (by rw [hu.2.1]; exact hr)]
    exact hu.2

theorem PutMissile_var3 (ext : Ext) (missile : Missile) (s : GameState) :
    (PutMissile ext missile s).1.var3 = missile.var3 := by
  unfold PutMissile
  simp only []
  split_ifs <;> rfl

theorem AimedAt_congr (ext : Ext) (a b : Missile) (destination : Point)
    (h : b.position = a.position) (ha : AimedAt ext a destination) : AimedAt ext b destination := by
  unfold AimedAt at ha ⊢
  rw [h, ha]
  exact UpdateMissileVelocity_velocity ext a b destination 16 (by rw [h])

theorem MI_Element_burn_none (ext : Ext) (fuel : Nat) (dam : Int) (startPoint missilePosition : Point)
    (l : List Displacement) :
    l.foldl (MI_Element_burn ext fuel dam startPoint missilePosition) none = none := by
  induction l with
  | nil => rfl
  | cons a l ih => exact ih

theorem MI_Element_burn_slots (ext : Ext) (fuel : Nat) (dam : Int) (startPoint missilePosition : Point)
    (l : List Displacement) :
    ∀ (r0 r : Missile × World),
      l.foldl (MI_Element_burn ext fuel dam startPoint missilePosition) (some r0) = some r →
      SlotsKept r0.1 r.1 := by
  induction l with
  | nil =>
    intro r0 r h
    cases h
    exact SlotsKept_refl _
  | cons a l ih =>
    intro r0 r h
    rw [List.foldl_cons] at h
    have hstep : MI_Element_burn ext fuel dam startPoint missilePosition (some r0) a
        = match CheckBlock ext r0.2.toGlobals fuel startPoint
            (missilePosition.addDisplacement a) with
          | none => none
          | some true => some r0
          | some false =>
            some (CheckMissileCol ext r0.1 dam dam true (missilePosition.addDisplacement a) true
              r0.2) := rfl
    rw [hstep] at h
    cases hc : CheckBlock ext r0.2.toGlobals fuel startPoint (missilePosition.addDisplacement a) with
    | none =>
      rw [hc] at h
      simp only [] at h
      rw [MI_Element_burn_none] at h
      exact Option.noConfusion h
    | some blocked =>
      rw [hc] at h
      cases blocked with
      | true => exact ih _ _ h
      | false =>
        exact SlotsKept_trans _ _ _ (CheckMissileCol_slots _ _ _ _ _ _ _ _) (ih _ _ h)

theorem MI_Element_phase (ext : Ext) (fuel : Nat) (node : Nat) (s s1 : GameState)
    (missile : Missile) (b : Bool) (hm : s.getMissile node = some missile)
    (h : MI_ElementTrace ext fuel node s = some (s1, b)) :
    (b = false → (s1.missile node).var3 = missile.var3)
    ∧ (b = true →
      (missile.var3 = 0 ∨ missile.var3 = 1)
      ∧ (s1.missile node).var3 = 2 ∧ (s1.missile node)._mirange = 255
      ∧ ∃ r : Missile × World,
        MoveMissileAndCheckMissileCol ext fuel { missile with _mirange := missile._mirange - 1 }
            missile._midam missile._midam false false s.toWorld = some r
        ∧ AimedAt ext (s1.missile node)
          (retargetTile ext fuel missile.position.tile missile._misource r.2)) := by
  unfold MI_ElementTrace at h
  simp -zeta only [hm] at h
  lift_lets at h
  extract_lets m0 dam id missilePosition w startPoint at h
  have hput : ∀ (m : Missile) (w1 : World),
      ((GameState.updateMissile (PutMissile ext m { s with toWorld := w1 }).2 node
        (fun _ => (PutMissile ext m { s with toWorld := w1 }).1)).missile node)
        = (PutMissile ext m { s with toWorld := w1 }).1 := by
    intro m w1
    have hin : (PutMissile ext m { s with toWorld := w1 }).2.getMissile node = some missile := by
      unfold GameState.getMissile
      rw [PutMissile_Missiles]
      exact hm
    rw [missile_updateMissile _ _ _ _ hin]
  by_cases hexp : m0._miAnimType = ext.MFILE_BIGEXP
  · rw [if_pos hexp] at h
    cases hb : List.foldl (MI_Element_burn ext fuel dam startPoint missilePosition) (some (m0, w))
        MI_Element_Offsets with
    | none =>
      rw [hb] at h
      exact Option.noConfusion h
    | some r =>
      rw [hb] at h
      simp -zeta only [] at h
      lift_lets at h
      extract_lets src r1 q at h
      have hs := MI_Element_burn_slots ext fuel dam startPoint missilePosition _ _ _ hb
      have hr1 : r1.1.var3 = missile.var3 := by
        simp only [r1, src]
        split_ifs
        · exact hs.1
        · exact hs.1
      cases h
      refine ⟨fun _ => ?_, fun hc => Bool.noConfusion hc⟩
      rw [hput, PutMissile_var3]
      exact hr1
  · rw [if_neg hexp] at h
    cases hmove : MoveMissileAndCheckMissileCol ext fuel m0 dam dam false false s.toWorld with
    | none =>
      rw [hmove] at h
      exact Option.noConfusion h
    | some r =>
      rw [hmove] at h
      simp -zeta only [] at h
      lift_lets at h
      extract_lets src m1 t u q at h
      have hs := MoveMissileAndCheckMissileCol_slots _ _ _ _ _ _ _ _ _ hmove
      have hr3 : r.1.var3 = missile.var3 := hs.1
      obtain ⟨hu1, hu2⟩ := MI_Element_finish_spec ext missilePosition t.1 t.2
      cases h
      by_cases h1 : m1.var3 = 1
      · have ht : t = MI_Element_retarget ext fuel missilePosition id m1 r.2 := by
          simp only [t]
          rw [if_pos h1]
        obtain ⟨ha, hb, hc⟩ := MI_Element_retarget_spec ext fuel missilePosition id m1 r.2
        rw [← ht] at ha hb hc
        have hne : t.1._mirange ≠ 0 := by
          rw [hb]
          decide
        obtain ⟨hu3, hu4⟩ := hu2 hne
        refine ⟨fun hc0 => ?_, fun _ => ⟨?_, ?_, ?_, r, rfl, ?_⟩⟩
        · simp [h1] at hc0
        · have : m1.var3 = 1 := h1
          simp only [m1, src] at this
          split_ifs at this with hz
          · left
            rw [← hr3]
            exact hz.1
          · right
            rw [← hr3]
            exact this
        · rw [hput, PutMissile_var3]
          exact hu1.trans ha
        · rw [hput, (PutMissile_result ext u.1 _).1]
          exact hu3.trans hb
        · rw [hput]
          refine AimedAt_congr ext t.1 _ _ ?_ hc
          rw [(PutMissile_result ext u.1 _).2.1]
          exact hu4
      · have ht : t = (m1, r.2) := by
          simp only [t]
          rw [if_neg h1]
        refine ⟨fun _ => ?_, fun hc0 => ?_⟩
        · rw [hput, PutMissile_var3, hu1, ht]
          show m1.var3 = missile.var3
          simp only [m1, src]
          split_ifs with hz
          · exfalso
            apply h1
            simp only [m1, src]
            rw [if_pos hz]
          · exact hr3
        · simp [h1] at hc0

theorem MI_Bonespirit_phase (ext : Ext) (fuel : Nat) (node : Nat) (s s1 : GameState)
    (missile : Missile) (b : Bool) (hm : s.getMissile node = some missile)
    (h : MI_BonespiritTrace ext fuel node s = some (s1, b)) :
    (b = false → (s1.missile node).var3 = missile.var3)
    ∧ (b = true →
      (missile.var3 = 0 ∨ missile.var3 = 1)
      ∧ (s1.missile node).var3 = 2 ∧ (s1.missile node)._mirange = 255
      ∧ ∃ r : Missile × World,
        MoveMissileAndCheckMissileCol ext fuel { missile with _mirange := missile._mirange - 1 }
            missile._midam missile._midam false false s.toWorld = some r
        ∧ AimedAt ext (s1.missile node)
          (retargetTile ext fuel r.1.position.tile missile._misource r.2)) := by
  unfold MI_BonespiritTrace at h
  simp -zeta only [hm] at h
  lift_lets at h
  extract_lets m0 dam id w r0 q0 at h
  have hput : ∀ (m : Missile) (w1 : World),
      ((GameState.updateMissile (PutMissile ext m { s with toWorld := w1 }).2 node
        (fun _ => (PutMissile ext m { s with toWorld := w1 }).1)).missile node)
        = (PutMissile ext m { s with toWorld := w1 }).1 := by
    intro m w1
    have hin : (PutMissile ext m { s with toWorld := w1 }).2.getMissile node = some missile := by
      unfold GameState.getMissile
      rw [PutMissile_Missiles]
      exact hm
    rw [missile_updateMissile _ _ _ _ hin]
  by_cases hfade : m0._mimfnum = 8
  · rw [if_pos hfade] at h
    cases h
    have hr0 : r0.1.var3 = missile.var3 := by
      simp only [r0]
      split_ifs <;> rfl
    refine ⟨fun _ => ?_, fun hc => Bool.noConfusion hc⟩
    rw [hput, PutMissile_var3]
    exact hr0
  · rw [if_neg hfade] at h
    cases hmove : MoveMissileAndCheckMissileCol ext fuel m0 dam dam false false s.toWorld with
    | none =>
      rw [hmove] at h
      exact Option.noConfusion h
    | some r =>
      rw [hmove] at h
      simp -zeta only [] at h
      lift_lets at h
      extract_lets c src m1 t u q at h
      have hs := MoveMissileAndCheckMissileCol_slots _ _ _ _ _ _ _ _ _ hmove
      have hr3 : r.1.var3 = missile.var3 := hs.1
      obtain ⟨hu1, hu2⟩ := MI_Bonespirit_finish_spec ext c t.1 t.2
      cases h
      by_cases h1 : m1.var3 = 1
      · have ht : t = MI_Bonespirit_retarget ext fuel c id m1 r.2 := by
          simp only [t]
          rw [if_pos h1]
        obtain ⟨ha, hb, hc⟩ := MI_Bonespirit_retarget_spec ext fuel c id m1 r.2
        rw [← ht] at ha hb hc
        have hne : t.1._mirange ≠ 0 := by
          rw [hb]
          decide
        obtain ⟨hu3, hu4⟩ := hu2 hne
        refine ⟨fun hc0 => ?_, fun _ => ⟨?_, ?_, ?_, r, rfl, ?_⟩⟩
        · simp [h1] at hc0
        · have : m1.var3 = 1 := h1
          simp only [m1, src] at this
          split_ifs at this with hz
          · left
            rw [← hr3]
            exact hz.1
          · right
            rw [← hr3]
            exact this
        · rw [hput, PutMissile_var3]
          exact hu1.trans ha
        · rw [hput, (PutMissile_result ext u.1 _).1]
          exact hu3.trans hb
        · rw [hput]
          refine AimedAt_congr ext t.1 _ _ ?_ hc
          rw [(PutMissile_result ext u.1 _).2.1]
          exact hu4
      · have ht : t = (m1, r.2) := by
          simp only [t]
          rw [if_neg h1]
        refine ⟨fun _ => ?_, fun hc0 => ?_⟩
        · rw [hput, PutMissile_var3, hu1, ht]
          show m1.var3 = missile.var3
          simp only [m1, src]
          split_ifs with hz
          · exfalso
            apply h1
            simp only [m1, src]
            rw [if_pos hz]
          · exact hr3
        · simp [h1] at hc0

theorem MI_Element_returns (ext : Ext) (fuel : Nat) (node : Nat) (s : GameState) (missile : Missile)
    (hm : s.getMissile node = some missile) (hexp : missile._miAnimType ≠ ext.MFILE_BIGEXP)
    (hle : possibleVisitTiles ext missile.position.tile
      (MoveMissile_advance ext { missile with _mirange := missile._mirange - 1 } s.toWorld).1 ≤ 1) :
    (MI_ElementTrace ext fuel node s).isSome = true := by
  unfold MI_ElementTrace
  simp -zeta only [hm]
  lift_lets
  intro m0 dam id missilePosition w startPoint
  have hexp0 : ¬ m0._miAnimType = ext.MFILE_BIGEXP := hexp
  rw [if_neg hexp0]
  have hsome := MoveMissile_returns ext fuel m0 dam dam false false s.toWorld hle
  cases hmove : MoveMissileAndCheckMissileCol ext fuel m0 dam dam false false s.toWorld with
  | none =>
    rw [hmove] at hsome
    exact Bool.noConfusion hsome
  | some r => rfl

theorem MI_Bonespirit_returns (ext : Ext) (fuel : Nat) (node : Nat) (s : GameState)
    (missile : Missile) (hm : s.getMissile node = some missile)
    (hle : possibleVisitTiles ext missile.position.tile
      (MoveMissile_advance ext { missile with _mirange := missile._mirange - 1 } s.toWorld).1 ≤ 1) :
    (MI_BonespiritTrace ext fuel node s).isSome = true := by
  unfold MI_BonespiritTrace
  simp -zeta only [hm]
  lift_lets
  intro m0 dam id w r0 q0
  split_ifs
  · rfl
  · have hsome := MoveMissile_returns ext fuel m0 dam dam false false s.toWorld hle
    cases hmove : MoveMissileAndCheckMissileCol ext fuel m0 dam dam false false s.toWorld with
    | none =>
      rw [hmove] at hsome
      exact Bool.noConfusion hsome
    | some r => rfl

theorem ScaleSpellEffect_succ (base : Int) (n : Nat) :
    ScaleSpellEffect base ((n : Int) + 1)
      = ScaleSpellEffect base n + (ScaleSpellEffect base n).tdiv 8 := by
  unfold ScaleSpellEffect
  have h1 : ((n : Int) + 1).toNat = n + 1 := by omega
  have h2 : ((n : Int)).toNat = n := by omega
  rw [h1, h2, List.range_succ, List.foldl_append]
  rfl

theorem ScaleSpellEffect_iterate (base : Int) (n : Nat) :
    ScaleSpellEffect base n = (fun b : Int => b + b.tdiv 8)^[n] base := by
  induction n with
  | zero => rfl
  | succ k ih =>
    have h := ScaleSpellEffect_succ base k
    rw [Function.iterate_succ_apply']
    rw [← ih]
    exact_mod_cast h

theorem ScaleSpellEffect_nonpos (base n : Int) (h : n ≤ 0) : ScaleSpellEffect base n = base := by
  unfold ScaleSpellEffect
  have h1 : n.toNat = 0 := by omega
  rw [h1]
  rfl

theorem ScaleSpellEffect_ge (base : Int) (n : Nat) (h : 0 ≤ base) :
    base ≤ ScaleSpellEffect base n := by
  induction n with
  | zero => rw [ScaleSpellEffect_nonpos base _ (by simp)]
  | succ k ih =>
    have hs := ScaleSpellEffect_succ base k
    have h0 : 0 ≤ ScaleSpellEffect base k := le_trans h ih
    have h1 : 0 ≤ (ScaleSpellEffect base k).tdiv 8 := by
      rw [Int.tdiv_eq_ediv h0 (by decide)]
      omega
    push_cast
    omega

theorem ScaleSpellEffect_small (base : Int) (n : Nat) (h0 : 0 ≤ base) (h8 : base < 8) :
    ScaleSpellEffect base n = base := by
  induction n with
  | zero => rw [ScaleSpellEffect_nonpos base _ (by simp)]
  | succ k ih =>
    have hs := ScaleSpellEffect_succ base k
    have h1 : base.tdiv 8 = 0 := by
      rw [Int.tdiv_eq_ediv h0 (by decide)]
      omega
    push_cast
    rw [hs, ih, h1]
    omega

theorem AddGuardian_range_bounds (missile : Missile) (player : Player) :
    30 ≤ AddGuardian_range missile player ∧ AddGuardian_range missile player ≤ 480 := by
  unfold AddGuardian_range
  lift_lets
  intro r0 r1 r2 r3
  have h2 : r2 ≤ 30 := by
    simp only [r2]
    split_ifs <;> omega
  have h3 : r3 = r2 * 16 := rfl
  split_ifs <;> omega

theorem tdiv_nonneg_of_nonneg (a c : Int) (ha : 0 ≤ a) (hc : 0 < c) : 0 ≤ a.tdiv c := by
  rw [Int.tdiv_eq_ediv ha (le_of_lt hc)]
  exact Int.ediv_nonneg ha (le_of_lt hc)

theorem ScaleSpellEffect_nonneg (base n : Int) (h : 0 ≤ base) : 0 ≤ ScaleSpellEffect base n := by
  unfold ScaleSpellEffect
  generalize (List.range n.toNat) = l
  induction l generalizing base with
  | nil => exact h
  | cons a t ih =>
    rw [List.foldl_cons]
    apply ih
    have := tdiv_nonneg_of_nonneg base 8 h (by decide)
    omega

theorem AddClassHealingBonus_mono (a b : Int) (c : HeroClass) (h : a ≤ b) :
    AddClassHealingBonus a c ≤ AddClassHealingBonus b c := by
  have h2 := tdiv_mono a b 2 (by decide) h
  cases c <;> simp only [AddClassHealingBonus] <;> omega

theorem GetDamageAmt_damage (i : spell_id) (mind maxd : Int) (g : Globals)
    (hi : i ∈ damageSpells)
    (hl : 0 ≤ (g.Players g.MyPlayerId)._pLevel)
    (hm : 0 ≤ (g.Players g.MyPlayerId)._pMagic)
    (hs : 0 ≤ (g.Players g.MyPlayerId)._pSplLvl.getD i.code 0
      + (g.Players g.MyPlayerId)._pISplLvlAdd) :
    (GetDamageAmt i mind maxd g).1 ≤ (GetDamageAmt i mind maxd g).2 := by
  generalize hp : g.Players g.MyPlayerId = p at hl hm hs
  generalize hsl : p._pSplLvl.getD i.code 0 + p._pISplLvlAdd = sl at hs
  have hL2 := tdiv_nonneg_of_nonneg p._pLevel 2 hl (by decide)
  have hM4 := tdiv_nonneg_of_nonneg p._pMagic 4 hm (by decide)
  have hS := ScaleSpellEffect_nonneg p._pLevel sl hl
  have hS2 := tdiv_nonneg_of_nonneg _ 2 hS (by decide)
  have hL4 := tdiv_nonneg_of_nonneg (p._pLevel + 4) 2 (by omega) (by decide)
  have hH := AddClassHealingBonus_mono (p._pLevel + sl + 1) (4 * p._pLevel + 6 * sl + 10)
    p._pClass (by omega)
  have hF := ScaleSpellEffect_mono (2 * p._pLevel + 4) (2 * p._pLevel + 4 + 36) sl (by omega)
  have hG := ScaleSpellEffect_mono (p._pLevel.tdiv 2 + 1) (p._pLevel.tdiv 2 + 1 + 9) sl (by omega)
  have hN := ScaleSpellEffect_mono ((p._pLevel + 5).tdiv 2) ((p._pLevel + 30).tdiv 2) sl
    (tdiv_mono _ _ 2 (by decide) (by omega))
  have hE := ScaleSpellEffect_mono (2 * p._pLevel + 4) (2 * p._pLevel + 40) sl (by omega)
  simp only [damageSpells, List.mem_cons, List.mem_singleton, List.not_mem_nil, or_false] at hi
  rcases hi with h | h | h | h | h | h | h | h | h | h | h | h | h | h | h | h | h | h | h | h
    | h | h | h | h | h <;> subst h <;> simp only [GetDamageAmt, hp, hsl] <;> omega

/-- The value that `GetDirection16` computes from the two coordinate
differences `dx` and `dy` when the enumerators are numbered clockwise: `r` is
the direction found in the first octant, which is then flipped. -/
theorem GetDirection16_eq (ext : Ext) (h : Clockwise16 ext) (p1 p2 : Point)
    (dx dy ax ay lo hi r : Int)
    (hx : p2.x - p1.x = dx) (hy : p2.y - p1.y = dy)
    (hax : (Int.natAbs dx : Int) = ax) (hay : (Int.natAbs dy : Int) = ay)
    (hlo : lo = if ax > ay then ay else ax) (hhi : hi = if ax > ay then ax else ay)
    (hr : r = if 3 * lo ≤ hi * 2 then (if 5 * lo < hi then 2 else 1) else 0) :
    GetDirection16 ext p1 p2 =
      if ax > ay then
        Direction16Flip
          (if dy ≠ ay then Direction16Flip (if dx ≠ ax then Direction16Flip r 2 else r) 14
            else (if dx ≠ ax then Direction16Flip r 2 else r))
          (if dy ≠ ay then Direction16Flip (if dx ≠ ax then Direction16Flip 0 2 else 0) 14
            else (if dx ≠ ax then Direction16Flip 0 2 else 0))
      else
        (if dy ≠ ay then Direction16Flip (if dx ≠ ax then Direction16Flip r 2 else r) 14
          else (if dx ≠ ax then Direction16Flip r 2 else r)) := by
  obtain ⟨h0, h1, h2, h14⟩ := h
  unfold GetDirection16
  simp only [Point.sub, Displacement.abs, hx, hy, hax, hay, h0, h1, h2, h14, bne_iff_ne, ne_eq,
    decide_eq_true_eq]
  by_cases hgt : ax > ay
  · simp only [hgt, if_true] at hlo hhi ⊢
    rw [← hlo, ← hhi, ← hr]
  · simp only [hgt, if_false] at hlo hhi ⊢
    rw [← hlo, ← hhi, ← hr]

theorem natAbs_cases (d : Int) :
    (d < 0 ∧ (Int.natAbs d : Int) = -d) ∨ (d = 0 ∧ (Int.natAbs d : Int) = 0)
      ∨ (0 < d ∧ (Int.natAbs d : Int) = d) := by
  omega

theorem GetDirection16_range (ext : Ext) (h : Clockwise16 ext) (p1 p2 : Point) :
    0 ≤ GetDirection16 ext p1 p2 ∧ GetDirection16 ext p1 p2 ≤ 15 := by
  rw [GetDirection16_eq ext h p1 p2 (p2.x - p1.x) (p2.y - p1.y) _ _ _ _ _ rfl rfl rfl rfl rfl rfl
      rfl]
  generalize p2.x - p1.x = dx
  generalize p2.y - p1.y = dy
  generalize (Int.natAbs dx : Int) = ax
  generalize (Int.natAbs dy : Int) = ay
  generalize hlo : (if ax > ay then ay else ax) = lo
  generalize hhi : (if ax > ay then ax else ay) = hi
  generalize hr : (if 3 * lo ≤ hi * 2 then (if 5 * lo < hi then (2 : Int) else 1) else 0) = r
  have hr3 : r = 0 ∨ r = 1 ∨ r = 2 := by
    split_ifs at hr <;> omega
  rcases hr3 with rfl | rfl | rfl <;> split_ifs <;> decide

theorem GetDirection16_diagonal (ext : Ext) (h : Clockwise16 ext) (p1 p2 : Point) (d dx dy : Int)
    (hd : 0 < d) (hx : p2.x - p1.x = dx) (hy : p2.y - p1.y = dy)
    (hdx : dx = d ∨ dx = -d) (hdy : dy = d ∨ dy = -d) :
    GetDirection16 ext p1 p2 =
      if dx = d then (if dy = d then 0 else 12) else (if dy = d then 4 else 8) := by
  rw [GetDirection16_eq ext h p1 p2 dx dy d d d d 0 hx hy (by omega) (by omega)
    (by split_ifs <;> omega) (by split_ifs <;> omega) (by split_ifs <;> omega)]
  split_ifs <;> first | omega | decide

theorem GetDirection16_vertical (ext : Ext) (h : Clockwise16 ext) (p1 p2 : Point) (d dy : Int)
    (hd : 0 < d) (hx : p2.x - p1.x = 0) (hy : p2.y - p1.y = dy) (hdy : dy = d ∨ dy = -d) :
    GetDirection16 ext p1 p2 = if dy = d then 2 else 10 := by
  rw [GetDirection16_eq ext h p1 p2 0 dy 0 d 0 d 2 hx hy (by omega) (by omega)
    (by split_ifs <;> omega) (by split_ifs <;> omega) (by split_ifs <;> omega)]
  split_ifs <;> first | omega | decide

theorem GetDirection16_horizontal (ext : Ext) (h : Clockwise16 ext) (p1 p2 : Point) (d dx : Int)
    (hd : 0 < d) (hx : p2.x - p1.x = dx) (hy : p2.y - p1.y = 0) (hdx : dx = d ∨ dx = -d) :
    GetDirection16 ext p1 p2 = if dx = d then 14 else 6 := by
  rw [GetDirection16_eq ext h p1 p2 dx 0 d 0 0 d 2 hx hy (by omega) (by omega)
    (by split_ifs <;> omega) (by split_ifs <;> omega) (by split_ifs <;> omega)]
  split_ifs <;> first | omega | decide

theorem AddRndTeleport_step_inv (ext : Ext) (g : Globals) (player : Player) (start : Point)
    (st : AddRndTeleportState) (d : Displacement) (n : Nat)
    (hd : -6 ≤ d.deltaX ∧ d.deltaX ≤ 6 ∧ -6 ≤ d.deltaY ∧ d.deltaY ≤ 6)
    (h : AddRndTeleportInv start st n) :
    AddRndTeleportInv start (AddRndTeleport_step ext g player start st d)
      (n + (if (d.deltaX ≥ -3 ∧ d.deltaX ≤ 3) ∨ (d.deltaY ≥ -3 ∧ d.deltaY ≤ 3) then 0 else 1)) := by
  obtain ⟨h0, hn, hlen, hw⟩ := h
  unfold AddRndTeleport_step
  by_cases hc : (d.deltaX ≥ -3 ∧ d.deltaX ≤ 3) ∨ (d.deltaY ≥ -3 ∧ d.deltaY ≤ 3)
  · rw [if_pos hc, if_pos hc]
    exact ⟨h0, hn, hlen, hw⟩
  · rw [if_neg hc, if_neg hc]
    cases hp : ext.PosOkPlayer g player (start.addDisplacement d)
    · simp only [hp, if_true]
      refine ⟨h0, ?_, hlen, hw⟩
      push_cast
      omega
    · simp only [hp, Bool.true_eq_false, if_false]
      refine ⟨by dsimp only; omega, by dsimp only; push_cast; omega, ?_, ?_⟩
      · simp only [List.length_append, List.length_singleton]
        push_cast
        omega
      · intro iw hiw
        simp only [List.mem_append, List.mem_singleton] at hiw
        rcases hiw with hiw | hiw
        · have := hw iw hiw
          dsimp only
          omega
        · subst hiw
          simp only [Point.addDisplacement]
          omega

theorem AddRndTeleport_fold_inv (ext : Ext) (g : Globals) (player : Player) (start : Point)
    (l : List Displacement) :
    ∀ (st : AddRndTeleportState) (n : Nat),
      (∀ d ∈ l, -6 ≤ d.deltaX ∧ d.deltaX ≤ 6 ∧ -6 ≤ d.deltaY ∧ d.deltaY ≤ 6) →
      AddRndTeleportInv start st n →
      AddRndTeleportInv start (l.foldl (AddRndTeleport_step ext g player start) st)
        (n + (l.filter (fun d =>
          !decide ((d.deltaX ≥ -3 ∧ d.deltaX ≤ 3) ∨ (d.deltaY ≥ -3 ∧ d.deltaY ≤ 3)))).length) := by
  induction l with
  | nil => intro st n _ h; simpa using h
  | cons d t ih =>
    intro st n hl h
    rw [List.foldl_cons]
    have h1 := AddRndTeleport_step_inv ext g player start st d n (hl d (List.mem_cons_self _ _)) h
    have h2 := ih _ _ (fun e he => hl e (List.mem_cons_of_mem _ he)) h1
    by_cases hc : (d.deltaX ≥ -3 ∧ d.deltaX ≤ 3) ∨ (d.deltaY ≥ -3 ∧ d.deltaY ≤ 3)
    · rw [if_pos hc] at h2
      rw [List.filter_cons_of_neg (by rw [decide_eq_true hc]; decide)]
      simpa using h2
    · rw [if_neg hc] at h2
      rw [List.filter_cons_of_pos (by rw [decide_eq_false hc]; rfl), List.length_cons]
      have e : n + 1 + (t.filter (fun d =>
          !decide ((d.deltaX ≥ -3 ∧ d.deltaX ≤ 3) ∨ (d.deltaY ≥ -3 ∧ d.deltaY ≤ 3)))).length
          = n + ((t.filter (fun d =>
          !decide ((d.deltaX ≥ -3 ∧ d.deltaX ≤ 3) ∨ (d.deltaY ≥ -3 ∧ d.deltaY ≤ 3)))).length + 1) := by
        omega
      rw [← e]
      exact h2

theorem AddRndTeleport_offsets_range :
    ∀ d ∈ AddRndTeleport_offsets, -6 ≤ d.deltaX ∧ d.deltaX ≤ 6 ∧ -6 ≤ d.deltaY ∧ d.deltaY ≤ 6 := by
  intro d hd
  simp only [AddRndTeleport_offsets, List.mem_flatMap, List.mem_map, List.mem_range] at hd
  obtain ⟨j, hj, i, hi, rfl⟩ := hd
  dsimp only
  omega

set_option maxRecDepth 100000 in
theorem AddRndTeleport_offsets_outside :
    (AddRndTeleport_offsets.filter (fun d =>
      !decide ((d.deltaX ≥ -3 ∧ d.deltaX ≤ 3) ∨ (d.deltaY ≥ -3 ∧ d.deltaY ≤ 3)))).length = 36 := by
  decide

theorem AddRndTeleport_loop_inv (ext : Ext) (g : Globals) (player : Player) (start : Point) :
    AddRndTeleportInv start
      (AddRndTeleport_offsets.foldl (AddRndTeleport_step ext g player start) {}) 36 := by
  have h := AddRndTeleport_fold_inv ext g player start AddRndTeleport_offsets {} 0
    AddRndTeleport_offsets_range ⟨le_refl _, le_refl _, rfl, fun _ h => absurd h (List.not_mem_nil _)⟩
  rw [AddRndTeleport_offsets_outside] at h
  exact h

theorem RotateBlockedMissile_keeps_mirnd (ext : Ext) (missile : Missile) (w : World) :
    (RotateBlockedMissile ext missile w).1._mirnd = missile._mirnd := by
  unfold RotateBlockedMissile
  simp only []
  split_ifs <;> rfl

theorem CheckMissileCol_keeps_mirnd (ext : Ext) (missile : Missile) (minDamage maxDamage : Int)
    (isDamageShifted : Bool) (position : Point) (dontDeleteOnCollision : Bool) (w : World) :
    (CheckMissileCol ext missile minDamage maxDamage isDamageShifted position
      dontDeleteOnCollision w).1._mirnd = missile._mirnd := by
  unfold CheckMissileCol
  lift_lets
  intro mx my mid attackingMonster r isMonsterHit w1 src1 missile1 blocked0 pid earflag q
    isPlayerHit blocked w2 h1 src2 h2 missile2 w3 w4 src3 h3 missile3 w5
  have hm1 : missile1._mirnd = missile._mirnd := by
    simp only [missile1, src1]
    split_ifs <;> rfl
  have hh1 : h1.1._mirnd = missile._mirnd := by
    simp only [h1]
    split_ifs
    · exact (RotateBlockedMissile_keeps_mirnd _ _ _).trans hm1
    · exact hm1
    · exact hm1
  have hm2 : missile2._mirnd = missile._mirnd := by
    simp only [missile2, h2, src2]
    split_ifs
    · exact hh1
    · exact hm1
  have hm3 : missile3._mirnd = missile._mirnd := by
    simp only [missile3, h3, src3]
    split_ifs
    · exact hm2
    · exact hm2
    · exact hm2
  split_ifs
  · rfl
  · exact hm3
  · exact hm3

theorem MoveMissile_collide_keeps_mirnd (ext : Ext) (ifCollides : Bool)
    (incVelocity traveled : Displacement) (missile : Missile) (w : World) :
    (MoveMissile_collide ext ifCollides incVelocity traveled missile w).1._mirnd
      = missile._mirnd := by
  unfold MoveMissile_collide
  simp only []
  split_ifs <;> rfl

theorem MoveMissile_loop_keeps_mirnd (ext : Ext) (mindam maxdam : Int) (ifCollides : Bool)
    (incVelocity : Displacement) (fuel : Nat) :
    ∀ (traveled : Displacement) (prevTile : Point) (missile : Missile) (w : World)
      (checked : List Point) (b : Bool) (m1 : Missile) (w1 : World) (checked1 : List Point),
      MoveMissile_loop ext mindam maxdam ifCollides incVelocity fuel traveled prevTile missile w
          checked = some (b, m1, w1, checked1) → m1._mirnd = missile._mirnd := by
  induction fuel with
  | zero =>
    intro traveled prevTile missile w checked b m1 w1 checked1 h
    exact absurd h (by simp [MoveMissile_loop])
  | succ fuel ih =>
    intro traveled prevTile missile w checked b m1 w1 checked1 h
    unfold MoveMissile_loop at h
    lift_lets at h
    extract_lets tr mx my dx dy tile r at h
    have hr : r.1._mirnd = missile._mirnd := CheckMissileCol_keeps_mirnd _ _ _ _ _ _ _ _
    split_ifs at h
    · cases h
      rfl
    · exact ih _ _ _ _ _ _ _ _ _ h
    · exact (ih _ _ _ _ _ _ _ _ _ h).trans hr
    · cases h
      exact (MoveMissile_collide_keeps_mirnd _ _ _ _ _ _).trans hr
    · exact (ih _ _ _ _ _ _ _ _ _ h).trans hr

theorem MoveMissile_arrive_keeps_mirnd (ext : Ext) (mindam maxdam : Int)
    (ignoreStart ifCollides : Bool) (missile : Missile) (w : World) :
    (MoveMissile_arrive ext mindam maxdam ignoreStart ifCollides missile w).1.1._mirnd
      = missile._mirnd := by
  unfold MoveMissile_arrive
  simp only []
  split_ifs
  · rfl
  · exact CheckMissileCol_keeps_mirnd _ _ _ _ _ _ _ _
  · exact CheckMissileCol_keeps_mirnd _ _ _ _ _ _ _ _

theorem MoveMissileAndCheckMissileCol_keeps_mirnd (ext : Ext) (fuel : Nat) (missile : Missile)
    (mindam maxdam : Int) (ignoreStart ifCollides : Bool) (w : World) (r : Missile × World)
    (h : MoveMissileAndCheckMissileCol ext fuel missile mindam maxdam ignoreStart ifCollides w
      = some r) : r.1._mirnd = missile._mirnd := by
  unfold MoveMissileAndCheckMissileCol MoveMissileAndCheckMissileColTrace at h
  lift_lets at h
  extract_lets prevTile u m0 w0 n hash m1 at h
  have h0 : m0._mirnd = missile._mirnd := rfl
  have h1 : m1._mirnd = missile._mirnd := rfl
  by_cases hz : n = 0 ∧ m0.lastCollisionTargetHash = hash
  · rw [if_pos hz] at h
    cases h
    exact h0
  · rw [if_neg hz] at h
    by_cases hn1 : n > 1
    · rw [if_pos hn1] at h
      cases hl : MoveMissile_loop ext mindam maxdam ifCollides
          (ext.mulHundredth m1.position.velocity (n - 1)) fuel
          (m1.position.traveled.sub m1.position.velocity) prevTile m1 w0 [] with
      | none =>
        rw [hl] at h
        exact Option.noConfusion h
      | some res =>
        obtain ⟨b, m2, w2, checked⟩ := res
        rw [hl] at h
        have h2 : m2._mirnd = m1._mirnd :=
          MoveMissile_loop_keeps_mirnd _ _ _ _ _ _ _ _ _ _ _ _ _ _ _ hl
        cases b with
        | true =>
          cases h
          exact h2.trans h1
        | false =>
          cases h
          exact (MoveMissile_arrive_keeps_mirnd _ _ _ _ _ _ _).trans (h2.trans h1)
    · rw [if_neg hn1] at h
      cases h
      exact (MoveMissile_arrive_keeps_mirnd _ _ _ _ _ _ _).trans h1

theorem UpdateMissileVelocity_keeps_mirnd (ext : Ext) (missile : Missile) (destination : Point)
    (velocityInPixels : Int) :
    (UpdateMissileVelocity ext missile destination velocityInPixels)._mirnd = missile._mirnd := by
  unfold UpdateMissileVelocity
  simp only []
  split_ifs <;> rfl

theorem PutMissile_keeps_mirnd (ext : Ext) (missile : Missile) (s : GameState) :
    (PutMissile ext missile s).1._mirnd = missile._mirnd := by
  unfold PutMissile
  simp only []
  split_ifs <;> rfl

theorem land_15_range (n : Int) (h0 : 0 ≤ n) (h15 : n ≤ 15) :
    0 ≤ Int.land (n + 1) 15 ∧ Int.land (n + 1) 15 ≤ 15
      ∧ Int.land (n + 1) 15 = (n + 1) % 16 := by
  interval_cases n <;> decide

theorem AddCbolt_mirnd (ext : Ext) (missile : Missile) (parameter : AddMissileParameter)
    (w : World) :
    1 ≤ (AddCbolt ext missile parameter w).1._mirnd
      ∧ (AddCbolt ext missile parameter w).1._mirnd ≤ 15 := by
  have hb := GenerateRnd_bounds 15 w (by decide)
  have e : (AddCbolt ext missile parameter w).1._mirnd = (GenerateRnd 15 w).1 + 1 := by
    unfold AddCbolt
    lift_lets
    intro dst g m1 d m2 dst1 f m3 l m4 m5
    exact UpdateMissileVelocity_keeps_mirnd _ _ _ _
  omega

theorem AddCboltArrow_mirnd (ext : Ext) (missile : Missile) (parameter : AddMissileParameter)
    (w : World) :
    1 ≤ (AddCboltArrow ext missile parameter w).1._mirnd
      ∧ (AddCboltArrow ext missile parameter w).1._mirnd ≤ 15 := by
  have hb := GenerateRnd_bounds 15 w (by decide)
  have e : (AddCboltArrow ext missile parameter w).1._mirnd = (GenerateRnd 15 w).1 + 1 := by
    unfold AddCboltArrow
    lift_lets
    intro dst g m1 m2 dst1 f m3 l m4 m5
    have h5 : m5._mirnd = m4._mirnd := UpdateMissileVelocity_keeps_mirnd _ _ _ _
    have h2 : m2._mirnd = g.1 + 1 := by
      simp only [m2]
      split_ifs <;> rfl
    exact h5.trans h2
  omega

theorem MI_Cbolt_finish_mirnd (ext : Ext) (node : Nat) (missile m : Missile) (w : World)
    (s : GameState) (hget : s.getMissile node = some m) :
    ((MI_Cbolt_finish ext node missile w s).missile node)._mirnd = missile._mirnd := by
  unfold MI_Cbolt_finish
  lift_lets
  intro r q
  have hq : q.2.getMissile node = some m := by
    have hM : q.2.Missiles = s.Missiles := PutMissile_Missiles _ _ _
    unfold GameState.getMissile at hget ⊢
    rw [hM]
    exact hget
  rw [missile_updateMissile _ _ _ _ hq]
  have h1 : q.1._mirnd = r.1._mirnd := PutMissile_keeps_mirnd _ _ _
  have h2 : r.1._mirnd = missile._mirnd := by
    simp only [r]
    split_ifs <;> rfl
  exact h1.trans h2

theorem MI_Cbolt_steer_mirnd (ext : Ext) (missile : Missile) :
    (MI_Cbolt_steer ext missile)._mirnd = Int.land (missile._mirnd + 1) 15 := by
  unfold MI_Cbolt_steer
  lift_lets
  intro md turn md1 m1 m2
  exact UpdateMissileVelocity_keeps_mirnd _ _ _ _

theorem MI_Cbolt_impact_mirnd (ext : Ext) (missile : Missile) :
    (MI_Cbolt_impact ext missile)._mirnd = missile._mirnd := rfl

theorem MI_CboltTrace_mirnd (ext : Ext) (fuel : Nat) (node : Nat) (s : GameState)
    (r : GameState × Option Int)
    (h0 : 0 ≤ (s.missile node)._mirnd ∧ (s.missile node)._mirnd ≤ 15)
    (h : MI_CboltTrace ext fuel node s = some r) :
    (0 ≤ (r.1.missile node)._mirnd ∧ (r.1.missile node)._mirnd ≤ 15)
    ∧ (∀ i, r.2 = some i →
        i = (s.missile node)._mirnd
        ∧ (r.1.missile node)._mirnd = ((s.missile node)._mirnd + 1) % 16) := by
  unfold MI_CboltTrace at h
  cases hget : s.getMissile node with
  | none =>
    simp -zeta only [hget] at h
    cases h
    exact ⟨h0, fun i hi => by simp at hi⟩
  | some m =>
    have hm : s.missile node = m := missile_of_get s node m hget
    rw [hm] at h0 ⊢
    simp -zeta only [hget] at h
    lift_lets at h
    extract_lets m1 index m2 at h
    have h1 : m1._mirnd = m._mirnd := rfl
    by_cases ha : m1._miAnimType ≠ ext.MFILE_LGHNING
    · rw [if_pos ha] at h
      cases hmv : MoveMissileAndCheckMissileCol ext fuel m2 m2._midam m2._midam false false
          s.toWorld with
      | none =>
        rw [hmv] at h
        exact Option.noConfusion h
      | some q =>
        rw [hmv] at h
        simp -zeta only [] at h
        lift_lets at h
        extract_lets m3 w3 at h
        cases h
        have hq : q.1._mirnd = m2._mirnd :=
          MoveMissileAndCheckMissileCol_keeps_mirnd _ _ _ _ _ _ _ _ _ hmv
        have h3 : m3._mirnd = m2._mirnd := by
          simp only [m3]
          split_ifs
          · exact (MI_Cbolt_impact_mirnd _ _).trans hq
          · exact hq
        have hf := MI_Cbolt_finish_mirnd ext node m3 m w3 s hget
        simp only
        rw [hf, h3]
        have hl := land_15_range m._mirnd h0.1 h0.2
        by_cases hv : m1.var3 = 0
        · have h2 : m2._mirnd = Int.land (m._mirnd + 1) 15 := by
            simp only [m2, if_pos hv]
            exact MI_Cbolt_steer_mirnd _ _
          rw [h2]
          refine ⟨⟨hl.1, hl.2.1⟩, fun i hi => ?_⟩
          simp only [index, if_pos hv, Option.some.injEq] at hi
          exact ⟨by rw [← hi], hl.2.2⟩
        · have h2 : m2._mirnd = m._mirnd := by
            simp only [m2, if_neg hv]
          rw [h2]
          refine ⟨h0, fun i hi => ?_⟩
          simp only [index, if_neg hv] at hi
          exact absurd hi (by simp)
    · rw [if_neg ha] at h
      cases h
      have hf := MI_Cbolt_finish_mirnd ext node m1 m s.toWorld s hget
      simp only
      rw [hf, h1]
      exact ⟨h0, fun i hi => by simp at hi⟩

theorem MI_Cbolt_iterate_mirnd (ext : Ext) (fuel : Nat) (node : Nat) (s : GameState)
    (h0 : 0 ≤ (s.missile node)._mirnd ∧ (s.missile node)._mirnd ≤ 15) :
    ∀ (k : Nat) (t : GameState),
      (fun o : Option GameState => o.bind (MI_Cbolt ext fuel node))^[k] (some s) = some t →
      0 ≤ (t.missile node)._mirnd ∧ (t.missile node)._mirnd ≤ 15 := by
  intro k
  induction k with
  | zero =>
    intro t h
    simp only [Function.iterate_zero, id_eq, Option.some.injEq] at h
    rw [← h]
    exact h0
  | succ k ih =>
    intro t h
    rw [Function.iterate_succ_apply'] at h
    cases hk : (fun o : Option GameState => o.bind (MI_Cbolt ext fuel node))^[k] (some s) with
    | none =>
      rw [hk] at h
      exact Option.noConfusion h
    | some u =>
      rw [hk] at h
      simp only [Option.some_bind, MI_Cbolt, Option.map_eq_some'] at h
      obtain ⟨r, hr, rfl⟩ := h
      exact (MI_CboltTrace_mirnd ext fuel node u r (ih u hk) hr).1

/-- C1: `AddMissile` returns no handle and leaves the state unchanged when the
registry is at capacity; in every other case it appends exactly one new node
at the end of the registry before the initializer runs and returns the
identity of that node, whatever the initializer then does to the missile. -/
theorem AddMissile_capacity (ext : Ext) (cat : Catalog) (src dst : Point) (midir : Direction)
    (mitype : missile_id) (micaster : mienemy_type) (id midam spllvl : Int)
    (pParent : Option Nat) (s : GameState) (hfresh : ∀ n ∈ s.Missiles, n.id < s.nextNode) :
    (ext.max_size ≤ s.Missiles.length
      ∧ AddMissile ext cat src dst midir mitype micaster id midam spllvl pParent s = (none, s))
    ∨ (s.Missiles.length < ext.max_size
      ∧ ∃ (missile : Missile) (pre : GameState),
        pre.Missiles = s.Missiles ++ [MissileNode.mk s.nextNode missile]
        ∧ AddMissile ext cat src dst midir mitype micaster id midam spllvl pParent s
          = (some s.nextNode,
              cat.mAddProc mitype s.nextNode { dst := dst, midir := midir, pParent := pParent } pre)) := by
  by_cases hcap : ext.max_size ≤ s.Missiles.length
  · left
    refine ⟨hcap, ?_⟩
    unfold AddMissile
    rw [if_pos hcap]
  · right
    refine ⟨by omega, ?_⟩
    unfold AddMissile
    rw [if_neg hcap]
    simp only []
    refine ⟨AddMissile_init ext src midir mitype micaster id midam spllvl (s.Monsters id) {}, ?_⟩
    split_ifs with hsfx
    · refine ⟨_, ?_, rfl⟩
      simp only [GameState.call, GameState.updateMissile]
      exact updateMissile_fresh s s.nextNode {} _ hfresh
    · refine ⟨_, ?_, rfl⟩
      simp only [GameState.updateMissile]
      exact updateMissile_fresh s s.nextNode {} _ hfresh

theorem AddMissile_capacity_witness :
    (∀ n ∈ tickState.Missiles, n.id < tickState.nextNode)
    ∧ ((sampleExt.max_size ≤ tickState.Missiles.length
        ∧ AddMissile sampleExt spawnCatalog { x := 5, y := 5 } { x := 6, y := 6 } 0
            missile_id.MIS_FIREBOLT mienemy_type.TARGET_MONSTERS 0 0 0 none tickState
          = (none, tickState))
      ∨ (tickState.Missiles.length < sampleExt.max_size
        ∧ ∃ (missile : Missile) (pre : GameState),
          pre.Missiles = tickState.Missiles ++ [MissileNode.mk tickState.nextNode missile]
          ∧ AddMissile sampleExt spawnCatalog { x := 5, y := 5 } { x := 6, y := 6 } 0
              missile_id.MIS_FIREBOLT mienemy_type.TARGET_MONSTERS 0 0 0 none tickState
            = (some tickState.nextNode,
                spawnCatalog.mAddProc missile_id.MIS_FIREBOLT tickState.nextNode
                  { dst := { x := 6, y := 6 }, midir := 0, pParent := none } pre))) :=
  ⟨tickState_nodesDistinct.2,
    AddMissile_capacity sampleExt spawnCatalog { x := 5, y := 5 } { x := 6, y := 6 } 0
      missile_id.MIS_FIREBOLT mienemy_type.TARGET_MONSTERS 0 0 0 none tickState
      tickState_nodesDistinct.2⟩

/-- C2: a missile that is in the registry with its tile outside the dungeon
bounds when `ProcessMissiles` starts is not visited by the update loop of that
call, so its update function is not invoked, and its node is absent from the
registry when the call returns. -/
theorem ProcessMissiles_out_of_bounds (ext : Ext) (cat : Catalog) (s : GameState)
    (hcat : cat.AppendOnly ext) (hs : s.NodesDistinct) (n : MissileNode) (hn : n ∈ s.Missiles)
    (hoob : ext.InDungeonBounds n.val.position.tile = false) :
    (∀ v ∈ (ProcessMissilesTrace ext cat s).2, v.1 ≠ n.id)
    ∧ ∀ k ∈ (ProcessMissiles ext cat s).Missiles, k.id ≠ n.id := by
  have h1 := sweep_removes_out_of_bounds ext s hs n hn hoob
  have h2 : n.id < (DeleteMissiles (ProcessMissiles_mark ext s)).nextNode := hs.2 n hn
  have h := update_avoids ext cat hcat n.id
    (max (DeleteMissiles (ProcessMissiles_mark ext s)).Missiles.length ext.max_size) 0
    { DeleteMissiles (ProcessMissiles_mark ext s) with MissilePreFlag := false } [] h1 h2
    (fun v hv => absurd hv (List.not_mem_nil v))
  refine ⟨h.2, ?_⟩
  intro k hk hid
  apply h.1
  unfold ProcessMissiles ProcessMissilesTrace DeleteMissiles at hk
  simp only [ProcessManaShield_Missiles] at hk
  exact hid ▸ List.mem_map_of_mem _ (List.mem_filter.mp hk).1

theorem ProcessMissiles_out_of_bounds_witness :
    (spawnCatalog.AppendOnly sampleExt ∧ tickState.NodesDistinct ∧ strayNode ∈ tickState.Missiles
      ∧ sampleExt.InDungeonBounds strayNode.val.position.tile = false)
    ∧ (∀ v ∈ (ProcessMissilesTrace sampleExt spawnCatalog tickState).2, v.1 ≠ strayNode.id)
    ∧ ∀ k ∈ (ProcessMissiles sampleExt spawnCatalog tickState).Missiles, k.id ≠ strayNode.id :=
  ⟨⟨spawnCatalog_appendOnly, tickState_nodesDistinct,
      List.mem_cons_of_mem _ (List.mem_singleton.mpr rfl), rfl⟩,
    ProcessMissiles_out_of_bounds sampleExt spawnCatalog tickState spawnCatalog_appendOnly
      tickState_nodesDistinct strayNode (List.mem_cons_of_mem _ (List.mem_singleton.mpr rfl)) rfl⟩

/-- C3: the code at the failing input.  The registry holds one missile that has
left the dungeon and holds the light handle 5 (not `NO_LIGHT`).  Whatever the
catalog, `ProcessMissiles` removes the missile from the registry and makes no
call at all, so `AddUnLight(5)` is never issued: the handle is released zero
times, not once. -/
theorem ProcessMissiles_leaks_light (cat : Catalog) :
    strayMissile._mlid = 5 ∧ sampleExt.NO_LIGHT = -1
    ∧ leakState.Missiles.length = 1
    ∧ (ProcessMissiles sampleExt cat leakState).Missiles.length = 0
    ∧ (ProcessMissiles sampleExt cat leakState).trace = []
    ∧ Event.AddUnLight 5 ∉ (ProcessMissiles sampleExt cat leakState).trace := by
  have ht : (ProcessMissiles sampleExt cat leakState).trace = [] := rfl
  refine ⟨rfl, rfl, rfl, rfl, ht, ?_⟩
  rw [ht]
  exact List.not_mem_nil _

/-- C4: registry order is insertion order and is the order of the updates.
Sweeping keeps the survivors in their relative order; `AddMissile` either
leaves the registry alone or hands the initializer the old registry with one
node appended at the end; and the update loop of `ProcessMissiles` visits, in
registry order, exactly the nodes of the registry as it is when the loop ends:
first the survivors of the first sweep, then every missile spawned during the
tick, each after all the nodes that precede it.  When every type has an update
function, the update function is invoked at every visit. -/
theorem ProcessMissiles_order (ext : Ext) (cat : Catalog) (s : GameState)
    (hcat : cat.AppendOnly ext) :
    (DeleteMissiles s).Missiles.Sublist s.Missiles
    ∧ (∀ (src dst : Point) (midir : Direction) (mitype : missile_id) (micaster : mienemy_type)
        (id midam spllvl : Int) (pParent : Option Nat),
        AddMissile ext cat src dst midir mitype micaster id midam spllvl pParent s = (none, s)
        ∨ ∃ pre : GameState, nodeIds pre = nodeIds s ++ [s.nextNode]
          ∧ AddMissile ext cat src dst midir mitype micaster id midam spllvl pParent s
            = (some s.nextNode,
                cat.mAddProc mitype s.nextNode { dst := dst, midir := midir, pParent := pParent }
                  pre))
    ∧ (∃ last : GameState,
        (ProcessMissilesTrace ext cat s).2.map Prod.fst = nodeIds last
        ∧ nodeIds (DeleteMissiles (ProcessMissiles_mark ext s)) <+: nodeIds last
        ∧ (ProcessMissiles ext cat s).Missiles
          = last.Missiles.filter (fun n => !n.val._miDelFlag))
    ∧ ((∀ t, (cat.mProc t).isSome = true) →
        ∀ v ∈ (ProcessMissilesTrace ext cat s).2, v.2 = true) := by
  refine ⟨List.filter_sublist _, ?_, ?_, ?_⟩
  · intro src dst midir mitype micaster id midam spllvl pParent
    by_cases hcap : s.Missiles.length < ext.max_size
    · right
      obtain ⟨pre, h1, -, h3⟩ := AddMissile_appends ext cat src dst midir mitype micaster id midam
        spllvl pParent s hcap
      exact ⟨pre, h1, h3⟩
    · left
      unfold AddMissile
      rw [if_pos (by omega)]
  · have h := update_visits ext cat hcat
      (max (DeleteMissiles (ProcessMissiles_mark ext s)).Missiles.length ext.max_size) 0
      { DeleteMissiles (ProcessMissiles_mark ext s) with MissilePreFlag := false } []
      (Nat.zero_le _) rfl (le_refl _)
    refine ⟨_, h.1, h.2, ?_⟩
    unfold ProcessMissiles ProcessMissilesTrace DeleteMissiles
    simp only [ProcessManaShield_Missiles]
  · intro hall
    exact update_invoked cat hall _ 0 _ [] (fun v hv => absurd hv (List.not_mem_nil v))

theorem ProcessMissiles_order_witness :
    spawnCatalog.AppendOnly sampleExt
    ∧ (∃ last : GameState,
        (ProcessMissilesTrace sampleExt spawnCatalog tickState).2.map Prod.fst = nodeIds last
        ∧ nodeIds (DeleteMissiles (ProcessMissiles_mark sampleExt tickState)) <+: nodeIds last
        ∧ (ProcessMissiles sampleExt spawnCatalog tickState).Missiles
          = last.Missiles.filter (fun n => !n.val._miDelFlag))
    ∧ (ProcessMissilesTrace sampleExt spawnCatalog tickState).2 = [(0, true), (2, true)]
    ∧ nodeIds (ProcessMissiles sampleExt spawnCatalog tickState) = [0, 2] :=
  ⟨spawnCatalog_appendOnly,
    (ProcessMissiles_order sampleExt spawnCatalog tickState spawnCatalog_appendOnly).2.2.1,
    by decide, by decide⟩

/-- C5: in `MonsterMHit`, `Plr2PlrMHit` and `MonsterTrapHit` the hit chance that
is compared against the roll lies between 5 and 95 inclusive, whatever the
attacker, the defender and the distance are. -/
theorem hit_chance_within_5_95 (ext : Ext) (pnum dist : Int) (t : missile_id) (monster : Monster)
    (player target : Player) (w : World) :
    (5 ≤ (MonsterMHitChance ext pnum dist t monster w).1
      ∧ (MonsterMHitChance ext pnum dist t monster w).1 ≤ 95)
    ∧ (5 ≤ Plr2PlrMHitChance ext dist t player target
      ∧ Plr2PlrMHitChance ext dist t player target ≤ 95)
    ∧ (5 ≤ MonsterTrapHitChance dist monster ∧ MonsterTrapHitChance dist monster ≤ 95) := by
  refine ⟨⟨?_, ?_⟩, ⟨?_, ?_⟩, ⟨?_, ?_⟩⟩
  · exact clamp_ge _ 5 95 (by decide)
  · exact clamp_le _ 5 95 (by decide)
  · exact clamp_ge _ 5 95 (by decide)
  · exact clamp_le _ 5 95 (by decide)
  · exact clamp_ge _ 5 95 (by decide)
  · exact clamp_le _ 5 95 (by decide)

/-- C6: the hit chance of `PlayerMHit` is never below the floor of the dungeon
level: 30 on level 16, 25 on level 15, 20 on level 14 and 10 on every other
level, for every monster or trap, player and distance. -/
theorem PlayerMHit_chance_floor (ext : Ext) (monster : Option Monster) (dist : Int)
    (mtype : missile_id) (player : Player) (currlevel : Int) :
    (if currlevel = 16 then 30 else if currlevel = 15 then 25
      else if currlevel = 14 then 20 else 10)
      ≤ PlayerMHitChance ext monster dist mtype player currlevel := by
  unfold PlayerMHitChance
  simp only []
  split_ifs <;> omega

/-- C7, counterexample: a monster with to-hit 110 and level 30 firing a physical
missile from distance 1 at a level 25 player with armor 40 hits with chance
108, above 100. -/
theorem PlayerMHit_chance_exceeds_100 :
    PlayerMHitChance { GetArmor := fun _ => 40 } (some { mHit := 110, mLevel := 30 }) 1
        missile_id.MIS_ARROW { _pLevel := 25 } 1 = 108
    ∧ ¬ (PlayerMHitChance { GetArmor := fun _ => 40 } (some { mHit := 110, mLevel := 30 }) 1
        missile_id.MIS_ARROW { _pLevel := 25 } 1 ≤ 100) := by
  decide

/-- C7, amended: the hit chance of `PlayerMHit` is only floored, never capped.
For a trap (null monster pointer) and non-negative armor and distance it is at
most 100; for a monster it is at most 100 exactly when the value before the
floor is: `mHit + 2 (mLevel - _pLevel) + 30 - 2 dist - armor` for a physical
missile, `40 + 2 mLevel - 2 _pLevel - 2 dist` for a magic one. -/
theorem PlayerMHit_chance_le_100 (ext : Ext) (dist : Int) (mtype : missile_id) (player : Player)
    (currlevel : Int) (harmor : 0 ≤ ext.GetArmor player) (hdist : 0 ≤ dist) :
    PlayerMHitChance ext none dist mtype player currlevel ≤ 100
    ∧ ∀ mon : Monster,
      (PlayerMHitChance ext (some mon) dist mtype player currlevel ≤ 100 ↔
        (if (ext.MissilesData mtype).mType = 0 then
          mon.mHit + ((mon.mLevel - player._pLevel) * 2) + 30 - (dist * 2) - ext.GetArmor player
        else 40 + ((mon.mLevel * 2) - (player._pLevel * 2) - (dist * 2))) ≤ 100) := by
  have htac : 0 ≤ (ext.GetArmor player).tdiv 2 := Int.tdiv_nonneg harmor (by decide)
  constructor
  · unfold PlayerMHitChance
    simp only []
    split_ifs <;> omega
  · intro mon
    unfold PlayerMHitChance
    simp only []
    split_ifs <;> omega

theorem PlayerMHit_chance_le_100_witness :
    (0 ≤ ({ GetArmor := fun _ => 40 } : Ext).GetArmor { _pLevel := 25 } ∧ (0 : Int) ≤ 3)
    ∧ PlayerMHitChance { GetArmor := fun _ => 40 } none 3 missile_id.MIS_ARROW { _pLevel := 25 } 16
        ≤ 100
    ∧ ∀ mon : Monster,
      (PlayerMHitChance { GetArmor := fun _ => 40 } (some mon) 3 missile_id.MIS_ARROW
          { _pLevel := 25 } 16 ≤ 100 ↔
        (if (({ GetArmor := fun _ => 40 } : Ext).MissilesData missile_id.MIS_ARROW).mType = 0 then
          mon.mHit + ((mon.mLevel - ({ _pLevel := 25 } : Player)._pLevel) * 2) + 30 - (3 * 2)
            - ({ GetArmor := fun _ => 40 } : Ext).GetArmor { _pLevel := 25 }
        else 40 + ((mon.mLevel * 2) - (({ _pLevel := 25 } : Player)._pLevel * 2) - (3 * 2)))
          ≤ 100) :=
  ⟨⟨by decide, by decide⟩,
    PlayerMHit_chance_le_100 { GetArmor := fun _ => 40 } 3 missile_id.MIS_ARROW { _pLevel := 25 } 16
      (by decide) (by decide)⟩

/-- C8, counterexample: `MonsterMHit` reports a hit on a petrified monster
although the roll it drew (99) is not below the hit chance it computed (5). -/
theorem MonsterMHit_hit_without_roll :
    (MonsterMHit {} 0 0 1 2 0 missile_id.MIS_FIREBOLT false petrifiedWorld).1 = true
    ∧ (GenerateRnd 100 (petrifiedWorld.enter (Event.MonsterMHit 0 0 missile_id.MIS_FIREBOLT))).1 = 99
    ∧ (MonsterMHitChance {} 0 0 missile_id.MIS_FIREBOLT (petrifiedWorld.Monsters 0)
        (GenerateRnd 100
          (petrifiedWorld.enter (Event.MonsterMHit 0 0 missile_id.MIS_FIREBOLT))).2).1 = 5
    ∧ ¬ ((GenerateRnd 100 (petrifiedWorld.enter (Event.MonsterMHit 0 0 missile_id.MIS_FIREBOLT))).1
        < (MonsterMHitChance {} 0 0 missile_id.MIS_FIREBOLT (petrifiedWorld.Monsters 0)
            (GenerateRnd 100
              (petrifiedWorld.enter (Event.MonsterMHit 0 0 missile_id.MIS_FIREBOLT))).2).1) := by
  decide

/-- C8, amended: each of the four hit functions reports a hit only if the roll
it drew from `[0, 100)` is strictly below the hit chance it computed, except
that `MonsterMHit` and `MonsterTrapHit` also report a hit when the target
monster is petrified or when `TryLiftGargoyle` succeeds. -/
theorem hit_only_if_roll_below_chance (ext : Ext) (pnum m p mindam maxdam dist : Int)
    (monster : Option Int) (t : missile_id) (shift blocked : Bool) (earflag : Int) (w : World) :
    ((MonsterMHit ext pnum m mindam maxdam dist t shift w).1 = true →
      (GenerateRnd 100 (w.enter (Event.MonsterMHit pnum m t))).1
          < (MonsterMHitChance ext pnum dist t (w.Monsters m)
              (GenerateRnd 100 (w.enter (Event.MonsterMHit pnum m t))).2).1
        ∨ (w.Monsters m)._mmode = MonsterMode.Petrified
        ∨ (ext.TryLiftGargoyle (w.Monsters m)).1 = true)
    ∧ ((MonsterTrapHit ext m mindam maxdam dist t shift w).1 = true →
      (GenerateRnd 100 (w.enter (Event.MonsterTrapHit m t))).1
          < MonsterTrapHitChance dist (w.Monsters m)
        ∨ (ext.TryLiftGargoyle (w.Monsters m)).2._mmode = MonsterMode.Petrified
        ∨ (ext.TryLiftGargoyle (w.Monsters m)).1 = true)
    ∧ ((Plr2PlrMHit ext pnum p mindam maxdam dist t shift blocked w).1 = true →
      (GenerateRnd 100 (w.enter (Event.Plr2PlrMHit pnum p t))).1
        < Plr2PlrMHitChance ext dist t (w.Players pnum) (w.Players p))
    ∧ ((PlayerMHit ext pnum monster dist mindam maxdam t shift earflag w).1 = true →
      (GenerateRnd 100 (w.enter (Event.PlayerMHit pnum monster t))).1
        < PlayerMHitChance ext (monster.map w.Monsters) dist t (w.Players pnum) w.currlevel) := by
  refine ⟨?_, ?_, ?_, ?_⟩
  · intro h
    unfold MonsterMHit at h
    simp only [] at h
    split_ifs at h with a b c d d
    · exact Or.inr (Or.inr b)
    · exact Or.inr (Or.inl c)
    · exact Or.inl (not_le.mp d)
  · intro h
    unfold MonsterTrapHit at h
    simp only [] at h
    split_ifs at h with a b c
    · exact Or.inr (Or.inr b)
    · by_cases hp : (ext.TryLiftGargoyle (w.Monsters m)).2._mmode = MonsterMode.Petrified
      · exact Or.inr (Or.inl hp)
      · left
        have c2 := not_and_or.mp c
        rcases c2 with c2 | c2
        · exact not_le.mp c2
        · exact absurd (not_not.mp c2) hp
  · intro h
    unfold Plr2PlrMHit at h
    simp only [] at h
    split_ifs at h with a b c d e
    exact not_le.mp e
  · intro h
    unfold PlayerMHit at h
    simp only [] at h
    split_ifs at h with a b c d
    all_goals exact not_le.mp d

theorem hit_only_if_roll_below_chance_witness :
    (Plr2PlrMHit {} 0 1 1 2 0 missile_id.MIS_FIREBOLT false false remoteWorld).1 = true
    ∧ (GenerateRnd 100 (remoteWorld.enter (Event.Plr2PlrMHit 0 1 missile_id.MIS_FIREBOLT))).1
        < Plr2PlrMHitChance {} 0 missile_id.MIS_FIREBOLT (remoteWorld.Players 0)
            (remoteWorld.Players 1) :=
  ⟨by decide,
    (hit_only_if_roll_below_chance {} 0 0 1 1 2 0 none missile_id.MIS_FIREBOLT false false 0
      remoteWorld).2.2.1 (by decide)⟩

/-- C9, counterexample: player 1 is not the local player (player 0).  Its arrow
passes the hit roll on monster 0 and `MonsterMHit` computes the damage 64, yet
the hit points of the monster are 6400 before and after the call. -/
theorem MonsterMHit_remote_hit_keeps_hitpoints :
    (MonsterMHit {} 1 0 1 2 0 missile_id.MIS_ARROW false remoteWorld).1 = true
    ∧ (MonsterMHitDamage {} 1 1 2 missile_id.MIS_ARROW false
        (({} : Ext).TryLiftGargoyle (remoteWorld.Monsters 0)).2
        ((MonsterMHitChance {} 1 0 missile_id.MIS_ARROW (remoteWorld.Monsters 0)
            (GenerateRnd 100
              (remoteWorld.enter (Event.MonsterMHit 1 0 missile_id.MIS_ARROW))).2).2.setMonster 0
          (({} : Ext).TryLiftGargoyle (remoteWorld.Monsters 0)).2)).1 = 64
    ∧ (remoteWorld.Monsters 0)._mhitpoints = 6400
    ∧ ((MonsterMHit {} 1 0 1 2 0 missile_id.MIS_ARROW false remoteWorld).2.Monsters 0)._mhitpoints
        = 6400 := by
  decide

/-- C9, amended: when `MonsterMHit` reports a hit that is not a gargoyle lift,
it has subtracted the damage `dam` it computed from the hit points of the
target monster if the attacker is the local player (`pnum == MyPlayerId`), and
has left the hit points as they were for every other attacker.  The procedures
that start the reaction of the monster are taken to leave its hit points
alone. -/
theorem MonsterMHit_hitpoints (ext : Ext) (pnum m mindam maxdam dist : Int) (t : missile_id)
    (shift : Bool) (w : World) (hext : ReactionsKeepHitPoints ext m)
    (hhit : (MonsterMHit ext pnum m mindam maxdam dist t shift w).1 = true)
    (hlift : (ext.TryLiftGargoyle (w.Monsters m)).1 = false) :
    ((MonsterMHit ext pnum m mindam maxdam dist t shift w).2.Monsters m)._mhitpoints
      = if pnum = w.MyPlayerId then
          (ext.TryLiftGargoyle (w.Monsters m)).2._mhitpoints
            - (MonsterMHitDamage ext pnum mindam maxdam t shift (ext.TryLiftGargoyle (w.Monsters m)).2
                ((MonsterMHitChance ext pnum dist t (w.Monsters m)
                    (GenerateRnd 100 (w.enter (Event.MonsterMHit pnum m t))).2).2.setMonster m
                  (ext.TryLiftGargoyle (w.Monsters m)).2)).1
        else (ext.TryLiftGargoyle (w.Monsters m)).2._mhitpoints := by
  have hl : ¬ (ext.TryLiftGargoyle ((w.enter (Event.MonsterMHit pnum m t)).Monsters m)).1 = true := by
    show ¬ (ext.TryLiftGargoyle (w.Monsters m)).1 = true
    rw [hlift]; decide
  unfold MonsterMHit at hhit ⊢
  simp only [] at hhit ⊢
  by_cases h1 : ext.IsPossibleToHit ((w.enter (Event.MonsterMHit pnum m t)).Monsters m) = false
      ∨ ext.IsImmune ((w.enter (Event.MonsterMHit pnum m t)).Monsters m) t = true
  · rw [if_pos h1] at hhit
    exact Bool.noConfusion hhit
  · by_cases h3 : (if ((w.enter (Event.MonsterMHit pnum m t)).Monsters m)._mmode
          = MonsterMode.Petrified then 0
        else (GenerateRnd 100 (w.enter (Event.MonsterMHit pnum m t))).1)
        ≥ (MonsterMHitChance ext pnum dist t ((w.enter (Event.MonsterMHit pnum m t)).Monsters m)
            (GenerateRnd 100 (w.enter (Event.MonsterMHit pnum m t))).2).1
    · rw [if_neg h1, if_neg hl, if_pos h3] at hhit
      exact Bool.noConfusion hhit
    · rw [if_neg h1, if_neg hl, if_neg h3]
      rw [MonsterMHit_resolve_hitpoints _ _ _ _ _ _ _ hext, MonsterMHitDamage_MyPlayerId]
      show (if pnum = (MonsterMHitChance ext pnum dist t _ _).2.MyPlayerId then _ else _) = _
      rw [MonsterMHitChance_MyPlayerId]
      rfl

theorem MonsterMHit_hitpoints_witness :
    (ReactionsKeepHitPoints {} 0
      ∧ (MonsterMHit {} 0 0 1 2 0 missile_id.MIS_ARROW false remoteWorld).1 = true
      ∧ (({} : Ext).TryLiftGargoyle (remoteWorld.Monsters 0)).1 = false)
    ∧ ((MonsterMHit {} 0 0 1 2 0 missile_id.MIS_ARROW false remoteWorld).2.Monsters 0)._mhitpoints
      = (if (0 : Int) = remoteWorld.MyPlayerId then
          (({} : Ext).TryLiftGargoyle (remoteWorld.Monsters 0)).2._mhitpoints
            - (MonsterMHitDamage {} 0 1 2 missile_id.MIS_ARROW false
                (({} : Ext).TryLiftGargoyle (remoteWorld.Monsters 0)).2
                ((MonsterMHitChance {} 0 0 missile_id.MIS_ARROW (remoteWorld.Monsters 0)
                    (GenerateRnd 100
                      (remoteWorld.enter (Event.MonsterMHit 0 0 missile_id.MIS_ARROW))).2).2.setMonster
                  0 (({} : Ext).TryLiftGargoyle (remoteWorld.Monsters 0)).2)).1
        else (({} : Ext).TryLiftGargoyle (remoteWorld.Monsters 0)).2._mhitpoints)
    ∧ ((MonsterMHit {} 0 0 1 2 0 missile_id.MIS_ARROW false remoteWorld).2.Monsters 0)._mhitpoints
      = 6336 :=
  ⟨⟨fun _ => ⟨fun _ => rfl, fun _ => rfl, rfl, fun _ _ => rfl⟩, by decide, rfl⟩,
    MonsterMHit_hitpoints {} 0 0 1 2 0 missile_id.MIS_ARROW false remoteWorld
      (fun _ => ⟨fun _ => rfl, fun _ => rfl, rfl, fun _ _ => rfl⟩) (by decide) rfl,
    by decide⟩

/-- C10, counterexample: the arrow of a trap reaches a tile occupied by monster
0, which does not carry `MFLAG_GOLEM`; `CheckMissileCol` calls `MonsterTrapHit`
on that monster all the same. -/
theorem CheckMissileCol_trap_hits_unmarked_monster :
    sampleExt.IsTrap trapArrow = true
    ∧ remoteWorld.dMonster 5 5 = 1
    ∧ HasAnyOf (remoteWorld.Monsters 0)._mFlags monster_flag.MFLAG_GOLEM = false
    ∧ monsterHitCalls
        (CheckMissileCol sampleExt trapArrow 1 2 false { x := 5, y := 5 } false remoteWorld).2.trace
      = [Event.MonsterTrapHit 0 missile_id.MIS_ARROW] := by
  decide

/-- C10, amended: in `CheckMissileCol`, a missile whose source is a monster
(target filter `TARGET_PLAYERS`, not a trap) is resolved against a monster
occupying the tile only if that occupant carries `MFLAG_GOLEM`: for an occupant
without the marker neither `MonsterMHit` nor `MonsterTrapHit` is called.  The
missile of a trap is not subject to this restriction. -/
theorem CheckMissileCol_monster_source (ext : Ext) (missile : Missile) (minDamage maxDamage : Int)
    (isDamageShifted : Bool) (position : Point) (dontDeleteOnCollision : Bool) (w : World)
    (hcaster : missile._micaster = mienemy_type.TARGET_PLAYERS)
    (htrap : ext.IsTrap missile = false)
    (hmark : HasAnyOf (w.Monsters (w.dMonster position.x position.y - 1))._mFlags
      monster_flag.MFLAG_GOLEM = false) :
    monsterHitCalls (CheckMissileCol ext missile minDamage maxDamage isDamageShifted position
      dontDeleteOnCollision w).2.trace = monsterHitCalls w.trace := by
  unfold CheckMissileCol
  lift_lets
  intro mx my mid attackingMonster r isMonsterHit w1 src1 missile1 blocked0 pid earflag q
    isPlayerHit blocked w2 h1 src2 h2 missile2 w3 w4 src3 h3 missile3 w5
  have hne : missile._micaster ≠ mienemy_type.TARGET_BOTH := by rw [hcaster]; decide
  have hnm : ¬ missile._micaster = mienemy_type.TARGET_MONSTERS := by rw [hcaster]; decide
  have hr : r = (false, w) := by
    simp only [r]
    rw [if_pos (And.intro hne htrap), if_neg hnm]
    apply if_neg
    rintro ⟨-, -, hg⟩
    rw [hmark] at hg
    exact Bool.false_ne_true hg
  have hw1 : w1 = w := by simp only [w1, hr]
  have hm1 : missile1 = missile := by
    simp only [missile1, isMonsterHit, hr]
    rfl
  have hq : monsterHitCalls w2.trace = monsterHitCalls w.trace := by
    simp only [w2, q, hm1]
    by_cases hpid : pid > 0
    · rw [if_pos hpid, if_pos (And.intro hne htrap), if_neg hnm, PlayerMHit_monsterHitCalls, hw1]
    · rw [if_neg hpid, hw1]
  have hh1 : h1.2.trace = w2.trace := by
    simp only [h1]
    split_ifs
    · exact RotateBlockedMissile_trace _ _ _
    · rfl
    · rfl
  have hw3 : monsterHitCalls w3.trace = monsterHitCalls w.trace := by
    simp only [w3, h2]
    split_ifs
    · show monsterHitCalls h1.2.trace = _
      rw [hh1, hq]
    · exact hq
  have hw4 : monsterHitCalls w4.trace = monsterHitCalls w.trace := by
    simp only [w4]
    split
    · split_ifs
      · rw [monsterHitCalls_call, hw3]; rfl
      · exact hw3
    · exact hw3
  have hw5 : monsterHitCalls w5.trace = monsterHitCalls w.trace := by
    simp only [w5, h3]
    split_ifs
    · exact hw4
    · exact hw3
  split_ifs
  · rfl
  · show monsterHitCalls (w5.call _ _).trace = _
    rw [monsterHitCalls_call, hw5]; rfl
  · exact hw5

theorem CheckMissileCol_monster_source_witness :
    (monsterArrow._micaster = mienemy_type.TARGET_PLAYERS
      ∧ sampleExt.IsTrap monsterArrow = false
      ∧ HasAnyOf (remoteWorld.Monsters (remoteWorld.dMonster 5 5 - 1))._mFlags
          monster_flag.MFLAG_GOLEM = false)
    ∧ monsterHitCalls
        (CheckMissileCol sampleExt monsterArrow 1 2 false { x := 5, y := 5 } false
          remoteWorld).2.trace
      = monsterHitCalls remoteWorld.trace :=
  ⟨⟨rfl, rfl, rfl⟩,
    CheckMissileCol_monster_source sampleExt monsterArrow 1 2 false { x := 5, y := 5 } false
      remoteWorld rfl rfl rfl⟩

/-- C11: `PlayerMHit` reports a block (`*blocked = true`) only if the target
player is in standing or attacking mode with its block flag set, the damage is
not pre-shifted and the missile is not an acid puddle; `Plr2PlrMHit`, entered
with `*blocked = false` as its caller does, reports a block only if the target
is in standing or attacking mode with its block flag set and `shift` is
false. -/
theorem block_only_if_blockable (ext : Ext) (pnum p mindam maxdam dist : Int)
    (monster : Option Int) (t : missile_id) (shift : Bool) (earflag : Int) (w : World) :
    ((PlayerMHit ext pnum monster dist mindam maxdam t shift earflag w).2.1 = true →
      ((w.Players pnum)._pmode = PLR_MODE.PM_STAND ∨ (w.Players pnum)._pmode = PLR_MODE.PM_ATTACK)
      ∧ (w.Players pnum)._pBlockFlag = true ∧ shift = false ∧ t ≠ missile_id.MIS_ACIDPUD)
    ∧ ((Plr2PlrMHit ext pnum p mindam maxdam dist t shift false w).2.1 = true →
      ((w.Players p)._pmode = PLR_MODE.PM_STAND ∨ (w.Players p)._pmode = PLR_MODE.PM_ATTACK)
      ∧ (w.Players p)._pBlockFlag = true ∧ shift = false) := by
  constructor
  · intro h
    unfold PlayerMHit at h
    lift_lets at h
    extract_lets w0 blocked player g hit w1 hper b blk0 w2 blk1 blk2 bp0 bp1 blkper resper at h
    have hbp : blkper ≤ 100 := clamp_le _ 0 100 (by decide)
    have hlt : blk2 < blkper := by
      split_ifs at h
      all_goals first | exact Bool.noConfusion h | exact PlayerMHit_resolve_block _ _ _ _ _ _ _ _ _ _ _ _ _ h
    have hacid : t ≠ missile_id.MIS_ACIDPUD := by
      intro e
      have : blk2 = 100 := by simp only [blk2]; rw [if_pos e]
      omega
    have h2 : blk2 = blk1 := by simp only [blk2]; rw [if_neg hacid]
    have hshift : shift = false := by
      cases hs : shift
      · rfl
      · exfalso
        have : blk1 = 100 := by simp only [blk1, hs]; rfl
        omega
    have h1 : blk1 = blk0 := by simp only [blk1, hshift]; rfl
    by_cases hc : (player._pmode = PLR_MODE.PM_STAND ∨ player._pmode = PLR_MODE.PM_ATTACK)
        ∧ player._pBlockFlag = true
    · exact ⟨hc.1, hc.2, hshift, hacid⟩
    · exfalso
      have : blk0 = 100 := by simp only [blk0, b]; rw [if_neg hc]
      omega
  · intro h
    unfold Plr2PlrMHit at h
    simp only [] at h
    split_ifs at h
    all_goals first | exact Bool.noConfusion h | exact Plr2PlrMHit_resolve_block _ _ _ _ _ _ _ _ _ _ _ h

theorem block_only_if_blockable_witness :
    (PlayerMHit blockExt 0 none 0 1 2 missile_id.MIS_ARROW false 0 duelWorld).2.1 = true
    ∧ ((duelWorld.Players 0)._pmode = PLR_MODE.PM_STAND
        ∨ (duelWorld.Players 0)._pmode = PLR_MODE.PM_ATTACK)
    ∧ (duelWorld.Players 0)._pBlockFlag = true ∧ false = false
    ∧ missile_id.MIS_ARROW ≠ missile_id.MIS_ACIDPUD :=
  ⟨by decide,
    (block_only_if_blockable blockExt 0 1 1 2 0 none missile_id.MIS_ARROW false 0 duelWorld).1
      (by decide)⟩

/-- C12, counterexample: the row of `MIS_BONESPIRIT` is a magic missile and the
target has 6400 hit points and no resistance.  One third of the hit points is
2133, yet `Plr2PlrMHit` deals 1066: it halves the damage of every missile that
is not physical before it looks at the resistance. -/
theorem Plr2PlrMHit_bone_spirit_halved :
    (duelWorld.Players 1)._pHitPoints.tdiv 3 = 2133
    ∧ (boneSpiritExt.MissilesData missile_id.MIS_BONESPIRIT).mType = 1
    ∧ resistancePercent boneSpiritExt missile_id.MIS_BONESPIRIT (duelWorld.Players 1) = 0
    ∧ (Plr2PlrMHit boneSpiritExt 0 1 7 9 0 missile_id.MIS_BONESPIRIT false false duelWorld).2.2.trace
      = [Event.Plr2PlrMHit 0 1 missile_id.MIS_BONESPIRIT, Event.NetSendCmdDamage true 1 1066,
          Event.StartPlrHit 1 1066 false] := by
  decide

/-- C12, amended: for `MIS_BONESPIRIT` the damage does not depend on the min/max
damage arguments.  In `PlayerMHit` the damage before resistance is one third
of the hit points of the target.  In `Plr2PlrMHit` it is one third of the hit
points of the target only if the row of the missile is physical (`mType == 0`)
and half of that third (integer division) otherwise.  The damage is read off
the call that applies it when the attacker is the local player and the hit is
not blocked. -/
theorem bone_spirit_damage (ext : Ext) (pnum p mindam maxdam dist : Int) (monster : Option Int)
    (shift blocked : Bool) (earflag : Int) (w : World) (hme : pnum = w.MyPlayerId) :
    ((PlayerMHit ext pnum monster dist mindam maxdam missile_id.MIS_BONESPIRIT shift earflag w).1 = true →
      (PlayerMHit ext pnum monster dist mindam maxdam missile_id.MIS_BONESPIRIT shift earflag w).2.1 = false →
      Event.ApplyPlrDamage pnum 0 0
          (afterResistance ((w.Players pnum)._pHitPoints.tdiv 3)
            (resistancePercent ext missile_id.MIS_BONESPIRIT (w.Players pnum))) earflag
        ∈ (PlayerMHit ext pnum monster dist mindam maxdam missile_id.MIS_BONESPIRIT shift earflag
            w).2.2.trace)
    ∧ ((Plr2PlrMHit ext pnum p mindam maxdam dist missile_id.MIS_BONESPIRIT shift blocked w).1 = true →
      (Plr2PlrMHit ext pnum p mindam maxdam dist missile_id.MIS_BONESPIRIT shift blocked w).2.1 = false →
      Event.NetSendCmdDamage true p
          (afterResistance
            (if (ext.MissilesData missile_id.MIS_BONESPIRIT).mType ≠ 0 then
              ((w.Players p)._pHitPoints.tdiv 3).tdiv 2
            else (w.Players p)._pHitPoints.tdiv 3)
            (resistancePercent ext missile_id.MIS_BONESPIRIT (w.Players p)))
        ∈ (Plr2PlrMHit ext pnum p mindam maxdam dist missile_id.MIS_BONESPIRIT shift blocked
            w).2.2.trace) := by
  constructor
  · intro h1 h2
    obtain ⟨blk, blkper, w1, hw1, hform⟩ := PlayerMHit_hit_form _ _ _ _ _ _ _ _ _ _ h1
    rw [hform] at h2 ⊢
    exact PlayerMHit_resolve_bonespirit _ _ _ _ _ _ _ _ _ _ _ _ (hme.trans hw1.symm) h2
  · intro h1 h2
    obtain ⟨w1, hw1, hform⟩ := Plr2PlrMHit_hit_form _ _ _ _ _ _ _ _ _ _ h1
    rw [hform] at h2 ⊢
    exact Plr2PlrMHit_resolve_bonespirit _ _ _ _ _ _ _ _ _ _ (hme.trans hw1.symm) h2

theorem bone_spirit_damage_witness :
    (0 : Int) = duelWorld.MyPlayerId
    ∧ (Plr2PlrMHit boneSpiritExt 0 1 7 9 0 missile_id.MIS_BONESPIRIT false false duelWorld).1 = true
    ∧ (Plr2PlrMHit boneSpiritExt 0 1 7 9 0 missile_id.MIS_BONESPIRIT false false duelWorld).2.1 = false
    ∧ Event.NetSendCmdDamage true 1
          (afterResistance
            (if (boneSpiritExt.MissilesData missile_id.MIS_BONESPIRIT).mType ≠ 0 then
              ((duelWorld.Players 1)._pHitPoints.tdiv 3).tdiv 2
            else (duelWorld.Players 1)._pHitPoints.tdiv 3)
            (resistancePercent boneSpiritExt missile_id.MIS_BONESPIRIT (duelWorld.Players 1)))
        ∈ (Plr2PlrMHit boneSpiritExt 0 1 7 9 0 missile_id.MIS_BONESPIRIT false false
            duelWorld).2.2.trace :=
  ⟨rfl, by decide, by decide,
    (bone_spirit_damage boneSpiritExt 0 1 7 9 0 none false false 0 duelWorld rfl).2
      (by decide) (by decide)⟩

/-- C15, counterexample: `AddMissile` of a fire rune aimed at tile (6, 6) in an
empty dungeon.  `AddRune` finds the tile, and the initializer returns with the
missile not flagged deleted, on a tile inside the dungeon, and with range 0:
`AddRune` never sets the range. -/
theorem AddRune_leaves_range_zero :
    ((AddMissile sampleExt runeCatalog { x := 5, y := 5 } { x := 6, y := 6 } 0 (missile_id.other 0)
        mienemy_type.TARGET_MONSTERS 0 0 0 none {}).2.missile 0)._miDelFlag = false
    ∧ ((AddMissile sampleExt runeCatalog { x := 5, y := 5 } { x := 6, y := 6 } 0 (missile_id.other 0)
        mienemy_type.TARGET_MONSTERS 0 0 0 none {}).2.missile 0)._mirange = 0
    ∧ ((AddMissile sampleExt runeCatalog { x := 5, y := 5 } { x := 6, y := 6 } 0 (missile_id.other 0)
        mienemy_type.TARGET_MONSTERS 0 0 0 none {}).2.missile 0).position.tile = { x := 6, y := 6 }
    ∧ sampleExt.InDungeonBounds { x := 6, y := 6 } = true := by
  decide

/-- C15, amended: `AddRune` leaves the missile flagged deleted, or on a tile
inside the dungeon with the delete flag and the range as they were (0 for a
missile fresh from `AddMissile`); `AddWeapexp` leaves the delete flag and the
tile as they were and sets the range to the animation length minus 1;
`AddGuardian` leaves the missile flagged deleted, or not deleted with a range
of at least 30 on a tile inside the dungeon; `AddTeleport` leaves the missile
flagged deleted, or with range 2.  The search primitive is taken to return
only positions that its validity test accepts. -/
theorem initializer_contract (ext : Ext) (hsound : SearchSound ext) (missile : Missile)
    (parameter : AddMissileParameter) (missileID : missile_id) (w : World) :
    ((AddRune ext missile parameter.dst missileID w).1._miDelFlag = true
      ∨ ((AddRune ext missile parameter.dst missileID w).1._miDelFlag = missile._miDelFlag
        ∧ (AddRune ext missile parameter.dst missileID w).1._mirange = missile._mirange
        ∧ ext.InDungeonBounds (AddRune ext missile parameter.dst missileID w).1.position.tile
          = true))
    ∧ ((AddWeapexp ext missile parameter w).1._miDelFlag = missile._miDelFlag
      ∧ (AddWeapexp ext missile parameter w).1.position.tile = missile.position.tile
      ∧ (AddWeapexp ext missile parameter w).1._mirange
        = (AddWeapexp ext missile parameter w).1._miAnimLen - 1)
    ∧ ((AddGuardian ext missile parameter w).1._miDelFlag = true
      ∨ ((AddGuardian ext missile parameter w).1._miDelFlag = false
        ∧ 30 ≤ (AddGuardian ext missile parameter w).1._mirange
        ∧ ext.InDungeonBounds (AddGuardian ext missile parameter w).1.position.tile = true))
    ∧ ((AddTeleport ext missile parameter w).1._miDelFlag = true
      ∨ ((AddTeleport ext missile parameter w).1._miDelFlag = missile._miDelFlag
        ∧ (AddTeleport ext missile parameter w).1._mirange = 2)) := by
  refine ⟨?_, ?_, ?_, ?_⟩
  · unfold AddRune
    split_ifs with hl
    · cases hf : (ext.FindClosestValidPosition (AddRune_posOk ext) parameter.dst 0 9 w).1 with
      | none =>
        left
        simp only [hf]
      | some p =>
        right
        obtain ⟨w1, hw1⟩ := hsound _ _ _ _ _ _ hf
        simp only [hf]
        exact ⟨trivial, trivial, AddRune_posOk_bounds ext p w1 hw1⟩
    · left
      rfl
  · unfold AddWeapexp
    simp only []
    split_ifs <;> (refine ⟨?_, ?_, ?_⟩ <;> first | rfl | trivial)
  · unfold AddGuardian
    simp only []
    cases hf : (ext.FindClosestValidPosition (AddGuardian_posOk ext missile.position.start)
        parameter.dst 0 5 (GenerateRnd 10 w).2).1 with
    | none =>
      left
      rfl
    | some p =>
      right
      obtain ⟨w1, hw1⟩ := hsound _ _ _ _ _ _ hf
      exact ⟨rfl, AddGuardian_range_ge _ _, AddGuardian_posOk_bounds ext _ p w1 hw1⟩
  · unfold AddTeleport
    simp only []
    cases hf : (ext.FindClosestValidPosition (AddTeleport_posOk ext missile._misource)
        parameter.dst 0 5 w).1 with
    | none =>
      left
      rfl
    | some p =>
      right
      exact ⟨rfl, rfl⟩

theorem initializer_contract_witness :
    SearchSound sampleExt
    ∧ ((AddGuardian sampleExt {} castParameter duelWorld).1._miDelFlag = true
      ∨ ((AddGuardian sampleExt {} castParameter duelWorld).1._miDelFlag = false
        ∧ 30 ≤ (AddGuardian sampleExt {} castParameter duelWorld).1._mirange
        ∧ sampleExt.InDungeonBounds (AddGuardian sampleExt {} castParameter duelWorld).1.position.tile
          = true))
    ∧ (AddGuardian sampleExt {} castParameter duelWorld).1._mirange = 30 :=
  ⟨sampleExt_searchSound,
    (initializer_contract sampleExt sampleExt_searchSound {} castParameter missile_id.MIS_STONE
      duelWorld).2.2.1,
    by decide⟩

/-- C16: in `AddRune`, `AddTeleport`, `AddTown` (outside town), `AddGuardian`,
`AddStone` and `AddFirewallC`, when the closest-valid-position search finds no
position, the missile is flagged deleted when the initializer returns and the
world is the one the search returned: no procedure has been called, so no
mana has been consumed (`UseMana`) and no light handle allocated
(`AddLight`). -/
theorem search_failure_deletes (ext : Ext) (missile : Missile) (parameter : AddMissileParameter)
    (missileID : missile_id) (w : World) (node : Nat) (s : GameState) :
    (ext.LineClearMissile w.toGlobals missile.position.start parameter.dst = true →
      (ext.FindClosestValidPosition (AddRune_posOk ext) parameter.dst 0 9 w).1 = none →
      (AddRune ext missile parameter.dst missileID w).1._miDelFlag = true
      ∧ (AddRune ext missile parameter.dst missileID w).2
        = (ext.FindClosestValidPosition (AddRune_posOk ext) parameter.dst 0 9 w).2)
    ∧ ((ext.FindClosestValidPosition (AddTeleport_posOk ext missile._misource) parameter.dst 0 5
          w).1 = none →
      (AddTeleport ext missile parameter w).1._miDelFlag = true
      ∧ (AddTeleport ext missile parameter w).2
        = (ext.FindClosestValidPosition (AddTeleport_posOk ext missile._misource) parameter.dst 0 5
            w).2)
    ∧ (s.getMissile node = some missile → s.currlevel ≠ 0 →
      (ext.FindClosestValidPosition (AddTown_posOk ext) parameter.dst 0 5 s.toWorld).1 = none →
      ((AddTown ext node parameter s).missile node)._miDelFlag = true
      ∧ (AddTown ext node parameter s).toWorld
        = (ext.FindClosestValidPosition (AddTown_posOk ext) parameter.dst 0 5 s.toWorld).2)
    ∧ ((ext.FindClosestValidPosition (AddGuardian_posOk ext missile.position.start) parameter.dst
          0 5 (GenerateRnd 10 w).2).1 = none →
      (AddGuardian ext missile parameter w).1._miDelFlag = true
      ∧ (AddGuardian ext missile parameter w).2
        = (ext.FindClosestValidPosition (AddGuardian_posOk ext missile.position.start)
            parameter.dst 0 5 (GenerateRnd 10 w).2).2)
    ∧ ((ext.FindClosestValidPosition (AddStone_posOk ext) parameter.dst 0 5 w).1 = none →
      (AddStone ext missile parameter w).1._miDelFlag = true
      ∧ (AddStone ext missile parameter w).2
        = (ext.FindClosestValidPosition (AddStone_posOk ext) parameter.dst 0 5 w).2)
    ∧ ((ext.FindClosestValidPosition (AddFirewallC_posOk ext missile.position.start) parameter.dst
          0 5 w).1 = none →
      (AddFirewallC ext missile parameter w).1._miDelFlag = true
      ∧ (AddFirewallC ext missile parameter w).2
        = (ext.FindClosestValidPosition (AddFirewallC_posOk ext missile.position.start)
            parameter.dst 0 5 w).2) := by
  refine ⟨?_, ?_, ?_, ?_, ?_, ?_⟩
  · intro hl hf
    unfold AddRune
    rw [if_pos hl]
    simp only [hf]
    trivial
  · intro hf
    unfold AddTeleport
    simp only [hf]
    trivial
  · intro hm hl hf
    exact AddTown_search_failure ext node parameter s missile hm hl hf
  · intro hf
    unfold AddGuardian
    simp only [hf]
    trivial
  · intro hf
    unfold AddStone
    simp only [hf]
    trivial
  · intro hf
    unfold AddFirewallC
    simp only [hf]
    trivial

theorem search_failure_deletes_witness :
    (sampleExt.FindClosestValidPosition (AddStone_posOk sampleExt) castParameter.dst 0 5
        duelWorld).1 = none
    ∧ (AddStone sampleExt {} castParameter duelWorld).1._miDelFlag = true
    ∧ (AddStone sampleExt {} castParameter duelWorld).2
      = (sampleExt.FindClosestValidPosition (AddStone_posOk sampleExt) castParameter.dst 0 5
          duelWorld).2 :=
  ⟨by decide,
    (search_failure_deletes sampleExt {} castParameter missile_id.MIS_STONE duelWorld 0
      {}).2.2.2.2.1 (by decide)⟩

/-- C17, counterexample: `AddTeleport` finds the destination (5, 5), consumes
the mana and returns with the missile not flagged deleted and with range 2. -/
theorem AddTeleport_success_stays_alive :
    (({} : Ext).FindClosestValidPosition (AddTeleport_posOk {} 0) { x := 5, y := 5 } 0 5 {}).1
      = some { x := 5, y := 5 }
    ∧ (AddTeleport {} {} { dst := { x := 5, y := 5 }, midir := 0, pParent := none } {}).1._miDelFlag
      = false
    ∧ (AddTeleport {} {} { dst := { x := 5, y := 5 }, midir := 0, pParent := none } {}).1._mirange = 2
    ∧ (AddTeleport {} {} { dst := { x := 5, y := 5 }, midir := 0, pParent := none } {}).2.trace
      = [Event.UseMana 0 spell_id.SPL_TELEPORT] := by
  decide

/-- C17, amended: `AddHeal`, `AddMana`, `AddIdentify`, `AddReflection` and
`AddBerserk` flag the missile deleted on every path.  `AddTeleport` flags the
missile deleted only when the search finds no destination; when it finds one
it leaves the delete flag as it was and sets the range to 2 with the missile
on the destination. -/
theorem instant_effect_deletes (ext : Ext) (missile : Missile) (parameter : AddMissileParameter)
    (w : World) :
    (AddHeal ext missile parameter w).1._miDelFlag = true
    ∧ (AddMana ext missile parameter w).1._miDelFlag = true
    ∧ (AddIdentify ext missile parameter w).1._miDelFlag = true
    ∧ (AddReflection ext missile parameter w).1._miDelFlag = true
    ∧ (AddBerserk ext missile parameter w).1._miDelFlag = true
    ∧ ((ext.FindClosestValidPosition (AddTeleport_posOk ext missile._misource) parameter.dst 0 5 w).1
        = none → (AddTeleport ext missile parameter w).1._miDelFlag = true)
    ∧ (∀ p : Point,
        (ext.FindClosestValidPosition (AddTeleport_posOk ext missile._misource) parameter.dst 0 5 w).1
          = some p →
        (AddTeleport ext missile parameter w).1._miDelFlag = missile._miDelFlag
        ∧ (AddTeleport ext missile parameter w).1._mirange = 2
        ∧ (AddTeleport ext missile parameter w).1.position.tile = p) := by
  refine ⟨rfl, rfl, ?_, ?_, ?_, ?_, ?_⟩
  · unfold AddIdentify
    simp only []
    split_ifs <;> rfl
  · unfold AddReflection
    simp only []
    split_ifs <;> rfl
  · unfold AddBerserk
    simp only []
    split_ifs
    · rfl
    · split <;> rfl
  · intro h
    unfold AddTeleport
    simp only [h]
  · intro p h
    unfold AddTeleport
    simp only [h]
    trivial

theorem instant_effect_deletes_witness :
    (sampleExt.FindClosestValidPosition (AddTeleport_posOk sampleExt ({} : Missile)._misource)
        castParameter.dst 0 5 duelWorld).1 = some { x := 5, y := 5 }
    ∧ (AddTeleport sampleExt {} castParameter duelWorld).1._miDelFlag = ({} : Missile)._miDelFlag
    ∧ (AddTeleport sampleExt {} castParameter duelWorld).1._mirange = 2
    ∧ (AddTeleport sampleExt {} castParameter duelWorld).1.position.tile = { x := 5, y := 5 } :=
  ⟨by decide,
    (instant_effect_deletes sampleExt {} castParameter duelWorld).2.2.2.2.2.2 { x := 5, y := 5 }
      (by decide)⟩

/-- C18, counterexample: player 0 has a search missile with 100 ticks left
(node 0) when `AddSearch` initialises a new one (node 1).  The earlier missile
is not flagged deleted, its range becomes 345; the new missile is flagged
deleted. -/
theorem AddSearch_deletes_new_missile :
    (searchState.missile 0)._miDelFlag = false
    ∧ (searchState.missile 0)._mirange = 100
    ∧ ((AddSearch {} 1 castParameter searchState).missile 0)._miDelFlag = false
    ∧ ((AddSearch {} 1 castParameter searchState).missile 0)._mirange = 345
    ∧ ((AddSearch {} 1 castParameter searchState).missile 1)._miDelFlag = true := by
  decide

/-- C18, amended: when `AddSearch` initialises a search missile while the
registry holds another search missile of the same caster, the new missile is
flagged deleted, and the first such other missile keeps its delete flag and
has the range `r1` of the new missile added to its own range `r2` (if
`r2 < INT_MAX - r1`; otherwise its range stays). -/
theorem AddSearch_extends_earlier (ext : Ext) (node : Nat) (parameter : AddMissileParameter)
    (s : GameState) (missile : Missile) (other : MissileNode) (hs : (nodeIds s).Nodup)
    (hm : s.getMissile node = some missile)
    (ho : s.Missiles.find? (fun o => decide (o.id ≠ node ∧ o.val._misource = missile._misource
      ∧ o.val._mitype = missile_id.MIS_SEARCH)) = some other) :
    ((AddSearch ext node parameter s).missile node)._miDelFlag = true
    ∧ ((AddSearch ext node parameter s).missile other.id)._miDelFlag = other.val._miDelFlag
    ∧ ((AddSearch ext node parameter s).missile other.id)._mirange
      = (if other.val._mirange
            < INT_MAX - ((if missile._misource ≥ 0 then (s.Players missile._misource)._pLevel * 2
                else 2) + 10 * missile._mispllvl + 245) then
          ((if missile._misource ≥ 0 then (s.Players missile._misource)._pLevel * 2 else 2)
            + 10 * missile._mispllvl + 245) + other.val._mirange
        else other.val._mirange) := by
  have hne : other.id ≠ node := by
    have := List.find?_some ho
    simp only [decide_eq_true_eq] at this
    exact this.1
  have hog : s.getMissile other.id = some other.val := by
    unfold GameState.getMissile
    rw [find_nodup_id s.Missiles _ other hs ho]
    rfl
  unfold AddSearch
  simp -zeta only [hm]
  lift_lets
  intro s1 lvl m1 s2 r1
  have hs2 : s2.Missiles = s.Missiles := by
    simp only [s2, s1]
    split_ifs <;> rfl
  have hlvl : lvl = if missile._misource ≥ 0 then (s.Players missile._misource)._pLevel * 2
      else 2 := by
    simp only [lvl, s1]
    split_ifs <;> rfl
  have hr1 : r1 = (if missile._misource ≥ 0 then (s.Players missile._misource)._pLevel * 2
      else 2) + 10 * missile._mispllvl + 245 := by
    rw [← hlvl]
  have hfind : s2.Missiles.find? (fun o => decide (o.id ≠ node
      ∧ o.val._misource = m1._misource ∧ o.val._mitype = missile_id.MIS_SEARCH)) = some other := by
    rw [hs2]
    exact ho
  have hm2 : s2.getMissile node = some missile := by
    rw [getMissile_congr s2 s node hs2, hm]
  have ho2 : s2.getMissile other.id = some other.val := by
    rw [getMissile_congr s2 s other.id hs2, hog]
  simp -zeta only [hfind]
  rw [← hr1]
  lift_lets
  intro r2 s3
  have hm3 : s3.getMissile node = some missile := by
    simp only [s3]
    split_ifs
    · rw [getMissile_updateMissile_ne _ _ _ _ (Ne.symm hne), hm2]
    · exact hm2
  have ho3 : s3.getMissile other.id
      = some (if r2 < INT_MAX - r1 then { other.val with _mirange := r1 + r2 } else other.val) := by
    simp only [s3]
    split_ifs
    · rw [getMissile_updateMissile, ho2]
      rfl
    · exact ho2
  refine ⟨?_, ?_, ?_⟩
  · rw [missile_updateMissile _ _ _ _ hm3]
  · rw [missile_updateMissile_ne _ _ _ _ hne]
    unfold GameState.missile
    rw [ho3]
    split_ifs <;> rfl
  · rw [missile_updateMissile_ne _ _ _ _ hne]
    unfold GameState.missile
    rw [ho3]
    split_ifs <;> rfl

theorem AddSearch_extends_earlier_witness :
    ((nodeIds searchState).Nodup
      ∧ searchState.getMissile 1 = some (searchState.missile 1)
      ∧ searchState.Missiles.find? (fun o => decide (o.id ≠ 1
          ∧ o.val._misource = (searchState.missile 1)._misource
          ∧ o.val._mitype = missile_id.MIS_SEARCH))
        = some { id := 0, val := searchState.missile 0 })
    ∧ ((AddSearch {} 1 castParameter searchState).missile 1)._miDelFlag = true
    ∧ ((AddSearch {} 1 castParameter searchState).missile 0)._miDelFlag
      = (searchState.missile 0)._miDelFlag
    ∧ ((AddSearch {} 1 castParameter searchState).missile 0)._mirange
      = (if (searchState.missile 0)._mirange
            < INT_MAX - ((if (searchState.missile 1)._misource ≥ 0 then
                (searchState.Players (searchState.missile 1)._misource)._pLevel * 2
              else 2) + 10 * (searchState.missile 1)._mispllvl + 245) then
          ((if (searchState.missile 1)._misource ≥ 0 then
              (searchState.Players (searchState.missile 1)._misource)._pLevel * 2
            else 2) + 10 * (searchState.missile 1)._mispllvl + 245)
            + (searchState.missile 0)._mirange
        else (searchState.missile 0)._mirange) :=
  ⟨⟨by decide, rfl, rfl⟩,
    AddSearch_extends_earlier {} 1 castParameter searchState (searchState.missile 1)
      { id := 0, val := searchState.missile 0 } (by decide) rfl rfl⟩

/-- C19: `AddStone` stores the mode of the target monster in `var1` (and its
index in `var2`) before it petrifies the monster.  When the range of
`MI_Stone` reaches 0 (range 1 at entry, no shatter phase started) while the
monster is still petrified, the missile is flagged deleted and, if the hit
points of the monster are positive, the mode of the monster is the mode stored
before the petrification, otherwise `AddCorpse` is called at the tile of the
monster.  The casts between `MonsterMode` and `int` are taken to be inverse to
each other. -/
theorem stone_stores_and_restores_mode (ext : Ext)
    (hcast : ∀ mode : MonsterMode, ext.MonsterMode_ofInt (ext.MonsterMode_toInt mode) = mode)
    (missile : Missile) (parameter : AddMissileParameter) (w : World) (node : Nat)
    (s : GameState) :
    (∀ (p : Point) (w1 : World),
      ext.FindClosestValidPosition (AddStone_posOk ext) parameter.dst 0 5 w = (some p, w1) →
      (AddStone ext missile parameter w).1.var1
        = ext.MonsterMode_toInt
            (w1.Monsters ((Int.natAbs (w1.dMonster p.x p.y) : Int) - 1))._mmode
      ∧ (AddStone ext missile parameter w).1.var2 = (Int.natAbs (w1.dMonster p.x p.y) : Int) - 1
      ∧ (AddStone ext missile parameter w).2
        = ((w1.setMonster ((Int.natAbs (w1.dMonster p.x p.y) : Int) - 1)
              (ext.Petrify (w1.Monsters ((Int.natAbs (w1.dMonster p.x p.y) : Int) - 1)))).call
            (Event.UseMana missile._misource spell_id.SPL_STONE)
            (ext.UseMana missile._misource spell_id.SPL_STONE)))
    ∧ (∀ mode : MonsterMode, s.getMissile node = some missile →
      missile.var1 = ext.MonsterMode_toInt mode →
      (s.Monsters missile.var2)._mmode = MonsterMode.Petrified →
      missile._mirange = 1 →
      ¬ ((s.Monsters missile.var2)._mhitpoints = 0 ∧ missile._miAnimType ≠ ext.MFILE_SHATTER1) →
      ((MI_Stone ext node s).missile node)._miDelFlag = true
      ∧ ((s.Monsters missile.var2)._mhitpoints > 0 →
          ((MI_Stone ext node s).Monsters missile.var2)._mmode = mode)
      ∧ (¬ (s.Monsters missile.var2)._mhitpoints > 0 →
          Event.AddCorpse (s.Monsters missile.var2).position.tile s.stonendx
              (s.Monsters missile.var2)._mdir ∈ (MI_Stone ext node s).trace)) := by
  constructor
  · intro p w1 hf
    unfold AddStone
    simp only [hf]
    split_ifs <;> exact ⟨rfl, rfl, rfl⟩
  · intro mode hm hvar hpet hrange hreset
    unfold MI_Stone
    simp -zeta only [hm]
    lift_lets
    intro m1 monster m2 m3 m4 monster1 r p
    have hmon : monster = s.Monsters missile.var2 := rfl
    have hm4 : m4 = m1 := by
      simp only [m4]
      rw [if_neg hreset]
    have hr0 : m4._mirange = 0 := by
      rw [hm4]
      show missile._mirange - 1 = 0
      omega
    have hv1 : m4.var1 = missile.var1 := by rw [hm4]
    have hv2 : m4.var2 = missile.var2 := by rw [hm4]
    have hpet2 : ¬ monster._mmode ≠ MonsterMode.Petrified := fun h => h hpet
    rw [if_neg hpet2]
    have hr1 : r.1._miDelFlag = true := by
      simp only [r]
      rw [if_pos hr0]
      split_ifs <;> rfl
    have hp1 : p.1._miDelFlag = true := by
      simp only [p]
      split_ifs
      · exact PutMissile_keeps_deleted _ _ _ hr1
      · exact hr1
    have hpM : p.2.Missiles = s.Missiles := by
      simp only [p]
      have hrM : r.2.Missiles = s.Missiles := by
        simp only [r]
        split_ifs <;> rfl
      split_ifs
      · rw [PutMissile_Missiles, hrM]
      · exact hrM
    have hpMon : p.2.Monsters = r.2.Monsters := by
      simp only [p]
      split_ifs
      · rw [PutMissile_Monsters]
      · rfl
    have hpt : p.2.trace = r.2.trace := by
      simp only [p]
      split_ifs
      · rw [PutMissile_trace]
      · rfl
    have hin : p.2.getMissile node = some missile := by
      rw [getMissile_congr p.2 s node hpM, hm]
    refine ⟨?_, ?_, ?_⟩
    · rw [missile_updateMissile _ _ _ _ hin]
      exact hp1
    · intro hhp
      show (p.2.Monsters missile.var2)._mmode = mode
      rw [hpMon]
      simp only [r]
      rw [if_pos hr0, if_pos hhp]
      show ((s.toWorld.setMonster m4.var2 monster1).Monsters missile.var2)._mmode = mode
      rw [hv2, setMonster_get]
      show ext.MonsterMode_ofInt m4.var1 = mode
      rw [hv1, hvar, hcast]
    · intro hhp
      show _ ∈ p.2.trace
      rw [hpt]
      simp only [r]
      rw [if_pos hr0, if_neg hhp]
      exact call_trace_mem _ _ _

theorem stone_stores_and_restores_mode_witness :
    ((∀ mode : MonsterMode,
        sampleExt.MonsterMode_ofInt (sampleExt.MonsterMode_toInt mode) = mode)
      ∧ stoneState.getMissile 0 = some (stoneState.missile 0)
      ∧ (stoneState.missile 0).var1 = sampleExt.MonsterMode_toInt (MonsterMode.other 7)
      ∧ (stoneState.Monsters (stoneState.missile 0).var2)._mmode = MonsterMode.Petrified
      ∧ (stoneState.missile 0)._mirange = 1
      ∧ ¬ ((stoneState.Monsters (stoneState.missile 0).var2)._mhitpoints = 0
          ∧ (stoneState.missile 0)._miAnimType ≠ sampleExt.MFILE_SHATTER1))
    ∧ ((MI_Stone sampleExt 0 stoneState).missile 0)._miDelFlag = true
    ∧ ((stoneState.Monsters (stoneState.missile 0).var2)._mhitpoints > 0 →
        ((MI_Stone sampleExt 0 stoneState).Monsters (stoneState.missile 0).var2)._mmode
          = MonsterMode.other 7)
    ∧ (¬ (stoneState.Monsters (stoneState.missile 0).var2)._mhitpoints > 0 →
        Event.AddCorpse (stoneState.Monsters (stoneState.missile 0).var2).position.tile
            stoneState.stonendx (stoneState.Monsters (stoneState.missile 0).var2)._mdir
          ∈ (MI_Stone sampleExt 0 stoneState).trace) :=
  ⟨⟨sampleExt_cast, rfl, by decide, by decide, by decide, by decide⟩,
    (stone_stores_and_restores_mode sampleExt sampleExt_cast (stoneState.missile 0) castParameter
      duelWorld 0 stoneState).2 (MonsterMode.other 7) rfl (by decide) (by decide) (by decide)
      (by decide)⟩

/-- C20, counterexample: a rune with range 0 that nothing steps on keeps range
0 and is not flagged deleted by `MI_Rune`; a town portal with range 1 keeps
range 1 in `MI_Town`; an arrow at rest with range 0 leaves `MI_Arrow` with
range -1 and is not flagged deleted. -/
theorem update_keeps_expired_missile :
    ((runeState.missile 0)._mirange = 0
      ∧ ((MI_Rune sampleExt {} 0 runeState).missile 0)._mirange = 0
      ∧ ((MI_Rune sampleExt {} 0 runeState).missile 0)._miDelFlag = false)
    ∧ ((portalState.missile 0)._mirange = 1
      ∧ ((MI_Town sampleExt 0 portalState).missile 0)._mirange = 1
      ∧ ((MI_Town sampleExt 0 portalState).missile 0)._miDelFlag = false)
    ∧ ((arrowState.missile 0)._mirange = 0
      ∧ (MI_Arrow sampleExt 0 0 arrowState).map (fun s => (s.missile 0)._mirange) = some (-1)
      ∧ (MI_Arrow sampleExt 0 0 arrowState).map (fun s => (s.missile 0)._miDelFlag)
        = some false) := by
  decide

/-- C20, amended: `MI_Rune` never changes the range, and on a tick on which
nothing stands on the rune it flags the missile deleted only if its tile is
outside the dungeon.  `MI_Town` decrements the range only while it exceeds 1,
and flags the missile deleted exactly when the range is 0 or the tile is
outside the dungeon.  `MI_Arrow` decrements the range once, the collision
step may set it to 0, and the missile is flagged deleted exactly when the
range is then 0 or the tile is outside the dungeon: a negative range never
deletes the arrow.  (A missile flagged deleted before stays so.)  `MI_Arrow`
returns when `possibleVisitTiles` is at most 1. -/
theorem range_countdown (ext : Ext) (cat : Catalog) (fuel : Nat) (node : Nat) (s : GameState)
    (missile : Missile) (hm : s.getMissile node = some missile) :
    (s.dMonster missile.position.tile.x missile.position.tile.y = 0 →
      s.dPlayer missile.position.tile.x missile.position.tile.y = 0 →
      ((MI_Rune ext cat node s).missile node)._mirange = missile._mirange
      ∧ (((MI_Rune ext cat node s).missile node)._miDelFlag = true
        ↔ missile._miDelFlag = true ∨ ext.InDungeonBounds missile.position.tile = false))
    ∧ (((MI_Town ext node s).missile node)._mirange
        = (if missile._mirange > 1 then missile._mirange - 1 else missile._mirange)
      ∧ (((MI_Town ext node s).missile node)._miDelFlag = true
        ↔ missile._miDelFlag = true ∨ missile._mirange = 0
          ∨ ext.InDungeonBounds missile.position.tile = false))
    ∧ (∀ s1 : GameState, MI_Arrow ext fuel node s = some s1 →
      ((s1.missile node)._mirange = missile._mirange - 1 ∨ (s1.missile node)._mirange = 0)
      ∧ ((s1.missile node)._miDelFlag = true
        ↔ missile._miDelFlag = true ∨ (s1.missile node)._mirange = 0
          ∨ ext.InDungeonBounds (s1.missile node).position.tile = false))
    ∧ (possibleVisitTiles ext missile.position.tile
        (MoveMissile_advance ext
          { missile with _mirange := missile._mirange - 1, _midist := missile._midist + 1 }
          s.toWorld).1 ≤ 1 →
      (MI_Arrow ext fuel node s).isSome = true) :=
  ⟨MI_Rune_untriggered ext cat node s missile hm, MI_Town_range ext node s missile hm,
    fun s1 h => MI_Arrow_range ext fuel node s s1 missile hm h,
    MI_Arrow_returns ext fuel node s missile hm⟩

theorem range_countdown_witness :
    (runeState.getMissile 0 = some (runeState.missile 0)
      ∧ runeState.dMonster (runeState.missile 0).position.tile.x
          (runeState.missile 0).position.tile.y = 0
      ∧ runeState.dPlayer (runeState.missile 0).position.tile.x
          (runeState.missile 0).position.tile.y = 0)
    ∧ ((MI_Rune sampleExt {} 0 runeState).missile 0)._mirange = (runeState.missile 0)._mirange
    ∧ (((MI_Rune sampleExt {} 0 runeState).missile 0)._miDelFlag = true
      ↔ (runeState.missile 0)._miDelFlag = true
        ∨ sampleExt.InDungeonBounds (runeState.missile 0).position.tile = false) :=
  ⟨⟨rfl, by decide, by decide⟩,
    (range_countdown sampleExt {} 0 0 runeState (runeState.missile 0) rfl).1 (by decide)
      (by decide)⟩

/-- C21, evaluation at the failing input: player 0 stands on tile (2, 1) of a
dungeon of 112 x 112 tiles and has cast a flame wave of spell level 0 at tile
(0, 1).  `MI_Wave` indexes `dPiece` at the forward tile (1, 1), then in the
loop at the cursors (1, 2) and (1, 0), then at (1, 3) and (1, -1): the last
lookup is outside the dungeon, and the bounds test of the cursor follows it. -/
theorem MI_Wave_reads_outside_dungeon :
    (MI_WaveTrace compassExt {} 3 0 waveState).map Prod.snd
      = some [{ x := 1, y := 1 }, { x := 1, y := 2 }, { x := 1, y := 0 }, { x := 1, y := 3 },
          { x := 1, y := -1 }]
    ∧ compassExt.InDungeonBounds { x := 1, y := -1 } = false := by
  decide

/-- C22, counterexample: a search missile with 100 ticks left stands on tile
(5, 5).  After `ProcessMissiles` it is still in the registry, with 99 ticks
left, and tile (5, 5) carries no flag. -/
theorem ProcessMissiles_leaves_search_unmarked :
    (ProcessMissiles sampleExt searchCatalog surveyState).Missiles.map
        (fun n => (n.id, n.val._mirange, n.val.position.tile))
      = [(0, 99, { x := 5, y := 5 })]
    ∧ (ProcessMissiles sampleExt searchCatalog surveyState).dFlags 5 5 = [] := by
  decide

/-- C22, amended: `ProcessMissiles` itself only clears the flag `Missile`; the
flag is set by `PutMissile`, which the update functions of drawn missiles
call, on the tile of a missile that it does not flag deleted.  When no update
function of the tick changes `dFlags`, moves a missile or spawns one, as
`MI_Search` does not, the flag is clear on the tile of every missile that
remains after `ProcessMissiles`. -/
theorem ProcessMissiles_marks_nothing (ext : Ext) (cat : Catalog) (hcat : cat.Unmarking)
    (hshield : ∀ g : Globals, (ext.NetSendCmdRemShield g).dFlags = g.dFlags) (s s0 : GameState)
    (missile : Missile) :
    (∀ n ∈ (ProcessMissiles ext cat s).Missiles,
      DungeonFlag.Missile
        ∉ (ProcessMissiles ext cat s).dFlags n.val.position.tile.x n.val.position.tile.y)
    ∧ ((PutMissile ext missile s0).1._miDelFlag = false →
      DungeonFlag.Missile
        ∈ (PutMissile ext missile s0).2.dFlags missile.position.tile.x missile.position.tile.y) := by
  refine ⟨?_, PutMissile_marks ext missile s0⟩
  have h1 : GameState.Unmarked
      { DeleteMissiles (ProcessMissiles_mark ext s) with MissilePreFlag := false } :=
    sweep_unmarked ext s
  have h2 := update_unmarked cat hcat
    (max (DeleteMissiles (ProcessMissiles_mark ext s)).Missiles.length ext.max_size) 0
    { DeleteMissiles (ProcessMissiles_mark ext s) with MissilePreFlag := false } [] h1
  intro n hn
  unfold ProcessMissiles ProcessMissilesTrace at hn ⊢
  simp only [] at hn ⊢
  unfold DeleteMissiles at hn ⊢
  simp only [] at hn ⊢
  rw [ProcessManaShield_Missiles] at hn
  have hn1 := (List.mem_filter.mp hn).1
  rw [ProcessManaShield_dFlags ext hshield]
  exact h2 _ (List.mem_map_of_mem _ hn1)

theorem ProcessMissiles_marks_nothing_witness :
    (searchCatalog.Unmarking
      ∧ ∀ g : Globals, (sampleExt.NetSendCmdRemShield g).dFlags = g.dFlags)
    ∧ ∀ n ∈ (ProcessMissiles sampleExt searchCatalog surveyState).Missiles,
      DungeonFlag.Missile
        ∉ (ProcessMissiles sampleExt searchCatalog surveyState).dFlags n.val.position.tile.x
          n.val.position.tile.y :=
  ⟨⟨searchCatalog_unmarking, fun _ => rfl⟩,
    (ProcessMissiles_marks_nothing sampleExt searchCatalog searchCatalog_unmarking (fun _ => rfl)
      surveyState surveyState (surveyState.missile 0)).1⟩

/-- C23: when the registry has room, `AddMissile` hands to the initializer a
registry whose new node, the last one, holds a missile with tile and start
tile equal to the origin `src`, with the type, the target filter, the source
id, the base damage and the spell level of the arguments, with the light
handle `NO_LIGHT` and the last-collision hash 0, and with facing 0 when the
animation of the type is `MFILE_NONE` or has fewer than 8 facings and the
requested direction `midir` otherwise. -/
theorem AddMissile_common_fields (ext : Ext) (cat : Catalog) (src dst : Point) (midir : Direction)
    (mitype : missile_id) (micaster : mienemy_type) (id midam spllvl : Int)
    (pParent : Option Nat) (s : GameState) (hcap : s.Missiles.length < ext.max_size)
    (hfresh : ∀ n ∈ s.Missiles, n.id < s.nextNode) :
    ∃ (missile : Missile) (pre : GameState),
      AddMissile ext cat src dst midir mitype micaster id midam spllvl pParent s
        = (some s.nextNode,
            cat.mAddProc mitype s.nextNode { dst := dst, midir := midir, pParent := pParent } pre)
      ∧ pre.Missiles = s.Missiles ++ [MissileNode.mk s.nextNode missile]
      ∧ pre.getMissile s.nextNode = some missile
      ∧ missile.position.tile = src ∧ missile.position.start = src
      ∧ missile._mitype = mitype ∧ missile._micaster = micaster ∧ missile._misource = id
      ∧ missile._midam = midam ∧ missile._mispllvl = spllvl
      ∧ missile._mlid = ext.NO_LIGHT ∧ missile.lastCollisionTargetHash = 0
      ∧ missile._mimfnum
        = (if (ext.MissilesData mitype).mFileNum = ext.MFILE_NONE
              ∨ (ext.MissileSpriteData (ext.MissilesData mitype).mFileNum).animFAmt < 8 then 0
            else midir) := by
  have hpre : ∃ pre : GameState,
      AddMissile ext cat src dst midir mitype micaster id midam spllvl pParent s
        = (some s.nextNode,
            cat.mAddProc mitype s.nextNode { dst := dst, midir := midir, pParent := pParent } pre)
      ∧ pre.Missiles = s.Missiles ++ [MissileNode.mk s.nextNode
          (AddMissile_init ext src midir mitype micaster id midam spllvl (s.Monsters id) {})] := by
    unfold AddMissile
    rw [if_neg (by omega)]
    simp only []
    split_ifs with hsfx
    · refine ⟨_, rfl, ?_⟩
      simp only [GameState.call, GameState.updateMissile]
      exact updateMissile_fresh s s.nextNode {} _ hfresh
    · refine ⟨_, rfl, ?_⟩
      simp only [GameState.updateMissile]
      exact updateMissile_fresh s s.nextNode {} _ hfresh
  obtain ⟨pre, h1, h2⟩ := hpre
  exact ⟨_, pre, h1, h2, getMissile_appended s pre _ hfresh h2,
    AddMissile_init_fields ext src midir mitype micaster id midam spllvl (s.Monsters id) {}⟩

theorem AddMissile_common_fields_witness :
    (tickState.Missiles.length < sampleExt.max_size
      ∧ ∀ n ∈ tickState.Missiles, n.id < tickState.nextNode)
    ∧ ∃ (missile : Missile) (pre : GameState),
      AddMissile sampleExt spawnCatalog { x := 5, y := 5 } { x := 6, y := 6 } 3
          missile_id.MIS_FIREBOLT mienemy_type.TARGET_MONSTERS 0 7 2 none tickState
        = (some tickState.nextNode,
            spawnCatalog.mAddProc missile_id.MIS_FIREBOLT tickState.nextNode
              { dst := { x := 6, y := 6 }, midir := 3, pParent := none } pre)
      ∧ pre.Missiles = tickState.Missiles ++ [MissileNode.mk tickState.nextNode missile]
      ∧ pre.getMissile tickState.nextNode = some missile
      ∧ missile.position.tile = { x := 5, y := 5 } ∧ missile.position.start = { x := 5, y := 5 }
      ∧ missile._mitype = missile_id.MIS_FIREBOLT
      ∧ missile._micaster = mienemy_type.TARGET_MONSTERS ∧ missile._misource = 0
      ∧ missile._midam = 7 ∧ missile._mispllvl = 2
      ∧ missile._mlid = sampleExt.NO_LIGHT ∧ missile.lastCollisionTargetHash = 0
      ∧ missile._mimfnum
        = (if (sampleExt.MissilesData missile_id.MIS_FIREBOLT).mFileNum = sampleExt.MFILE_NONE
              ∨ (sampleExt.MissileSpriteData
                  (sampleExt.MissilesData missile_id.MIS_FIREBOLT).mFileNum).animFAmt < 8 then 0
            else 3) :=
  ⟨⟨by decide, tickState_nodesDistinct.2⟩,
    AddMissile_common_fields sampleExt spawnCatalog { x := 5, y := 5 } { x := 6, y := 6 } 3
      missile_id.MIS_FIREBOLT mienemy_type.TARGET_MONSTERS 0 7 2 none tickState (by decide)
      tickState_nodesDistinct.2⟩

/-- C24: for the local player, with level `L` and spell level `s` of the
elemental, `GetDamageAmt` reports `mind = ScaleSpellEffect(2L + 4, s)` and
`maxd = ScaleSpellEffect(2L + 40, s)`, without halving, while `AddElement`
assigns the damage `ScaleSpellEffect(2(L + r) + 4, s) / 2` for a sum `r` of two
rolls in `[0, 18]`; the assigned damage lies in `[mind / 2, maxd / 2]`. -/
theorem element_damage_within_halved_bounds (ext : Ext) (missile : Missile)
    (parameter : AddMissileParameter) (w : World) (mind maxd : Int)
    (hsrc : missile._misource = w.MyPlayerId)
    (hlvl : missile._mispllvl
      = (w.Players w.MyPlayerId)._pSplLvl.getD spell_id.SPL_ELEMENT.code 0
        + (w.Players w.MyPlayerId)._pISplLvlAdd) :
    GetDamageAmt spell_id.SPL_ELEMENT mind maxd w.toGlobals
        = (ScaleSpellEffect (2 * (w.Players w.MyPlayerId)._pLevel + 4) missile._mispllvl,
            ScaleSpellEffect (2 * (w.Players w.MyPlayerId)._pLevel + 40) missile._mispllvl)
    ∧ (∃ r : Int, 0 ≤ r ∧ r ≤ 18
      ∧ (AddElement ext missile parameter w).1._midam
        = (ScaleSpellEffect (2 * ((w.Players w.MyPlayerId)._pLevel + r) + 4)
            missile._mispllvl).tdiv 2)
    ∧ (GetDamageAmt spell_id.SPL_ELEMENT mind maxd w.toGlobals).1.tdiv 2
      ≤ (AddElement ext missile parameter w).1._midam
    ∧ (AddElement ext missile parameter w).1._midam
      ≤ (GetDamageAmt spell_id.SPL_ELEMENT mind maxd w.toGlobals).2.tdiv 2 := by
  have hg : GetDamageAmt spell_id.SPL_ELEMENT mind maxd w.toGlobals
      = (ScaleSpellEffect (2 * (w.Players w.MyPlayerId)._pLevel + 4) missile._mispllvl,
          ScaleSpellEffect (2 * (w.Players w.MyPlayerId)._pLevel + 40) missile._mispllvl) := by
    rw [hlvl]
    rfl
  have hd := AddElement_midam ext missile parameter w
  rw [hsrc] at hd
  obtain ⟨h0, h18⟩ := GenerateRndSum_10_2 w
  refine ⟨hg, ⟨(GenerateRndSum 10 2 w).1, h0, h18, hd⟩, ?_, ?_⟩
  · rw [hg, hd]
    exact tdiv_mono _ _ 2 (by decide) (ScaleSpellEffect_mono _ _ _ (by omega))
  · rw [hg, hd]
    exact tdiv_mono _ _ 2 (by decide) (ScaleSpellEffect_mono _ _ _ (by omega))

theorem element_damage_within_halved_bounds_witness :
    (elementBolt._misource = mageWorld.MyPlayerId
      ∧ elementBolt._mispllvl
        = (mageWorld.Players mageWorld.MyPlayerId)._pSplLvl.getD spell_id.SPL_ELEMENT.code 0
          + (mageWorld.Players mageWorld.MyPlayerId)._pISplLvlAdd)
    ∧ (GetDamageAmt spell_id.SPL_ELEMENT 0 0 mageWorld.toGlobals = (33, 84)
      ∧ (AddElement sampleExt elementBolt castParameter mageWorld).1._midam = 36)
    ∧ (GetDamageAmt spell_id.SPL_ELEMENT 0 0 mageWorld.toGlobals).1.tdiv 2
      ≤ (AddElement sampleExt elementBolt castParameter mageWorld).1._midam
    ∧ (AddElement sampleExt elementBolt castParameter mageWorld).1._midam
      ≤ (GetDamageAmt spell_id.SPL_ELEMENT 0 0 mageWorld.toGlobals).2.tdiv 2 :=
  ⟨⟨rfl, by decide⟩, ⟨by decide, by decide⟩,
    (element_damage_within_halved_bounds sampleExt elementBolt castParameter mageWorld 0 0 rfl
      (by decide)).2.2⟩

/-- C26: on a tile inside the dungeon that blocks missiles at the point where
`CheckMissileCol` tests it (after the monster and the player on the tile have
been resolved), the call leaves the hit flag false, whatever was hit, and the
range is 0, or the range before the call when `dontDeleteOnCollision` is set;
and a call with `dontDeleteOnCollision` set never changes the range, for any
input. -/
theorem blocking_tile_stops_missile (ext : Ext) (missile : Missile) (minDamage maxDamage : Int)
    (isDamageShifted : Bool) (position : Point) (dontDeleteOnCollision : Bool) (w : World) :
    (ext.InDungeonBounds position = true →
      IsMissileBlockedByTile ext
        (CheckMissileCol_hits ext missile minDamage maxDamage isDamageShifted position
          dontDeleteOnCollision w).2 position = true →
      (CheckMissileCol ext missile minDamage maxDamage isDamageShifted position
          dontDeleteOnCollision w).1._miHitFlag = false
        ∧ (CheckMissileCol ext missile minDamage maxDamage isDamageShifted position
            dontDeleteOnCollision w).1._mirange
          = if dontDeleteOnCollision = true then missile._mirange else 0)
    ∧ (CheckMissileCol ext missile minDamage maxDamage isDamageShifted position true w).1._mirange
      = missile._mirange := by
  refine ⟨?_, CheckMissileCol_keeps_range ext missile minDamage maxDamage isDamageShifted position w⟩
  intro hb hblk
  obtain ⟨h1, h2⟩ := CheckMissileCol_blocked ext missile minDamage maxDamage isDamageShifted
    position dontDeleteOnCollision w hb hblk
  refine ⟨h1, ?_⟩
  cases dontDeleteOnCollision with
  | true =>
    rw [if_pos rfl]
    exact CheckMissileCol_keeps_range ext missile minDamage maxDamage isDamageShifted position w
  | false =>
    rw [if_neg (by decide)]
    exact h2 rfl

theorem blocking_tile_stops_missile_witness :
    (blockingExt.InDungeonBounds { x := 5, y := 5 } = true
      ∧ IsMissileBlockedByTile blockingExt
        (CheckMissileCol_hits blockingExt cornerArrow 1 2 false { x := 5, y := 5 } false
          remoteWorld).2 { x := 5, y := 5 } = true)
    ∧ (CheckMissileCol_hits blockingExt cornerArrow 1 2 false { x := 5, y := 5 } false
          remoteWorld).1._miHitFlag = true
    ∧ (CheckMissileCol blockingExt cornerArrow 1 2 false { x := 5, y := 5 } false
          remoteWorld).1._miHitFlag = false
    ∧ (CheckMissileCol blockingExt cornerArrow 1 2 false { x := 5, y := 5 } false
          remoteWorld).1._mirange = if false = true then cornerArrow._mirange else 0 :=
  ⟨⟨by decide, by decide⟩, by decide,
    (blocking_tile_stops_missile blockingExt cornerArrow 1 2 false { x := 5, y := 5 } false
      remoteWorld).1 (by decide) (by decide)⟩

/-- C27, counterexample: an arrow shot by a monster rests on tile (5, 5).  A
first call resolves the tile while monster 0 stands on it (occupants (1, 0))
and records the hash 1.  Then the monster has left and player 0 stands on the
tile (occupants (0, 1)): the second call crosses no tile, the occupants
differ from those at the recording, and yet no collision is resolved, since
the hash of the new occupants is 1 again. -/
theorem hash_skips_changed_occupants :
    (possibleVisitTiles sampleExt restingArrow.position.tile
        (MoveMissile_advance sampleExt restingArrow monsterOnTile).1 = 0
      ∧ (MoveMissileAndCheckMissileColTrace sampleExt 0 restingArrow 1 2 false false
          monsterOnTile).map (fun r => (r.2, r.1.1.lastCollisionTargetHash))
        = some (([], some { x := 5, y := 5 }), 1))
    ∧ (monsterOnTile.dMonster 5 5, monsterOnTile.dPlayer 5 5) = (1, 0)
    ∧ (playerOnTile.dMonster 5 5, playerOnTile.dPlayer 5 5) = (0, 1)
    ∧ possibleVisitTiles sampleExt hashedArrow.position.tile
        (MoveMissile_advance sampleExt hashedArrow playerOnTile).1 = 0
    ∧ (MoveMissile_advance sampleExt hashedArrow playerOnTile).1.position.tile = { x := 5, y := 5 }
    ∧ (MoveMissileAndCheckMissileColTrace sampleExt 0 hashedArrow 1 2 false false
        playerOnTile).map Prod.snd = some ([], none) := by
  decide

/-- C27, amended: when the move crosses no tile (`possibleVisitTiles` is 0) and
`ignoreStart` is false, `MoveMissileAndCheckMissileCol` returns whatever the
fuel; it skips the collision resolution exactly when the stored hash equals
`dMonster ^ dPlayer` of the tile, and otherwise resolves the tile once.  In
particular it skips when the hash was recorded from the occupants that are on
the tile now. -/
theorem stationary_missile_dedup (ext : Ext) (fuel : Nat) (missile : Missile) (mindam maxdam : Int)
    (ifCollides : Bool) (w : World)
    (hn : possibleVisitTiles ext missile.position.tile (MoveMissile_advance ext missile w).1 = 0) :
    (missile.lastCollisionTargetHash
        = Int.xor
          ((MoveMissile_advance ext missile w).2.dMonster
            (MoveMissile_advance ext missile w).1.position.tile.x
            (MoveMissile_advance ext missile w).1.position.tile.y)
          ((MoveMissile_advance ext missile w).2.dPlayer
            (MoveMissile_advance ext missile w).1.position.tile.x
            (MoveMissile_advance ext missile w).1.position.tile.y) →
      MoveMissileAndCheckMissileColTrace ext fuel missile mindam maxdam false ifCollides w
        = some (MoveMissile_advance ext missile w, [], none))
    ∧ (missile.lastCollisionTargetHash
        ≠ Int.xor
          ((MoveMissile_advance ext missile w).2.dMonster
            (MoveMissile_advance ext missile w).1.position.tile.x
            (MoveMissile_advance ext missile w).1.position.tile.y)
          ((MoveMissile_advance ext missile w).2.dPlayer
            (MoveMissile_advance ext missile w).1.position.tile.x
            (MoveMissile_advance ext missile w).1.position.tile.y) →
      ∃ r : Missile × World,
        MoveMissileAndCheckMissileColTrace ext fuel missile mindam maxdam false ifCollides w
          = some (r, [], some (MoveMissile_advance ext missile w).1.position.tile))
    ∧ (∀ m p : Int, missile.lastCollisionTargetHash = Int.xor m p →
      (MoveMissile_advance ext missile w).2.dMonster
          (MoveMissile_advance ext missile w).1.position.tile.x
          (MoveMissile_advance ext missile w).1.position.tile.y = m →
      (MoveMissile_advance ext missile w).2.dPlayer
          (MoveMissile_advance ext missile w).1.position.tile.x
          (MoveMissile_advance ext missile w).1.position.tile.y = p →
      MoveMissileAndCheckMissileColTrace ext fuel missile mindam maxdam false ifCollides w
        = some (MoveMissile_advance ext missile w, [], none)) := by
  have hskip : missile.lastCollisionTargetHash
        = Int.xor
          ((MoveMissile_advance ext missile w).2.dMonster
            (MoveMissile_advance ext missile w).1.position.tile.x
            (MoveMissile_advance ext missile w).1.position.tile.y)
          ((MoveMissile_advance ext missile w).2.dPlayer
            (MoveMissile_advance ext missile w).1.position.tile.x
            (MoveMissile_advance ext missile w).1.position.tile.y) →
      MoveMissileAndCheckMissileColTrace ext fuel missile mindam maxdam false ifCollides w
        = some (MoveMissile_advance ext missile w, [], none) := by
    intro hh
    unfold MoveMissileAndCheckMissileColTrace
    lift_lets
    intro prevTile u m0 w0 n hash m1
    have hn0 : n = 0 := hn
    have hh0 : m0.lastCollisionTargetHash = hash := hh
    rw [if_pos ⟨hn0, hh0⟩]
  refine ⟨hskip, ?_, ?_⟩
  · intro hh
    unfold MoveMissileAndCheckMissileColTrace
    lift_lets
    intro prevTile u m0 w0 n hash m1
    have hn0 : n = 0 := hn
    have hh0 : ¬ m0.lastCollisionTargetHash = hash := hh
    rw [if_neg (fun h => hh0 h.2), if_neg (by omega)]
    refine ⟨(MoveMissile_arrive ext mindam maxdam false ifCollides m1 w0).1, ?_⟩
    rw [(MoveMissile_arrive_tile ext mindam maxdam false ifCollides m1 w0).2.2
      (fun h => Bool.noConfusion h.1)]
  · intro m p h1 h2 h3
    apply hskip
    rw [h1, h2, h3]

theorem stationary_missile_dedup_witness :
    (possibleVisitTiles sampleExt hashedArrow.position.tile
        (MoveMissile_advance sampleExt hashedArrow playerOnTile).1 = 0
      ∧ hashedArrow.lastCollisionTargetHash
        = Int.xor
          ((MoveMissile_advance sampleExt hashedArrow playerOnTile).2.dMonster
            (MoveMissile_advance sampleExt hashedArrow playerOnTile).1.position.tile.x
            (MoveMissile_advance sampleExt hashedArrow playerOnTile).1.position.tile.y)
          ((MoveMissile_advance sampleExt hashedArrow playerOnTile).2.dPlayer
            (MoveMissile_advance sampleExt hashedArrow playerOnTile).1.position.tile.x
            (MoveMissile_advance sampleExt hashedArrow playerOnTile).1.position.tile.y))
    ∧ MoveMissileAndCheckMissileColTrace sampleExt 0 hashedArrow 1 2 false false playerOnTile
      = some (MoveMissile_advance sampleExt hashedArrow playerOnTile, [], none) :=
  ⟨⟨by decide, by decide⟩,
    (stationary_missile_dedup sampleExt 0 hashedArrow 1 2 false playerOnTile (by decide)).1
      (by decide)⟩

/-- C29: an update of `MI_Element` or of `MI_Bonespirit` that returns either
does not run the retarget step and leaves the phase slot `var3` as it is, or
runs it; it runs it only when `var3` was 0 or 1, never when it was 2, and
`var3` is 2 afterwards, so the step runs at most once for a missile.  After an
update in which it has run the range is 255 and the velocity is the one that
`UpdateMissileVelocity` gives for the tile of the monster that `FindClosest`
has found within radius 19, or, when it has found none, for the tile one step
in the direction that the caster faces; the search and the step start from
the tile of the missile before the move in `MI_Element` and after the move in
`MI_Bonespirit`.  The update returns when the move crosses at most one tile
and the fuel ends every walk of `CheckBlock` (for `MI_Element`: outside its
explosion). -/
theorem retarget_runs_once (ext : Ext) (fuel : Nat) (node : Nat) (s : GameState)
    (missile : Missile) (hm : s.getMissile node = some missile) :
    (∀ (s1 : GameState) (b : Bool), MI_ElementTrace ext fuel node s = some (s1, b) →
      (b = false → (s1.missile node).var3 = missile.var3)
      ∧ (missile.var3 = 2 → b = false ∧ (s1.missile node).var3 = 2)
      ∧ (b = true →
        (missile.var3 = 0 ∨ missile.var3 = 1)
        ∧ (s1.missile node).var3 = 2 ∧ (s1.missile node)._mirange = 255
        ∧ ∃ r : Missile × World,
          MoveMissileAndCheckMissileCol ext fuel { missile with _mirange := missile._mirange - 1 }
              missile._midam missile._midam false false s.toWorld = some r
          ∧ AimedAt ext (s1.missile node)
            (retargetTile ext fuel missile.position.tile missile._misource r.2)))
    ∧ (∀ (s1 : GameState) (b : Bool), MI_BonespiritTrace ext fuel node s = some (s1, b) →
      (b = false → (s1.missile node).var3 = missile.var3)
      ∧ (missile.var3 = 2 → b = false ∧ (s1.missile node).var3 = 2)
      ∧ (b = true →
        (missile.var3 = 0 ∨ missile.var3 = 1)
        ∧ (s1.missile node).var3 = 2 ∧ (s1.missile node)._mirange = 255
        ∧ ∃ r : Missile × World,
          MoveMissileAndCheckMissileCol ext fuel { missile with _mirange := missile._mirange - 1 }
              missile._midam missile._midam false false s.toWorld = some r
          ∧ AimedAt ext (s1.missile node)
            (retargetTile ext fuel r.1.position.tile missile._misource r.2)))
    ∧ (possibleVisitTiles ext missile.position.tile
        (MoveMissile_advance ext { missile with _mirange := missile._mirange - 1 } s.toWorld).1 ≤ 1 →
      (∀ (g : Globals) (a c : Point), (CheckBlock ext g fuel a c).isSome = true) →
      (missile._miAnimType ≠ ext.MFILE_BIGEXP → (MI_ElementTrace ext fuel node s).isSome = true)
      ∧ (MI_BonespiritTrace ext fuel node s).isSome = true) := by
  refine ⟨?_, ?_, ?_⟩
  · intro s1 b h
    obtain ⟨h1, h2⟩ := MI_Element_phase ext fuel node s s1 missile b hm h
    refine ⟨h1, ?_, h2⟩
    intro h3
    cases b with
    | false => exact ⟨rfl, (h1 rfl).trans h3⟩
    | true =>
      rcases (h2 rfl).1 with h0 | h0
      · rw [h0] at h3
        exact absurd h3 (by decide)
      · rw [h0] at h3
        exact absurd h3 (by decide)
  · intro s1 b h
    obtain ⟨h1, h2⟩ := MI_Bonespirit_phase ext fuel node s s1 missile b hm h
    refine ⟨h1, ?_, h2⟩
    intro h3
    cases b with
    | false => exact ⟨rfl, (h1 rfl).trans h3⟩
    | true =>
      rcases (h2 rfl).1 with h0 | h0
      · rw [h0] at h3
        exact absurd h3 (by decide)
      · rw [h0] at h3
        exact absurd h3 (by decide)
  · intro hle _
    exact ⟨fun hexp => MI_Element_returns ext fuel node s missile hm hexp hle,
      MI_Bonespirit_returns ext fuel node s missile hm hle⟩

theorem retarget_runs_once_witness :
    (elementState.getMissile 0 = some (elementState.missile 0)
      ∧ MI_ElementTrace compassExt 0 0 elementState = some (elementResult.1, elementResult.2)
      ∧ elementResult.2 = true)
    ∧ ((elementState.missile 0).var3 = 0 ∨ (elementState.missile 0).var3 = 1)
    ∧ (elementResult.1.missile 0).var3 = 2 ∧ (elementResult.1.missile 0)._mirange = 255
    ∧ ∃ r : Missile × World,
      MoveMissileAndCheckMissileCol compassExt 0
          { elementState.missile 0 with _mirange := (elementState.missile 0)._mirange - 1 }
          (elementState.missile 0)._midam (elementState.missile 0)._midam false false
          elementState.toWorld = some r
      ∧ AimedAt compassExt (elementResult.1.missile 0)
        (retargetTile compassExt 0 (elementState.missile 0).position.tile
          (elementState.missile 0)._misource r.2) :=
  ⟨⟨rfl, rfl, by decide⟩,
    ((retarget_runs_once compassExt 0 0 elementState (elementState.missile 0) rfl).1 elementResult.1
      elementResult.2 rfl).2.2 (by decide)⟩

/-- C30: the driver writes `ProcessMissiles_animate` of the missile back after
its update.  For a missile marked `NotAnimated` the frame and the delay
counter stay as they are.  For any other missile whose frame is in
`[1, animLen]` and whose step is +1 or -1 the frame is in `[1, animLen]`
again; while the incremented counter is below the delay the frame stays and
the counter is incremented; otherwise the counter restarts at 0 and the frame
moves by the step, from `animLen` to 1 for the step +1 and from 1 to `animLen`
for the step -1. -/
theorem animation_frame_stays_in_range (s : GameState) (node : Nat) (missile : Missile)
    (hm : s.getMissile node = some missile) :
    (missile._miAnimFlags = MissileDataFlags.NotAnimated →
      ((s.updateMissile node ProcessMissiles_animate).missile node)._miAnimFrame
          = missile._miAnimFrame
        ∧ ((s.updateMissile node ProcessMissiles_animate).missile node)._miAnimCnt
          = missile._miAnimCnt)
    ∧ (missile._miAnimFlags ≠ MissileDataFlags.NotAnimated →
      1 ≤ missile._miAnimFrame → missile._miAnimFrame ≤ missile._miAnimLen →
      (missile._miAnimAdd = 1 ∨ missile._miAnimAdd = -1) →
      1 ≤ ((s.updateMissile node ProcessMissiles_animate).missile node)._miAnimFrame
        ∧ ((s.updateMissile node ProcessMissiles_animate).missile node)._miAnimFrame
          ≤ missile._miAnimLen
        ∧ (missile._miAnimCnt + 1 < missile._miAnimDelay →
          ((s.updateMissile node ProcessMissiles_animate).missile node)._miAnimFrame
              = missile._miAnimFrame
            ∧ ((s.updateMissile node ProcessMissiles_animate).missile node)._miAnimCnt
              = missile._miAnimCnt + 1)
        ∧ (missile._miAnimDelay ≤ missile._miAnimCnt + 1 →
          ((s.updateMissile node ProcessMissiles_animate).missile node)._miAnimCnt = 0
            ∧ (missile._miAnimAdd = 1 →
              ((s.updateMissile node ProcessMissiles_animate).missile node)._miAnimFrame
                = if missile._miAnimFrame = missile._miAnimLen then 1
                  else missile._miAnimFrame + 1)
            ∧ (missile._miAnimAdd = -1 →
              ((s.updateMissile node ProcessMissiles_animate).missile node)._miAnimFrame
                = if missile._miAnimFrame = 1 then missile._miAnimLen
                  else missile._miAnimFrame - 1))) := by
  rw [missile_updateMissile s node _ missile hm]
  refine ⟨?_, ?_⟩
  · intro hf
    unfold ProcessMissiles_animate
    rw [if_pos hf]
    exact ⟨rfl, rfl⟩
  · intro hf h1 h2 hadd
    unfold ProcessMissiles_animate
    rw [if_neg hf]
    simp only []
    by_cases hc : missile._miAnimCnt + 1 < missile._miAnimDelay
    · rw [if_pos hc]
      exact ⟨h1, h2, fun _ => ⟨rfl, rfl⟩, fun h => absurd hc (by omega)⟩
    · rw [if_neg hc]
      refine ⟨?_, ?_, fun h => absurd h hc, fun _ => ⟨?_, ?_, ?_⟩⟩
      · split_ifs <;> simp only [] <;> omega
      · split_ifs <;> simp only [] <;> omega
      · split_ifs <;> rfl
      · intro ha
        split_ifs <;> simp only [] <;> omega
      · intro ha
        split_ifs <;> simp only [] <;> omega

theorem animation_frame_stays_in_range_witness :
    (animState.getMissile 0 = some (animState.missile 0)
      ∧ (animState.missile 0)._miAnimFlags ≠ MissileDataFlags.NotAnimated
      ∧ 1 ≤ (animState.missile 0)._miAnimFrame
      ∧ (animState.missile 0)._miAnimFrame ≤ (animState.missile 0)._miAnimLen
      ∧ ((animState.missile 0)._miAnimAdd = 1 ∨ (animState.missile 0)._miAnimAdd = -1)
      ∧ (animState.missile 0)._miAnimDelay ≤ (animState.missile 0)._miAnimCnt + 1
      ∧ (animState.missile 0)._miAnimAdd = 1)
    ∧ ((animState.updateMissile 0 ProcessMissiles_animate).missile 0)._miAnimFrame
      = if (animState.missile 0)._miAnimFrame = (animState.missile 0)._miAnimLen then 1
        else (animState.missile 0)._miAnimFrame + 1 :=
  ⟨⟨rfl, by decide, by decide, by decide, by decide, by decide, by decide⟩,
    (((animation_frame_stays_in_range animState 0 (animState.missile 0) rfl).2 (by decide)
      (by decide) (by decide) (by decide)).2.2.2 (by decide)).2.1 (by decide)⟩

/-- C31, failing input: `CheckMissileCol` resolves the fire wall segment of a
trap against monster 0 by `MonsterMHit(-1, 0, ...)`, and what that call does
to the monster depends on what `Players[-1]` holds: with the default record
there the monster keeps its flags, with a record that carries fire arrows it
receives `MFLAG_NOHEAL`. -/
theorem MonsterMHit_reads_player_minus_one :
    sampleExt.IsTrap trapWall = true
    ∧ monsterHitCalls
        (CheckMissileCol sampleExt trapWall 1 2 true { x := 5, y := 5 } true remoteWorld).2.trace
      = [Event.MonsterMHit (-1) 0 missile_id.MIS_FIREWALL]
    ∧ ((MonsterMHit sampleExt (-1) 0 1 2 0 missile_id.MIS_FIREWALL true remoteWorld).2.Monsters
        0)._mFlags = []
    ∧ ((MonsterMHit sampleExt (-1) 0 1 2 0 missile_id.MIS_FIREWALL true strayPlayerWorld).2.Monsters
        0)._mFlags = [monster_flag.MFLAG_NOHEAL] := by
  decide

/-- C32. When the sixteen directions are numbered clockwise from `South` = 0,
`GetDirection16(p2, p1)` is the direction opposite to `GetDirection16(p1, p2)`
for all points `p1 != p2`: the two codes differ by 8 modulo 16. -/
theorem GetDirection16_opposite (ext : Ext) (h : Clockwise16 ext) (p1 p2 : Point)
    (hne : p1 ≠ p2) :
    GetDirection16 ext p2 p1 = (GetDirection16 ext p1 p2 + 8) % 16 := by
  have hd : p2.x - p1.x ≠ 0 ∨ p2.y - p1.y ≠ 0 := by
    by_contra hc
    push_neg at hc
    apply hne
    cases p1; cases p2
    simp only [Point.mk.injEq] at *
    omega
  rw [GetDirection16_eq ext h p1 p2 (p2.x - p1.x) (p2.y - p1.y) _ _ _ _ _ rfl rfl rfl rfl rfl rfl
      rfl,
    GetDirection16_eq ext h p2 p1 (-(p2.x - p1.x)) (-(p2.y - p1.y)) _ _ _ _ _ (by omega) (by omega)
      rfl rfl rfl rfl rfl]
  generalize p2.x - p1.x = dx at hd ⊢
  generalize p2.y - p1.y = dy at hd ⊢
  simp only [Int.natAbs_neg]
  have hx := natAbs_cases dx
  have hy := natAbs_cases dy
  generalize (Int.natAbs dx : Int) = ax at hx ⊢
  generalize (Int.natAbs dy : Int) = ay at hy ⊢
  generalize hlo : (if ax > ay then ay else ax) = lo
  generalize hhi : (if ax > ay then ax else ay) = hi
  generalize hr : (if 3 * lo ≤ hi * 2 then (if 5 * lo < hi then (2 : Int) else 1) else 0) = r
  split_ifs at hlo hhi hr <;> subst hr <;> split_ifs <;> first | omega | decide

theorem GetDirection16_opposite_witness :
    GetDirection16 sampleExt { x := 7, y := 2 } { x := 5, y := 5 }
      = (GetDirection16 sampleExt { x := 5, y := 5 } { x := 7, y := 2 } + 8) % 16 :=
  GetDirection16_opposite sampleExt ⟨rfl, rfl, rfl, rfl⟩ { x := 5, y := 5 } { x := 7, y := 2 }
    (by decide)

/-- C33. When the sixteen directions are numbered clockwise from `South` = 0,
`GetDirection16` always returns a code in 0..15, and for every `d > 0` it maps
the eight principal offsets `(d,d)`, `(0,d)`, `(-d,d)`, `(-d,0)`, `(-d,-d)`,
`(0,-d)`, `(d,-d)`, `(d,0)` to South (0), SouthWest (2), West (4),
NorthWest (6), North (8), NorthEast (10), East (12) and SouthEast (14). -/
theorem GetDirection16_principal (ext : Ext) (h : Clockwise16 ext) (p q : Point) (d : Int)
    (hd : 0 < d) :
    (0 ≤ GetDirection16 ext p q ∧ GetDirection16 ext p q ≤ 15)
    ∧ GetDirection16 ext p { x := p.x + d, y := p.y + d } = 0
    ∧ GetDirection16 ext p { x := p.x, y := p.y + d } = 2
    ∧ GetDirection16 ext p { x := p.x - d, y := p.y + d } = 4
    ∧ GetDirection16 ext p { x := p.x - d, y := p.y } = 6
    ∧ GetDirection16 ext p { x := p.x - d, y := p.y - d } = 8
    ∧ GetDirection16 ext p { x := p.x, y := p.y - d } = 10
    ∧ GetDirection16 ext p { x := p.x + d, y := p.y - d } = 12
    ∧ GetDirection16 ext p { x := p.x + d, y := p.y } = 14 := by
  refine ⟨GetDirection16_range ext h p q, ?_, ?_, ?_, ?_, ?_, ?_, ?_, ?_⟩
  · rw [GetDirection16_diagonal ext h p _ d d d hd (by simp) (by simp) (by omega) (by omega)]
    simp
  · rw [GetDirection16_vertical ext h p _ d d hd (by simp) (by simp) (by omega)]
    simp
  · rw [GetDirection16_diagonal ext h p _ d (-d) d hd (by simp) (by simp) (by omega)
      (by omega)]
    rw [if_neg (by omega), if_pos rfl]
  · rw [GetDirection16_horizontal ext h p _ d (-d) hd (by simp) (by simp) (by omega)]
    rw [if_neg (by omega)]
  · rw [GetDirection16_diagonal ext h p _ d (-d) (-d) hd (by simp) (by simp)
      (by omega) (by omega)]
    rw [if_neg (by omega), if_neg (by omega)]
  · rw [GetDirection16_vertical ext h p _ d (-d) hd (by simp) (by simp) (by omega)]
    rw [if_neg (by omega)]
  · rw [GetDirection16_diagonal ext h p _ d d (-d) hd (by simp) (by simp) (by omega)
      (by omega)]
    rw [if_pos rfl, if_neg (by omega)]
  · rw [GetDirection16_horizontal ext h p _ d d hd (by simp) (by simp) (by omega)]
    simp

theorem GetDirection16_principal_witness :
    (0 ≤ GetDirection16 sampleExt { x := 5, y := 5 } { x := 9, y := 6 }
      ∧ GetDirection16 sampleExt { x := 5, y := 5 } { x := 9, y := 6 } ≤ 15)
    ∧ GetDirection16 sampleExt { x := 5, y := 5 } { x := 5 + 3, y := 5 + 3 } = 0
    ∧ GetDirection16 sampleExt { x := 5, y := 5 } { x := 5, y := 5 + 3 } = 2
    ∧ GetDirection16 sampleExt { x := 5, y := 5 } { x := 5 - 3, y := 5 + 3 } = 4
    ∧ GetDirection16 sampleExt { x := 5, y := 5 } { x := 5 - 3, y := 5 } = 6
    ∧ GetDirection16 sampleExt { x := 5, y := 5 } { x := 5 - 3, y := 5 - 3 } = 8
    ∧ GetDirection16 sampleExt { x := 5, y := 5 } { x := 5, y := 5 - 3 } = 10
    ∧ GetDirection16 sampleExt { x := 5, y := 5 } { x := 5 + 3, y := 5 - 3 } = 12
    ∧ GetDirection16 sampleExt { x := 5, y := 5 } { x := 5 + 3, y := 5 } = 14 :=
  GetDirection16_principal sampleExt ⟨rfl, rfl, rfl, rfl⟩ { x := 5, y := 5 } { x := 9, y := 6 } 3
    (by decide)

/-- C34. For every spell id that `GetDamageAmt` handles as a damage or healing
spell and a local player whose level, magic and effective spell level are not
negative, the reported minimum does not exceed the reported maximum; for every
spell id that it handles as a spell without damage both reported values are
-1. -/
theorem GetDamageAmt_min_le_max (i : spell_id) (mind maxd : Int) (g : Globals) :
    (i ∈ damageSpells →
      0 ≤ (g.Players g.MyPlayerId)._pLevel →
      0 ≤ (g.Players g.MyPlayerId)._pMagic →
      0 ≤ (g.Players g.MyPlayerId)._pSplLvl.getD i.code 0
        + (g.Players g.MyPlayerId)._pISplLvlAdd →
      (GetDamageAmt i mind maxd g).1 ≤ (GetDamageAmt i mind maxd g).2)
    ∧ (i ∈ nonDamageSpells → GetDamageAmt i mind maxd g = (-1, -1)) := by
  refine ⟨fun hi hl hm hs => GetDamageAmt_damage i mind maxd g hi hl hm hs, ?_⟩
  intro hi
  simp only [nonDamageSpells, List.mem_cons, List.mem_singleton, List.not_mem_nil, or_false] at hi
  rcases hi with h | h | h | h | h | h | h | h | h | h | h | h | h | h | h | h | h | h | h | h
    | h | h | h <;> subst h <;> rfl

theorem GetDamageAmt_min_le_max_witness :
    (GetDamageAmt spell_id.SPL_FIREBALL 0 0 mageWorld.toGlobals).1
      ≤ (GetDamageAmt spell_id.SPL_FIREBALL 0 0 mageWorld.toGlobals).2
    ∧ GetDamageAmt spell_id.SPL_TOWN 0 0 mageWorld.toGlobals = (-1, -1) :=
  ⟨(GetDamageAmt_min_le_max spell_id.SPL_FIREBALL 0 0 mageWorld.toGlobals).1
      (by decide) (by decide) (by decide) (by decide),
   (GetDamageAmt_min_le_max spell_id.SPL_TOWN 0 0 mageWorld.toGlobals).2 (by decide)⟩

/-- C35. `ScaleSpellEffect(base, n)` is `base` for `n <= 0` and is the result of
applying `base <- base + base / 8` (truncating division) `n` times otherwise;
for `base >= 0` and `n >= 0` the value for `n + 1` exceeds the value for `n`
exactly when `base >= 8`, and for `0 <= base < 8` the value is `base` for
every `n`. -/
theorem ScaleSpellEffect_law (base n : Int) :
    (n ≤ 0 → ScaleSpellEffect base n = base)
    ∧ (0 < n → ScaleSpellEffect base n = (fun b : Int => b + b.tdiv 8)^[n.toNat] base)
    ∧ (0 ≤ base → 0 ≤ n →
        (ScaleSpellEffect base (n + 1) > ScaleSpellEffect base n ↔ base ≥ 8))
    ∧ (0 ≤ base → base < 8 → ScaleSpellEffect base n = base) := by
  refine ⟨ScaleSpellEffect_nonpos base n, ?_, ?_, ?_⟩
  · intro hn
    have h := ScaleSpellEffect_iterate base n.toNat
    have h1 : ((n.toNat : Nat) : Int) = n := by omega
    rw [h1] at h
    exact h
  · intro hb hn
    obtain ⟨k, rfl⟩ : ∃ k : Nat, n = k := ⟨n.toNat, by omega⟩
    have hs := ScaleSpellEffect_succ base k
    constructor
    · intro hgt
      by_contra hlt
      have h1 := ScaleSpellEffect_small base k hb (by omega)
      have h2 := ScaleSpellEffect_small base (k + 1) hb (by omega)
      push_cast at h2
      omega
    · intro h8
      have hge := ScaleSpellEffect_ge base k hb
      have h1 : 1 ≤ (ScaleSpellEffect base k).tdiv 8 := by
        rw [Int.tdiv_eq_ediv (by omega) (by decide)]
        omega
      omega
  · intro hb h8
    by_cases hn : n ≤ 0
    · exact ScaleSpellEffect_nonpos base n hn
    · obtain ⟨k, rfl⟩ : ∃ k : Nat, n = k := ⟨n.toNat, by omega⟩
      exact ScaleSpellEffect_small base k hb h8

theorem ScaleSpellEffect_law_witness :
    (ScaleSpellEffect 16 2 = (fun b : Int => b + b.tdiv 8)^[(2 : Int).toNat] 16)
    ∧ (ScaleSpellEffect 16 (2 + 1) > ScaleSpellEffect 16 2 ↔ (16 : Int) ≥ 8)
    ∧ ScaleSpellEffect 7 2 = 7 :=
  ⟨(ScaleSpellEffect_law 16 2).2.1 (by decide),
   (ScaleSpellEffect_law 16 2).2.2.1 (by decide) (by decide),
   (ScaleSpellEffect_law 7 2).2.2.2 (by decide) (by decide)⟩

/-- C36, failing input: a flame wave that holds the light handle 3 crosses
from tile (5, 5) to tile (6, 6), which blocks missiles.  The update by
`MI_Firemove` returns, and the calls it makes are, in order: the light offset
of the move, the sound of the stop, `AddUnLight(3)`, which releases the handle,
and then `ChangeLight(3, (6, 6), 8)` on the handle just released. -/
theorem MI_Firemove_changes_released_light :
    (MI_Firemove wallExt 1 0 flameWaveState).map (fun t => t.trace)
      = some [Event.ChangeLightOffset 3 { deltaX := 0, deltaY := 0 },
              Event.PlaySfxLoc 0 { x := 6, y := 6 },
              Event.AddUnLight 3,
              Event.ChangeLight 3 { x := 6, y := 6 } 8]
    ∧ (MI_Firemove wallExt 1 0 flameWaveState).map (fun t => (t.missile 0)._miDelFlag)
      = some true := by
  decide

/-- C37. `AddRndTeleport` stores at most 36 candidate tiles, for every start
tile and every validity test `PosOkPlayer`: each write into the array
`targets` and the read from it use an index in 0..35, and every tile stored
differs from the start tile by between 4 and 6 in both coordinates. -/
theorem AddRndTeleport_candidates (ext : Ext) (missile : Missile) (parameter : AddMissileParameter)
    (w : World) :
    (AddRndTeleportTrace ext missile parameter w).2.1.length ≤ 36
    ∧ (∀ iw ∈ (AddRndTeleportTrace ext missile parameter w).2.1,
        0 ≤ iw.1 ∧ iw.1 ≤ 35
        ∧ 4 ≤ (Int.natAbs (iw.2.x - missile.position.start.x) : Int)
        ∧ (Int.natAbs (iw.2.x - missile.position.start.x) : Int) ≤ 6
        ∧ 4 ≤ (Int.natAbs (iw.2.y - missile.position.start.y) : Int)
        ∧ (Int.natAbs (iw.2.y - missile.position.start.y) : Int) ≤ 6)
    ∧ (∀ i, (AddRndTeleportTrace ext missile parameter w).2.2 = some i → 0 ≤ i ∧ i ≤ 35) := by
  have hinv := AddRndTeleport_loop_inv ext w.toGlobals (w.Players missile._misource)
    missile.position.start
  obtain ⟨h0, hn, hlen, hw⟩ := hinv
  have hwr : ∀ iw ∈ (AddRndTeleport_offsets.foldl
      (AddRndTeleport_step ext w.toGlobals (w.Players missile._misource) missile.position.start)
      {}).writes,
      0 ≤ iw.1 ∧ iw.1 ≤ 35
        ∧ 4 ≤ (Int.natAbs (iw.2.x - missile.position.start.x) : Int)
        ∧ (Int.natAbs (iw.2.x - missile.position.start.x) : Int) ≤ 6
        ∧ 4 ≤ (Int.natAbs (iw.2.y - missile.position.start.y) : Int)
        ∧ (Int.natAbs (iw.2.y - missile.position.start.y) : Int) ≤ 6 := by
    intro iw hiw
    have := hw iw hiw
    omega
  have hl : (AddRndTeleport_offsets.foldl
      (AddRndTeleport_step ext w.toGlobals (w.Players missile._misource) missile.position.start)
      {}).writes.length ≤ 36 := by
    omega
  unfold AddRndTeleportTrace
  lift_lets
  intro m1 player src0 m2 st g index m3 w1
  have hst : st = AddRndTeleport_offsets.foldl
      (AddRndTeleport_step ext w.toGlobals (w.Players missile._misource) missile.position.start)
      {} := rfl
  have hidx : st.count ≠ 0 → 0 ≤ index ∧ index ≤ 35 := by
    intro hne
    have h0s : 0 ≤ st.count := h0
    have hb := GenerateRnd_bounds st.count w (by omega)
    have hc : st.count ≤ 36 := by exact_mod_cast hn
    have hi : index = max g.1 0 := rfl
    have hg : g = GenerateRnd st.count w := rfl
    rw [hi, hg]
    omega
  split_ifs with ha hb hc hd
  · exact ⟨by simp, fun _ h => absurd h (List.not_mem_nil _), fun _ h => by simp at h⟩
  · exact ⟨by simp, fun _ h => absurd h (List.not_mem_nil _), fun _ h => by simp at h⟩
  · exact ⟨hl, hwr, fun _ h => by simp at h⟩
  · refine ⟨hl, hwr, fun i h => ?_⟩
    simp only [Option.some.injEq] at h
    rw [← h]
    exact hidx hc
  · refine ⟨hl, hwr, fun i h => ?_⟩
    simp only [Option.some.injEq] at h
    rw [← h]
    exact hidx hc

/-- C38. The path index `_mirnd` of a charged bolt stays within 0..15 for the
whole life of the missile: `AddCbolt` and `AddCboltArrow` leave it in 1..15,
after any number of updates by `MI_Cbolt` it is in 0..15, and an update that
reads the table `BPath` reads it at an index in 0..15 and advances the index
by one modulo 16. -/
theorem Cbolt_path_index_in_range (ext : Ext) (fuel : Nat) (node : Nat) (s : GameState)
    (m0 : Missile) (parameter : AddMissileParameter) (w0 : World) (k : Nat) (t : GameState)
    (hinit : s.missile node = (AddCbolt ext m0 parameter w0).1
      ∨ s.missile node = (AddCboltArrow ext m0 parameter w0).1)
    (hk : (fun o : Option GameState => o.bind (MI_Cbolt ext fuel node))^[k] (some s) = some t) :
    (1 ≤ (s.missile node)._mirnd ∧ (s.missile node)._mirnd ≤ 15)
    ∧ (0 ≤ (t.missile node)._mirnd ∧ (t.missile node)._mirnd ≤ 15)
    ∧ ∀ r, MI_CboltTrace ext fuel node t = some r → ∀ i, r.2 = some i →
        0 ≤ i ∧ i ≤ 15 ∧ (MI_Cbolt_BPath.get? i.toNat).isSome = true
        ∧ (r.1.missile node)._mirnd = (i + 1) % 16 := by
  have hs : 1 ≤ (s.missile node)._mirnd ∧ (s.missile node)._mirnd ≤ 15 := by
    rcases hinit with h | h
    · rw [h]
      exact AddCbolt_mirnd _ _ _ _
    · rw [h]
      exact AddCboltArrow_mirnd _ _ _ _
  have ht := MI_Cbolt_iterate_mirnd ext fuel node s ⟨by omega, hs.2⟩ k t hk
  refine ⟨hs, ht, fun r hr i hi => ?_⟩
  have h := (MI_CboltTrace_mirnd ext fuel node t r ht hr).2 i hi
  have hi0 : 0 ≤ i := by rw [h.1]; exact ht.1
  have hi15 : i ≤ 15 := by rw [h.1]; exact ht.2
  refine ⟨hi0, hi15, ?_, by rw [h.2, h.1]⟩
  have hn : i.toNat < 16 := by omega
  generalize i.toNat = n at hn
  interval_cases n <;> rfl

theorem Cbolt_path_index_in_range_witness :
    (1 ≤ (boltState.missile 0)._mirnd ∧ (boltState.missile 0)._mirnd ≤ 15)
    ∧ (0 ≤ (boltResult.missile 0)._mirnd ∧ (boltResult.missile 0)._mirnd ≤ 15)
    ∧ ∀ r, MI_CboltTrace sampleExt 4 0 boltResult = some r → ∀ i, r.2 = some i →
        0 ≤ i ∧ i ≤ 15 ∧ (MI_Cbolt_BPath.get? i.toNat).isSome = true
        ∧ (r.1.missile 0)._mirnd = (i + 1) % 16 :=
  Cbolt_path_index_in_range sampleExt 4 0 boltState _ _ _ 2 boltResult (Or.inl rfl) rfl

/-- C40. When the search of `AddGuardian` finds a spawn position, the range
that the initializer leaves on the missile lies between 30 and 480, whatever
the spell level of the missile and the level and spell duration bonus of the
caster are. -/
theorem AddGuardian_range_30_480 (ext : Ext) (missile : Missile) (parameter : AddMissileParameter)
    (w : World) (spawnPosition : Point)
    (h : (ext.FindClosestValidPosition (AddGuardian_posOk ext missile.position.start)
      parameter.dst 0 5 (GenerateRnd 10 w).2).1 = some spawnPosition) :
    30 ≤ (AddGuardian ext missile parameter w).1._mirange
    ∧ (AddGuardian ext missile parameter w).1._mirange ≤ 480 := by
  unfold AddGuardian
  lift_lets
  intro g dmg m1 r
  have hr : r.1 = some spawnPosition := h
  simp -zeta only [hr]
  exact AddGuardian_range_bounds _ _

theorem AddGuardian_range_30_480_witness :
    30 ≤ (AddGuardian sampleExt { _mispllvl := 40 } castParameter {}).1._mirange
    ∧ (AddGuardian sampleExt { _mispllvl := 40 } castParameter {}).1._mirange ≤ 480 :=
  AddGuardian_range_30_480 sampleExt { _mispllvl := 40 } castParameter {} { x := 5, y := 5 }
    (by decide)

end devilution
